import Mathlib

/-!
# VSCP block cipher and bootloader session

A shallow embedding of `src/common/vscp-aes.c` (AES-128/192/256 in ECB and CBC
mode) and of the session logic of `src/vscp/common/vscp-bootdevice-vscp.cpp`,
followed by the string helpers `vscp_str_before`, `vscp_str_after` and `vscp_split`
of `src/vscp/common/vscphelper.h` and the overloads of `send` and `receive` for
CANAL messages of `src/vscp/common/vscp-client-udp.cpp`.

Conventions of the embedding.

* A `uint8_t` is a natural number below 256; a buffer is a `List Nat` holding the
  bytes of the memory region the C pointer refers to. A read `p[i]` is
  `buf.getD i 0`, a write `p[i] = v` is `buf.set i v`.
* The 4x4 matrix `state_t` is an alias of sixteen consecutive bytes of the output
  buffer: `(*state)[i][j]` is byte `i * 4 + j` of the block. The round functions
  take the sixteen bytes and return the new sixteen bytes.
* The local `aes_state_t state` of an entry point is not initialised by C; its
  initial contents are the parameter `st0`, and the initial contents of the
  memory returned by `malloc` are taken from the parameter `heap`.
-/

namespace VscpAes

/-! ## Constants -/

/-- The number of columns comprising a state in AES (`#define Nb 4u`). -/
def Nb : Nat := 4

/-- Block length in bytes (`#define BLOCKLEN 16u`). -/
def BLOCKLEN : Nat := 16

/-- Modelled from the spec: the selector constants live in `vscp-aes.h`, which is
not part of the sources; the comment on the field `type` of `aes_state_t` gives
`AES128=0, AES192=1, AES256=2`. -/
def AES128 : Nat := 0

/-- Modelled from the spec: see `AES128`. -/
def AES192 : Nat := 1

/-- Modelled from the spec: see `AES128`. -/
def AES256 : Nat := 2

def AES256_Nk : Nat := 8
def AES256_KEYLEN : Nat := 32
def AES256_Nr : Nat := 14
def AES256_keyExpSize : Nat := 240

def AES192_Nk : Nat := 6
def AES192_KEYLEN : Nat := 24
def AES192_Nr : Nat := 12
def AES192_keyExpSize : Nat := 208

def AES128_Nk : Nat := 4
def AES128_KEYLEN : Nat := 16
def AES128_Nr : Nat := 10
def AES128_keyExpSize : Nat := 176

/-- The S-box (`const uint8_t sbox[256]`). -/
def sbox : List Nat :=
  [
    0x63, 0x7c, 0x77, 0x7b, 0xf2, 0x6b, 0x6f, 0xc5, 0x30, 0x01, 0x67, 0x2b, 0xfe, 0xd7, 0xab, 0x76,
    0xca, 0x82, 0xc9, 0x7d, 0xfa, 0x59, 0x47, 0xf0, 0xad, 0xd4, 0xa2, 0xaf, 0x9c, 0xa4, 0x72, 0xc0,
    0xb7, 0xfd, 0x93, 0x26, 0x36, 0x3f, 0xf7, 0xcc, 0x34, 0xa5, 0xe5, 0xf1, 0x71, 0xd8, 0x31, 0x15,
    0x04, 0xc7, 0x23, 0xc3, 0x18, 0x96, 0x05, 0x9a, 0x07, 0x12, 0x80, 0xe2, 0xeb, 0x27, 0xb2, 0x75,
    0x09, 0x83, 0x2c, 0x1a, 0x1b, 0x6e, 0x5a, 0xa0, 0x52, 0x3b, 0xd6, 0xb3, 0x29, 0xe3, 0x2f, 0x84,
    0x53, 0xd1, 0x00, 0xed, 0x20, 0xfc, 0xb1, 0x5b, 0x6a, 0xcb, 0xbe, 0x39, 0x4a, 0x4c, 0x58, 0xcf,
    0xd0, 0xef, 0xaa, 0xfb, 0x43, 0x4d, 0x33, 0x85, 0x45, 0xf9, 0x02, 0x7f, 0x50, 0x3c, 0x9f, 0xa8,
    0x51, 0xa3, 0x40, 0x8f, 0x92, 0x9d, 0x38, 0xf5, 0xbc, 0xb6, 0xda, 0x21, 0x10, 0xff, 0xf3, 0xd2,
    0xcd, 0x0c, 0x13, 0xec, 0x5f, 0x97, 0x44, 0x17, 0xc4, 0xa7, 0x7e, 0x3d, 0x64, 0x5d, 0x19, 0x73,
    0x60, 0x81, 0x4f, 0xdc, 0x22, 0x2a, 0x90, 0x88, 0x46, 0xee, 0xb8, 0x14, 0xde, 0x5e, 0x0b, 0xdb,
    0xe0, 0x32, 0x3a, 0x0a, 0x49, 0x06, 0x24, 0x5c, 0xc2, 0xd3, 0xac, 0x62, 0x91, 0x95, 0xe4, 0x79,
    0xe7, 0xc8, 0x37, 0x6d, 0x8d, 0xd5, 0x4e, 0xa9, 0x6c, 0x56, 0xf4, 0xea, 0x65, 0x7a, 0xae, 0x08,
    0xba, 0x78, 0x25, 0x2e, 0x1c, 0xa6, 0xb4, 0xc6, 0xe8, 0xdd, 0x74, 0x1f, 0x4b, 0xbd, 0x8b, 0x8a,
    0x70, 0x3e, 0xb5, 0x66, 0x48, 0x03, 0xf6, 0x0e, 0x61, 0x35, 0x57, 0xb9, 0x86, 0xc1, 0x1d, 0x9e,
    0xe1, 0xf8, 0x98, 0x11, 0x69, 0xd9, 0x8e, 0x94, 0x9b, 0x1e, 0x87, 0xe9, 0xce, 0x55, 0x28, 0xdf,
    0x8c, 0xa1, 0x89, 0x0d, 0xbf, 0xe6, 0x42, 0x68, 0x41, 0x99, 0x2d, 0x0f, 0xb0, 0x54, 0xbb, 0x16 ]

/-- The inverse S-box (`const uint8_t rsbox[256]`). -/
def rsbox : List Nat :=
  [
    0x52, 0x09, 0x6a, 0xd5, 0x30, 0x36, 0xa5, 0x38, 0xbf, 0x40, 0xa3, 0x9e, 0x81, 0xf3, 0xd7, 0xfb,
    0x7c, 0xe3, 0x39, 0x82, 0x9b, 0x2f, 0xff, 0x87, 0x34, 0x8e, 0x43, 0x44, 0xc4, 0xde, 0xe9, 0xcb,
    0x54, 0x7b, 0x94, 0x32, 0xa6, 0xc2, 0x23, 0x3d, 0xee, 0x4c, 0x95, 0x0b, 0x42, 0xfa, 0xc3, 0x4e,
    0x08, 0x2e, 0xa1, 0x66, 0x28, 0xd9, 0x24, 0xb2, 0x76, 0x5b, 0xa2, 0x49, 0x6d, 0x8b, 0xd1, 0x25,
    0x72, 0xf8, 0xf6, 0x64, 0x86, 0x68, 0x98, 0x16, 0xd4, 0xa4, 0x5c, 0xcc, 0x5d, 0x65, 0xb6, 0x92,
    0x6c, 0x70, 0x48, 0x50, 0xfd, 0xed, 0xb9, 0xda, 0x5e, 0x15, 0x46, 0x57, 0xa7, 0x8d, 0x9d, 0x84,
    0x90, 0xd8, 0xab, 0x00, 0x8c, 0xbc, 0xd3, 0x0a, 0xf7, 0xe4, 0x58, 0x05, 0xb8, 0xb3, 0x45, 0x06,
    0xd0, 0x2c, 0x1e, 0x8f, 0xca, 0x3f, 0x0f, 0x02, 0xc1, 0xaf, 0xbd, 0x03, 0x01, 0x13, 0x8a, 0x6b,
    0x3a, 0x91, 0x11, 0x41, 0x4f, 0x67, 0xdc, 0xea, 0x97, 0xf2, 0xcf, 0xce, 0xf0, 0xb4, 0xe6, 0x73,
    0x96, 0xac, 0x74, 0x22, 0xe7, 0xad, 0x35, 0x85, 0xe2, 0xf9, 0x37, 0xe8, 0x1c, 0x75, 0xdf, 0x6e,
    0x47, 0xf1, 0x1a, 0x71, 0x1d, 0x29, 0xc5, 0x89, 0x6f, 0xb7, 0x62, 0x0e, 0xaa, 0x18, 0xbe, 0x1b,
    0xfc, 0x56, 0x3e, 0x4b, 0xc6, 0xd2, 0x79, 0x20, 0x9a, 0xdb, 0xc0, 0xfe, 0x78, 0xcd, 0x5a, 0xf4,
    0x1f, 0xdd, 0xa8, 0x33, 0x88, 0x07, 0xc7, 0x31, 0xb1, 0x12, 0x10, 0x59, 0x27, 0x80, 0xec, 0x5f,
    0x60, 0x51, 0x7f, 0xa9, 0x19, 0xb5, 0x4a, 0x0d, 0x2d, 0xe5, 0x7a, 0x9f, 0x93, 0xc9, 0x9c, 0xef,
    0xa0, 0xe0, 0x3b, 0x4d, 0xae, 0x2a, 0xf5, 0xb0, 0xc8, 0xeb, 0xbb, 0x3c, 0x83, 0x53, 0x99, 0x61,
    0x17, 0x2b, 0x04, 0x7e, 0xba, 0x77, 0xd6, 0x26, 0xe1, 0x69, 0x14, 0x63, 0x55, 0x21, 0x0c, 0x7d ]

/-- The round constant table (`static const uint8_t Rcon[256]`). -/
def Rcon : List Nat :=
  [
    0x8d, 0x01, 0x02, 0x04, 0x08, 0x10, 0x20, 0x40, 0x80, 0x1b, 0x36, 0x6c, 0xd8, 0xab, 0x4d, 0x9a,
    0x2f, 0x5e, 0xbc, 0x63, 0xc6, 0x97, 0x35, 0x6a, 0xd4, 0xb3, 0x7d, 0xfa, 0xef, 0xc5, 0x91, 0x39,
    0x72, 0xe4, 0xd3, 0xbd, 0x61, 0xc2, 0x9f, 0x25, 0x4a, 0x94, 0x33, 0x66, 0xcc, 0x83, 0x1d, 0x3a,
    0x74, 0xe8, 0xcb, 0x8d, 0x01, 0x02, 0x04, 0x08, 0x10, 0x20, 0x40, 0x80, 0x1b, 0x36, 0x6c, 0xd8,
    0xab, 0x4d, 0x9a, 0x2f, 0x5e, 0xbc, 0x63, 0xc6, 0x97, 0x35, 0x6a, 0xd4, 0xb3, 0x7d, 0xfa, 0xef,
    0xc5, 0x91, 0x39, 0x72, 0xe4, 0xd3, 0xbd, 0x61, 0xc2, 0x9f, 0x25, 0x4a, 0x94, 0x33, 0x66, 0xcc,
    0x83, 0x1d, 0x3a, 0x74, 0xe8, 0xcb, 0x8d, 0x01, 0x02, 0x04, 0x08, 0x10, 0x20, 0x40, 0x80, 0x1b,
    0x36, 0x6c, 0xd8, 0xab, 0x4d, 0x9a, 0x2f, 0x5e, 0xbc, 0x63, 0xc6, 0x97, 0x35, 0x6a, 0xd4, 0xb3,
    0x7d, 0xfa, 0xef, 0xc5, 0x91, 0x39, 0x72, 0xe4, 0xd3, 0xbd, 0x61, 0xc2, 0x9f, 0x25, 0x4a, 0x94,
    0x33, 0x66, 0xcc, 0x83, 0x1d, 0x3a, 0x74, 0xe8, 0xcb, 0x8d, 0x01, 0x02, 0x04, 0x08, 0x10, 0x20,
    0x40, 0x80, 0x1b, 0x36, 0x6c, 0xd8, 0xab, 0x4d, 0x9a, 0x2f, 0x5e, 0xbc, 0x63, 0xc6, 0x97, 0x35,
    0x6a, 0xd4, 0xb3, 0x7d, 0xfa, 0xef, 0xc5, 0x91, 0x39, 0x72, 0xe4, 0xd3, 0xbd, 0x61, 0xc2, 0x9f,
    0x25, 0x4a, 0x94, 0x33, 0x66, 0xcc, 0x83, 0x1d, 0x3a, 0x74, 0xe8, 0xcb, 0x8d, 0x01, 0x02, 0x04,
    0x08, 0x10, 0x20, 0x40, 0x80, 0x1b, 0x36, 0x6c, 0xd8, 0xab, 0x4d, 0x9a, 0x2f, 0x5e, 0xbc, 0x63,
    0xc6, 0x97, 0x35, 0x6a, 0xd4, 0xb3, 0x7d, 0xfa, 0xef, 0xc5, 0x91, 0x39, 0x72, 0xe4, 0xd3, 0xbd,
    0x61, 0xc2, 0x9f, 0x25, 0x4a, 0x94, 0x33, 0x66, 0xcc, 0x83, 0x1d, 0x3a, 0x74, 0xe8, 0xcb, 0x8d ]

/-! ## Cipher state -/

/-- The struct `aes_state_t`. The pointer `state` into the output buffer is not a
field here: the block it points to is passed to the round functions. `RoundKey`,
`Key` and `Iv` hold the bytes the pointers refer to. -/
structure aes_state_t where
  RoundKey : List Nat
  Key : List Nat
  Iv : List Nat
  type : Nat
  Nk : Nat
  KEYLEN : Nat
  Nr : Nat
  keyExpSize : Nat
deriving DecidableEq, Repr

/-- The block returned by `malloc (n)`: `n` bytes whose initial contents are
whatever the heap holds. -/
def malloc (heap : List Nat) (n : Nat) : List Nat :=
  (List.range n).map (fun i => heap.getD i 0)

/-- The function `init`: a `switch` on `type` with the three cases and no
`default`. An unrecognised `type` leaves `state` as it was. -/
def init (type : Nat) (state : aes_state_t) (heap : List Nat) : aes_state_t :=
  if type = AES256 then
    { state with type := AES256, Nk := AES256_Nk, KEYLEN := AES256_KEYLEN, Nr := AES256_Nr,
                 keyExpSize := AES256_keyExpSize, RoundKey := malloc heap AES256_keyExpSize }
  else if type = AES192 then
    { state with type := AES192, Nk := AES192_Nk, KEYLEN := AES192_KEYLEN, Nr := AES192_Nr,
                 keyExpSize := AES192_keyExpSize, RoundKey := malloc heap AES192_keyExpSize }
  else if type = AES128 then
    { state with type := AES128, Nk := AES128_Nk, KEYLEN := AES128_KEYLEN, Nr := AES128_Nr,
                 keyExpSize := AES128_keyExpSize, RoundKey := malloc heap AES128_keyExpSize }
  else state

def getSBoxValue (num : Nat) : Nat := sbox.getD num 0

def getSBoxInvert (num : Nat) : Nat := rsbox.getD num 0

/-- First loop of `KeyExpansion`, iteration `i`: word `i` of the key is copied. -/
def KeyExpansion.copyWord (Key : List Nat) (RoundKey : List Nat) (i : Nat) : List Nat :=
  let RoundKey := RoundKey.set (i * 4 + 0) (Key.getD (i * 4 + 0) 0)
  let RoundKey := RoundKey.set (i * 4 + 1) (Key.getD (i * 4 + 1) 0)
  let RoundKey := RoundKey.set (i * 4 + 2) (Key.getD (i * 4 + 2) 0)
  RoundKey.set (i * 4 + 3) (Key.getD (i * 4 + 3) 0)

/-- Second loop of `KeyExpansion`, iteration `i`: the value of `tempa` when the
new word is stored. -/
def KeyExpansion.tempa (type Nk : Nat) (RoundKey : List Nat) (i : Nat) : Nat × Nat × Nat × Nat :=
  let tempa0 := RoundKey.getD ((i - 1) * 4 + 0) 0
  let tempa1 := RoundKey.getD ((i - 1) * 4 + 1) 0
  let tempa2 := RoundKey.getD ((i - 1) * 4 + 2) 0
  let tempa3 := RoundKey.getD ((i - 1) * 4 + 3) 0
  let t : Nat × Nat × Nat × Nat :=
    if i % Nk = 0 then
      -- RotWord
      let k := tempa0
      let tempa0 := tempa1
      let tempa1 := tempa2
      let tempa2 := tempa3
      let tempa3 := k
      -- SubWord
      let tempa0 := getSBoxValue tempa0
      let tempa1 := getSBoxValue tempa1
      let tempa2 := getSBoxValue tempa2
      let tempa3 := getSBoxValue tempa3
      let tempa0 := tempa0 ^^^ Rcon.getD (i / Nk) 0
      (tempa0, tempa1, tempa2, tempa3)
    else (tempa0, tempa1, tempa2, tempa3)
  if AES256 = type then
    if i % Nk = 4 then
      -- SubWord
      (getSBoxValue t.1, getSBoxValue t.2.1, getSBoxValue t.2.2.1, getSBoxValue t.2.2.2)
    else t
  else t

/-- Second loop of `KeyExpansion`, iteration `i` (`Nk <= i < Nb * (Nr + 1)`). -/
def KeyExpansion.nextWord (type Nk : Nat) (RoundKey : List Nat) (i : Nat) : List Nat :=
  let t := KeyExpansion.tempa type Nk RoundKey i
  let RoundKey := RoundKey.set (i * 4 + 0) (RoundKey.getD ((i - Nk) * 4 + 0) 0 ^^^ t.1)
  let RoundKey := RoundKey.set (i * 4 + 1) (RoundKey.getD ((i - Nk) * 4 + 1) 0 ^^^ t.2.1)
  let RoundKey := RoundKey.set (i * 4 + 2) (RoundKey.getD ((i - Nk) * 4 + 2) 0 ^^^ t.2.2.1)
  RoundKey.set (i * 4 + 3) (RoundKey.getD ((i - Nk) * 4 + 3) 0 ^^^ t.2.2.2)

/-- The function `KeyExpansion`: the first loop runs `i = 0 .. Nk - 1`, the second
continues with `i = Nk .. Nb * (Nr + 1) - 1`. -/
def KeyExpansion (state : aes_state_t) : aes_state_t :=
  let rk := (List.range state.Nk).foldl (KeyExpansion.copyWord state.Key) state.RoundKey
  let rk := (List.range (Nb * (state.Nr + 1) - state.Nk)).foldl
    (fun rk n => KeyExpansion.nextWord state.type state.Nk rk (state.Nk + n)) rk
  { state with RoundKey := rk }

/-- Read of `(*state)[i][j]`. -/
def getS (s : List Nat) (i j : Nat) : Nat := s.getD (i * 4 + j) 0

/-- Write of `(*state)[i][j]`. -/
def setS (s : List Nat) (i j v : Nat) : List Nat := s.set (i * 4 + j) v

/-- The function `AddRoundKey`. -/
def AddRoundKey (state : aes_state_t) (round : Nat) (s : List Nat) : List Nat :=
  (List.range 4).foldl (fun s i =>
    (List.range 4).foldl (fun s j =>
      setS s i j (getS s i j ^^^ state.RoundKey.getD (round * Nb * 4 + i * Nb + j) 0)) s) s

/-- The function `SubBytes`. -/
def SubBytes (s : List Nat) : List Nat :=
  (List.range 4).foldl (fun s i =>
    (List.range 4).foldl (fun s j => setS s j i (getSBoxValue (getS s j i))) s) s

/-- The function `ShiftRows`. -/
def ShiftRows (s : List Nat) : List Nat :=
  -- Rotate first row 1 columns to left
  let temp := getS s 0 1
  let s := setS s 0 1 (getS s 1 1)
  let s := setS s 1 1 (getS s 2 1)
  let s := setS s 2 1 (getS s 3 1)
  let s := setS s 3 1 temp
  -- Rotate second row 2 columns to left
  let temp := getS s 0 2
  let s := setS s 0 2 (getS s 2 2)
  let s := setS s 2 2 temp
  let temp := getS s 1 2
  let s := setS s 1 2 (getS s 3 2)
  let s := setS s 3 2 temp
  -- Rotate third row 3 columns to left
  let temp := getS s 0 3
  let s := setS s 0 3 (getS s 3 3)
  let s := setS s 3 3 (getS s 2 3)
  let s := setS s 2 3 (getS s 1 3)
  setS s 1 3 temp

/-- The function `xtime`; the result is converted to `uint8_t`. -/
def xtime (x : Nat) : Nat := ((x <<< 1) ^^^ (((x >>> 7) &&& 1) * 0x1b)) % 256

/-- The function `MixColumns`. -/
def MixColumns (s : List Nat) : List Nat :=
  (List.range 4).foldl (fun s i =>
    let t := getS s i 0
    let Tmp := getS s i 0 ^^^ getS s i 1 ^^^ getS s i 2 ^^^ getS s i 3
    let Tm := getS s i 0 ^^^ getS s i 1
    let Tm := xtime Tm
    let s := setS s i 0 (getS s i 0 ^^^ (Tm ^^^ Tmp))
    let Tm := getS s i 1 ^^^ getS s i 2
    let Tm := xtime Tm
    let s := setS s i 1 (getS s i 1 ^^^ (Tm ^^^ Tmp))
    let Tm := getS s i 2 ^^^ getS s i 3
    let Tm := xtime Tm
    let s := setS s i 2 (getS s i 2 ^^^ (Tm ^^^ Tmp))
    let Tm := getS s i 3 ^^^ t
    let Tm := xtime Tm
    setS s i 3 (getS s i 3 ^^^ (Tm ^^^ Tmp))) s

/-- The macro `Multiply (x, y)`. -/
def Multiply (x y : Nat) : Nat :=
  ((y &&& 1) * x) ^^^
  (((y >>> 1) &&& 1) * xtime x) ^^^
  (((y >>> 2) &&& 1) * xtime (xtime x)) ^^^
  (((y >>> 3) &&& 1) * xtime (xtime (xtime x))) ^^^
  (((y >>> 4) &&& 1) * xtime (xtime (xtime (xtime x))))

/-- The function `InvMixColumns`. -/
def InvMixColumns (s : List Nat) : List Nat :=
  (List.range 4).foldl (fun s i =>
    let a := getS s i 0
    let b := getS s i 1
    let c := getS s i 2
    let d := getS s i 3
    let s := setS s i 0 (Multiply a 0x0e ^^^ Multiply b 0x0b ^^^ Multiply c 0x0d ^^^ Multiply d 0x09)
    let s := setS s i 1 (Multiply a 0x09 ^^^ Multiply b 0x0e ^^^ Multiply c 0x0b ^^^ Multiply d 0x0d)
    let s := setS s i 2 (Multiply a 0x0d ^^^ Multiply b 0x09 ^^^ Multiply c 0x0e ^^^ Multiply d 0x0b)
    setS s i 3 (Multiply a 0x0b ^^^ Multiply b 0x0d ^^^ Multiply c 0x09 ^^^ Multiply d 0x0e)) s

/-- The function `InvSubBytes`. -/
def InvSubBytes (s : List Nat) : List Nat :=
  (List.range 4).foldl (fun s i =>
    (List.range 4).foldl (fun s j => setS s j i (getSBoxInvert (getS s j i))) s) s

/-- The function `InvShiftRows`. -/
def InvShiftRows (s : List Nat) : List Nat :=
  -- Rotate first row 1 columns to right
  let temp := getS s 3 1
  let s := setS s 3 1 (getS s 2 1)
  let s := setS s 2 1 (getS s 1 1)
  let s := setS s 1 1 (getS s 0 1)
  let s := setS s 0 1 temp
  -- Rotate second row 2 columns to right
  let temp := getS s 0 2
  let s := setS s 0 2 (getS s 2 2)
  let s := setS s 2 2 temp
  let temp := getS s 1 2
  let s := setS s 1 2 (getS s 3 2)
  let s := setS s 3 2 temp
  -- Rotate third row 3 columns to right
  let temp := getS s 0 3
  let s := setS s 0 3 (getS s 1 3)
  let s := setS s 1 3 (getS s 2 3)
  let s := setS s 2 3 (getS s 3 3)
  setS s 3 3 temp

/-- Body of the round loop of `Cipher`. -/
def Cipher.round (state : aes_state_t) (s : List Nat) (round : Nat) : List Nat :=
  AddRoundKey state round (MixColumns (ShiftRows (SubBytes s)))

/-- The function `Cipher`; the loop runs `round = 1 .. Nr - 1`. -/
def Cipher (state : aes_state_t) (s : List Nat) : List Nat :=
  let s := AddRoundKey state 0 s
  let s := ((List.range (state.Nr - 1)).map (· + 1)).foldl (Cipher.round state) s
  let s := SubBytes s
  let s := ShiftRows s
  AddRoundKey state state.Nr s

/-- Body of the round loop of `InvCipher`. -/
def InvCipher.round (state : aes_state_t) (s : List Nat) (round : Nat) : List Nat :=
  InvMixColumns (AddRoundKey state round (InvSubBytes (InvShiftRows s)))

/-- The function `InvCipher`; `round` is a `uint8_t` that starts at `Nr - 1`
(converted to `uint8_t`) and counts down to 1. -/
def InvCipher (state : aes_state_t) (s : List Nat) : List Nat :=
  let s := AddRoundKey state state.Nr s
  let s := ((List.range ((state.Nr + 255) % 256)).map (· + 1)).reverse.foldl
    (InvCipher.round state) s
  let s := InvShiftRows s
  let s := InvSubBytes s
  AddRoundKey state 0 s

/-! ## Buffer access -/

/-- The call `memcpy (dst + doff, src + soff, n)` on buffers that hold at least
`n` bytes from the given offsets (C leaves anything else undefined). -/
def memcpy (dst : List Nat) (doff : Nat) (src : List Nat) (soff n : Nat) : List Nat :=
  dst.take doff ++ (src.drop soff).take n ++ dst.drop (doff + n)

/-- The sixteen bytes a `state_t*` set to `buf + off` refers to. -/
def blockAt (buf : List Nat) (off : Nat) : List Nat := (buf.drop off).take 16

/-- The buffer after the block at `buf + off` has been transformed in place to
`blk`. -/
def writeAt (buf : List Nat) (off : Nat) (blk : List Nat) : List Nat :=
  buf.take off ++ blk ++ buf.drop (off + 16)

/-! ## ECB -/

/-- The function `AES_ECB_encrypt`. The result is the output buffer after the
call. `Cipher` is called once, on the block `state.state = output`. -/
def AES_ECB_encrypt (type : Nat) (input key output : List Nat) (length : Nat)
    (st0 : aes_state_t) (heap : List Nat) : List Nat :=
  let state := init type st0 heap
  let output := memcpy output 0 input 0 length
  let state := { state with Key := key }
  let state := KeyExpansion state
  writeAt output 0 (Cipher state (blockAt output 0))

/-- The function `AES_ECB_decrypt`. The result is the output buffer after the
call. `InvCipher` is called once, on the block `state.state = output`. -/
def AES_ECB_decrypt (type : Nat) (input key output : List Nat) (length : Nat)
    (st0 : aes_state_t) (heap : List Nat) : List Nat :=
  let state := init type st0 heap
  let output := memcpy output 0 input 0 length
  let state := { state with Key := key }
  let state := KeyExpansion state
  writeAt output 0 (InvCipher state (blockAt output 0))

/-! ## CBC -/

/-- The function `XorWithIv` applied to the sixteen bytes at `buf`. -/
def XorWithIv (state : aes_state_t) (buf : List Nat) : List Nat :=
  (List.range BLOCKLEN).foldl (fun buf i => buf.set i (buf.getD i 0 ^^^ state.Iv.getD i 0)) buf

/-- The part of `AES_CBC_encrypt_buffer` and `AES_CBC_decrypt_buffer` between
`init` and the loop: key expansion unless `key` is null, `state.Iv = iv` unless
`iv` is null. -/
def cbcSetup (state : aes_state_t) (key iv : Option (List Nat)) : aes_state_t :=
  let state :=
    match key with
    | some k => KeyExpansion { state with Key := k }
    | none => state
  match iv with
  | some v => { state with Iv := v }
  | none => state

/-- Body of the loop of `AES_CBC_encrypt_buffer` for `i = 16 * n`; `input` and
`output` of the C code are `input + i` and `output + i` of the buffers here. The
triple is (state, output buffer, input buffer). -/
def AES_CBC_encrypt_buffer.step (x : aes_state_t × List Nat × List Nat) (n : Nat) :
    aes_state_t × List Nat × List Nat :=
  let state := x.1
  let output := x.2.1
  let input := x.2.2
  let i := BLOCKLEN * n
  let input := writeAt input i (XorWithIv state (blockAt input i))
  let output := memcpy output i input i BLOCKLEN
  let output := writeAt output i (Cipher state (blockAt output i))
  let state := { state with Iv := blockAt output i }
  (state, output, input)

/-- The function `AES_CBC_encrypt_buffer` for distinct, non-overlapping buffers.
The result is (output buffer, input buffer) after the call. The loop
`for (i = 0; i < length; i += BLOCKLEN)` runs `(length + 15) / 16` times. -/
def AES_CBC_encrypt_buffer (type : Nat) (output input : List Nat) (length : Nat)
    (key iv : Option (List Nat)) (st0 : aes_state_t) (heap : List Nat) : List Nat × List Nat :=
  let extra := (length % BLOCKLEN) % 256
  let state := init type st0 heap
  let output := memcpy output 0 input 0 BLOCKLEN
  let state := cbcSetup state key iv
  let nIter := (length + (BLOCKLEN - 1)) / BLOCKLEN
  let r := (List.range nIter).foldl AES_CBC_encrypt_buffer.step (state, output, input)
  let state := r.1
  let output := r.2.1
  let input := r.2.2
  let i := BLOCKLEN * nIter
  let output :=
    if extra ≠ 0 then
      let output := memcpy output i input i extra
      writeAt output i (Cipher state (blockAt output i))
    else output
  (output, input)

/-- Body of the loop of `AES_CBC_decrypt_buffer` for `i = 16 * n`. The pair is
(state, output buffer); the input buffer is only read. -/
def AES_CBC_decrypt_buffer.step (input : List Nat) (x : aes_state_t × List Nat) (n : Nat) :
    aes_state_t × List Nat :=
  let state := x.1
  let output := x.2
  let i := BLOCKLEN * n
  let output := memcpy output i input i BLOCKLEN
  let output := writeAt output i (InvCipher state (blockAt output i))
  let output := writeAt output i (XorWithIv state (blockAt output i))
  let state := { state with Iv := blockAt input i }
  (state, output)

/-- The function `AES_CBC_decrypt_buffer` for distinct, non-overlapping buffers.
The result is the output buffer after the call. -/
def AES_CBC_decrypt_buffer (type : Nat) (output input : List Nat) (length : Nat)
    (key iv : Option (List Nat)) (st0 : aes_state_t) (heap : List Nat) : List Nat :=
  let extra := (length % BLOCKLEN) % 256
  let state := init type st0 heap
  let output := memcpy output 0 input 0 BLOCKLEN
  let state := cbcSetup state key iv
  let nIter := (length + (BLOCKLEN - 1)) / BLOCKLEN
  let r := (List.range nIter).foldl (AES_CBC_decrypt_buffer.step input) (state, output)
  let state := r.1
  let output := r.2
  let i := BLOCKLEN * nIter
  if extra ≠ 0 then
    let output := memcpy output i input i extra
    writeAt output i (InvCipher state (blockAt output i))
  else output

/-! ## Vocabulary of the statements -/

/-- Every element of the buffer is a `uint8_t` value. -/
def bytes (l : List Nat) : Prop := ∀ x ∈ l, x < 256

instance (l : List Nat) : Decidable (bytes l) :=
  inferInstanceAs (Decidable (∀ x ∈ l, x < 256))

/-- A cipher block: sixteen bytes. -/
def isBlock (s : List Nat) : Prop := s.length = 16 ∧ bytes s

instance (s : List Nat) : Decidable (isBlock s) :=
  inferInstanceAs (Decidable (s.length = 16 ∧ bytes s))

/-- The selector is one of the three variants. -/
def validType (type : Nat) : Prop := type = AES128 ∨ type = AES192 ∨ type = AES256

instance (type : Nat) : Decidable (validType type) :=
  inferInstanceAs (Decidable (type = AES128 ∨ type = AES192 ∨ type = AES256))

/-- The state an entry point works with after `init`, `state.Key = key` and
`KeyExpansion`. -/
def expanded (type : Nat) (key : List Nat) (st0 : aes_state_t) (heap : List Nat) : aes_state_t :=
  KeyExpansion { init type st0 heap with Key := key }

/-- An all-zero `aes_state_t`. -/
def zeroState : aes_state_t := ⟨[], [], [], 0, 0, 0, 0, 0⟩

/-- Two buffers hold at least `m` bytes and coincide on the first `m`. -/
def Agree (m : Nat) (a b : List Nat) : Prop :=
  m ≤ a.length ∧ m ≤ b.length ∧ a.take m = b.take m

/-- Byte 0 of a column after `MixColumns`, as the loop body computes it. -/
def mixCol0 (a b c d : Nat) : Nat := a ^^^ (xtime (a ^^^ b) ^^^ (a ^^^ b ^^^ c ^^^ d))

/-- Byte 1 of a column after `MixColumns`. -/
def mixCol1 (a b c d : Nat) : Nat := b ^^^ (xtime (b ^^^ c) ^^^ (a ^^^ b ^^^ c ^^^ d))

/-- Byte 2 of a column after `MixColumns`. -/
def mixCol2 (a b c d : Nat) : Nat := c ^^^ (xtime (c ^^^ d) ^^^ (a ^^^ b ^^^ c ^^^ d))

/-- Byte 3 of a column after `MixColumns`. -/
def mixCol3 (a b c d : Nat) : Nat := d ^^^ (xtime (d ^^^ a) ^^^ (a ^^^ b ^^^ c ^^^ d))

/-- Byte 0 of a column after `InvMixColumns`. -/
def invMixCol0 (a b c d : Nat) : Nat :=
  Multiply a 0x0e ^^^ Multiply b 0x0b ^^^ Multiply c 0x0d ^^^ Multiply d 0x09

/-- Byte 1 of a column after `InvMixColumns`. -/
def invMixCol1 (a b c d : Nat) : Nat :=
  Multiply a 0x09 ^^^ Multiply b 0x0e ^^^ Multiply c 0x0b ^^^ Multiply d 0x0d

/-- Byte 2 of a column after `InvMixColumns`. -/
def invMixCol2 (a b c d : Nat) : Nat :=
  Multiply a 0x0d ^^^ Multiply b 0x09 ^^^ Multiply c 0x0e ^^^ Multiply d 0x0b

/-- Byte 3 of a column after `InvMixColumns`. -/
def invMixCol3 (a b c d : Nat) : Nat :=
  Multiply a 0x0b ^^^ Multiply b 0x0d ^^^ Multiply c 0x09 ^^^ Multiply d 0x0e

/-- Bytewise XOR of two sixteen-byte blocks. -/
def xorBlock (a b : List Nat) : List Nat :=
  (List.range 16).map (fun i => a.getD i 0 ^^^ b.getD i 0)

/-- CBC encryption of `n` blocks as the chaining rule states it:
`C_0 = E (P_0 xor IV)`, `C_i = E (P_i xor C_(i-1))`. -/
def cbcChainEncrypt (E : List Nat → List Nat) : Nat → List Nat → List Nat → List Nat
  | 0, _, _ => []
  | n + 1, iv, p =>
    let c := E (xorBlock (p.take 16) iv)
    c ++ cbcChainEncrypt E n c (p.drop 16)

/-- CBC decryption of `n` blocks as the chaining rule states it:
`P_0 = D (C_0) xor IV`, `P_i = D (C_i) xor C_(i-1)`. -/
def cbcChainDecrypt (D : List Nat → List Nat) : Nat → List Nat → List Nat → List Nat
  | 0, _, _ => []
  | n + 1, iv, c => xorBlock (D (c.take 16)) iv ++ cbcChainDecrypt D n (c.take 16) (c.drop 16)

/-! ## Test vectors of NIST SP 800-38A -/

/-- The four plaintext blocks (source header and SP 800-38A, F.1). -/
def nistPlain : List Nat :=
  [0x6b, 0xc1, 0xbe, 0xe2, 0x2e, 0x40, 0x9f, 0x96, 0xe9, 0x3d, 0x7e, 0x11, 0x73, 0x93, 0x17, 0x2a,
   0xae, 0x2d, 0x8a, 0x57, 0x1e, 0x03, 0xac, 0x9c, 0x9e, 0xb7, 0x6f, 0xac, 0x45, 0xaf, 0x8e, 0x51,
   0x30, 0xc8, 0x1c, 0x46, 0xa3, 0x5c, 0xe4, 0x11, 0xe5, 0xfb, 0xc1, 0x19, 0x1a, 0x0a, 0x52, 0xef,
   0xf6, 0x9f, 0x24, 0x45, 0xdf, 0x4f, 0x9b, 0x17, 0xad, 0x2b, 0x41, 0x7b, 0xe6, 0x6c, 0x37, 0x10]

/-- The first plaintext block. -/
def nistBlock : List Nat := nistPlain.take 16

/-- AES-128 key `2b7e151628aed2a6abf7158809cf4f3c`. -/
def key128 : List Nat :=
  [0x2b, 0x7e, 0x15, 0x16, 0x28, 0xae, 0xd2, 0xa6, 0xab, 0xf7, 0x15, 0x88, 0x09, 0xcf, 0x4f, 0x3c]

/-- AES-192 key `8e73b0f7da0e6452c810f32b809079e562f8ead2522c6b7b`. -/
def key192 : List Nat :=
  [0x8e, 0x73, 0xb0, 0xf7, 0xda, 0x0e, 0x64, 0x52, 0xc8, 0x10, 0xf3, 0x2b, 0x80, 0x90, 0x79, 0xe5,
   0x62, 0xf8, 0xea, 0xd2, 0x52, 0x2c, 0x6b, 0x7b]

/-- AES-256 key `603deb1015ca71be2b73aef0857d77811f352c073b6108d72d9810a30914dff4`. -/
def key256 : List Nat :=
  [0x60, 0x3d, 0xeb, 0x10, 0x15, 0xca, 0x71, 0xbe, 0x2b, 0x73, 0xae, 0xf0, 0x85, 0x7d, 0x77, 0x81,
   0x1f, 0x35, 0x2c, 0x07, 0x3b, 0x61, 0x08, 0xd7, 0x2d, 0x98, 0x10, 0xa3, 0x09, 0x14, 0xdf, 0xf4]

/-- ECB-AES128 ciphertext of the first block, `3ad77bb40d7a3660a89ecaf32466ef97`. -/
def cipher128 : List Nat :=
  [0x3a, 0xd7, 0x7b, 0xb4, 0x0d, 0x7a, 0x36, 0x60, 0xa8, 0x9e, 0xca, 0xf3, 0x24, 0x66, 0xef, 0x97]

/-- ECB-AES192 ciphertext of the first block, `bd334f1d6e45f25ff712a214571fa5cc`. -/
def cipher192 : List Nat :=
  [0xbd, 0x33, 0x4f, 0x1d, 0x6e, 0x45, 0xf2, 0x5f, 0xf7, 0x12, 0xa2, 0x14, 0x57, 0x1f, 0xa5, 0xcc]

/-- ECB-AES256 ciphertext of the first block, `f3eed1bdb5d2a03c064b5a7e3db181f8`. -/
def cipher256 : List Nat :=
  [0xf3, 0xee, 0xd1, 0xbd, 0xb5, 0xd2, 0xa0, 0x3c, 0x06, 0x4b, 0x5a, 0x7e, 0x3d, 0xb1, 0x81, 0xf8]

/-- The four ECB-AES128 ciphertext blocks of the source header. -/
def headerCipher : List Nat :=
  [0x3a, 0xd7, 0x7b, 0xb4, 0x0d, 0x7a, 0x36, 0x60, 0xa8, 0x9e, 0xca, 0xf3, 0x24, 0x66, 0xef, 0x97,
   0xf5, 0xd3, 0xd5, 0x85, 0x03, 0xb9, 0x69, 0x9d, 0xe7, 0x85, 0x89, 0x5a, 0x96, 0xfd, 0xba, 0xaf,
   0x43, 0xb1, 0xcd, 0x7f, 0x59, 0x8e, 0xce, 0x23, 0x88, 0x1b, 0x00, 0xe3, 0xed, 0x03, 0x06, 0x88,
   0x7b, 0x0c, 0x78, 0x5e, 0x27, 0xe8, 0xad, 0x3f, 0x82, 0x23, 0x20, 0x71, 0x04, 0x72, 0x5d, 0xd4]

/-- The IV `000102030405060708090a0b0c0d0e0f` of the CBC vectors. -/
def nistIv : List Nat := [0, 1, 2, 3, 4, 5, 6, 7, 8, 9, 10, 11, 12, 13, 14, 15]

/-- CBC-AES128 ciphertext block 0, `7649abac8119b246cee98e9b12e9197d`. -/
def cbcCipher0 : List Nat :=
  [0x76, 0x49, 0xab, 0xac, 0x81, 0x19, 0xb2, 0x46, 0xce, 0xe9, 0x8e, 0x9b, 0x12, 0xe9, 0x19, 0x7d]

/-- CBC-AES128 ciphertext block 1, `5086cb9b507219ee95db113a917678b2`. -/
def cbcCipher1 : List Nat :=
  [0x50, 0x86, 0xcb, 0x9b, 0x50, 0x72, 0x19, 0xee, 0x95, 0xdb, 0x11, 0x3a, 0x91, 0x76, 0x78, 0xb2]

end VscpAes

/-! # Bootloader session

The session logic of `CBootDevice_VSCP`. The transport client, the wall clock and
the register reader are outside the class; their answers are scripted in `World`,
one list per call, consumed from the head. A function returns `none` when a
script runs out before the C function would have returned.
-/

namespace VscpBoot

/-- Modelled from the spec: the return codes are macros of `vscp.h`, which is not
among the sources; they are pairwise distinct integers and success is zero. -/
def VSCP_ERROR_SUCCESS : Int := 0

/-- Modelled from the spec: see `VSCP_ERROR_SUCCESS`. -/
def VSCP_ERROR_NOT_SUPPORTED : Int := 17

/-- Modelled from the spec: see `VSCP_ERROR_SUCCESS`. -/
def VSCP_ERROR_TIMEOUT : Int := 32

/-- Modelled from the spec: see `VSCP_ERROR_SUCCESS`. -/
def VSCP_ERROR_PARAMETER : Int := 34

/-- Modelled from the spec: see `VSCP_ERROR_SUCCESS`. -/
def VSCP_ERROR_COMMUNICATION : Int := 37

/-- Modelled from the spec: see `VSCP_ERROR_SUCCESS`. -/
def VSCP_ERROR_SIZE : Int := 64

/-- Modelled from the spec: see `VSCP_ERROR_SUCCESS`. -/
def VSCP_ERROR_NACK : Int := 65

/-- Modelled from the spec: class and type identifiers are macros of
`vscp-class.h` and `vscp-type.h`, which are not among the sources. -/
def VSCP_CLASS1_PROTOCOL : Nat := 0

/-- Modelled from the spec: see `VSCP_CLASS1_PROTOCOL`. -/
def VSCP_TYPE_PROTOCOL_ENTER_BOOT_LOADER : Nat := 12

/-- Modelled from the spec: see `VSCP_CLASS1_PROTOCOL`. -/
def VSCP_TYPE_PROTOCOL_ACK_BOOT_LOADER : Nat := 13

/-- Modelled from the spec: see `VSCP_CLASS1_PROTOCOL`. -/
def VSCP_TYPE_PROTOCOL_NACK_BOOT_LOADER : Nat := 14

/-- Modelled from the spec: the algorithm code is a macro of `vscp.h`, which is not
among the sources. -/
def VSCP_BOOTLOADER_VSCP : Nat := 0

/-- Modelled from the spec: `construct_unsigned32` is a macro of `vscp.h`, which is
not among the sources; the four bytes are read big-endian into a `uint32_t`. -/
def construct_unsigned32 (b0 b1 b2 b3 : Nat) : Nat :=
  ((b0 <<< 24) + (b1 <<< 16) + (b2 <<< 8) + b3) % 2 ^ 32

/-- The fields of `vscpEventEx` the session reads or writes. The time stamp and the
date block, taken from the wall clock, are left out. -/
structure vscpEventEx where
  vscp_class : Nat
  vscp_type : Nat
  sizeData : Nat
  data : List Nat
  GUID : List Nat
deriving DecidableEq, Repr

/-- Modelled from the spec: what `CStandardRegisters` (not among the sources) hands
out after `init`: the bootloader algorithm, the firmware device code, the node
GUID and the register page. -/
structure CStandardRegisters where
  bootloaderAlgorithm : Nat
  firmwareDeviceCode : Nat
  GUID : List Nat
  registerPage : Nat
deriving DecidableEq, Repr

/-- Modelled from the spec: `cguid::isSameGUID` is not among the sources; two GUIDs
are the same when their bytes are. -/
def isSameGUID (guid other : List Nat) : Bool := guid == other

/-- The members of `CBootDevice_VSCP` (and of its base class) the session uses.
`m_statusCallback` records whether the callback is non-null. -/
structure CBootDevice_VSCP where
  m_nodeid : Nat
  m_firmwaredeviceCode : Nat
  m_stdRegs : CStandardRegisters
  m_statusCallback : Bool
  m_chunkSize : Nat
  m_pAddr : Nat
  m_numBlocks : Nat
  m_blockSize : Nat
  m_checksum : Nat
deriving DecidableEq, Repr

/-- What lies outside the class. `sent` and `status` are logs: the events passed to
`m_pclient->send` and the calls of the status callback so far. The other fields
are the answers still to come: of `m_stdRegs.init`, of `send`, of `time`, of
`getcount` (code and count) and of `receive` (code and event). -/
structure World where
  sent : List vscpEventEx
  status : List (Int × String)
  stdRegsInit : List (Int × CStandardRegisters)
  sendRv : List Int
  times : List Int
  counts : List (Int × Nat)
  received : List (Int × vscpEventEx)
deriving DecidableEq, Repr

/-- The call `m_statusCallback (n, msg)` behind its null check. -/
def World.callback (w : World) (s : CBootDevice_VSCP) (n : Int) (msg : String) : World :=
  if s.m_statusCallback then { w with status := w.status ++ [(n, msg)] } else w

/-- The call `m_pclient->send (ex)`. -/
def World.send (w : World) (ex : vscpEventEx) : Option (Int × World) :=
  match w.sendRv with
  | [] => none
  | rv :: rest => some (rv, { w with sent := w.sent ++ [ex], sendRv := rest })

/-- The call `time (&t)`. -/
def World.time (w : World) : Option (Int × World) :=
  match w.times with
  | [] => none
  | t :: rest => some (t, { w with times := rest })

/-- The call `m_pclient->getcount (&cnt)`. -/
def World.getcount (w : World) : Option ((Int × Nat) × World) :=
  match w.counts with
  | [] => none
  | c :: rest => some (c, { w with counts := rest })

/-- The call `m_pclient->receive (ex)`: the code and the contents of `ex` after it. -/
def World.receive (w : World) : Option ((Int × vscpEventEx) × World) :=
  match w.received with
  | [] => none
  | r :: rest => some (r, { w with received := rest })

/-- The call `m_stdRegs.init (...)`: the code and the registers after it. -/
def World.readStdRegs (w : World) : Option ((Int × CStandardRegisters) × World) :=
  match w.stdRegsInit with
  | [] => none
  | r :: rest => some (r, { w with stdRegsInit := rest })

/-- The member function `init`. -/
def init (s : CBootDevice_VSCP) : CBootDevice_VSCP :=
  { s with m_pAddr := 0, m_numBlocks := 0, m_blockSize := 0 }

/-- The constructor taking a node id; `base` is the object the base class
constructor leaves. -/
def ctorNodeid (base : CBootDevice_VSCP) : CBootDevice_VSCP :=
  init { base with m_chunkSize := 8 }

/-- The constructor taking a node id and an interface GUID. -/
def ctorNodeidIf (base : CBootDevice_VSCP) : CBootDevice_VSCP :=
  init { base with m_chunkSize := 8 }

/-- The constructor taking a full GUID. -/
def ctorGuid (base : CBootDevice_VSCP) : CBootDevice_VSCP :=
  init { base with m_chunkSize := 512 }

/-- The loop of `checkResponse`; `fuel` bounds the number of passes. -/
def checkResponse.loop (s : CBootDevice_VSCP) (guid : List Nat)
    (response_event_ack response_event_nack timeout : Nat) (tstart : Int) :
    Nat → World → vscpEventEx → Option (Int × vscpEventEx × World)
  | 0, _, _ => none
  | fuel + 1, w, ex =>
    match w.time with
    | none => none
    | some (tnow, w) =>
      -- (unsigned long) (tnow - tstart) > timeout
      if ((tnow - tstart) % 2 ^ 64).toNat > timeout then
        some (VSCP_ERROR_TIMEOUT, ex, w)
      else
        match w.getcount with
        | none => none
        | some ((crv, cnt), w) =>
          if VSCP_ERROR_SUCCESS = crv ∧ cnt ≠ 0 then
            match w.receive with
            | none => none
            | some ((_, ev), w) =>
              let ex := ev
              if VSCP_CLASS1_PROTOCOL = ex.vscp_class ∧ response_event_ack = ex.vscp_type ∧
                  isSameGUID guid ex.GUID = true then
                some (VSCP_ERROR_SUCCESS, ex, w.callback s (-1) "VSCP Bootloader:ACK recived")
              else if VSCP_CLASS1_PROTOCOL = ex.vscp_class ∧ response_event_nack = ex.vscp_type ∧
                  isSameGUID guid ex.GUID = true then
                some (VSCP_ERROR_NACK, ex, w.callback s (-1) "VSCP Bootloader: NACK recived.")
              else checkResponse.loop s guid response_event_ack response_event_nack timeout tstart
                fuel w ex
          else checkResponse.loop s guid response_event_ack response_event_nack timeout tstart
            fuel w ex

/-- The member function `checkResponse`. The result is the return code, the event
`ex` (passed by reference) and the world after the call. Every pass of the loop
reads the clock once, so the number of readings left bounds the passes. -/
def checkResponse (s : CBootDevice_VSCP) (w : World) (ex : vscpEventEx) (guid : List Nat)
    (response_event_ack response_event_nack timeout : Nat) :
    Option (Int × vscpEventEx × World) :=
  match w.time with
  | none => none
  | some (tstart, w) =>
    checkResponse.loop s guid response_event_ack response_event_nack timeout tstart
      (w.times.length + 1) w ex

/-- The enter-bootloader event `deviceInit` builds in its local `ex`; `ex0` is the
uninitialised local. -/
def deviceInit.request (s : CBootDevice_VSCP) (ex0 : vscpEventEx) : vscpEventEx :=
  let data := ex0.data
  let data := data.set 0 (s.m_nodeid % 256)
  let data := data.set 1 VSCP_BOOTLOADER_VSCP
  let data := data.set 2 (s.m_stdRegs.GUID.getD 0 0)
  let data := data.set 3 (s.m_stdRegs.GUID.getD 3 0)
  let data := data.set 4 (s.m_stdRegs.GUID.getD 5 0)
  let data := data.set 5 (s.m_stdRegs.GUID.getD 7 0)
  let data := data.set 6 ((s.m_stdRegs.registerPage >>> 8) % 256)
  let data := data.set 7 (s.m_stdRegs.registerPage &&& 0xff)
  { ex0 with vscp_class := VSCP_CLASS1_PROTOCOL, vscp_type := VSCP_TYPE_PROTOCOL_ENTER_BOOT_LOADER,
             sizeData := 8, data := data }

/-- The end of `deviceInit`, reached when `checkResponse` has returned success:
`ex` holds the acknowledge event. -/
def deviceInit.confirm (s : CBootDevice_VSCP) (ex : vscpEventEx) (w : World) :
    Int × CBootDevice_VSCP × World :=
  -- OK now in bootmode
  let s := { s with
    m_blockSize := construct_unsigned32 (ex.data.getD 0 0) (ex.data.getD 1 0)
      (ex.data.getD 2 0) (ex.data.getD 3 0) }
  let s := { s with
    m_numBlocks := construct_unsigned32 (ex.data.getD 4 0) (ex.data.getD 5 0)
      (ex.data.getD 6 0) (ex.data.getD 7 0) }
  let w := w.callback s (-1) "VSCP bootloader: Confirmed, device is in boot mood."
  -- chunk must be <= blocksize
  if s.m_chunkSize > s.m_blockSize then
    (VSCP_ERROR_SIZE, s, w.callback s (-1) "VSCP bootloader: Chunk size is larger than block size.")
  else
    (VSCP_ERROR_SUCCESS, s, w)

/-- The member function `deviceInit`. `ex0` is the uninitialised local `ex`,
`timeout` the default argument of `checkResponse` (declared in the header, which
is not among the sources). The result is the return code, the object and the
world after the call. -/
def deviceInit (s : CBootDevice_VSCP) (w : World) (ourguid : List Nat) (devicecode : Nat)
    (bAbortOnFirmwareCodeFail : Bool) (ex0 : vscpEventEx) (timeout : Nat) :
    Option (Int × CBootDevice_VSCP × World) :=
  -- Read standard registers
  match w.readStdRegs with
  | none => none
  | some ((rvRegs, regs), w) =>
    let s := { s with m_stdRegs := regs }
    if VSCP_ERROR_SUCCESS ≠ rvRegs then
      some (VSCP_ERROR_COMMUNICATION, s, w)
    else if VSCP_BOOTLOADER_VSCP ≠ s.m_stdRegs.bootloaderAlgorithm then
      some (VSCP_ERROR_NOT_SUPPORTED, s,
        w.callback s (-1) "Bootloader algorithm is not Microchip PIC1")
    else
      let w :=
        if s.m_firmwaredeviceCode ≠ s.m_stdRegs.firmwareDeviceCode then
          w.callback s (-1)
            "Firware device code is not equal the one on the device local: \x7b0\x7d device: \x7b1\x7d"
        else w
      if s.m_firmwaredeviceCode ≠ s.m_stdRegs.firmwareDeviceCode ∧ bAbortOnFirmwareCodeFail = true then
        some (VSCP_ERROR_PARAMETER, s, w)
      else
        -- Set device in boot mode
        let ex := deviceInit.request s ex0
        let node_guid := s.m_stdRegs.GUID
        match w.send ex with
        | none => none
        | some (rv, w) =>
          if VSCP_ERROR_SUCCESS ≠ rv then
            some (rv, s, w.callback s (-1) "VSCP bootloader: Failed to send enter bootloader event")
          else
            match checkResponse s w ex node_guid VSCP_TYPE_PROTOCOL_ACK_BOOT_LOADER
                VSCP_TYPE_PROTOCOL_NACK_BOOT_LOADER timeout with
            | none => none
            | some (rv, ex, w) =>
              if VSCP_ERROR_SUCCESS ≠ rv then
                some (rv, s,
                  w.callback s (-1) "VSCP bootloader: NACK received from set bootloader request.")
              else
                some (deviceInit.confirm s ex w)

/-! ## A session that meets a device with small blocks -/

/-- The GUID of the example node. -/
def demoGuid : List Nat := [0, 1, 2, 3, 4, 5, 6, 7, 8, 9, 10, 11, 12, 13, 14, 15]

/-- Registers of the example node: VSCP bootloader, device code 5, page 0. -/
def demoRegs : CStandardRegisters := ⟨VSCP_BOOTLOADER_VSCP, 5, demoGuid, 0⟩

/-- A freshly constructed nickname session (chunk size 8) for firmware of device
code 5, without status callback. -/
def demoSession : CBootDevice_VSCP :=
  ctorNodeid ⟨1, 5, ⟨0, 0, [], 0⟩, false, 0, 0, 0, 0, 0⟩

/-- The acknowledge of the example node: block size 4, 10 blocks. -/
def demoAck : vscpEventEx :=
  ⟨VSCP_CLASS1_PROTOCOL, VSCP_TYPE_PROTOCOL_ACK_BOOT_LOADER, 8, [0, 0, 0, 4, 0, 0, 0, 10], demoGuid⟩

/-- The registers are read, `send` succeeds, and the first poll delivers the
acknowledge at the second the wait starts. -/
def demoWorld : World :=
  ⟨[], [], [(VSCP_ERROR_SUCCESS, demoRegs)], [VSCP_ERROR_SUCCESS], [100, 100],
    [(VSCP_ERROR_SUCCESS, 1)], [(VSCP_ERROR_SUCCESS, demoAck)]⟩

/-- The local `ex` of the example call before it is filled in. -/
def demoEx0 : vscpEventEx := ⟨0, 0, 0, [0, 0, 0, 0, 0, 0, 0, 0], []⟩

/-- The enter-bootloader event of the example call. -/
def demoRequest : vscpEventEx :=
  ⟨VSCP_CLASS1_PROTOCOL, VSCP_TYPE_PROTOCOL_ENTER_BOOT_LOADER, 8, [1, 0, 0, 3, 5, 7, 0, 0], []⟩

/-- The example session after the call. -/
def demoSessionAfter : CBootDevice_VSCP :=
  { demoSession with m_stdRegs := demoRegs, m_blockSize := 4, m_numBlocks := 10 }

/-- The example world after the call: one event sent, every script used up. -/
def demoWorldAfter : World := ⟨[demoRequest], [], [], [], [], [], []⟩

end VscpBoot

/-! # Block transfer

The member functions that move a firmware image to the node, block by block:
`writeBlockStart`, `writeChunk`, `writeBlock`, `programBlock` and `deviceLoad`.
-/

namespace VscpBoot

/-- Modelled from the spec: see `VSCP_CLASS1_PROTOCOL`. -/
def VSCP_TYPE_PROTOCOL_START_BLOCK : Nat := 15

/-- Modelled from the spec: see `VSCP_CLASS1_PROTOCOL`. -/
def VSCP_TYPE_PROTOCOL_BLOCK_DATA : Nat := 16

/-- Modelled from the spec: see `VSCP_CLASS1_PROTOCOL`. -/
def VSCP_TYPE_PROTOCOL_BLOCK_DATA_ACK : Nat := 17

/-- Modelled from the spec: see `VSCP_CLASS1_PROTOCOL`. -/
def VSCP_TYPE_PROTOCOL_BLOCK_DATA_NACK : Nat := 18

/-- Modelled from the spec: see `VSCP_CLASS1_PROTOCOL`. -/
def VSCP_TYPE_PROTOCOL_PROGRAM_BLOCK_DATA : Nat := 19

/-- Modelled from the spec: see `VSCP_CLASS1_PROTOCOL`. -/
def VSCP_TYPE_PROTOCOL_PROGRAM_BLOCK_DATA_ACK : Nat := 20

/-- Modelled from the spec: see `VSCP_CLASS1_PROTOCOL`. -/
def VSCP_TYPE_PROTOCOL_PROGRAM_BLOCK_DATA_NACK : Nat := 21

/-- Modelled from the spec: see `VSCP_CLASS1_PROTOCOL`. -/
def VSCP_TYPE_PROTOCOL_START_BLOCK_ACK : Nat := 50

/-- Modelled from the spec: see `VSCP_CLASS1_PROTOCOL`. -/
def VSCP_TYPE_PROTOCOL_START_BLOCK_NACK : Nat := 51

/-- How a call ends: the function returns a value, a script of the world runs out
before it could return, or the C code divides by zero. -/
inductive Run (α : Type) where
  | done (a : α)
  | starved
  | divisionByZero
deriving DecidableEq, Repr

/-- Modelled from the spec: one entry of the table `memory_range` of the base class
(not among the sources): the memory type and the first and last address. -/
structure memory_range_t where
  type : Nat
  beginning : Nat
  end_ : Nat
deriving DecidableEq, Repr

/-- Modelled from the spec: what `deviceLoad` uses of the base class `CBootDevice`
(not among the sources): the table `memory_range` (`NUMBER_OF_MEMORY_TYPES` is its
length), `getMinMaxForRange` (code, lowest and highest populated address of a
range) and `fillMemoryBuffer` (code and contents of the buffer after the call,
given the buffer, the block size and the base address). -/
structure CBootDevice where
  memory_range : List memory_range_t
  getMinMaxForRange : Nat → Nat → Int × Nat × Nat
  fillMemoryBuffer : List Nat → Nat → Nat → Int × List Nat

/-- The start-block event `writeBlockStart` builds in its local `ex`; `ex0` is the
uninitialised local. -/
def writeBlockStart.request (block type : Nat) (ex0 : vscpEventEx) : vscpEventEx :=
  let data := ex0.data
  let data := data.set 0 ((block >>> 24) &&& 0xff)
  let data := data.set 1 ((block >>> 16) &&& 0xff)
  let data := data.set 2 ((block >>> 8) &&& 0xff)
  let data := data.set 3 (block &&& 0xff)
  let data := data.set 4 (type % 256)
  { ex0 with vscp_class := VSCP_CLASS1_PROTOCOL, vscp_type := VSCP_TYPE_PROTOCOL_START_BLOCK,
             sizeData := 8, data := data }

/-- The member function `writeBlockStart`. The result is the return code and the
world after the call. -/
def writeBlockStart (s : CBootDevice_VSCP) (w : World) (block type : Nat) (ex0 : vscpEventEx)
    (timeout : Nat) : Option (Int × World) :=
  let ex := writeBlockStart.request block type ex0
  let node_guid := s.m_stdRegs.GUID
  match w.send ex with
  | none => none
  | some (rv, w) =>
    if VSCP_ERROR_SUCCESS ≠ rv then
      some (rv, w.callback s (-1) "VSCP bootloader: Failed to send start block transfer event")
    else
      -- Wait for response on start block transfer event
      match checkResponse s w ex node_guid VSCP_TYPE_PROTOCOL_START_BLOCK_ACK
          VSCP_TYPE_PROTOCOL_START_BLOCK_NACK timeout with
      | none => none
      | some (rv, _, w) =>
        if VSCP_ERROR_SUCCESS ≠ rv then
          some (rv, w.callback s (-1) "VSCP bootloader: Negative response from block start request")
        else
          some (VSCP_ERROR_SUCCESS, w)

/-- The program-block event `programBlock` builds in its local `ex`. -/
def programBlock.request (block : Nat) (ex0 : vscpEventEx) : vscpEventEx :=
  let data := ex0.data
  let data := data.set 0 ((block >>> 24) &&& 0xff)
  let data := data.set 1 ((block >>> 16) &&& 0xff)
  let data := data.set 2 ((block >>> 8) &&& 0xff)
  let data := data.set 3 (block &&& 0xff)
  { ex0 with vscp_class := VSCP_CLASS1_PROTOCOL,
             vscp_type := VSCP_TYPE_PROTOCOL_PROGRAM_BLOCK_DATA, sizeData := 8, data := data }

/-- The member function `programBlock`. -/
def programBlock (s : CBootDevice_VSCP) (w : World) (block : Nat) (ex0 : vscpEventEx)
    (timeout : Nat) : Option (Int × World) :=
  let ex := programBlock.request block ex0
  let node_guid := s.m_stdRegs.GUID
  match w.send ex with
  | none => none
  | some (rv, w) =>
    if VSCP_ERROR_SUCCESS ≠ rv then
      some (rv, w.callback s (-1) "VSCP bootloader: Failed to send start block transfer event")
    else
      -- Wait for response on start block transfer event
      match checkResponse s w ex node_guid VSCP_TYPE_PROTOCOL_PROGRAM_BLOCK_DATA_ACK
          VSCP_TYPE_PROTOCOL_PROGRAM_BLOCK_DATA_NACK timeout with
      | none => none
      | some (rv, _, w) =>
        if VSCP_ERROR_SUCCESS ≠ rv then
          some (rv, w.callback s (-1) "VSCP bootloader: Negative response from block start request")
        else
          some (VSCP_ERROR_SUCCESS, w)

/-- The block-data event `writeChunk` builds once the size check has passed:
`memcpy (ex.data, paddr, size)` with `paddr` an offset into the memory `mem`
(`paddr + size` within `mem` and `size` within the capacity of `ex.data`). -/
def writeChunk.request (mem : List Nat) (paddr size : Nat) (ex0 : vscpEventEx) : vscpEventEx :=
  { ex0 with vscp_class := VSCP_CLASS1_PROTOCOL, vscp_type := VSCP_TYPE_PROTOCOL_BLOCK_DATA,
             sizeData := size, data := (mem.drop paddr).take size ++ ex0.data.drop size }

/-- The member function `writeChunk`; the pointer `paddr` is the offset `paddr`
into `mem`. -/
def writeChunk (s : CBootDevice_VSCP) (w : World) (mem : List Nat) (paddr size : Nat)
    (ex0 : vscpEventEx) (timeout : Nat) : Option (Int × World) :=
  let node_guid := s.m_stdRegs.GUID
  -- Check size
  if size > s.m_chunkSize then
    some (VSCP_ERROR_SIZE, w)
  else
    let ex := writeChunk.request mem paddr size ex0
    match w.send ex with
    | none => none
    | some (rv, w) =>
      if VSCP_ERROR_SUCCESS ≠ rv then
        some (rv,
          w.callback s (-1) "VSCP bootloader: Failed to send start block chunk transfer event")
      else
        -- Wait for response on start block transfer event
        match checkResponse s w ex node_guid VSCP_TYPE_PROTOCOL_START_BLOCK_ACK
            VSCP_TYPE_PROTOCOL_START_BLOCK_NACK timeout with
        | none => none
        | some (rv, _, w) =>
          if VSCP_ERROR_SUCCESS ≠ rv then
            some (rv,
              w.callback s (-1) "VSCP bootloader: Negative response from block start request")
          else
            some (VSCP_ERROR_SUCCESS, w)

/-- The number of chunks `writeBlock` computes before its loop. -/
def writeBlock.nChunks (s : CBootDevice_VSCP) : Run Nat :=
  if s.m_blockSize > s.m_chunkSize then
    if s.m_chunkSize = 0 then .divisionByZero
    else
      let nChunks := s.m_blockSize / s.m_chunkSize
      -- A not completely full packet also count
      if 0 ≠ s.m_blockSize % s.m_chunkSize then .done (nChunks + 1) else .done nChunks
  else
    -- There is just one chunk
    .done 1

/-- The `for` loop of `writeBlock`. The first argument counts the passes still to
come, `chunk` is the loop variable and `paddr` the pointer as the loop has advanced
it. The result is the value of `chunk` on leaving the loop (`nChunks` unless the
loop was left by `break`) and the world. `rv0` is the local `rv`, which is never
assigned. -/
def writeBlock.loop (s : CBootDevice_VSCP) (mem : List Nat) (nChunks : Nat) (rv0 : Int)
    (ex0 : vscpEventEx) (timeout : Nat) : Nat → Nat → Nat → World → Option (Nat × World)
  | 0, chunk, _, w => some (chunk, w)
  | n + 1, chunk, paddr, w =>
    let w := w.callback s (Int.ofNat ((100 * chunk) % 2 ^ 32 / nChunks))
      ("Loading memory chunk on remote device. chunk = " ++ toString chunk ++ ".")
    match writeChunk s w mem (paddr + (s.m_chunkSize * nChunks) % 2 ^ 32) (s.m_chunkSize % 2 ^ 16)
        ex0 timeout with
    | none => none
    | some (rv, w) =>
      if VSCP_ERROR_SUCCESS ≠ rv then
        some (chunk, w.callback s (Int.ofNat ((100 * chunk) % 2 ^ 32 / nChunks))
          ("Failed to write chunk to remote device rv=" ++ toString rv0 ++ "."))
      else
        writeBlock.loop s mem nChunks rv0 ex0 timeout n (chunk + 1) (paddr + s.m_chunkSize) w

/-- The member function `writeBlock`; the pointer `paddr` is the offset `paddr` into
`mem`. The result is the return code and the world after the call. -/
def writeBlock (s : CBootDevice_VSCP) (w : World) (mem : List Nat) (paddr : Nat) (rv0 : Int)
    (ex0 : vscpEventEx) (timeout : Nat) : Run (Int × World) :=
  match writeBlock.nChunks s with
  | .starved => .starved
  | .divisionByZero => .divisionByZero
  | .done nChunks =>
    match writeBlock.loop s mem nChunks rv0 ex0 timeout nChunks 0 paddr w with
    | none => .starved
    | some (_, w) => .done (VSCP_ERROR_SUCCESS, w)

/-- The `while` loop of `deviceLoad` over the blocks of one memory range. The first
argument counts the passes still to come. The result holds `some rv` when
`deviceLoad` returns `rv` from inside the loop and `none` when the loop ends. -/
def deviceLoad.blocks (s : CBootDevice_VSCP) (pbuf : List Nat) (type : Nat) (rv0 : Int)
    (ex0 : vscpEventEx) (timeout : Nat) : Nat → Nat → World → Run (Option Int × World)
  | 0, _, w => .done (none, w)
  | n + 1, block, w =>
    match writeBlockStart s w block type ex0 timeout with
    | none => .starved
    | some (rv, w) =>
      if VSCP_ERROR_SUCCESS ≠ rv then .done (some rv, w)
      else
        -- Write the block
        match writeBlock s w pbuf ((block * s.m_blockSize) % 2 ^ 32) rv0 ex0 timeout with
        | .starved => .starved
        | .divisionByZero => .divisionByZero
        | .done (rv, w) =>
          if VSCP_ERROR_SUCCESS ≠ rv then
            .done (some rv, w.callback s (-1) "VSCP bootloader: Failed to write block")
          else
            -- Program the block
            match programBlock s w block ex0 timeout with
            | none => .starved
            | some (rv, w) =>
              if VSCP_ERROR_SUCCESS ≠ rv then .done (some rv, w)
              else deviceLoad.blocks s pbuf type rv0 ex0 timeout n (block + 1) w

/-- The number of blocks `deviceLoad` computes for a populated range, with
`minAddr` already adjusted to a block boundary. -/
def deviceLoad.nBlocks (s : CBootDevice_VSCP) (minAddr maxAddr : Nat) : Nat :=
  let nBlocks := (maxAddr - minAddr) / s.m_blockSize
  -- A not completely full packet also count
  if 0 ≠ (maxAddr - minAddr) % s.m_blockSize then nBlocks + 1 else nBlocks

/-- One pass of the `for` loop of `deviceLoad` over the memory ranges. `heap` gives
the contents of the buffer `new` returns. The result holds `some rv` when
`deviceLoad` returns `rv` from inside the pass and `none` when the pass ends. -/
def deviceLoad.region (s : CBootDevice_VSCP) (img : CBootDevice) (heap : List Nat) (rv0 : Int)
    (ex0 : vscpEventEx) (timeout : Nat) (r : memory_range_t) (w : World) :
    Run (Option Int × World) :=
  let w := w.callback s (-1) ("writeFirmwareBlock: Handling memory range " ++ toString r.type)
  -- Fetch min and max address for selected memory range
  match img.getMinMaxForRange r.beginning r.end_ with
  | (rv, minAddr, maxAddr) =>
    if VSCP_ERROR_SUCCESS ≠ rv then
      .done (some rv, w.callback s (-1)
        ("writeFirmwareBlock: Failed to get min max range for block. rv=" ++ toString rv))
    else if maxAddr > minAddr then
      if s.m_blockSize = 0 then .divisionByZero
      else
        let minAddr := minAddr - (minAddr % s.m_blockSize)
        let nBlocks := deviceLoad.nBlocks s minAddr maxAddr
        let pbuf := VscpAes.malloc heap (r.end_ - r.beginning + 1)
        match img.fillMemoryBuffer pbuf s.m_blockSize r.beginning with
        | (rv, pbuf) =>
          if VSCP_ERROR_SUCCESS ≠ rv then
            .done (some rv, w.callback s (-1)
              ("writeFirmwareBlock: Failed to fill code block with data rv=" ++ toString rv))
          else
            -- Write blocks to remote device
            deviceLoad.blocks s pbuf r.type rv0 ex0 timeout nBlocks 0 w
    else .done (none, w)

/-- The `for` loop of `deviceLoad` over the memory ranges still to come. -/
def deviceLoad.regions (s : CBootDevice_VSCP) (img : CBootDevice) (heap : List Nat) (rv0 : Int)
    (ex0 : vscpEventEx) (timeout : Nat) : List memory_range_t → World → Run (Option Int × World)
  | [], w => .done (none, w)
  | r :: rest, w =>
    match deviceLoad.region s img heap rv0 ex0 timeout r w with
    | .starved => .starved
    | .divisionByZero => .divisionByZero
    | .done (some rv, w) => .done (some rv, w)
    | .done (none, w) => deviceLoad.regions s img heap rv0 ex0 timeout rest w

/-- The member function `deviceLoad`. Its two arguments are not used. The result is
the return code, the object and the world after the call. -/
def deviceLoad (s : CBootDevice_VSCP) (img : CBootDevice) (w : World) (heap : List Nat)
    (rv0 : Int) (ex0 : vscpEventEx) (timeout : Nat) (statusCallback : Bool)
    (bAbortOnFirmwareCodeFail : Bool) : Run (Int × CBootDevice_VSCP × World) :=
  let _ := statusCallback
  let _ := bAbortOnFirmwareCodeFail
  let s := { s with m_checksum := 0 }
  let w := w.callback s 0 "Starting firmware download"
  match deviceLoad.regions s img heap rv0 ex0 timeout img.memory_range w with
  | .starved => .starved
  | .divisionByZero => .divisionByZero
  | .done (some rv, w) => .done (rv, s, w)
  | .done (none, w) => .done (VSCP_ERROR_TIMEOUT, s, w)

end VscpBoot

/-! ## Vocabulary for the transport

A poll is one pass of the loop of `checkResponse` as the clock and the transport
answer it; an exchange is the answers to one request: the code of `send`, the
clock reading at the start of the wait, and the polls up to the one that decides.
-/

namespace VscpBoot

/-- The value `(unsigned long) (tnow - tstart)` the loop compares with the
timeout. -/
def elapsed (tstart tnow : Int) : Nat := ((tnow - tstart) % 2 ^ 64).toNat

/-- The event is a reply of type `t` from the node `guid`. -/
def isReply (guid : List Nat) (t : Nat) (ev : vscpEventEx) : Bool :=
  decide (VSCP_CLASS1_PROTOCOL = ev.vscp_class ∧ t = ev.vscp_type ∧ isSameGUID guid ev.GUID = true)

/-- The answers to one pass of the polling loop: the clock reading, the code and the
count of `getcount`, and the code and the event of `receive` (asked for only when
the count is usable). -/
structure Poll where
  tnow : Int
  countRv : Int
  cnt : Nat
  recvRv : Int
  ev : vscpEventEx
deriving DecidableEq, Repr

/-- The pass calls `receive`. -/
def Poll.pending (p : Poll) : Bool := decide (VSCP_ERROR_SUCCESS = p.countRv ∧ p.cnt ≠ 0)

/-- The pass receives an acknowledge or a negative acknowledge from the node. -/
def Poll.decides (guid : List Nat) (ack nack : Nat) (p : Poll) : Bool :=
  p.pending && (isReply guid ack p.ev || isReply guid nack p.ev)

/-- The pass neither times out nor decides. -/
def Poll.idle (guid : List Nat) (ack nack timeout : Nat) (tstart : Int) (p : Poll) : Bool :=
  decide (elapsed tstart p.tnow ≤ timeout) && !p.decides guid ack nack

/-- The event in `ex` after a pass that goes round the loop. -/
def Poll.leaves (p : Poll) (ex : vscpEventEx) : vscpEventEx := if p.pending then p.ev else ex

/-- The world that answers one pass by `p` and then goes on as `w`. -/
def Poll.feed (p : Poll) (w : World) : World :=
  { w with times := p.tnow :: w.times, counts := (p.countRv, p.cnt) :: w.counts,
           received := if p.pending then (p.recvRv, p.ev) :: w.received else w.received }

/-- The world that answers the passes `polls` in turn and then goes on as `w`. -/
def feedPolls (polls : List Poll) (w : World) : World := polls.foldr Poll.feed w

/-- The world whose next clock reading is `t` and which then goes on as `w`. -/
def feedClock (t : Int) (w : World) : World := { w with times := t :: w.times }

/-- The world `w` with other logs. -/
def World.logs (w : World) (sent : List vscpEventEx) (status : List (Int × String)) : World :=
  { w with sent := sent, status := status }

/-- The answers to one request. -/
structure Exchange where
  tstart : Int
  skipped : List Poll
  final : Poll
deriving DecidableEq, Repr

/-- The world in which `send` succeeds, the wait starts at `x.tstart`, the polls of
`x` follow, and which then goes on as `w`. -/
def Exchange.feed (x : Exchange) (w : World) : World :=
  { feedClock x.tstart (feedPolls (x.skipped ++ [x.final]) w) with
    sendRv := VSCP_ERROR_SUCCESS :: w.sendRv }

/-- The exchange ends, within the timeout, with an acknowledge of type `ack` from
the node, after passes that neither time out nor decide. -/
def Exchange.acked (guid : List Nat) (ack nack timeout : Nat) (x : Exchange) : Bool :=
  x.skipped.all (Poll.idle guid ack nack timeout x.tstart) &&
    decide (elapsed x.tstart x.final.tnow ≤ timeout) && x.final.pending &&
    isReply guid ack x.final.ev

/-- The world that answers the requests one after the other by `xs` and then goes
on as `w`. -/
def feedAll (xs : List Exchange) (w : World) : World := xs.foldr Exchange.feed w

/-- The answers to the requests of one block: start, chunks, program. -/
structure BlockScript where
  start : Exchange
  chunks : List Exchange
  program : Exchange
deriving DecidableEq, Repr

/-- The exchanges of a block in the order of the requests. -/
def BlockScript.exchanges (b : BlockScript) : List Exchange :=
  b.start :: b.chunks ++ [b.program]

/-- Every request of the block is acknowledged: the start and every one of the
`nChunks` chunks by a start-block acknowledge, the program request by a
program-block acknowledge. -/
def BlockScript.acked (guid : List Nat) (timeout nChunks : Nat) (b : BlockScript) : Bool :=
  b.start.acked guid VSCP_TYPE_PROTOCOL_START_BLOCK_ACK VSCP_TYPE_PROTOCOL_START_BLOCK_NACK timeout &&
    decide (b.chunks.length = nChunks) &&
    b.chunks.all (Exchange.acked guid VSCP_TYPE_PROTOCOL_START_BLOCK_ACK
      VSCP_TYPE_PROTOCOL_START_BLOCK_NACK timeout) &&
    b.program.acked guid VSCP_TYPE_PROTOCOL_PROGRAM_BLOCK_DATA_ACK
      VSCP_TYPE_PROTOCOL_PROGRAM_BLOCK_DATA_NACK timeout

/-- The world that answers the requests of the blocks `bs` and goes on as `w`. -/
def feedBlocks (bs : List BlockScript) (w : World) : World :=
  feedAll (bs.map BlockScript.exchanges).flatten w

/-- The bytes of an event that count: the first `sizeData` of `data`. -/
def vscpEventEx.payload (ev : vscpEventEx) : List Nat := ev.data.take ev.sizeData

/-- The world without its status log. -/
def World.quiet (w : World) : World := { w with status := [] }

/-- The object without status callback. -/
def CBootDevice_VSCP.mute (s : CBootDevice_VSCP) : CBootDevice_VSCP :=
  { s with m_statusCallback := false }

/-- The chunk events `writeBlock` sends from chunk `chunk` on when every chunk is
acknowledged, as the loop computes them: the `n` chunks still to come, the pointer
being at `paddr`. -/
def writeBlock.events (s : CBootDevice_VSCP) (mem : List Nat) (nChunks : Nat) (ex0 : vscpEventEx) :
    Nat → Nat → List vscpEventEx
  | 0, _ => []
  | n + 1, paddr =>
    writeChunk.request mem (paddr + (s.m_chunkSize * nChunks) % 2 ^ 32) (s.m_chunkSize % 2 ^ 16) ex0 ::
      writeBlock.events s mem nChunks ex0 n (paddr + s.m_chunkSize)

/-- The events `deviceLoad` sends for the blocks from `block` on when every request
is acknowledged: for each of the `n` blocks still to come the start-block event, the
chunk events and the program-block event. -/
def deviceLoad.events (s : CBootDevice_VSCP) (pbuf : List Nat) (type nChunks : Nat)
    (ex0 : vscpEventEx) : Nat → Nat → List vscpEventEx
  | 0, _ => []
  | n + 1, block =>
    (writeBlockStart.request block type ex0 ::
      writeBlock.events s pbuf nChunks ex0 nChunks ((block * s.m_blockSize) % 2 ^ 32)) ++
    (programBlock.request block ex0 :: deviceLoad.events s pbuf type nChunks ex0 n (block + 1))

/-- The world after a request `ev` that `w` lets through and the node acknowledges:
the event is in the log of events sent and the callback has been told. -/
def World.acks (w : World) (s : CBootDevice_VSCP) (ev : vscpEventEx) : World :=
  (w.logs (w.sent ++ [ev]) w.status).callback s (-1) "VSCP Bootloader:ACK recived"

/-- The value a finished call returns, if the call finishes. -/
def Run.toOption {α : Type} : Run α → Option α
  | .done a => some a
  | .starved => none
  | .divisionByZero => none

/-- The world after the comparison of the device codes in `deviceInit`: the status
callback is told of a mismatch. -/
def deviceInit.warned (s : CBootDevice_VSCP) (w : World) : World :=
  if s.m_firmwaredeviceCode ≠ s.m_stdRegs.firmwareDeviceCode then
    w.callback s (-1)
      "Firware device code is not equal the one on the device local: \x7b0\x7d device: \x7b1\x7d"
  else w

/-- The part of `deviceInit` from the call of `send` on, as in `deviceInit`. -/
def deviceInit.enter (s : CBootDevice_VSCP) (w : World) (ex0 : vscpEventEx) (timeout : Nat) :
    Option (Int × CBootDevice_VSCP × World) :=
  match w.send (deviceInit.request s ex0) with
  | none => none
  | some (rv, w) =>
    if VSCP_ERROR_SUCCESS ≠ rv then
      some (rv, s, w.callback s (-1) "VSCP bootloader: Failed to send enter bootloader event")
    else
      match checkResponse s w (deviceInit.request s ex0) s.m_stdRegs.GUID
          VSCP_TYPE_PROTOCOL_ACK_BOOT_LOADER VSCP_TYPE_PROTOCOL_NACK_BOOT_LOADER timeout with
      | none => none
      | some (rv, ex, w) =>
        if VSCP_ERROR_SUCCESS ≠ rv then
          some (rv, s,
            w.callback s (-1) "VSCP bootloader: NACK received from set bootloader request.")
        else
          some (deviceInit.confirm s ex w)

/-- The world in which the reading of the standard registers is answered by `r`
and which then goes on as `w`. -/
def feedRegs (r : Int × CStandardRegisters) (w : World) : World :=
  { w with stdRegsInit := r :: w.stdRegsInit }

/-- The run with `f` applied to the value returned. -/
def Run.map {α β : Type} (f : α → β) : Run α → Run β
  | .done a => .done (f a)
  | .starved => .starved
  | .divisionByZero => .divisionByZero

/-- The quotient `a / b` rounded up. -/
def ceilDiv (a b : Nat) : Nat := (a + b - 1) / b

/-- The number of chunks of a block as the specification words it: the quotient of
the block size by the chunk size rounded up when the block is larger than a chunk,
one chunk otherwise. -/
def specChunkCount (blockSize chunkSize : Nat) : Nat :=
  if blockSize > chunkSize then ceilDiv blockSize chunkSize else 1

/-! ## Example answers -/

/-- A world with empty logs and no answers left. -/
def emptyWorld : World := ⟨[], [], [], [], [], [], []⟩

/-- A pass at time `t` in which `receive` hands out `ev`. -/
def pollOf (t : Int) (ev : vscpEventEx) : Poll := ⟨t, VSCP_ERROR_SUCCESS, 1, VSCP_ERROR_SUCCESS, ev⟩

/-- An event of type `t` from the example node, without data. -/
def demoReply (t : Nat) : vscpEventEx := ⟨VSCP_CLASS1_PROTOCOL, t, 0, [], demoGuid⟩

/-- An exchange in which the node first sends a block-data acknowledge, which is
not waited for, and one second later an event of type `t`. -/
def demoExchange (t : Nat) : Exchange :=
  ⟨100, [pollOf 100 (demoReply VSCP_TYPE_PROTOCOL_BLOCK_DATA_ACK)], pollOf 101 (demoReply t)⟩

/-- The example session once the node has reported blocks of 16 bytes. -/
def demoLoader : CBootDevice_VSCP :=
  { demoSession with m_stdRegs := demoRegs, m_blockSize := 16, m_numBlocks := 4 }

/-- A memory of 64 bytes holding 0, 1, ..., 63. -/
def demoMem : List Nat := List.range 64

/-- A firmware image with one memory range, addresses 0 to 63 of type 0, populated
from 0 to 16, whose buffer is filled with `demoMem`. -/
def demoImage : CBootDevice :=
  ⟨[⟨0, 0, 63⟩], fun _ _ => (VSCP_ERROR_SUCCESS, 0, 16), fun _ _ _ => (VSCP_ERROR_SUCCESS, demoMem)⟩

/-- Every request of one block of two chunks is acknowledged. -/
def demoAckedBlock : BlockScript :=
  ⟨demoExchange VSCP_TYPE_PROTOCOL_START_BLOCK_ACK,
    [demoExchange VSCP_TYPE_PROTOCOL_START_BLOCK_ACK, demoExchange VSCP_TYPE_PROTOCOL_START_BLOCK_ACK],
    demoExchange VSCP_TYPE_PROTOCOL_PROGRAM_BLOCK_DATA_ACK⟩

/-- The start of the block is acknowledged, the first chunk is refused, and a
program request would be acknowledged. -/
def demoRefusedChunk : List Exchange :=
  [demoExchange VSCP_TYPE_PROTOCOL_START_BLOCK_ACK, demoExchange VSCP_TYPE_PROTOCOL_START_BLOCK_NACK,
    demoExchange VSCP_TYPE_PROTOCOL_PROGRAM_BLOCK_DATA_ACK]

/-- The acknowledge of a node with blocks of 64 bytes, 10 of them. -/
def demoAck64 : vscpEventEx :=
  ⟨VSCP_CLASS1_PROTOCOL, VSCP_TYPE_PROTOCOL_ACK_BOOT_LOADER, 8, [0, 0, 0, 0x40, 0, 0, 0, 0x0A],
    demoGuid⟩

/-- The registers are read, `send` succeeds, and the first poll delivers
`demoAck64`. -/
def demoWorld64 : World :=
  ⟨[], [], [(VSCP_ERROR_SUCCESS, demoRegs)], [VSCP_ERROR_SUCCESS], [100, 100],
    [(VSCP_ERROR_SUCCESS, 1)], [(VSCP_ERROR_SUCCESS, demoAck64)]⟩

/-- The example session after it has met the node of `demoAck64`. -/
def demoSession64 : CBootDevice_VSCP :=
  { demoSession with m_stdRegs := demoRegs, m_blockSize := 64, m_numBlocks := 10 }

/-- The world `demoWorld64` once the registers have been read. -/
def demoWorld64Read : World :=
  ⟨[], [], [], [VSCP_ERROR_SUCCESS], [100, 100], [(VSCP_ERROR_SUCCESS, 1)],
    [(VSCP_ERROR_SUCCESS, demoAck64)]⟩

end VscpBoot

/-! # String helpers

`vscp_str_before` and `vscp_str_after` of `vscphelper.h`. A `std::string` is the
list of its characters; the position `npos` is `none`.
-/

namespace VscpHelper

/-- The call `str.find (c)`: the index of the first `c` in `str`, or `npos`. -/
def find (str : List Char) (c : Char) : Option Nat :=
  if str.indexOf c < str.length then some (str.indexOf c) else none

/-- The call `str.substr (pos)` with `pos` within the string. -/
def substr (str : List Char) (pos : Nat) : List Char := str.drop pos

/-- The function `vscp_str_left`. -/
def vscp_str_left (str : List Char) (length : Nat) : List Char :=
  if 0 = length then [] else str.take length

/-- The function `vscp_str_right`. -/
def vscp_str_right (str : List Char) (length : Nat) : List Char :=
  if 0 = length then []
  else
    let length := if length > str.length then str.length else length
    substr str (str.length - length)

/-- The function `vscp_str_before`. -/
def vscp_str_before (str : List Char) (c : Char) : List Char :=
  match find str c with
  | none => []
  | some pos => vscp_str_left str pos

/-- The function `vscp_str_after`. -/
def vscp_str_after (str : List Char) (c : Char) : List Char :=
  match find str c with
  | none => []
  | some pos => vscp_str_right str pos

end VscpHelper

/-! # The cipher as FIPS-197 words it

Arithmetic in GF(2^8) and the transformations of the standard on a state of
sixteen bytes held column by column: byte `4 * c + r` is row `r` of column `c`.
-/

namespace VscpAes

/-- The product of two polynomials over GF(2): the bits of `a` and of the byte `b`
are the coefficients. -/
def clmul (a b : Nat) : Nat :=
  (List.range 8).foldl (fun acc i => if b.testBit i then acc ^^^ (a <<< i) else acc) 0

/-- The remainder of a polynomial of degree below 16 modulo
`x^8 + x^4 + x^3 + x + 1`, which is 0x11B. -/
def gfReduce (p : Nat) : Nat :=
  [15, 14, 13, 12, 11, 10, 9, 8].foldl
    (fun p i => if p.testBit i then p ^^^ (0x11B <<< (i - 8)) else p) p

/-- The product of two bytes in GF(2^8) modulo 0x11B. -/
def gfMul (a b : Nat) : Nat := gfReduce (clmul a b)

/-- The column the standard's MixColumns makes of the column `(a0, a1, a2, a3)`:
the product with the circulant matrix of 02, 03, 01, 01. -/
def specMixColumn (a0 a1 a2 a3 : Nat) : List Nat :=
  [gfMul 2 a0 ^^^ gfMul 3 a1 ^^^ a2 ^^^ a3,
   a0 ^^^ gfMul 2 a1 ^^^ gfMul 3 a2 ^^^ a3,
   a0 ^^^ a1 ^^^ gfMul 2 a2 ^^^ gfMul 3 a3,
   gfMul 3 a0 ^^^ a1 ^^^ a2 ^^^ gfMul 2 a3]

/-- The column the standard's InvMixColumns makes of the column `(a0, a1, a2, a3)`:
the product with the circulant matrix of 0E, 0B, 0D, 09. -/
def specInvMixColumn (a0 a1 a2 a3 : Nat) : List Nat :=
  [gfMul 0x0e a0 ^^^ gfMul 0x0b a1 ^^^ gfMul 0x0d a2 ^^^ gfMul 0x09 a3,
   gfMul 0x09 a0 ^^^ gfMul 0x0e a1 ^^^ gfMul 0x0b a2 ^^^ gfMul 0x0d a3,
   gfMul 0x0d a0 ^^^ gfMul 0x09 a1 ^^^ gfMul 0x0e a2 ^^^ gfMul 0x0b a3,
   gfMul 0x0b a0 ^^^ gfMul 0x0d a1 ^^^ gfMul 0x09 a2 ^^^ gfMul 0x0e a3]

/-- The standard's MixColumns: every column is replaced by its product. -/
def specMixColumns (s : List Nat) : List Nat :=
  (List.range 4).flatMap (fun c =>
    specMixColumn (s.getD (4 * c) 0) (s.getD (4 * c + 1) 0) (s.getD (4 * c + 2) 0)
      (s.getD (4 * c + 3) 0))

/-- The standard's InvMixColumns. -/
def specInvMixColumns (s : List Nat) : List Nat :=
  (List.range 4).flatMap (fun c =>
    specInvMixColumn (s.getD (4 * c) 0) (s.getD (4 * c + 1) 0) (s.getD (4 * c + 2) 0)
      (s.getD (4 * c + 3) 0))

/-- The standard's SubBytes: every byte is replaced by its entry of the S-box. -/
def specSubBytes (s : List Nat) : List Nat := s.map (fun x => sbox.getD x 0)

/-- The standard's ShiftRows: row `r` is rotated left by `r` positions, so row `r`
of column `c` comes from column `(c + r) mod 4`. -/
def specShiftRows (s : List Nat) : List Nat :=
  (List.range 16).map (fun k => s.getD (4 * ((k / 4 + k % 4) % 4) + k % 4) 0)

/-- The standard's AddRoundKey: the sixteen bytes of round key `round` of the
schedule `w` are XORed into the state. -/
def specAddRoundKey (w : List Nat) (round : Nat) (s : List Nat) : List Nat :=
  (List.range 16).map (fun k => s.getD k 0 ^^^ w.getD (16 * round + k) 0)

/-- The standard's cipher with `Nr` rounds on the schedule `w`: round key 0 is
added; rounds 1 to `Nr - 1` apply SubBytes, ShiftRows, MixColumns and AddRoundKey;
the last round leaves MixColumns out. -/
def specCipher (Nr : Nat) (w : List Nat) (s : List Nat) : List Nat :=
  let s := specAddRoundKey w 0 s
  let s := (List.range (Nr - 1)).foldl
    (fun s r => specAddRoundKey w (r + 1) (specMixColumns (specShiftRows (specSubBytes s)))) s
  specAddRoundKey w Nr (specShiftRows (specSubBytes s))

/-- Word `i` of a buffer of four-byte words. -/
def wordAt (w : List Nat) (i : Nat) : List Nat :=
  [w.getD (4 * i) 0, w.getD (4 * i + 1) 0, w.getD (4 * i + 2) 0, w.getD (4 * i + 3) 0]

/-- The standard's RotWord: the bytes of a word rotated left by one. -/
def specRotWord (t : List Nat) : List Nat := [t.getD 1 0, t.getD 2 0, t.getD 3 0, t.getD 0 0]

/-- The standard's SubWord: the S-box applied to the four bytes of a word. -/
def specSubWord (t : List Nat) : List Nat := t.map (fun x => sbox.getD x 0)

/-- Bytewise XOR of two words. -/
def xorWord (a b : List Nat) : List Nat :=
  [a.getD 0 0 ^^^ b.getD 0 0, a.getD 1 0 ^^^ b.getD 1 0, a.getD 2 0 ^^^ b.getD 2 0,
   a.getD 3 0 ^^^ b.getD 3 0]

/-- The word the standard XORs into `w[i - Nk]` to obtain `w[i]`, given
`prev = w[i - 1]`: `SubWord (RotWord (prev))` with `Rcon[i / Nk]` XORed into its
first byte when `i mod Nk = 0`, `SubWord (prev)` when the key has 8 words and
`i mod Nk = 4`, and `prev` otherwise. -/
def specTemp (type Nk i : Nat) (prev : List Nat) : List Nat :=
  if i % Nk = 0 then xorWord (specSubWord (specRotWord prev)) [Rcon.getD (i / Nk) 0, 0, 0, 0]
  else if type = AES256 ∧ i % Nk = 4 then specSubWord prev
  else prev

end VscpAes

/-! # The block loop of `deviceLoad` and the waits: more vocabulary -/

namespace VscpBoot

/-- The local `startBlock` of `deviceLoad`: the index, within the memory range, of
the block that holds `minAddr`, `minAddr` being already adjusted to a block
boundary (`uint32_t` arithmetic). The function assigns it and never reads it. -/
def deviceLoad.startBlock (s : CBootDevice_VSCP) (r : memory_range_t) (minAddr : Nat) : Nat :=
  ((minAddr + 2 ^ 32 - r.beginning % 2 ^ 32) % 2 ^ 32) / s.m_blockSize

/-- The world in which the next call of `send` returns `rv` and which then goes on
as `w`. -/
def feedSend (rv : Int) (w : World) : World := { w with sendRv := rv :: w.sendRv }

/-- A firmware image with one memory range, addresses 0 to 63 of type 0, populated
from 32 to 48, whose buffer is filled with `demoMem`. -/
def demoImageHigh : CBootDevice :=
  ⟨[⟨0, 0, 63⟩], fun _ _ => (VSCP_ERROR_SUCCESS, 32, 48), fun _ _ _ => (VSCP_ERROR_SUCCESS, demoMem)⟩

/-- Registers of a node that runs the VSCP bootloader and reports device code 6. -/
def demoRegs6 : CStandardRegisters := ⟨VSCP_BOOTLOADER_VSCP, 6, demoGuid, 0⟩

end VscpBoot

namespace VscpAes

/-- The input buffer of a CBC encryption of `n` blocks when the XOR with the
chaining value is made in place: block 0 holds `P_0 xor IV` and block `i` holds
`P_i xor C_(i-1)`, with `C_i = E (P_i xor C_(i-1))`. -/
def cbcChainInput (E : List Nat → List Nat) : Nat → List Nat → List Nat → List Nat
  | 0, _, _ => []
  | n + 1, iv, p =>
    let x := xorBlock (p.take 16) iv
    x ++ cbcChainInput E n (E x) (p.drop 16)

/-- The sixteen bytes of the chaining value are zero. -/
def zeroChain (v : List Nat) : Prop := ∀ j < 16, v.getD j 0 = 0

instance (v : List Nat) : Decidable (zeroChain v) :=
  inferInstanceAs (Decidable (∀ j < 16, v.getD j 0 = 0))

end VscpAes

/-! # The UDP client

The overloads `send` and `receive` of `vscpClientUdp` for CANAL messages. The
conversions between CANAL messages and events are functions of `vscphelper.cpp`;
the members for events are the ones of `vscp-client-udp.cpp`.
-/

namespace vscpClientUdp

open VscpBoot (vscpEventEx VSCP_ERROR_SUCCESS)

/-- Modelled from the spec: the structure `canalMsg` of `canal.h`, which is not among
the sources: flags, object id, CAN id, data size, data and time stamp. -/
structure canalMsg where
  flags : Nat
  obid : Nat
  id : Nat
  sizeData : Nat
  data : List Nat
  timestamp : Nat
deriving DecidableEq, Repr

/-- Modelled from the spec: what the client uses of `vscp.h` and `vscphelper.cpp`,
which are not among the sources: the return code `VSCP_ERROR_INVALID_FRAME` and the
two conversions. Each conversion gets the object to fill in and the object to
convert (and the GUID to use) and yields its `bool` result (`vscphelper.h`: "true on
success") and the object filled in. -/
structure Helper where
  VSCP_ERROR_INVALID_FRAME : Int
  vscp_convertCanalToEventEx : vscpEventEx → canalMsg → List Nat → Bool × vscpEventEx
  vscp_convertEventExToCanal : canalMsg → vscpEventEx → Bool × canalMsg

/-- The member `send (vscpEventEx &)`: the result is the return code. -/
def send_vscpEventEx (_ex : vscpEventEx) : Int := VSCP_ERROR_SUCCESS

/-- The member `receive (vscpEventEx &)`: the return code and `ex` after the call. -/
def receive_vscpEventEx (ex : vscpEventEx) : Int × vscpEventEx := (VSCP_ERROR_SUCCESS, ex)

/-- The member `send (canalMsg &)`; `ex0` is the uninitialised local `ex`. The result
is the return code and the events handed to `send (vscpEventEx &)`. -/
def send_canalMsg (h : Helper) (msg : canalMsg) (ex0 : vscpEventEx) : Int × List vscpEventEx :=
  let guid := [0, 0, 0, 0, 0, 0, 0, 0, 0, 0, 0, 0, 0, 0, 0, 0]
  match h.vscp_convertCanalToEventEx ex0 msg guid with
  | (converted, ex) =>
    if converted then (h.VSCP_ERROR_INVALID_FRAME, [])
    else (send_vscpEventEx ex, [ex])

/-- The member `receive (canalMsg &)`; `ex0` is the uninitialised local `ex`. The
result is the return code and `msg` after the call. -/
def receive_canalMsg (h : Helper) (msg : canalMsg) (ex0 : vscpEventEx) : Int × canalMsg :=
  match receive_vscpEventEx ex0 with
  | (rv, ex) =>
    if VSCP_ERROR_SUCCESS ≠ rv then (rv, msg)
    else
      match h.vscp_convertEventExToCanal msg ex with
      | (converted, msg) =>
        if !converted then (h.VSCP_ERROR_INVALID_FRAME, msg)
        else (VSCP_ERROR_SUCCESS, msg)

/-- A conversion pair that accepts the CAN ids below 2^29 and the events with at
most eight bytes of data, with 50 standing for the code of an invalid frame. -/
def demoHelper : Helper :=
  ⟨50,
    fun ex msg guid =>
      if msg.id < 2 ^ 29 then
        (true, { ex with vscp_class := (msg.id >>> 16) % 512, vscp_type := (msg.id >>> 8) % 256,
                         sizeData := msg.sizeData, data := msg.data, GUID := guid })
      else (false, ex),
    fun msg ex =>
      if ex.sizeData ≤ 8 then
        (true, { msg with id := (ex.vscp_class <<< 16) + (ex.vscp_type <<< 8),
                          sizeData := ex.sizeData, data := ex.data })
      else (false, msg)⟩

/-- A CANAL message a node could send: class 10, type 6, three bytes. -/
def demoMsg : canalMsg := ⟨0, 0, 0x0A0600, 3, [1, 2, 3], 0⟩

/-- A CANAL message whose id does not fit 29 bits. -/
def demoBadMsg : canalMsg := ⟨0, 0, 2 ^ 29, 0, [], 0⟩

/-- An event with more data than a CAN frame carries. -/
def demoLongEvent : vscpEventEx := ⟨10, 6, 9, [1, 2, 3, 4, 5, 6, 7, 8, 9], []⟩

end vscpClientUdp

/-! # Splitting a string

`vscp_split` of `vscphelper.h`. Positions and lengths are `size_t` values (64 bits);
`npos` is the largest of them.
-/

namespace VscpHelper

/-- The constant `std::string::npos`. -/
def npos : Nat := 18446744073709551615

/-- How a call ends: it returns, it throws `std::out_of_range`, or the bound on the
number of passes of its loop is used up before it returns. -/
inductive Call (α : Type) where
  | returns (a : α)
  | throws
  | unfinished
deriving DecidableEq, Repr

/-- The predicate of `vscp_ltrim` and `vscp_rtrim`: `std::isspace` in the "C"
locale. -/
def isspace (ch : Char) : Bool :=
  ch = ' ' || ch = '\t' || ch = '\n' || ch = '\x0b' || ch = '\x0c' || ch = '\r'

/-- The function `vscp_ltrim`: the string after the call. -/
def vscp_ltrim (s : List Char) : List Char := s.dropWhile isspace

/-- The function `vscp_rtrim`: the string after the call. -/
def vscp_rtrim (s : List Char) : List Char := (s.reverse.dropWhile isspace).reverse

/-- The function `vscp_trim`: the string after the call. -/
def vscp_trim (s : List Char) : List Char := vscp_rtrim (vscp_ltrim s)

/-- The index of the first place in `l` at which `d` begins, if there is one. -/
def findAt (d : List Char) : List Char → Option Nat
  | [] => if d = [] then some 0 else none
  | c :: cs => if d.isPrefixOf (c :: cs) then some 0 else (findAt d cs).map (· + 1)

/-- The call `str.find (d, pos)`: the first position from `pos` on at which `d`
begins, or `npos`. -/
def find_str (str d : List Char) (pos : Nat) : Nat :=
  if pos > str.length then npos
  else
    match findAt d (str.drop pos) with
    | some i => pos + i
    | none => npos

/-- The call `str.substr (pos, count)`: it throws when `pos` is beyond the end
(`none`) and yields at most `count` characters from `pos` on otherwise. -/
def substr_count (str : List Char) (pos count : Nat) : Option (List Char) :=
  if pos > str.length then none else some ((str.drop pos).take count)

/-- The `while` loop of `vscp_split`; the first argument bounds the number of
passes. The result is the deque on leaving the loop. -/
def vscp_split.loop (theString theDelimiter : List Char) :
    Nat → Nat → Nat → List (List Char) → Call (List (List Char))
  | 0, _, _, _ => .unfinished
  | fuel + 1, start, end_, theStringVector =>
    if end_ ≠ npos then
      let end_ := find_str theString theDelimiter start
      -- If at end, use length=maxLength.  Else use length=end-start.
      match substr_count theString start
          (if end_ = npos then npos else (end_ + 2 ^ 64 - start) % 2 ^ 64) with
      | none => .throws
      | some piece =>
        let theStringVector := theStringVector ++ [piece]
        -- If at end, use start=maxSize.  Else use start=end+delimiter.
        let start :=
          if end_ > (npos + 2 ^ 64 - theDelimiter.length) % 2 ^ 64 then npos
          else (end_ + theDelimiter.length) % 2 ^ 64
        vscp_split.loop theString theDelimiter fuel start end_ theStringVector
    else .returns theStringVector

/-- The function `vscp_split`: the deque after the call. The trimmed copy `str` is
made and not used. No pass of the loop leaves `start` where it was unless the
delimiter is empty, so `theString.length + 2` bounds the passes. -/
def vscp_split (theStringVector : List (List Char)) (theString theDelimiter : List Char) :
    Call (List (List Char)) :=
  let str := theString
  let _str := vscp_trim str
  if theString.length = 0 then .returns theStringVector
  else vscp_split.loop theString theDelimiter (theString.length + 2) 0 0 theStringVector

end VscpHelper

/-! # The calls of a session -/

namespace VscpBoot

/-- A call of one of the member functions that follow `deviceInit` in a session,
with its arguments (and the uninitialised locals and the timeout of the model). -/
inductive Op where
  | writeBlockStart (block type : Nat) (ex0 : vscpEventEx) (timeout : Nat)
  | writeChunk (mem : List Nat) (paddr size : Nat) (ex0 : vscpEventEx) (timeout : Nat)
  | writeBlock (mem : List Nat) (paddr : Nat) (rv0 : Int) (ex0 : vscpEventEx) (timeout : Nat)
  | programBlock (block : Nat) (ex0 : vscpEventEx) (timeout : Nat)
  | deviceLoad (img : CBootDevice) (heap : List Nat) (rv0 : Int) (ex0 : vscpEventEx) (timeout : Nat)
      (statusCallback bAbortOnFirmwareCodeFail : Bool)
  | checkResponse (ex : vscpEventEx) (guid : List Nat) (ack nack timeout : Nat)

/-- The call `op` on the object `s` in the world `w`: the return code, the object
after the call and the world after it. Of these functions `deviceLoad` alone has an
assignment to a member in its body (`m_checksum = 0`); the others are handed the
object and leave it as it is. -/
def Op.call (s : CBootDevice_VSCP) (w : World) : Op → Run (Int × CBootDevice_VSCP × World)
  | .writeBlockStart block type ex0 timeout =>
    match VscpBoot.writeBlockStart s w block type ex0 timeout with
    | none => .starved
    | some (rv, w) => .done (rv, s, w)
  | .writeChunk mem paddr size ex0 timeout =>
    match VscpBoot.writeChunk s w mem paddr size ex0 timeout with
    | none => .starved
    | some (rv, w) => .done (rv, s, w)
  | .writeBlock mem paddr rv0 ex0 timeout =>
    match VscpBoot.writeBlock s w mem paddr rv0 ex0 timeout with
    | .starved => .starved
    | .divisionByZero => .divisionByZero
    | .done (rv, w) => .done (rv, s, w)
  | .programBlock block ex0 timeout =>
    match VscpBoot.programBlock s w block ex0 timeout with
    | none => .starved
    | some (rv, w) => .done (rv, s, w)
  | .deviceLoad img heap rv0 ex0 timeout statusCallback bAbortOnFirmwareCodeFail =>
    VscpBoot.deviceLoad s img w heap rv0 ex0 timeout statusCallback bAbortOnFirmwareCodeFail
  | .checkResponse ex guid ack nack timeout =>
    match VscpBoot.checkResponse s w ex guid ack nack timeout with
    | none => .starved
    | some (rv, _, w) => .done (rv, s, w)

/-- The calls `ops` made one after the other on the object, whatever they return:
the object and the world after the last of them. -/
def Op.session (s : CBootDevice_VSCP) (w : World) : List Op → Run (CBootDevice_VSCP × World)
  | [] => .done (s, w)
  | op :: ops =>
    match op.call s w with
    | .starved => .starved
    | .divisionByZero => .divisionByZero
    | .done (_, s, w) => Op.session s w ops

end VscpBoot

/-! # Block cipher: lemmas -/

namespace VscpAes

theorem xtime_bit7 (x : Nat) : ((x >>> 7) &&& 1) * 0x1b = if x.testBit 7 then 0x1b else 0 := by
  rw [Nat.and_one_is_mod]
  have h : x.testBit 7 = decide ((x >>> 7) % 2 = 1) := by
    simp [Nat.testBit, Nat.and_one_is_mod, Nat.and_comm]
  rw [h]
  rcases Nat.mod_two_eq_zero_or_one (x >>> 7) with h0 | h1
  · simp [h0]
  · simp [h1]

theorem xtime_testBit (x i : Nat) :
    (xtime x).testBit i = (decide (i < 8) && ((decide (1 ≤ i) && x.testBit (i - 1)) ^^ (x.testBit 7 && (0x1b).testBit i))) := by
  unfold xtime
  rw [show (256 : Nat) = 2 ^ 8 from rfl, Nat.testBit_mod_two_pow, Nat.testBit_xor, Nat.testBit_shiftLeft, xtime_bit7]
  split <;> simp_all

theorem xtime_xor (x y : Nat) : xtime (x ^^^ y) = xtime x ^^^ xtime y := by
  apply Nat.eq_of_testBit_eq
  intro i
  simp only [xtime_testBit, Nat.testBit_xor]
  cases decide (i < 8) <;> cases decide (1 ≤ i) <;> cases x.testBit (i - 1) <;> cases y.testBit (i - 1)
    <;> cases x.testBit 7 <;> cases y.testBit 7 <;> cases (0x1b).testBit i <;> rfl

theorem xtime_lt (x : Nat) : xtime x < 256 := by
  unfold xtime; omega

theorem Multiply_0e (x : Nat) : Multiply x 0x0e = xtime x ^^^ xtime (xtime x) ^^^ xtime (xtime (xtime x)) := by
  simp [Multiply]
theorem Multiply_0b (x : Nat) : Multiply x 0x0b = x ^^^ xtime x ^^^ xtime (xtime (xtime x)) := by
  simp [Multiply]
theorem Multiply_0d (x : Nat) : Multiply x 0x0d = x ^^^ xtime (xtime x) ^^^ xtime (xtime (xtime x)) := by
  simp [Multiply]
theorem Multiply_09 (x : Nat) : Multiply x 0x09 = x ^^^ xtime (xtime (xtime x)) := by
  simp [Multiply]

theorem range4 : List.range 4 = [0, 1, 2, 3] := rfl

theorem SubBytes_16 (a0 a1 a2 a3 a4 a5 a6 a7 a8 a9 a10 a11 a12 a13 a14 a15 : Nat) :
    SubBytes [a0, a1, a2, a3, a4, a5, a6, a7, a8, a9, a10, a11, a12, a13, a14, a15] =
      [a0, a1, a2, a3, a4, a5, a6, a7, a8, a9, a10, a11, a12, a13, a14, a15].map getSBoxValue := by
  simp [SubBytes, range4, setS, getS]

theorem AddRoundKey_16 (st : aes_state_t) (r : Nat) (a0 a1 a2 a3 a4 a5 a6 a7 a8 a9 a10 a11 a12 a13 a14 a15 : Nat) :
    AddRoundKey st r [a0, a1, a2, a3, a4, a5, a6, a7, a8, a9, a10, a11, a12, a13, a14, a15] =
      [a0 ^^^ st.RoundKey.getD (r * 16 + 0) 0, a1 ^^^ st.RoundKey.getD (r * 16 + 1) 0,
       a2 ^^^ st.RoundKey.getD (r * 16 + 2) 0, a3 ^^^ st.RoundKey.getD (r * 16 + 3) 0,
       a4 ^^^ st.RoundKey.getD (r * 16 + 4) 0, a5 ^^^ st.RoundKey.getD (r * 16 + 5) 0,
       a6 ^^^ st.RoundKey.getD (r * 16 + 6) 0, a7 ^^^ st.RoundKey.getD (r * 16 + 7) 0,
       a8 ^^^ st.RoundKey.getD (r * 16 + 8) 0, a9 ^^^ st.RoundKey.getD (r * 16 + 9) 0,
       a10 ^^^ st.RoundKey.getD (r * 16 + 10) 0, a11 ^^^ st.RoundKey.getD (r * 16 + 11) 0,
       a12 ^^^ st.RoundKey.getD (r * 16 + 12) 0, a13 ^^^ st.RoundKey.getD (r * 16 + 13) 0,
       a14 ^^^ st.RoundKey.getD (r * 16 + 14) 0, a15 ^^^ st.RoundKey.getD (r * 16 + 15) 0] := by
  simp [AddRoundKey, range4, setS, getS, Nb, Nat.mul_assoc, Nat.add_assoc]

theorem MixColumns_16 (a0 a1 a2 a3 a4 a5 a6 a7 a8 a9 a10 a11 a12 a13 a14 a15 : Nat) :
    MixColumns [a0, a1, a2, a3, a4, a5, a6, a7, a8, a9, a10, a11, a12, a13, a14, a15] =
      [mixCol0 a0 a1 a2 a3, mixCol1 a0 a1 a2 a3, mixCol2 a0 a1 a2 a3, mixCol3 a0 a1 a2 a3,
       mixCol0 a4 a5 a6 a7, mixCol1 a4 a5 a6 a7, mixCol2 a4 a5 a6 a7, mixCol3 a4 a5 a6 a7,
       mixCol0 a8 a9 a10 a11, mixCol1 a8 a9 a10 a11, mixCol2 a8 a9 a10 a11, mixCol3 a8 a9 a10 a11,
       mixCol0 a12 a13 a14 a15, mixCol1 a12 a13 a14 a15, mixCol2 a12 a13 a14 a15, mixCol3 a12 a13 a14 a15] := by
  simp [MixColumns, range4, setS, getS, mixCol0, mixCol1, mixCol2, mixCol3]

theorem InvMixColumns_16 (a0 a1 a2 a3 a4 a5 a6 a7 a8 a9 a10 a11 a12 a13 a14 a15 : Nat) :
    InvMixColumns [a0, a1, a2, a3, a4, a5, a6, a7, a8, a9, a10, a11, a12, a13, a14, a15] =
      [invMixCol0 a0 a1 a2 a3, invMixCol1 a0 a1 a2 a3, invMixCol2 a0 a1 a2 a3, invMixCol3 a0 a1 a2 a3,
       invMixCol0 a4 a5 a6 a7, invMixCol1 a4 a5 a6 a7, invMixCol2 a4 a5 a6 a7, invMixCol3 a4 a5 a6 a7,
       invMixCol0 a8 a9 a10 a11, invMixCol1 a8 a9 a10 a11, invMixCol2 a8 a9 a10 a11, invMixCol3 a8 a9 a10 a11,
       invMixCol0 a12 a13 a14 a15, invMixCol1 a12 a13 a14 a15, invMixCol2 a12 a13 a14 a15, invMixCol3 a12 a13 a14 a15] := by
  simp [InvMixColumns, range4, setS, getS, invMixCol0, invMixCol1, invMixCol2, invMixCol3]

theorem xor_left_comm (a b c : Nat) : a ^^^ (b ^^^ c) = b ^^^ (a ^^^ c) := by
  rw [← Nat.xor_assoc, ← Nat.xor_assoc, Nat.xor_comm a b]

theorem list16 {α : Type} (s : List α) (h : s.length = 16) :
    ∃ a0 a1 a2 a3 a4 a5 a6 a7 a8 a9 a10 a11 a12 a13 a14 a15,
      s = [a0, a1, a2, a3, a4, a5, a6, a7, a8, a9, a10, a11, a12, a13, a14, a15] := by
  match s, h with
  | [a0, a1, a2, a3, a4, a5, a6, a7, a8, a9, a10, a11, a12, a13, a14, a15], _ =>
    exact ⟨a0, a1, a2, a3, a4, a5, a6, a7, a8, a9, a10, a11, a12, a13, a14, a15, rfl⟩

theorem ShiftRows_16 (a0 a1 a2 a3 a4 a5 a6 a7 a8 a9 a10 a11 a12 a13 a14 a15 : Nat) :
    ShiftRows [a0, a1, a2, a3, a4, a5, a6, a7, a8, a9, a10, a11, a12, a13, a14, a15] =
      [a0, a5, a10, a15, a4, a9, a14, a3, a8, a13, a2, a7, a12, a1, a6, a11] := rfl

theorem InvShiftRows_16 (a0 a1 a2 a3 a4 a5 a6 a7 a8 a9 a10 a11 a12 a13 a14 a15 : Nat) :
    InvShiftRows [a0, a1, a2, a3, a4, a5, a6, a7, a8, a9, a10, a11, a12, a13, a14, a15] =
      [a0, a13, a10, a7, a4, a1, a14, a11, a8, a5, a2, a15, a12, a9, a6, a3] := rfl

theorem bytes_nil : bytes [] := by simp [bytes]

theorem bytes_cons (a : Nat) (l : List Nat) : bytes (a :: l) ↔ a < 256 ∧ bytes l := by
  simp [bytes]

theorem bytes_append (l m : List Nat) : bytes (l ++ m) ↔ bytes l ∧ bytes m := by
  simp only [bytes, List.mem_append]
  constructor
  · intro h; exact ⟨fun x hx => h x (Or.inl hx), fun x hx => h x (Or.inr hx)⟩
  · rintro ⟨h1, h2⟩ x (hx | hx)
    · exact h1 x hx
    · exact h2 x hx

theorem sbox_table : ∀ n < 256, getSBoxValue n < 256 ∧ getSBoxInvert (getSBoxValue n) = n := by
  decide!

theorem getSBoxValue_lt (n : Nat) : getSBoxValue n < 256 := by
  by_cases h : n < 256
  · exact (sbox_table n h).1
  · have hl : sbox.length = 256 := by decide!
    have : sbox.length ≤ n := by omega
    unfold getSBoxValue
    rw [List.getD_eq_default _ _ this]
    decide

theorem Multiply_xor (x y c : Nat) : Multiply (x ^^^ y) c = Multiply x c ^^^ Multiply y c := by
  have bit : ∀ t : Nat, t &&& 1 = 0 ∨ t &&& 1 = 1 := by
    intro t; rw [Nat.and_one_is_mod]; exact Nat.mod_two_eq_zero_or_one t
  unfold Multiply
  simp only [xtime_xor]
  rcases bit c with h0 | h0 <;> rcases bit (c >>> 1) with h1 | h1 <;> rcases bit (c >>> 2) with h2 | h2 <;>
    rcases bit (c >>> 3) with h3 | h3 <;> rcases bit (c >>> 4) with h4 | h4 <;>
    simp only [h0, h1, h2, h3, h4, Nat.zero_mul, Nat.one_mul, Nat.xor_zero, Nat.zero_xor] <;> ac_rfl

/-- Regrouping of one output byte of `InvMixColumns` after `MixColumns` by input byte. -/
theorem invMix_regroup (a b c d c0 c1 c2 c3 : Nat) :
    Multiply (xtime a ^^^ (xtime b ^^^ b) ^^^ c ^^^ d) c0 ^^^
      Multiply (a ^^^ xtime b ^^^ (xtime c ^^^ c) ^^^ d) c1 ^^^
      Multiply (a ^^^ b ^^^ xtime c ^^^ (xtime d ^^^ d)) c2 ^^^
      Multiply (xtime a ^^^ a ^^^ b ^^^ c ^^^ xtime d) c3 =
    (Multiply (xtime a) c0 ^^^ Multiply a c1 ^^^ Multiply a c2 ^^^ (Multiply (xtime a) c3 ^^^ Multiply a c3)) ^^^
    ((Multiply (xtime b) c0 ^^^ Multiply b c0) ^^^ Multiply (xtime b) c1 ^^^ Multiply b c2 ^^^ Multiply b c3) ^^^
    (Multiply c c0 ^^^ (Multiply (xtime c) c1 ^^^ Multiply c c1) ^^^ Multiply (xtime c) c2 ^^^ Multiply c c3) ^^^
    (Multiply d c0 ^^^ Multiply d c1 ^^^ (Multiply (xtime d) c2 ^^^ Multiply d c2) ^^^ Multiply (xtime d) c3) := by
  simp only [Multiply_xor]
  ac_rfl

/-- Row 0 of the inverse matrix against the four columns of the forward matrix. -/
theorem invMix_row0 (x : Nat) :
    (Multiply (xtime x) 0x0e ^^^ Multiply x 0x0b ^^^ Multiply x 0x0d ^^^ (Multiply (xtime x) 0x09 ^^^ Multiply x 0x09) = x) ∧
    ((Multiply (xtime x) 0x0e ^^^ Multiply x 0x0e) ^^^ Multiply (xtime x) 0x0b ^^^ Multiply x 0x0d ^^^ Multiply x 0x09 = 0) ∧
    (Multiply x 0x0e ^^^ (Multiply (xtime x) 0x0b ^^^ Multiply x 0x0b) ^^^ Multiply (xtime x) 0x0d ^^^ Multiply x 0x09 = 0) ∧
    (Multiply x 0x0e ^^^ Multiply x 0x0b ^^^ (Multiply (xtime x) 0x0d ^^^ Multiply x 0x0d) ^^^ Multiply (xtime x) 0x09 = 0) := by
  simp only [Multiply_0e, Multiply_0b, Multiply_0d, Multiply_09, xtime_xor]
  refine ⟨?_, ?_, ?_, ?_⟩ <;>
    simp only [Nat.xor_assoc, Nat.xor_comm, xor_left_comm, Nat.xor_cancel_left, Nat.xor_self, Nat.xor_zero]

/-- Row 1 of the inverse matrix against the four columns of the forward matrix. -/
theorem invMix_row1 (x : Nat) :
    (Multiply (xtime x) 0x09 ^^^ Multiply x 0x0e ^^^ Multiply x 0x0b ^^^ (Multiply (xtime x) 0x0d ^^^ Multiply x 0x0d) = 0) ∧
    ((Multiply (xtime x) 0x09 ^^^ Multiply x 0x09) ^^^ Multiply (xtime x) 0x0e ^^^ Multiply x 0x0b ^^^ Multiply x 0x0d = x) ∧
    (Multiply x 0x09 ^^^ (Multiply (xtime x) 0x0e ^^^ Multiply x 0x0e) ^^^ Multiply (xtime x) 0x0b ^^^ Multiply x 0x0d = 0) ∧
    (Multiply x 0x09 ^^^ Multiply x 0x0e ^^^ (Multiply (xtime x) 0x0b ^^^ Multiply x 0x0b) ^^^ Multiply (xtime x) 0x0d = 0) := by
  simp only [Multiply_0e, Multiply_0b, Multiply_0d, Multiply_09, xtime_xor]
  refine ⟨?_, ?_, ?_, ?_⟩ <;>
    simp only [Nat.xor_assoc, Nat.xor_comm, xor_left_comm, Nat.xor_cancel_left, Nat.xor_self, Nat.xor_zero]

/-- Row 2 of the inverse matrix against the four columns of the forward matrix. -/
theorem invMix_row2 (x : Nat) :
    (Multiply (xtime x) 0x0d ^^^ Multiply x 0x09 ^^^ Multiply x 0x0e ^^^ (Multiply (xtime x) 0x0b ^^^ Multiply x 0x0b) = 0) ∧
    ((Multiply (xtime x) 0x0d ^^^ Multiply x 0x0d) ^^^ Multiply (xtime x) 0x09 ^^^ Multiply x 0x0e ^^^ Multiply x 0x0b = 0) ∧
    (Multiply x 0x0d ^^^ (Multiply (xtime x) 0x09 ^^^ Multiply x 0x09) ^^^ Multiply (xtime x) 0x0e ^^^ Multiply x 0x0b = x) ∧
    (Multiply x 0x0d ^^^ Multiply x 0x09 ^^^ (Multiply (xtime x) 0x0e ^^^ Multiply x 0x0e) ^^^ Multiply (xtime x) 0x0b = 0) := by
  simp only [Multiply_0e, Multiply_0b, Multiply_0d, Multiply_09, xtime_xor]
  refine ⟨?_, ?_, ?_, ?_⟩ <;>
    simp only [Nat.xor_assoc, Nat.xor_comm, xor_left_comm, Nat.xor_cancel_left, Nat.xor_self, Nat.xor_zero]

/-- Row 3 of the inverse matrix against the four columns of the forward matrix. -/
theorem invMix_row3 (x : Nat) :
    (Multiply (xtime x) 0x0b ^^^ Multiply x 0x0d ^^^ Multiply x 0x09 ^^^ (Multiply (xtime x) 0x0e ^^^ Multiply x 0x0e) = 0) ∧
    ((Multiply (xtime x) 0x0b ^^^ Multiply x 0x0b) ^^^ Multiply (xtime x) 0x0d ^^^ Multiply x 0x09 ^^^ Multiply x 0x0e = 0) ∧
    (Multiply x 0x0b ^^^ (Multiply (xtime x) 0x0d ^^^ Multiply x 0x0d) ^^^ Multiply (xtime x) 0x09 ^^^ Multiply x 0x0e = 0) ∧
    (Multiply x 0x0b ^^^ Multiply x 0x0d ^^^ (Multiply (xtime x) 0x09 ^^^ Multiply x 0x09) ^^^ Multiply (xtime x) 0x0e = x) := by
  simp only [Multiply_0e, Multiply_0b, Multiply_0d, Multiply_09, xtime_xor]
  refine ⟨?_, ?_, ?_, ?_⟩ <;>
    simp only [Nat.xor_assoc, Nat.xor_comm, xor_left_comm, Nat.xor_cancel_left, Nat.xor_self, Nat.xor_zero]

theorem mixColumn_inverse (a b c d : Nat) :
    invMixCol0 (mixCol0 a b c d) (mixCol1 a b c d) (mixCol2 a b c d) (mixCol3 a b c d) = a ∧
    invMixCol1 (mixCol0 a b c d) (mixCol1 a b c d) (mixCol2 a b c d) (mixCol3 a b c d) = b ∧
    invMixCol2 (mixCol0 a b c d) (mixCol1 a b c d) (mixCol2 a b c d) (mixCol3 a b c d) = c ∧
    invMixCol3 (mixCol0 a b c d) (mixCol1 a b c d) (mixCol2 a b c d) (mixCol3 a b c d) = d := by
  have n0 : mixCol0 a b c d = xtime a ^^^ (xtime b ^^^ b) ^^^ c ^^^ d := by
    simp only [mixCol0, xtime_xor]
    simp only [Nat.xor_assoc, Nat.xor_comm, xor_left_comm, Nat.xor_cancel_left, Nat.xor_self, Nat.xor_zero]
  have n1 : mixCol1 a b c d = a ^^^ xtime b ^^^ (xtime c ^^^ c) ^^^ d := by
    simp only [mixCol1, xtime_xor]
    simp only [Nat.xor_assoc, Nat.xor_comm, xor_left_comm, Nat.xor_cancel_left, Nat.xor_self, Nat.xor_zero]
  have n2 : mixCol2 a b c d = a ^^^ b ^^^ xtime c ^^^ (xtime d ^^^ d) := by
    simp only [mixCol2, xtime_xor]
    simp only [Nat.xor_assoc, Nat.xor_comm, xor_left_comm, Nat.xor_cancel_left, Nat.xor_self, Nat.xor_zero]
  have n3 : mixCol3 a b c d = xtime a ^^^ a ^^^ b ^^^ c ^^^ xtime d := by
    simp only [mixCol3, xtime_xor]
    simp only [Nat.xor_assoc, Nat.xor_comm, xor_left_comm, Nat.xor_cancel_left, Nat.xor_self, Nat.xor_zero]
  rw [n0, n1, n2, n3]
  refine ⟨?_, ?_, ?_, ?_⟩
  · rw [invMixCol0, invMix_regroup, (invMix_row0 a).1, (invMix_row0 b).2.1, (invMix_row0 c).2.2.1,
      (invMix_row0 d).2.2.2]
    simp
  · rw [invMixCol1, invMix_regroup, (invMix_row1 a).1, (invMix_row1 b).2.1, (invMix_row1 c).2.2.1,
      (invMix_row1 d).2.2.2]
    simp
  · rw [invMixCol2, invMix_regroup, (invMix_row2 a).1, (invMix_row2 b).2.1, (invMix_row2 c).2.2.1,
      (invMix_row2 d).2.2.2]
    simp
  · rw [invMixCol3, invMix_regroup, (invMix_row3 a).1, (invMix_row3 b).2.1, (invMix_row3 c).2.2.1,
      (invMix_row3 d).2.2.2]
    simp

theorem SubBytes_length (s : List Nat) (h : s.length = 16) : (SubBytes s).length = 16 := by
  obtain ⟨a0, a1, a2, a3, a4, a5, a6, a7, a8, a9, a10, a11, a12, a13, a14, a15, rfl⟩ := list16 s h
  simp [SubBytes_16]

theorem SubBytes_block (s : List Nat) (h : s.length = 16) : isBlock (SubBytes s) := by
  obtain ⟨a0, a1, a2, a3, a4, a5, a6, a7, a8, a9, a10, a11, a12, a13, a14, a15, rfl⟩ := list16 s h
  simp [SubBytes_16, isBlock, getSBoxValue_lt, bytes_cons, bytes_nil]

theorem InvSubBytes_16 (a0 a1 a2 a3 a4 a5 a6 a7 a8 a9 a10 a11 a12 a13 a14 a15 : Nat) :
    InvSubBytes [a0, a1, a2, a3, a4, a5, a6, a7, a8, a9, a10, a11, a12, a13, a14, a15] =
      [a0, a1, a2, a3, a4, a5, a6, a7, a8, a9, a10, a11, a12, a13, a14, a15].map getSBoxInvert := by
  simp [InvSubBytes, range4, setS, getS]

theorem InvSubBytes_SubBytes (s : List Nat) (h : isBlock s) : InvSubBytes (SubBytes s) = s := by
  obtain ⟨hl, hb⟩ := h
  obtain ⟨a0, a1, a2, a3, a4, a5, a6, a7, a8, a9, a10, a11, a12, a13, a14, a15, rfl⟩ := list16 s hl
  simp only [bytes_cons, bytes_nil, and_true] at hb
  obtain ⟨h0, h1, h2, h3, h4, h5, h6, h7, h8, h9, h10, h11, h12, h13, h14, h15⟩ := hb
  simp [SubBytes_16, InvSubBytes_16, (sbox_table _ h0).2, (sbox_table _ h1).2, (sbox_table _ h2).2,
    (sbox_table _ h3).2, (sbox_table _ h4).2, (sbox_table _ h5).2, (sbox_table _ h6).2, (sbox_table _ h7).2,
    (sbox_table _ h8).2, (sbox_table _ h9).2, (sbox_table _ h10).2, (sbox_table _ h11).2,
    (sbox_table _ h12).2, (sbox_table _ h13).2, (sbox_table _ h14).2, (sbox_table _ h15).2]

theorem ShiftRows_block (s : List Nat) (h : isBlock s) : isBlock (ShiftRows s) := by
  obtain ⟨hl, hb⟩ := h
  obtain ⟨a0, a1, a2, a3, a4, a5, a6, a7, a8, a9, a10, a11, a12, a13, a14, a15, rfl⟩ := list16 s hl
  simp only [bytes_cons, bytes_nil, and_true] at hb
  simp only [ShiftRows_16, isBlock, bytes_cons, bytes_nil, and_true, List.length_cons, List.length_nil]
  tauto

theorem InvShiftRows_ShiftRows (s : List Nat) (h : s.length = 16) : InvShiftRows (ShiftRows s) = s := by
  obtain ⟨a0, a1, a2, a3, a4, a5, a6, a7, a8, a9, a10, a11, a12, a13, a14, a15, rfl⟩ := list16 s h
  rw [ShiftRows_16, InvShiftRows_16]

theorem mixCol_lt (a b c d : Nat) (ha : a < 256) (hb : b < 256) (hc : c < 256) (hd : d < 256) :
    mixCol0 a b c d < 256 ∧ mixCol1 a b c d < 256 ∧ mixCol2 a b c d < 256 ∧ mixCol3 a b c d < 256 := by
  have X : ∀ x y : Nat, x < 256 → y < 256 → x ^^^ y < 256 := fun x y hx hy =>
    Nat.xor_lt_two_pow (n := 8) hx hy
  have T : a ^^^ b ^^^ c ^^^ d < 256 := X _ _ (X _ _ (X _ _ ha hb) hc) hd
  exact ⟨X _ _ ha (X _ _ (xtime_lt _) T), X _ _ hb (X _ _ (xtime_lt _) T),
    X _ _ hc (X _ _ (xtime_lt _) T), X _ _ hd (X _ _ (xtime_lt _) T)⟩

theorem MixColumns_block (s : List Nat) (h : isBlock s) : isBlock (MixColumns s) := by
  obtain ⟨hl, hb⟩ := h
  obtain ⟨a0, a1, a2, a3, a4, a5, a6, a7, a8, a9, a10, a11, a12, a13, a14, a15, rfl⟩ := list16 s hl
  simp only [bytes_cons, bytes_nil, and_true] at hb
  obtain ⟨h0, h1, h2, h3, h4, h5, h6, h7, h8, h9, h10, h11, h12, h13, h14, h15⟩ := hb
  have c0 := mixCol_lt a0 a1 a2 a3 h0 h1 h2 h3
  have c1 := mixCol_lt a4 a5 a6 a7 h4 h5 h6 h7
  have c2 := mixCol_lt a8 a9 a10 a11 h8 h9 h10 h11
  have c3 := mixCol_lt a12 a13 a14 a15 h12 h13 h14 h15
  simp only [MixColumns_16, isBlock, bytes_cons, bytes_nil, and_true, List.length_cons, List.length_nil]
  tauto

theorem InvMixColumns_MixColumns (s : List Nat) (h : s.length = 16) :
    InvMixColumns (MixColumns s) = s := by
  obtain ⟨a0, a1, a2, a3, a4, a5, a6, a7, a8, a9, a10, a11, a12, a13, a14, a15, rfl⟩ := list16 s h
  have c0 := mixColumn_inverse a0 a1 a2 a3
  have c1 := mixColumn_inverse a4 a5 a6 a7
  have c2 := mixColumn_inverse a8 a9 a10 a11
  have c3 := mixColumn_inverse a12 a13 a14 a15
  rw [MixColumns_16, InvMixColumns_16, c0.1, c0.2.1, c0.2.2.1, c0.2.2.2, c1.1, c1.2.1, c1.2.2.1, c1.2.2.2,
    c2.1, c2.2.1, c2.2.2.1, c2.2.2.2, c3.1, c3.2.1, c3.2.2.1, c3.2.2.2]

theorem getD_lt (l : List Nat) (h : bytes l) (i : Nat) : l.getD i 0 < 256 := by
  rw [List.getD_eq_getElem?_getD]
  cases hi : l[i]? with
  | none => simp
  | some v => simpa using h v (List.getElem?_mem hi)

theorem AddRoundKey_block (st : aes_state_t) (r : Nat) (s : List Nat) (hk : bytes st.RoundKey)
    (h : isBlock s) : isBlock (AddRoundKey st r s) := by
  obtain ⟨hl, hb⟩ := h
  obtain ⟨a0, a1, a2, a3, a4, a5, a6, a7, a8, a9, a10, a11, a12, a13, a14, a15, rfl⟩ := list16 s hl
  simp only [bytes_cons, bytes_nil, and_true] at hb
  obtain ⟨h0, h1, h2, h3, h4, h5, h6, h7, h8, h9, h10, h11, h12, h13, h14, h15⟩ := hb
  have X : ∀ x i : Nat, x < 256 → x ^^^ st.RoundKey.getD i 0 < 256 := fun x i hx =>
    Nat.xor_lt_two_pow (n := 8) hx (getD_lt _ hk i)
  simp only [AddRoundKey_16, isBlock, bytes_cons, bytes_nil, and_true, List.length_cons, List.length_nil]
  exact ⟨trivial, X _ _ h0, X _ _ h1, X _ _ h2, X _ _ h3, X _ _ h4, X _ _ h5, X _ _ h6, X _ _ h7, X _ _ h8,
    X _ _ h9, X _ _ h10, X _ _ h11, X _ _ h12, X _ _ h13, X _ _ h14, X _ _ h15⟩

theorem AddRoundKey_AddRoundKey (st : aes_state_t) (r : Nat) (s : List Nat) (h : s.length = 16) :
    AddRoundKey st r (AddRoundKey st r s) = s := by
  obtain ⟨a0, a1, a2, a3, a4, a5, a6, a7, a8, a9, a10, a11, a12, a13, a14, a15, rfl⟩ := list16 s h
  simp [AddRoundKey_16, Nat.xor_cancel_right]

/-- The rounds `1, 2, .., n` in the order `Cipher` runs them. -/
theorem rounds_loop (st : aes_state_t) (hk : bytes st.RoundKey) (L : List Nat) :
    ∀ s, isBlock s →
      isBlock (L.foldl (Cipher.round st) s) ∧
      L.reverse.foldl (InvCipher.round st) (ShiftRows (SubBytes (L.foldl (Cipher.round st) s))) =
        ShiftRows (SubBytes s) := by
  induction L with
  | nil =>
    intro s hs
    simp only [List.foldl_nil, List.reverse_nil]
    exact ⟨hs, trivial⟩
  | cons r L ih =>
    intro s hs
    have h1 : isBlock (SubBytes s) := SubBytes_block s hs.1
    have h2 : isBlock (ShiftRows (SubBytes s)) := ShiftRows_block _ h1
    have h3 : isBlock (MixColumns (ShiftRows (SubBytes s))) := MixColumns_block _ h2
    have h4 : isBlock (Cipher.round st s r) := AddRoundKey_block st r _ hk h3
    obtain ⟨ihb, ihe⟩ := ih (Cipher.round st s r) h4
    refine ⟨by simpa using ihb, ?_⟩
    simp only [List.reverse_cons, List.foldl_append, List.foldl_cons, List.foldl_nil]
    rw [ihe]
    simp only [InvCipher.round]
    rw [InvShiftRows_ShiftRows _ (SubBytes_block _ h4.1).1, InvSubBytes_SubBytes _ h4]
    unfold Cipher.round
    rw [AddRoundKey_AddRoundKey _ _ _ h3.1, InvMixColumns_MixColumns _ h2.1]

theorem InvCipher_Cipher (st : aes_state_t) (hk : bytes st.RoundKey) (h1 : 1 ≤ st.Nr) (h2 : st.Nr ≤ 255)
    (s : List Nat) (hs : isBlock s) : InvCipher st (Cipher st s) = s := by
  have hr : (st.Nr + 255) % 256 = st.Nr - 1 := by omega
  have h0 : isBlock (AddRoundKey st 0 s) := AddRoundKey_block st 0 s hk hs
  obtain ⟨hb, he⟩ := rounds_loop st hk ((List.range (st.Nr - 1)).map (· + 1)) _ h0
  have hc : isBlock (ShiftRows (SubBytes
      (((List.range (st.Nr - 1)).map (· + 1)).foldl (Cipher.round st) (AddRoundKey st 0 s)))) :=
    ShiftRows_block _ (SubBytes_block _ hb.1)
  unfold InvCipher Cipher
  simp only [hr]
  rw [AddRoundKey_AddRoundKey _ _ _ hc.1, he, InvShiftRows_ShiftRows _ (SubBytes_block _ h0.1).1,
    InvSubBytes_SubBytes _ h0, AddRoundKey_AddRoundKey _ _ _ hs.1]

theorem Cipher_block (st : aes_state_t) (hk : bytes st.RoundKey) (s : List Nat) (hs : isBlock s) :
    isBlock (Cipher st s) := by
  have h0 : isBlock (AddRoundKey st 0 s) := AddRoundKey_block st 0 s hk hs
  obtain ⟨hb, _⟩ := rounds_loop st hk ((List.range (st.Nr - 1)).map (· + 1)) _ h0
  exact AddRoundKey_block st _ _ hk (ShiftRows_block _ (SubBytes_block _ hb.1))

theorem Agree.getD {m : Nat} {a b : List Nat} (h : Agree m a b) (i : Nat) (hi : i < m) :
    a.getD i 0 = b.getD i 0 := by
  obtain ⟨ha, hb, e⟩ := h
  have h1 : (a.take m).getD i 0 = a.getD i 0 := by
    simp [List.getD_eq_getElem?_getD, List.getElem?_take, hi]
  have h2 : (b.take m).getD i 0 = b.getD i 0 := by
    simp [List.getD_eq_getElem?_getD, List.getElem?_take, hi]
  rw [← h1, ← h2, e]

theorem Agree.set {m : Nat} {a b : List Nat} (h : Agree m a b) (j : Nat) (va vb : Nat) (hj : j = m)
    (hv : va = vb) (ha : m < a.length) (hb : m < b.length) :
    Agree (m + 1) (a.set j va) (b.set j vb) := by
  obtain ⟨_, _, e⟩ := h
  subst hj hv
  refine ⟨by simpa using ha, by simpa using hb, ?_⟩
  have key : ∀ l : List Nat, j < l.length → (l.set j va).take (j + 1) = l.take j ++ [va] := by
    intro l hl
    rw [List.set_eq_take_append_cons_drop, if_pos hl, List.take_append_eq_append_take]
    simp [List.length_take, Nat.min_eq_left (Nat.le_of_lt hl)]
  rw [key a ha, key b hb, e]

theorem Agree.zero (a b : List Nat) : Agree 0 a b := by
  simp [Agree]

/-- Four consecutive stores, each value computed from the bytes already stored. -/
theorem write4_agree (i : Nat) (a b : List Nat) (f0 f1 f2 f3 : List Nat → Nat)
    (h : Agree (i * 4) a b) (ha : i * 4 + 4 ≤ a.length) (hb : i * 4 + 4 ≤ b.length)
    (h0 : ∀ x y, Agree (i * 4) x y → f0 x = f0 y)
    (h1 : ∀ x y, Agree (i * 4 + 1) x y → f1 x = f1 y)
    (h2 : ∀ x y, Agree (i * 4 + 1 + 1) x y → f2 x = f2 y)
    (h3 : ∀ x y, Agree (i * 4 + 1 + 1 + 1) x y → f3 x = f3 y) :
    Agree ((i + 1) * 4)
      (let r := a.set (i * 4 + 0) (f0 a)
       let r := r.set (i * 4 + 1) (f1 r)
       let r := r.set (i * 4 + 2) (f2 r)
       r.set (i * 4 + 3) (f3 r))
      (let r := b.set (i * 4 + 0) (f0 b)
       let r := r.set (i * 4 + 1) (f1 r)
       let r := r.set (i * 4 + 2) (f2 r)
       r.set (i * 4 + 3) (f3 r)) := by
  have s1 := h.set (i * 4 + 0) (f0 a) (f0 b) rfl (h0 _ _ h) (by omega) (by omega)
  have s2 := s1.set (i * 4 + 1) (f1 _) (f1 _) rfl (h1 _ _ s1) (by simp; omega) (by simp; omega)
  have s3 := s2.set (i * 4 + 2) (f2 _) (f2 _) rfl (h2 _ _ s2) (by simp; omega) (by simp; omega)
  have s4 := s3.set (i * 4 + 3) (f3 _) (f3 _) rfl (h3 _ _ s3) (by simp; omega) (by simp; omega)
  have e : (i + 1) * 4 = i * 4 + 1 + 1 + 1 + 1 := by omega
  rw [e]
  exact s4

theorem copyWord_agree (Key a b : List Nat) (i : Nat) (h : Agree (i * 4) a b)
    (ha : i * 4 + 4 ≤ a.length) (hb : i * 4 + 4 ≤ b.length) :
    Agree ((i + 1) * 4) (KeyExpansion.copyWord Key a i) (KeyExpansion.copyWord Key b i) :=
  write4_agree i a b (fun _ => Key.getD (i * 4 + 0) 0) (fun _ => Key.getD (i * 4 + 1) 0)
    (fun _ => Key.getD (i * 4 + 2) 0) (fun _ => Key.getD (i * 4 + 3) 0) h ha hb
    (fun _ _ _ => rfl) (fun _ _ _ => rfl) (fun _ _ _ => rfl) (fun _ _ _ => rfl)

theorem tempa_agree (ty Nk i : Nat) (a b : List Nat) (h : Agree (i * 4) a b) (hi : 1 ≤ i) :
    KeyExpansion.tempa ty Nk a i = KeyExpansion.tempa ty Nk b i := by
  unfold KeyExpansion.tempa
  rw [h.getD ((i - 1) * 4 + 0) (by omega), h.getD ((i - 1) * 4 + 1) (by omega),
    h.getD ((i - 1) * 4 + 2) (by omega), h.getD ((i - 1) * 4 + 3) (by omega)]

theorem nextWord_agree (ty Nk i : Nat) (a b : List Nat) (h : Agree (i * 4) a b) (hNk : 1 ≤ Nk)
    (hi : Nk ≤ i) (ha : i * 4 + 4 ≤ a.length) (hb : i * 4 + 4 ≤ b.length) :
    Agree ((i + 1) * 4) (KeyExpansion.nextWord ty Nk a i) (KeyExpansion.nextWord ty Nk b i) := by
  unfold KeyExpansion.nextWord
  rw [tempa_agree ty Nk i a b h (by omega)]
  generalize KeyExpansion.tempa ty Nk b i = t
  exact write4_agree i a b (fun rk => rk.getD ((i - Nk) * 4 + 0) 0 ^^^ t.1)
    (fun rk => rk.getD ((i - Nk) * 4 + 1) 0 ^^^ t.2.1) (fun rk => rk.getD ((i - Nk) * 4 + 2) 0 ^^^ t.2.2.1)
    (fun rk => rk.getD ((i - Nk) * 4 + 3) 0 ^^^ t.2.2.2) h ha hb
    (fun x y hxy => by simp only; rw [hxy.getD _ (by omega)])
    (fun x y hxy => by simp only; rw [hxy.getD _ (by omega)])
    (fun x y hxy => by simp only; rw [hxy.getD _ (by omega)])
    (fun x y hxy => by simp only; rw [hxy.getD _ (by omega)])

theorem copyWord_length (Key a : List Nat) (i : Nat) :
    (KeyExpansion.copyWord Key a i).length = a.length := by
  simp [KeyExpansion.copyWord]

theorem nextWord_length (ty Nk i : Nat) (a : List Nat) :
    (KeyExpansion.nextWord ty Nk a i).length = a.length := by
  simp [KeyExpansion.nextWord]

theorem copyLoop_agree (Key a b : List Nat) (n : Nat) (ha : n * 4 ≤ a.length) (hb : n * 4 ≤ b.length) :
    Agree (n * 4) ((List.range n).foldl (KeyExpansion.copyWord Key) a)
      ((List.range n).foldl (KeyExpansion.copyWord Key) b) ∧
    ((List.range n).foldl (KeyExpansion.copyWord Key) a).length = a.length ∧
    ((List.range n).foldl (KeyExpansion.copyWord Key) b).length = b.length := by
  induction n with
  | zero => simp [Agree.zero]
  | succ n ih =>
    obtain ⟨h1, h2, h3⟩ := ih (by omega) (by omega)
    rw [List.range_succ, List.foldl_append, List.foldl_append]
    simp only [List.foldl_cons, List.foldl_nil]
    refine ⟨copyWord_agree Key _ _ n h1 (by omega) (by omega), ?_, ?_⟩
    · rw [copyWord_length]; exact h2
    · rw [copyWord_length]; exact h3

theorem nextLoop_agree (ty Nk : Nat) (hNk : 1 ≤ Nk) (a b : List Nat) (h : Agree (Nk * 4) a b) (n : Nat)
    (ha : (Nk + n) * 4 ≤ a.length) (hb : (Nk + n) * 4 ≤ b.length) :
    Agree ((Nk + n) * 4)
      ((List.range n).foldl (fun rk n => KeyExpansion.nextWord ty Nk rk (Nk + n)) a)
      ((List.range n).foldl (fun rk n => KeyExpansion.nextWord ty Nk rk (Nk + n)) b) ∧
    ((List.range n).foldl (fun rk n => KeyExpansion.nextWord ty Nk rk (Nk + n)) a).length = a.length ∧
    ((List.range n).foldl (fun rk n => KeyExpansion.nextWord ty Nk rk (Nk + n)) b).length = b.length := by
  induction n with
  | zero => simpa using h
  | succ n ih =>
    obtain ⟨h1, h2, h3⟩ := ih (by omega) (by omega)
    rw [List.range_succ, List.foldl_append, List.foldl_append]
    simp only [List.foldl_cons, List.foldl_nil]
    refine ⟨nextWord_agree ty Nk (Nk + n) _ _ h1 hNk (by omega) (by omega) (by omega), ?_, ?_⟩
    · rw [nextWord_length]; exact h2
    · rw [nextWord_length]; exact h3

theorem KeyExpansion_agree (st st2 : aes_state_t) (hK : st.Key = st2.Key) (hty : st.type = st2.type)
    (hNk : st.Nk = st2.Nk) (hNr : st.Nr = st2.Nr) (h1 : 1 ≤ st.Nk) (h2 : st.Nk ≤ Nb * (st.Nr + 1))
    (ha : Nb * (st.Nr + 1) * 4 ≤ st.RoundKey.length) (hb : Nb * (st.Nr + 1) * 4 ≤ st2.RoundKey.length) :
    Agree (Nb * (st.Nr + 1) * 4) (KeyExpansion st).RoundKey (KeyExpansion st2).RoundKey := by
  unfold KeyExpansion
  simp only [← hK, ← hty, ← hNk, ← hNr]
  obtain ⟨c1, c2, c3⟩ := copyLoop_agree st.Key st.RoundKey st2.RoundKey st.Nk
    (by have := Nat.mul_le_mul_right 4 h2; omega) (by have := Nat.mul_le_mul_right 4 h2; omega)
  have e : Nb * (st.Nr + 1) = st.Nk + (Nb * (st.Nr + 1) - st.Nk) := by omega
  obtain ⟨d1, _, _⟩ := nextLoop_agree st.type st.Nk h1 _ _ c1 (Nb * (st.Nr + 1) - st.Nk)
    (by rw [← e, c2]; exact ha) (by rw [← e, c3]; exact hb)
  rw [← e] at d1
  exact d1

theorem bytes_set (l : List Nat) (i v : Nat) (hl : bytes l) (hv : v < 256) : bytes (l.set i v) := by
  intro x hx
  rcases List.mem_or_eq_of_mem_set hx with h | h
  · exact hl x h
  · rw [h]; exact hv

theorem xor_lt (x y : Nat) (hx : x < 256) (hy : y < 256) : x ^^^ y < 256 :=
  Nat.xor_lt_two_pow (n := 8) hx hy

theorem Rcon_lt (i : Nat) : Rcon.getD i 0 < 256 := by
  have h : bytes Rcon := by decide!
  exact getD_lt _ h i

theorem copyWord_bytes (Key a : List Nat) (i : Nat) (hK : bytes Key) (ha : bytes a) :
    bytes (KeyExpansion.copyWord Key a i) := by
  unfold KeyExpansion.copyWord
  exact bytes_set _ _ _ (bytes_set _ _ _ (bytes_set _ _ _ (bytes_set _ _ _ ha (getD_lt _ hK _))
    (getD_lt _ hK _)) (getD_lt _ hK _)) (getD_lt _ hK _)

theorem tempa_lt (ty Nk i : Nat) (a : List Nat) (ha : bytes a) :
    (KeyExpansion.tempa ty Nk a i).1 < 256 ∧ (KeyExpansion.tempa ty Nk a i).2.1 < 256 ∧
    (KeyExpansion.tempa ty Nk a i).2.2.1 < 256 ∧ (KeyExpansion.tempa ty Nk a i).2.2.2 < 256 := by
  unfold KeyExpansion.tempa
  have g := getD_lt a ha
  have s := getSBoxValue_lt
  have r := Rcon_lt
  simp only []
  split <;> split <;> (try split) <;>
    exact ⟨by first | exact s _ | exact g _ | exact xor_lt _ _ (s _) (r _),
      by first | exact s _ | exact g _, by first | exact s _ | exact g _, by first | exact s _ | exact g _⟩

theorem nextWord_bytes (ty Nk i : Nat) (a : List Nat) (ha : bytes a) :
    bytes (KeyExpansion.nextWord ty Nk a i) := by
  unfold KeyExpansion.nextWord
  obtain ⟨t0, t1, t2, t3⟩ := tempa_lt ty Nk i a ha
  have b1 := bytes_set a (i * 4 + 0) _ ha (xor_lt _ _ (getD_lt a ha ((i - Nk) * 4 + 0)) t0)
  have b2 := bytes_set _ (i * 4 + 1) _ b1 (xor_lt _ _ (getD_lt _ b1 ((i - Nk) * 4 + 1)) t1)
  have b3 := bytes_set _ (i * 4 + 2) _ b2 (xor_lt _ _ (getD_lt _ b2 ((i - Nk) * 4 + 2)) t2)
  exact bytes_set _ (i * 4 + 3) _ b3 (xor_lt _ _ (getD_lt _ b3 ((i - Nk) * 4 + 3)) t3)

theorem foldl_bytes {f : List Nat → Nat → List Nat} (hf : ∀ a i, bytes a → bytes (f a i)) (L : List Nat) :
    ∀ a, bytes a → bytes (L.foldl f a) := by
  induction L with
  | nil => intro a ha; exact ha
  | cons x L ih => intro a ha; exact ih _ (hf a x ha)

theorem KeyExpansion_bytes (st : aes_state_t) (hK : bytes st.Key) (hR : bytes st.RoundKey) :
    bytes (KeyExpansion st).RoundKey := by
  unfold KeyExpansion
  exact foldl_bytes (fun a n ha => nextWord_bytes _ _ _ a ha) _ _
    (foldl_bytes (fun a i ha => copyWord_bytes _ a i hK ha) _ _ hR)

theorem copyWord_drop (Key a : List Nat) (i M : Nat) (h : i * 4 + 4 ≤ M) :
    (KeyExpansion.copyWord Key a i).drop M = a.drop M := by
  unfold KeyExpansion.copyWord
  simp only []
  rw [List.drop_set_of_lt _ _ (by omega), List.drop_set_of_lt _ _ (by omega),
    List.drop_set_of_lt _ _ (by omega), List.drop_set_of_lt _ _ (by omega)]

theorem nextWord_drop (ty Nk i M : Nat) (a : List Nat) (h : i * 4 + 4 ≤ M) :
    (KeyExpansion.nextWord ty Nk a i).drop M = a.drop M := by
  unfold KeyExpansion.nextWord
  simp only []
  rw [List.drop_set_of_lt _ _ (by omega), List.drop_set_of_lt _ _ (by omega),
    List.drop_set_of_lt _ _ (by omega), List.drop_set_of_lt _ _ (by omega)]

theorem foldl_range_drop (f : List Nat → Nat → List Nat) (M : Nat) (n : Nat)
    (hf : ∀ a i, i < n → (f a i).drop M = a.drop M) (a : List Nat) :
    ((List.range n).foldl f a).drop M = a.drop M := by
  induction n with
  | zero => simp
  | succ n ih =>
    rw [List.range_succ, List.foldl_append]
    simp only [List.foldl_cons, List.foldl_nil]
    rw [hf _ n (by omega), ih (fun a i hi => hf a i (by omega))]

theorem KeyExpansion_drop (st : aes_state_t) (h2 : st.Nk ≤ Nb * (st.Nr + 1)) :
    (KeyExpansion st).RoundKey.drop (Nb * (st.Nr + 1) * 4) = st.RoundKey.drop (Nb * (st.Nr + 1) * 4) := by
  unfold KeyExpansion
  simp only []
  rw [foldl_range_drop _ _ _ (fun a i hi => nextWord_drop _ _ _ _ a (by omega)),
    foldl_range_drop _ _ _ (fun a i hi => copyWord_drop _ a i _ (by omega))]

theorem KeyExpansion_length (st : aes_state_t) :
    (KeyExpansion st).RoundKey.length = st.RoundKey.length := by
  unfold KeyExpansion
  simp only []
  have h : ∀ (f : List Nat → Nat → List Nat) (hf : ∀ a i, (f a i).length = a.length) (L : List Nat)
      (a : List Nat), (L.foldl f a).length = a.length := by
    intro f hf L
    induction L with
    | nil => intro a; rfl
    | cons x L ih => intro a; rw [List.foldl_cons, ih, hf]
  rw [h _ (fun a i => nextWord_length _ _ _ a), h _ (fun a i => copyWord_length _ a i)]

theorem KeyExpansion_fields (st : aes_state_t) :
    (KeyExpansion st).Nr = st.Nr ∧ (KeyExpansion st).Nk = st.Nk ∧ (KeyExpansion st).type = st.type ∧
    (KeyExpansion st).Iv = st.Iv ∧ (KeyExpansion st).Key = st.Key ∧
    (KeyExpansion st).keyExpSize = st.keyExpSize ∧ (KeyExpansion st).KEYLEN = st.KEYLEN := by
  simp [KeyExpansion]

theorem malloc_length (heap : List Nat) (n : Nat) : (malloc heap n).length = n := by
  simp [malloc]

theorem malloc_nil_bytes (n : Nat) : bytes (malloc [] n) := by
  intro x hx
  simp [malloc] at hx
  omega

theorem init_facts (type : Nat) (ht : validType type) (st0 : aes_state_t) (heap : List Nat) :
    (init type st0 heap).type = type ∧
    ((init type st0 heap).Nk, (init type st0 heap).Nr, (init type st0 heap).keyExpSize) =
      (if type = AES128 then (4, 10, 176) else if type = AES192 then (6, 12, 208) else (8, 14, 240)) ∧
    (init type st0 heap).RoundKey = malloc heap (init type st0 heap).keyExpSize ∧
    (init type st0 heap).Iv = st0.Iv := by
  rcases ht with h | h | h <;> subst h <;> simp [init, AES128, AES192, AES256, AES128_Nk, AES128_Nr,
    AES128_keyExpSize, AES192_Nk, AES192_Nr, AES192_keyExpSize, AES256_Nk, AES256_Nr, AES256_keyExpSize]

theorem init_bounds (type : Nat) (ht : validType type) (st0 : aes_state_t) (heap : List Nat) :
    1 ≤ (init type st0 heap).Nk ∧ (init type st0 heap).Nk ≤ Nb * ((init type st0 heap).Nr + 1) ∧
    Nb * ((init type st0 heap).Nr + 1) * 4 = (init type st0 heap).keyExpSize ∧
    1 ≤ (init type st0 heap).Nr ∧ (init type st0 heap).Nr ≤ 255 ∧
    (init type st0 heap).RoundKey.length = (init type st0 heap).keyExpSize := by
  rcases ht with h | h | h <;> subst h <;> simp [init, AES128, AES192, AES256, AES128_Nk, AES128_Nr,
    AES128_keyExpSize, AES192_Nk, AES192_Nr, AES192_keyExpSize, AES256_Nk, AES256_Nr, AES256_keyExpSize,
    Nb, malloc_length]

theorem expanded_Nr (type : Nat) (ht : validType type) (key : List Nat) (st0 st1 : aes_state_t)
    (heap heap1 : List Nat) : (expanded type key st0 heap).Nr = (expanded type key st1 heap1).Nr := by
  unfold expanded
  rw [(KeyExpansion_fields _).1, (KeyExpansion_fields _).1]
  have a := (init_facts type ht st0 heap).2.1
  have b := (init_facts type ht st1 heap1).2.1
  rw [← b] at a
  simp only [Prod.mk.injEq] at a
  exact a.2.1

theorem expanded_RoundKey (type : Nat) (ht : validType type) (key : List Nat) (st0 st1 : aes_state_t)
    (heap heap1 : List Nat) :
    (expanded type key st0 heap).RoundKey = (expanded type key st1 heap1).RoundKey := by
  have a := init_facts type ht st0 heap
  have b := init_facts type ht st1 heap1
  have a2 := a.2.1
  rw [← b.2.1] at a2
  simp only [Prod.mk.injEq] at a2
  obtain ⟨eNk, eNr, eSz⟩ := a2
  obtain ⟨a1, a3, a4, _, _, a5⟩ := init_bounds type ht st0 heap
  obtain ⟨_, _, b4, _, _, b5⟩ := init_bounds type ht st1 heap1
  have ag := KeyExpansion_agree { init type st0 heap with Key := key } { init type st1 heap1 with Key := key }
    rfl (by simp [a.1, b.1]) eNk eNr a1 a3 (by simp only []; omega) (by simp only []; omega)
  obtain ⟨_, _, e⟩ := ag
  have l0 := KeyExpansion_length { init type st0 heap with Key := key }
  have l1 := KeyExpansion_length { init type st1 heap1 with Key := key }
  simp only [] at l0 l1 e
  unfold expanded
  rw [List.take_of_length_le (by omega), List.take_of_length_le (by omega)] at e
  exact e

theorem expanded_bytes (type : Nat) (ht : validType type) (key : List Nat) (hk : bytes key)
    (st0 : aes_state_t) (heap : List Nat) : bytes (expanded type key st0 heap).RoundKey := by
  rw [expanded_RoundKey type ht key st0 zeroState heap []]
  unfold expanded
  apply KeyExpansion_bytes
  · exact hk
  · simp only []
    rw [(init_facts type ht zeroState []).2.2.1]
    exact malloc_nil_bytes _

theorem expanded_Nr_bounds (type : Nat) (ht : validType type) (key : List Nat)
    (st0 : aes_state_t) (heap : List Nat) :
    1 ≤ (expanded type key st0 heap).Nr ∧ (expanded type key st0 heap).Nr ≤ 255 := by
  unfold expanded
  rw [(KeyExpansion_fields _).1]
  obtain ⟨_, _, _, h1, h2, _⟩ := init_bounds type ht st0 heap
  exact ⟨h1, h2⟩

theorem AddRoundKey_congr (st st1 : aes_state_t) (h : st.RoundKey = st1.RoundKey) :
    AddRoundKey st = AddRoundKey st1 := by
  funext r s
  unfold AddRoundKey
  rw [h]

theorem Cipher_congr (st st1 : aes_state_t) (h : st.RoundKey = st1.RoundKey) (hn : st.Nr = st1.Nr) :
    Cipher st = Cipher st1 := by
  funext s
  have hr : Cipher.round st = Cipher.round st1 := by
    funext s r; unfold Cipher.round; rw [AddRoundKey_congr st st1 h]
  unfold Cipher
  rw [AddRoundKey_congr st st1 h, hr, hn]

theorem InvCipher_congr (st st1 : aes_state_t) (h : st.RoundKey = st1.RoundKey) (hn : st.Nr = st1.Nr) :
    InvCipher st = InvCipher st1 := by
  funext s
  have hr : InvCipher.round st = InvCipher.round st1 := by
    funext s r; unfold InvCipher.round; rw [AddRoundKey_congr st st1 h]
  unfold InvCipher
  rw [AddRoundKey_congr st st1 h, hr, hn]

/-- Under a valid selector the block transforms depend on the selector and the key only. -/
theorem Cipher_expanded (type : Nat) (ht : validType type) (key : List Nat) (st0 : aes_state_t)
    (heap : List Nat) :
    Cipher (expanded type key st0 heap) = Cipher (expanded type key zeroState []) ∧
    InvCipher (expanded type key st0 heap) = InvCipher (expanded type key zeroState []) :=
  ⟨Cipher_congr _ _ (expanded_RoundKey type ht key _ _ _ _) (expanded_Nr type ht key _ _ _ _),
   InvCipher_congr _ _ (expanded_RoundKey type ht key _ _ _ _) (expanded_Nr type ht key _ _ _ _)⟩

theorem InvCipher_Cipher_expanded (type : Nat) (ht : validType type) (key : List Nat) (hk : bytes key)
    (st0 st1 : aes_state_t) (heap heap1 : List Nat) (s : List Nat) (hs : isBlock s) :
    InvCipher (expanded type key st1 heap1) (Cipher (expanded type key st0 heap) s) = s := by
  rw [(Cipher_expanded type ht key st0 heap).1, (Cipher_expanded type ht key st1 heap1).2]
  obtain ⟨h1, h2⟩ := expanded_Nr_bounds type ht key zeroState []
  exact InvCipher_Cipher _ (expanded_bytes type ht key hk _ _) h1 h2 s hs

theorem AES_ECB_encrypt_eq (type : Nat) (input key output : List Nat) (length : Nat)
    (st0 : aes_state_t) (heap : List Nat) :
    AES_ECB_encrypt type input key output length st0 heap =
      Cipher (expanded type key st0 heap) ((input.take length ++ output.drop length).take 16) ++
        (input.take length ++ output.drop length).drop 16 := by
  simp [AES_ECB_encrypt, expanded, memcpy, blockAt, writeAt]

theorem AES_ECB_decrypt_eq (type : Nat) (input key output : List Nat) (length : Nat)
    (st0 : aes_state_t) (heap : List Nat) :
    AES_ECB_decrypt type input key output length st0 heap =
      InvCipher (expanded type key st0 heap) ((input.take length ++ output.drop length).take 16) ++
        (input.take length ++ output.drop length).drop 16 := by
  simp [AES_ECB_decrypt, expanded, memcpy, blockAt, writeAt]

theorem bytes_take (l : List Nat) (n : Nat) (h : bytes l) : bytes (l.take n) :=
  fun x hx => h x (List.mem_of_mem_take hx)

theorem bytes_drop (l : List Nat) (n : Nat) (h : bytes l) : bytes (l.drop n) :=
  fun x hx => h x (List.mem_of_mem_drop hx)

theorem Cipher_expanded_block (type : Nat) (ht : validType type) (key : List Nat) (hk : bytes key)
    (st0 : aes_state_t) (heap : List Nat) (s : List Nat) (hs : isBlock s) :
    isBlock (Cipher (expanded type key st0 heap) s) :=
  Cipher_block _ (expanded_bytes type ht key hk st0 heap) s hs

/-- Encryption of a buffer of `n + 1` blocks: the first block is enciphered, the
others are copied. -/
theorem ecb_encrypt_blocks (type : Nat) (input key output : List Nat) (n : Nat)
    (hlen : input.length = 16 * (n + 1)) (st0 : aes_state_t) (heap : List Nat) :
    AES_ECB_encrypt type input key output (16 * (n + 1)) st0 heap =
      Cipher (expanded type key st0 heap) (input.take 16) ++ (input.drop 16 ++ output.drop (16 * (n + 1))) := by
  rw [AES_ECB_encrypt_eq, ← hlen, List.take_length, List.take_append_of_le_length (by omega),
    List.drop_append_of_le_length (by omega)]

theorem ecb_decrypt_blocks (type : Nat) (blk rest tail key output : List Nat) (n : Nat)
    (hblk : blk.length = 16) (hrest : rest.length = 16 * n) (st0 : aes_state_t) (heap : List Nat) :
    AES_ECB_decrypt type (blk ++ (rest ++ tail)) key output (16 * (n + 1)) st0 heap =
      InvCipher (expanded type key st0 heap) blk ++ (rest ++ output.drop (16 * (n + 1))) := by
  have e1 : (blk ++ (rest ++ tail)).take (16 * (n + 1)) = blk ++ rest := by
    rw [← List.append_assoc]
    exact List.take_left' (by simp [hblk, hrest]; omega)
  rw [AES_ECB_decrypt_eq, e1, List.append_assoc, List.take_left' hblk, List.drop_left' hblk]

theorem ecb_roundtrip (type : Nat) (ht : validType type) (key buf : List Nat) (n : Nat)
    (hk : bytes key) (hb : bytes buf) (hlen : buf.length = 16 * n)
    (out1 out2 : List Nat) (st1 st2 : aes_state_t) (heap1 heap2 : List Nat) :
    (AES_ECB_decrypt type (AES_ECB_encrypt type buf key out1 (16 * n) st1 heap1) key out2 (16 * n)
      st2 heap2).take (16 * n) = buf := by
  cases n with
  | zero =>
    have : buf = [] := List.length_eq_zero.mp (by simpa using hlen)
    simp [this]
  | succ n =>
    have hblk : isBlock (buf.take 16) := ⟨by simp; omega, bytes_take _ _ hb⟩
    have hc := Cipher_expanded_block type ht key hk st1 heap1 _ hblk
    rw [ecb_encrypt_blocks type buf key out1 n hlen,
      ecb_decrypt_blocks type _ _ _ key out2 n hc.1 (by simp; omega),
      InvCipher_Cipher_expanded type ht key hk st1 st2 heap1 heap2 _ hblk, ← List.append_assoc,
      List.take_append_drop]
    exact List.take_left' hlen

theorem range16 : List.range 16 = [0, 1, 2, 3, 4, 5, 6, 7, 8, 9, 10, 11, 12, 13, 14, 15] := by decide

theorem XorWithIv_eq (st : aes_state_t) (s : List Nat) (h : s.length = 16) :
    XorWithIv st s = xorBlock s st.Iv := by
  obtain ⟨a0, a1, a2, a3, a4, a5, a6, a7, a8, a9, a10, a11, a12, a13, a14, a15, rfl⟩ := list16 s h
  simp [XorWithIv, xorBlock, BLOCKLEN, range16]

theorem xorBlock_length (a b : List Nat) : (xorBlock a b).length = 16 := by
  simp [xorBlock]

theorem xorBlock_xorBlock (a b : List Nat) (h : a.length = 16) : xorBlock (xorBlock a b) b = a := by
  obtain ⟨a0, a1, a2, a3, a4, a5, a6, a7, a8, a9, a10, a11, a12, a13, a14, a15, rfl⟩ := list16 a h
  simp [xorBlock, range16, Nat.xor_cancel_right]

theorem xorBlock_block (a b : List Nat) (ha : bytes a) (hb : bytes b) : isBlock (xorBlock a b) := by
  refine ⟨xorBlock_length a b, ?_⟩
  intro x hx
  simp only [xorBlock, List.mem_map, List.mem_range] at hx
  obtain ⟨i, _, rfl⟩ := hx
  exact xor_lt _ _ (getD_lt a ha i) (getD_lt b hb i)

theorem ShiftRows_length (s : List Nat) (h : s.length = 16) : (ShiftRows s).length = 16 := by
  obtain ⟨a0, a1, a2, a3, a4, a5, a6, a7, a8, a9, a10, a11, a12, a13, a14, a15, rfl⟩ := list16 s h
  rw [ShiftRows_16]; rfl

theorem InvShiftRows_length (s : List Nat) (h : s.length = 16) : (InvShiftRows s).length = 16 := by
  obtain ⟨a0, a1, a2, a3, a4, a5, a6, a7, a8, a9, a10, a11, a12, a13, a14, a15, rfl⟩ := list16 s h
  rw [InvShiftRows_16]; rfl

theorem InvSubBytes_length (s : List Nat) (h : s.length = 16) : (InvSubBytes s).length = 16 := by
  obtain ⟨a0, a1, a2, a3, a4, a5, a6, a7, a8, a9, a10, a11, a12, a13, a14, a15, rfl⟩ := list16 s h
  rw [InvSubBytes_16]; rfl

theorem MixColumns_length (s : List Nat) (h : s.length = 16) : (MixColumns s).length = 16 := by
  obtain ⟨a0, a1, a2, a3, a4, a5, a6, a7, a8, a9, a10, a11, a12, a13, a14, a15, rfl⟩ := list16 s h
  rw [MixColumns_16]; rfl

theorem InvMixColumns_length (s : List Nat) (h : s.length = 16) : (InvMixColumns s).length = 16 := by
  obtain ⟨a0, a1, a2, a3, a4, a5, a6, a7, a8, a9, a10, a11, a12, a13, a14, a15, rfl⟩ := list16 s h
  rw [InvMixColumns_16]; rfl

theorem AddRoundKey_length (st : aes_state_t) (r : Nat) (s : List Nat) (h : s.length = 16) :
    (AddRoundKey st r s).length = 16 := by
  obtain ⟨a0, a1, a2, a3, a4, a5, a6, a7, a8, a9, a10, a11, a12, a13, a14, a15, rfl⟩ := list16 s h
  rw [AddRoundKey_16]; rfl

theorem foldl_length16 (f : List Nat → Nat → List Nat) (hf : ∀ s r, s.length = 16 → (f s r).length = 16)
    (L : List Nat) : ∀ s, s.length = 16 → (L.foldl f s).length = 16 := by
  induction L with
  | nil => intro s hs; exact hs
  | cons x L ih => intro s hs; exact ih _ (hf s x hs)

theorem Cipher_length (st : aes_state_t) (s : List Nat) (h : s.length = 16) :
    (Cipher st s).length = 16 := by
  unfold Cipher
  apply AddRoundKey_length
  apply ShiftRows_length
  apply SubBytes_length
  apply foldl_length16
  · intro s r hs
    exact AddRoundKey_length _ _ _ (MixColumns_length _ (ShiftRows_length _ (SubBytes_length _ hs)))
  · exact AddRoundKey_length _ _ _ h

theorem InvCipher_length (st : aes_state_t) (s : List Nat) (h : s.length = 16) :
    (InvCipher st s).length = 16 := by
  unfold InvCipher
  apply AddRoundKey_length
  apply InvSubBytes_length
  apply InvShiftRows_length
  apply foldl_length16
  · intro s r hs
    exact InvMixColumns_length _ (AddRoundKey_length _ _ _ (InvSubBytes_length _ (InvShiftRows_length _ hs)))
  · exact AddRoundKey_length _ _ _ h

theorem blockAt_mid (P B T : List Nat) (off : Nat) (hP : P.length = off) (hB : B.length = 16) :
    blockAt (P ++ B ++ T) off = B := by
  unfold blockAt
  rw [List.append_assoc, List.drop_left' hP, List.take_left' hB]

theorem writeAt_mid (P B T N : List Nat) (off : Nat) (hP : P.length = off) (hB : B.length = 16) :
    writeAt (P ++ B ++ T) off N = P ++ N ++ T := by
  unfold writeAt
  have e : (P ++ B ++ T).drop (off + 16) = T := List.drop_left' (by simp [hP, hB])
  rw [e, List.append_assoc P B T, List.take_left' hP]

theorem memcpy_mid (P R src : List Nat) (off soff : Nat) (hP : P.length = off) :
    memcpy (P ++ R) off src soff 16 = P ++ blockAt src soff ++ R.drop 16 := by
  unfold memcpy blockAt
  rw [List.take_left' hP, ← hP, List.drop_append]

theorem Cipher_Iv (st : aes_state_t) (v : List Nat) : Cipher { st with Iv := v } = Cipher st :=
  Cipher_congr _ _ rfl rfl

theorem InvCipher_Iv (st : aes_state_t) (v : List Nat) : InvCipher { st with Iv := v } = InvCipher st :=
  InvCipher_congr _ _ rfl rfl

/-- One pass of the encryption loop over a block that lies in the middle of both buffers. -/
theorem encrypt_step_mid (st : aes_state_t) (opre orest ipre p r : List Nat) (k : Nat)
    (ho : opre.length = 16 * k) (hi : ipre.length = 16 * k) (hp : p.length = 16) :
    AES_CBC_encrypt_buffer.step (st, opre ++ orest, ipre ++ p ++ r) k =
      ({ st with Iv := Cipher st (xorBlock p st.Iv) },
        (opre ++ Cipher st (xorBlock p st.Iv)) ++ orest.drop 16,
        (ipre ++ xorBlock p st.Iv) ++ r) := by
  have hx : (xorBlock p st.Iv).length = 16 := xorBlock_length _ _
  have hc : (Cipher st (xorBlock p st.Iv)).length = 16 := Cipher_length _ _ hx
  simp only [AES_CBC_encrypt_buffer.step, BLOCKLEN]
  rw [blockAt_mid ipre p r _ hi hp, XorWithIv_eq st p hp, writeAt_mid ipre p r _ _ hi hp,
    memcpy_mid opre orest _ _ _ ho, blockAt_mid ipre _ r _ hi hx,
    blockAt_mid opre _ _ _ ho hx, writeAt_mid opre _ _ _ _ ho hx, blockAt_mid opre _ _ _ ho hc]

theorem encrypt_loop (m : Nat) : ∀ (k : Nat) (st : aes_state_t) (opre orest ipre irest itail : List Nat),
    opre.length = 16 * k → ipre.length = 16 * k → irest.length = 16 * m →
    ((List.range' k m).foldl AES_CBC_encrypt_buffer.step
        (st, opre ++ orest, ipre ++ irest ++ itail)).2.1 =
      opre ++ cbcChainEncrypt (Cipher st) m st.Iv irest ++ orest.drop (16 * m) := by
  induction m with
  | zero => intro k st opre orest ipre irest itail _ _ _; simp [cbcChainEncrypt]
  | succ m ih =>
    intro k st opre orest ipre irest itail ho hi hr
    have hp : (irest.take 16).length = 16 := by simp; omega
    have hd : (irest.drop 16).length = 16 * m := by simp; omega
    have hc : (Cipher st (xorBlock (irest.take 16) st.Iv)).length = 16 :=
      Cipher_length _ _ (xorBlock_length _ _)
    have split : ipre ++ irest ++ itail = ipre ++ irest.take 16 ++ (irest.drop 16 ++ itail) := by
      rw [List.append_assoc ipre (irest.take 16), ← List.append_assoc (irest.take 16),
        List.take_append_drop, List.append_assoc]
    rw [List.range'_succ, List.foldl_cons, split, encrypt_step_mid st opre orest ipre _ _ k ho hi hp,
      ← List.append_assoc]
    rw [ih (k + 1) _ _ _ _ _ _ (by simp [ho, hc]; omega) (by simp [hi, xorBlock_length]; omega) hd]
    have e : (orest.drop 16).drop (16 * m) = orest.drop (16 * (m + 1)) := by
      rw [List.drop_drop]; exact congrArg (fun n => List.drop n orest) (by omega)
    rw [e]
    simp only [cbcChainEncrypt, Cipher_Iv, List.append_assoc]

/-- One pass of the decryption loop over a block that lies in the middle of both buffers. -/
theorem decrypt_step_mid (st : aes_state_t) (opre orest ipre c r : List Nat) (k : Nat)
    (ho : opre.length = 16 * k) (hi : ipre.length = 16 * k) (hc : c.length = 16) :
    AES_CBC_decrypt_buffer.step (ipre ++ c ++ r) (st, opre ++ orest) k =
      ({ st with Iv := c }, (opre ++ xorBlock (InvCipher st c) st.Iv) ++ orest.drop 16) := by
  have hd : (InvCipher st c).length = 16 := InvCipher_length _ _ hc
  have hx : (xorBlock (InvCipher st c) st.Iv).length = 16 := xorBlock_length _ _
  simp only [AES_CBC_decrypt_buffer.step, BLOCKLEN]
  rw [memcpy_mid opre orest _ _ _ ho, blockAt_mid ipre c r _ hi hc, blockAt_mid opre _ _ _ ho hc,
    writeAt_mid opre _ _ _ _ ho hc, blockAt_mid opre _ _ _ ho hd, XorWithIv_eq st _ hd,
    writeAt_mid opre _ _ _ _ ho hd]

theorem decrypt_loop (m : Nat) : ∀ (k : Nat) (st : aes_state_t) (opre orest ipre irest itail : List Nat),
    opre.length = 16 * k → ipre.length = 16 * k → irest.length = 16 * m →
    ((List.range' k m).foldl (AES_CBC_decrypt_buffer.step (ipre ++ irest ++ itail))
        (st, opre ++ orest)).2 =
      opre ++ cbcChainDecrypt (InvCipher st) m st.Iv irest ++ orest.drop (16 * m) := by
  induction m with
  | zero => intro k st opre orest ipre irest itail _ _ _; simp [cbcChainDecrypt]
  | succ m ih =>
    intro k st opre orest ipre irest itail ho hi hr
    have hp : (irest.take 16).length = 16 := by simp; omega
    have hd : (irest.drop 16).length = 16 * m := by simp; omega
    have split : ipre ++ irest ++ itail = ipre ++ irest.take 16 ++ (irest.drop 16 ++ itail) := by
      rw [List.append_assoc ipre (irest.take 16), ← List.append_assoc (irest.take 16),
        List.take_append_drop, List.append_assoc]
    have split2 : ipre ++ irest ++ itail = (ipre ++ irest.take 16) ++ irest.drop 16 ++ itail := by
      rw [List.append_assoc ipre (irest.take 16), List.take_append_drop]
    have hs := decrypt_step_mid st opre orest ipre (irest.take 16) (irest.drop 16 ++ itail) k ho hi hp
    rw [← split] at hs
    rw [List.range'_succ, List.foldl_cons, hs, split2,
      ih (k + 1) _ _ _ _ _ _ (by simp [ho, xorBlock_length]; omega) (by simp [hi]; omega) hd]
    have e : (orest.drop 16).drop (16 * m) = orest.drop (16 * (m + 1)) := by
      rw [List.drop_drop]; exact congrArg (fun n => List.drop n orest) (by omega)
    rw [e]
    simp only [cbcChainDecrypt, InvCipher_Iv, List.append_assoc]

theorem cbcChainEncrypt_length (E : List Nat → List Nat) (hE : ∀ b, b.length = 16 → (E b).length = 16) :
    ∀ (n : Nat) (iv p : List Nat), (cbcChainEncrypt E n iv p).length = 16 * n := by
  intro n
  induction n with
  | zero => intro iv p; rfl
  | succ n ih =>
    intro iv p
    simp only [cbcChainEncrypt, List.length_append, ih, hE _ (xorBlock_length _ _)]
    omega

theorem cbcChainDecrypt_length (D : List Nat → List Nat) :
    ∀ (n : Nat) (iv c : List Nat), (cbcChainDecrypt D n iv c).length = 16 * n := by
  intro n
  induction n with
  | zero => intro iv c; rfl
  | succ n ih =>
    intro iv c
    simp only [cbcChainDecrypt, List.length_append, ih, xorBlock_length]
    omega

theorem blockAt_zero (B T : List Nat) (hB : B.length = 16) : blockAt (B ++ T) 0 = B := by
  unfold blockAt
  rw [List.drop_zero, List.take_left' hB]

theorem blockAt_succ (B T : List Nat) (hB : B.length = 16) (i : Nat) :
    blockAt (B ++ T) (16 * (i + 1)) = blockAt T (16 * i) := by
  unfold blockAt
  have e : 16 * (i + 1) = B.length + 16 * i := by omega
  rw [e, List.drop_append]

theorem blockAt_drop (p : List Nat) (i : Nat) : blockAt (p.drop 16) (16 * i) = blockAt p (16 * (i + 1)) := by
  unfold blockAt
  rw [List.drop_drop]
  exact congrArg (fun n => (List.drop n p).take 16) (by omega)

theorem blockAt_zero_take (p : List Nat) : blockAt p 0 = p.take 16 := by
  unfold blockAt
  rw [List.drop_zero]

/-- The chaining rule read block by block. -/
theorem cbcChainEncrypt_blockAt (E : List Nat → List Nat)
    (hE : ∀ b, b.length = 16 → (E b).length = 16) :
    ∀ (n : Nat) (iv p T : List Nat) (i : Nat), i < n →
      blockAt (cbcChainEncrypt E n iv p ++ T) (16 * i) =
        E (xorBlock (blockAt p (16 * i))
          (if i = 0 then iv else blockAt (cbcChainEncrypt E n iv p ++ T) (16 * (i - 1)))) := by
  intro n
  induction n with
  | zero => intro iv p T i hi; omega
  | succ n ih =>
    intro iv p T i hi
    have hc : (E (xorBlock (p.take 16) iv)).length = 16 := hE _ (xorBlock_length _ _)
    simp only [cbcChainEncrypt, List.append_assoc]
    cases i with
    | zero =>
      rw [Nat.mul_zero, blockAt_zero _ _ hc, if_pos rfl, blockAt_zero_take]
    | succ j =>
      rw [blockAt_succ _ _ hc, ih _ _ _ j (by omega), blockAt_drop, if_neg (Nat.succ_ne_zero j)]
      cases j with
      | zero => rw [if_pos rfl, Nat.add_sub_cancel, Nat.mul_zero, blockAt_zero _ _ hc]
      | succ j2 =>
        rw [if_neg (Nat.succ_ne_zero j2), Nat.add_sub_cancel, Nat.add_sub_cancel, blockAt_succ _ _ hc]

theorem cbcChainDecrypt_blockAt (D : List Nat → List Nat) :
    ∀ (n : Nat) (iv c T : List Nat) (i : Nat), i < n →
      blockAt (cbcChainDecrypt D n iv c ++ T) (16 * i) =
        xorBlock (D (blockAt c (16 * i))) (if i = 0 then iv else blockAt c (16 * (i - 1))) := by
  intro n
  induction n with
  | zero => intro iv c T i hi; omega
  | succ n ih =>
    intro iv c T i hi
    have hx : (xorBlock (D (c.take 16)) iv).length = 16 := xorBlock_length _ _
    simp only [cbcChainDecrypt, List.append_assoc]
    cases i with
    | zero =>
      rw [Nat.mul_zero, blockAt_zero _ _ hx, if_pos rfl, blockAt_zero_take]
    | succ j =>
      rw [blockAt_succ _ _ hx, ih _ _ _ j (by omega), blockAt_drop, if_neg (Nat.succ_ne_zero j)]
      cases j with
      | zero => rw [if_pos rfl, Nat.add_sub_cancel, Nat.mul_zero, blockAt_zero_take]
      | succ j2 =>
        rw [if_neg (Nat.succ_ne_zero j2), Nat.add_sub_cancel, Nat.add_sub_cancel, blockAt_drop]

theorem chain_roundtrip (E D : List Nat → List Nat) (hE : ∀ b, isBlock b → isBlock (E b))
    (hD : ∀ b, isBlock b → D (E b) = b) :
    ∀ (n : Nat) (iv p : List Nat), bytes iv → bytes p → p.length = 16 * n →
      cbcChainDecrypt D n iv (cbcChainEncrypt E n iv p) = p := by
  intro n
  induction n with
  | zero =>
    intro iv p _ _ hl
    have : p = [] := List.length_eq_zero.mp (by simpa using hl)
    simp [this, cbcChainDecrypt, cbcChainEncrypt]
  | succ n ih =>
    intro iv p hiv hp hl
    have hx : isBlock (xorBlock (p.take 16) iv) := xorBlock_block _ _ (bytes_take _ _ hp) hiv
    have hc := hE _ hx
    simp only [cbcChainEncrypt, cbcChainDecrypt]
    rw [List.take_left' hc.1, List.drop_left' hc.1, hD _ hx,
      xorBlock_xorBlock _ _ (by simp; omega), ih _ _ hc.2 (bytes_drop _ _ hp) (by simp; omega),
      List.take_append_drop]

theorem cbc_encrypt_output (type : Nat) (output input : List Nat) (n : Nat) (key iv : List Nat)
    (st0 : aes_state_t) (heap : List Nat) (hlen : 16 * n ≤ input.length) :
    (AES_CBC_encrypt_buffer type output input (16 * n) (some key) (some iv) st0 heap).1 =
      cbcChainEncrypt (Cipher (expanded type key st0 heap)) n iv (input.take (16 * n)) ++
        (memcpy output 0 input 0 16).drop (16 * n) := by
  have e1 : (16 * n % 16) % 256 = 0 := by omega
  have e2 : (16 * n + (16 - 1)) / 16 = n := by omega
  have h := encrypt_loop n 0 { expanded type key st0 heap with Iv := iv } [] (memcpy output 0 input 0 16) []
    (input.take (16 * n)) (input.drop (16 * n)) rfl rfl (by simp; omega)
  simp only [List.nil_append, List.take_append_drop, Cipher_Iv] at h
  simp only [AES_CBC_encrypt_buffer, BLOCKLEN, cbcSetup, e1, e2, List.range_eq_range', ne_eq,
    not_true_eq_false, if_false]
  exact h

theorem cbc_decrypt_output (type : Nat) (output input : List Nat) (n : Nat) (key iv : List Nat)
    (st0 : aes_state_t) (heap : List Nat) (hlen : 16 * n ≤ input.length) :
    AES_CBC_decrypt_buffer type output input (16 * n) (some key) (some iv) st0 heap =
      cbcChainDecrypt (InvCipher (expanded type key st0 heap)) n iv (input.take (16 * n)) ++
        (memcpy output 0 input 0 16).drop (16 * n) := by
  have e1 : (16 * n % 16) % 256 = 0 := by omega
  have e2 : (16 * n + (16 - 1)) / 16 = n := by omega
  have h := decrypt_loop n 0 { expanded type key st0 heap with Iv := iv } [] (memcpy output 0 input 0 16) []
    (input.take (16 * n)) (input.drop (16 * n)) rfl rfl (by simp; omega)
  simp only [List.nil_append, List.take_append_drop, InvCipher_Iv] at h
  simp only [AES_CBC_decrypt_buffer, BLOCKLEN, cbcSetup, e1, e2, List.range_eq_range', ne_eq,
    not_true_eq_false, if_false]
  exact h

end VscpAes

/-! # Block cipher: the claims -/

namespace VscpAes

theorem nist_ecb128 : Cipher (expanded AES128 key128 zeroState []) nistBlock = cipher128 := by
  decide!

theorem nist_ecb192 : Cipher (expanded AES192 key192 zeroState []) nistBlock = cipher192 := by
  decide!

theorem nist_ecb256 : Cipher (expanded AES256 key256 zeroState []) nistBlock = cipher256 := by
  decide!

theorem nistBlock_isBlock : isBlock nistBlock := by decide

theorem ecb_encrypt_single (type : Nat) (input key output : List Nat) (hlen : input.length = 16)
    (st0 : aes_state_t) (heap : List Nat) :
    AES_ECB_encrypt type input key output 16 st0 heap =
      Cipher (expanded type key st0 heap) input ++ output.drop 16 := by
  have h := ecb_encrypt_blocks type input key output 0 hlen st0 heap
  rw [List.take_of_length_le (by omega), List.drop_of_length_le (by omega)] at h
  simpa using h

theorem ecb_decrypt_single (type : Nat) (input key output : List Nat) (hlen : input.length = 16)
    (st0 : aes_state_t) (heap : List Nat) :
    AES_ECB_decrypt type input key output 16 st0 heap =
      InvCipher (expanded type key st0 heap) input ++ output.drop 16 := by
  have h := ecb_decrypt_blocks type input [] [] key output 0 hlen rfl st0 heap
  simpa using h

/-- Encryption and decryption of one known block under a valid selector. -/
theorem ecb_vector (type : Nat) (ht : validType type) (key plain cipher : List Nat) (hk : bytes key)
    (hp : isBlock plain) (hv : Cipher (expanded type key zeroState []) plain = cipher)
    (output : List Nat) (st0 : aes_state_t) (heap : List Nat) :
    (AES_ECB_encrypt type plain key output 16 st0 heap).take 16 = cipher ∧
    (AES_ECB_decrypt type cipher key output 16 st0 heap).take 16 = plain := by
  have hc : isBlock cipher := by
    rw [← hv]; exact Cipher_expanded_block type ht key hk _ _ _ hp
  constructor
  · rw [ecb_encrypt_single type plain key output hp.1, (Cipher_expanded type ht key st0 heap).1, hv]
    exact List.take_left' hc.1
  · rw [ecb_decrypt_single type cipher key output hc.1, ← hv,
      InvCipher_Cipher_expanded type ht key hk zeroState st0 [] heap _ hp]
    exact List.take_left' hp.1

/-- C1: for each of the three variants, `AES_ECB_encrypt` of the single block
`6bc1bee22e409f96e93d7e117393172a` yields the ciphertext published in NIST
SP 800-38A for the variant's key, and `AES_ECB_decrypt` of that ciphertext under
the same key returns the plaintext block; whatever the output buffer, the
uninitialised state and the heap held before the call. -/
theorem C1_ecb_nist_vectors (output : List Nat) (st0 : aes_state_t) (heap : List Nat) :
    (AES_ECB_encrypt AES128 nistBlock key128 output 16 st0 heap).take 16 = cipher128 ∧
    (AES_ECB_encrypt AES192 nistBlock key192 output 16 st0 heap).take 16 = cipher192 ∧
    (AES_ECB_encrypt AES256 nistBlock key256 output 16 st0 heap).take 16 = cipher256 ∧
    (AES_ECB_decrypt AES128 cipher128 key128 output 16 st0 heap).take 16 = nistBlock ∧
    (AES_ECB_decrypt AES192 cipher192 key192 output 16 st0 heap).take 16 = nistBlock ∧
    (AES_ECB_decrypt AES256 cipher256 key256 output 16 st0 heap).take 16 = nistBlock := by
  have a := ecb_vector AES128 (by decide) key128 nistBlock cipher128 (by decide) nistBlock_isBlock
    nist_ecb128 output st0 heap
  have b := ecb_vector AES192 (by decide) key192 nistBlock cipher192 (by decide) nistBlock_isBlock
    nist_ecb192 output st0 heap
  have c := ecb_vector AES256 (by decide) key256 nistBlock cipher256 (by decide) nistBlock_isBlock
    nist_ecb256 output st0 heap
  exact ⟨a.1, b.1, c.1, a.2, b.2, c.2⟩

/-- C2: evaluation of `AES_ECB_encrypt` on the four-block ECB-AES128 vector of the
source header. Block 0 of the output is the published ciphertext block; blocks 1
to 3 are the plaintext blocks, copied by `memcpy` and never enciphered, so block 1
is `ae2d8a57...` and not the published `f5d3d585...`. -/
theorem C2_ecb_encrypts_first_block_only (output : List Nat) (st0 : aes_state_t) (heap : List Nat) :
    blockAt (AES_ECB_encrypt AES128 nistPlain key128 output 64 st0 heap) 0 = blockAt headerCipher 0 ∧
    blockAt (AES_ECB_encrypt AES128 nistPlain key128 output 64 st0 heap) 16 = blockAt nistPlain 16 ∧
    blockAt (AES_ECB_encrypt AES128 nistPlain key128 output 64 st0 heap) 32 = blockAt nistPlain 32 ∧
    blockAt (AES_ECB_encrypt AES128 nistPlain key128 output 64 st0 heap) 48 = blockAt nistPlain 48 ∧
    blockAt (AES_ECB_encrypt AES128 nistPlain key128 output 64 st0 heap) 16 ≠ blockAt headerCipher 16 := by
  have h := ecb_encrypt_blocks AES128 nistPlain key128 output 3 (by decide) st0 heap
  have hc : (Cipher (expanded AES128 key128 st0 heap) (nistPlain.take 16)).length = 16 :=
    Cipher_length _ _ (by decide)
  have hv : Cipher (expanded AES128 key128 st0 heap) (nistPlain.take 16) = cipher128 := by
    rw [(Cipher_expanded AES128 (by decide) key128 st0 heap).1]; exact nist_ecb128
  have e : (16 * (3 + 1) : Nat) = 64 := by decide
  rw [e] at h
  have b1 : blockAt (AES_ECB_encrypt AES128 nistPlain key128 output 64 st0 heap) 16 =
      blockAt nistPlain 16 := by
    rw [h, blockAt_succ _ _ hc 0]
    exact blockAt_zero (blockAt nistPlain 16) _ (by decide)
  refine ⟨?_, b1, ?_, ?_, ?_⟩
  · rw [h, blockAt_zero _ _ hc, hv]; decide
  · rw [h, blockAt_succ _ _ hc 1]
    exact blockAt_mid (blockAt nistPlain 16) (blockAt nistPlain 32) _ 16 (by decide) (by decide)
  · rw [h, blockAt_succ _ _ hc 2]
    exact blockAt_mid (nistPlain.drop 16 |>.take 32) (blockAt nistPlain 48) _ 32 (by decide) (by decide)
  · rw [b1]; decide

/-- C3: ECB round trip. For every valid variant, every key and every buffer of
`16 * n` bytes, `AES_ECB_decrypt` applied to the output of `AES_ECB_encrypt` under
the same key returns the buffer in the first `16 * n` bytes of its output,
whatever the output buffers, the uninitialised states and the heap held. -/
theorem C3_ecb_roundtrip (type : Nat) (ht : validType type) (key buf : List Nat) (n : Nat)
    (hk : bytes key) (hb : bytes buf) (hlen : buf.length = 16 * n)
    (out1 out2 : List Nat) (st1 st2 : aes_state_t) (heap1 heap2 : List Nat) :
    (AES_ECB_decrypt type (AES_ECB_encrypt type buf key out1 (16 * n) st1 heap1) key out2 (16 * n)
      st2 heap2).take (16 * n) = buf :=
  ecb_roundtrip type ht key buf n hk hb hlen out1 out2 st1 st2 heap1 heap2

theorem C3_ecb_roundtrip_witness :
    validType AES192 ∧ bytes key192 ∧ bytes nistPlain ∧ nistPlain.length = 16 * 4 ∧
    (AES_ECB_decrypt AES192 (AES_ECB_encrypt AES192 nistPlain key192 [] (16 * 4) zeroState [])
      key192 [] (16 * 4) zeroState []).take (16 * 4) = nistPlain :=
  ⟨by decide, by decide, by decide, by decide,
    C3_ecb_roundtrip AES192 (by decide) key192 nistPlain 4 (by decide) (by decide) (by decide)
      [] [] zeroState zeroState [] []⟩

/-- C4: CBC round trip. For every valid variant, every key, every IV and every
buffer of `16 * n` bytes, `AES_CBC_decrypt_buffer` applied with the same key and IV
to the output of `AES_CBC_encrypt_buffer` returns the buffer in the first `16 * n`
bytes of its output (input and output being distinct buffers). -/
theorem C4_cbc_roundtrip (type : Nat) (ht : validType type) (key iv buf : List Nat) (n : Nat)
    (hk : bytes key) (hiv : bytes iv) (hb : bytes buf) (hlen : buf.length = 16 * n)
    (out1 out2 : List Nat) (st1 st2 : aes_state_t) (heap1 heap2 : List Nat) :
    (AES_CBC_decrypt_buffer type out2
      (AES_CBC_encrypt_buffer type out1 buf (16 * n) (some key) (some iv) st1 heap1).1
      (16 * n) (some key) (some iv) st2 heap2).take (16 * n) = buf := by
  have hE : ∀ b, b.length = 16 → (Cipher (expanded type key st1 heap1) b).length = 16 :=
    fun b hb => Cipher_length _ b hb
  have hcl := cbcChainEncrypt_length _ hE n iv buf
  have hrt := chain_roundtrip _ _ (fun b hb => Cipher_expanded_block type ht key hk st1 heap1 b hb)
    (fun b hb => InvCipher_Cipher_expanded type ht key hk st1 st2 heap1 heap2 b hb) n iv buf hiv hb hlen
  have e1 := cbc_encrypt_output type out1 buf n key iv st1 heap1 (by omega)
  rw [List.take_of_length_le (by omega)] at e1
  rw [e1, cbc_decrypt_output type out2 _ n key iv st2 heap2 (by simp [hcl]),
    List.take_left' hcl, hrt]
  exact List.take_left' hlen

theorem C4_cbc_roundtrip_witness :
    validType AES256 ∧ bytes key256 ∧ bytes nistIv ∧ bytes nistPlain ∧ nistPlain.length = 16 * 4 ∧
    (AES_CBC_decrypt_buffer AES256 []
      (AES_CBC_encrypt_buffer AES256 [] nistPlain (16 * 4) (some key256) (some nistIv) zeroState []).1
      (16 * 4) (some key256) (some nistIv) zeroState []).take (16 * 4) = nistPlain :=
  ⟨by decide, by decide, by decide, by decide, by decide,
    C4_cbc_roundtrip AES256 (by decide) key256 nistIv nistPlain 4 (by decide) (by decide) (by decide)
      (by decide) [] [] zeroState zeroState [] []⟩

theorem nist_cbc128_block0 :
    Cipher (expanded AES128 key128 zeroState []) (xorBlock (blockAt nistPlain 0) nistIv) = cbcCipher0 := by
  decide!

theorem nist_cbc128_block1 :
    Cipher (expanded AES128 key128 zeroState []) (xorBlock (blockAt nistPlain 16) cbcCipher0) =
      cbcCipher1 := by
  decide!

/-- C5: `AES_CBC_encrypt_buffer` implements CBC chaining. For a non-null key and IV
and an input of `n` full blocks, output block 0 is `Cipher (P_0 xor IV)` and output
block `i` is `Cipher (P_i xor C_(i-1))` for `0 < i < n`, `Cipher` running under the
expanded key. On the SP 800-38A CBC-AES128 vector the first two output blocks are
`7649abac8119b246cee98e9b12e9197d` and `5086cb9b507219ee95db113a917678b2`. -/
theorem C5_cbc_encrypt_chaining :
    (∀ (type : Nat) (output input : List Nat) (n : Nat) (key iv : List Nat) (st0 : aes_state_t)
        (heap : List Nat), 16 * n ≤ input.length → ∀ i, i < n →
      blockAt (AES_CBC_encrypt_buffer type output input (16 * n) (some key) (some iv) st0 heap).1 (16 * i) =
        Cipher (expanded type key st0 heap)
          (xorBlock (blockAt input (16 * i))
            (if i = 0 then iv else
              blockAt (AES_CBC_encrypt_buffer type output input (16 * n) (some key) (some iv) st0 heap).1
                (16 * (i - 1))))) ∧
    (∀ (output : List Nat) (st0 : aes_state_t) (heap : List Nat),
      blockAt (AES_CBC_encrypt_buffer AES128 output nistPlain (16 * 4) (some key128) (some nistIv)
        st0 heap).1 0 = cbcCipher0 ∧
      blockAt (AES_CBC_encrypt_buffer AES128 output nistPlain (16 * 4) (some key128) (some nistIv)
        st0 heap).1 16 = cbcCipher1) := by
  have gen : ∀ (type : Nat) (output input : List Nat) (n : Nat) (key iv : List Nat) (st0 : aes_state_t)
        (heap : List Nat), 16 * n ≤ input.length → ∀ i, i < n →
      blockAt (AES_CBC_encrypt_buffer type output input (16 * n) (some key) (some iv) st0 heap).1 (16 * i) =
        Cipher (expanded type key st0 heap)
          (xorBlock (blockAt input (16 * i))
            (if i = 0 then iv else
              blockAt (AES_CBC_encrypt_buffer type output input (16 * n) (some key) (some iv) st0 heap).1
                (16 * (i - 1)))) := by
    intro type output input n key iv st0 heap hlen i hi
    have hE : ∀ b, b.length = 16 → (Cipher (expanded type key st0 heap) b).length = 16 :=
      fun b hb => Cipher_length _ b hb
    have hb : blockAt (input.take (16 * n)) (16 * i) = blockAt input (16 * i) := by
      unfold blockAt
      rw [List.drop_take, List.take_take, Nat.min_eq_left (by omega)]
    rw [cbc_encrypt_output type output input n key iv st0 heap hlen,
      cbcChainEncrypt_blockAt _ hE n iv _ _ i hi, hb]
  refine ⟨gen, ?_⟩
  intro output st0 heap
  have h0 := gen AES128 output nistPlain 4 key128 nistIv st0 heap (by decide) 0 (by decide)
  have h1 := gen AES128 output nistPlain 4 key128 nistIv st0 heap (by decide) 1 (by decide)
  rw [if_pos rfl, (Cipher_expanded AES128 (by decide) key128 st0 heap).1, Nat.mul_zero,
    nist_cbc128_block0] at h0
  rw [if_neg (by decide), Nat.sub_self, Nat.mul_zero, h0,
    (Cipher_expanded AES128 (by decide) key128 st0 heap).1, Nat.mul_one, nist_cbc128_block1] at h1
  exact ⟨h0, h1⟩

theorem C5_cbc_encrypt_chaining_witness :
    16 * 4 ≤ nistPlain.length ∧ 2 < 4 ∧
    blockAt (AES_CBC_encrypt_buffer AES192 [] nistPlain (16 * 4) (some key192) (some nistIv)
        zeroState []).1 (16 * 2) =
      Cipher (expanded AES192 key192 zeroState [])
        (xorBlock (blockAt nistPlain (16 * 2))
          (if 2 = 0 then nistIv else
            blockAt (AES_CBC_encrypt_buffer AES192 [] nistPlain (16 * 4) (some key192) (some nistIv)
              zeroState []).1 (16 * (2 - 1)))) :=
  ⟨by decide, by decide,
    C5_cbc_encrypt_chaining.1 AES192 [] nistPlain 4 key192 nistIv zeroState [] (by decide) 2 (by decide)⟩

/-- C6: `AES_CBC_decrypt_buffer` chains on the input ciphertext. For a non-null key
and IV, distinct buffers and an input of `n` full blocks, output block 0 is
`InvCipher (C_0) xor IV` and output block `i` is `InvCipher (C_i) xor C_(i-1)` for
`0 < i < n`, where `C_(i-1)` is the block of the input buffer, which the call does
not modify, and `InvCipher` runs under the expanded key. -/
theorem C6_cbc_decrypt_chaining (type : Nat) (output input : List Nat) (n : Nat) (key iv : List Nat)
    (st0 : aes_state_t) (heap : List Nat) (hlen : 16 * n ≤ input.length) (i : Nat) (hi : i < n) :
    blockAt (AES_CBC_decrypt_buffer type output input (16 * n) (some key) (some iv) st0 heap) (16 * i) =
      xorBlock (InvCipher (expanded type key st0 heap) (blockAt input (16 * i)))
        (if i = 0 then iv else blockAt input (16 * (i - 1))) := by
  have hb : ∀ j, j < n → blockAt (input.take (16 * n)) (16 * j) = blockAt input (16 * j) := by
    intro j hj
    unfold blockAt
    rw [List.drop_take, List.take_take, Nat.min_eq_left (by omega)]
  rw [cbc_decrypt_output type output input n key iv st0 heap hlen,
    cbcChainDecrypt_blockAt _ n iv _ _ i hi, hb i hi]
  cases i with
  | zero => rfl
  | succ j => rw [if_neg (Nat.succ_ne_zero j), if_neg (Nat.succ_ne_zero j), Nat.add_sub_cancel,
      hb j (by omega)]

theorem C6_cbc_decrypt_chaining_witness :
    16 * 4 ≤ headerCipher.length ∧ 3 < 4 ∧
    blockAt (AES_CBC_decrypt_buffer AES128 [] headerCipher (16 * 4) (some key128) (some nistIv)
        zeroState []) (16 * 3) =
      xorBlock (InvCipher (expanded AES128 key128 zeroState []) (blockAt headerCipher (16 * 3)))
        (if 3 = 0 then nistIv else blockAt headerCipher (16 * (3 - 1))) :=
  ⟨by decide, by decide,
    C6_cbc_decrypt_chaining AES128 [] headerCipher 4 key128 nistIv zeroState [] (by decide) 3 (by decide)⟩

/-- C7: for each valid variant the round-key schedule has `4 * Nb * (Nr + 1)` bytes,
which is the variant's `keyExpSize` (176, 208, 240). `KeyExpansion` determines
every one of these bytes from the key and the variant alone: the schedule does not
depend on what the state or the heap held, nor on what the buffer held before. On
a larger buffer it leaves every byte from index `keyExpSize` on as it was. -/
theorem C7_key_schedule (type : Nat) (ht : validType type) (key : List Nat) (st0 st1 : aes_state_t)
    (heap heap1 buf : List Nat) (hbuf : (init type st0 heap).keyExpSize ≤ buf.length) :
    4 * Nb * ((init type st0 heap).Nr + 1) = (init type st0 heap).keyExpSize ∧
    (init type st0 heap).keyExpSize =
      (if type = AES128 then 176 else if type = AES192 then 208 else 240) ∧
    (expanded type key st0 heap).RoundKey.length = (init type st0 heap).keyExpSize ∧
    (expanded type key st0 heap).RoundKey = (expanded type key st1 heap1).RoundKey ∧
    (KeyExpansion { init type st0 heap with Key := key, RoundKey := buf }).RoundKey.take
        (init type st0 heap).keyExpSize = (expanded type key st0 heap).RoundKey ∧
    (KeyExpansion { init type st0 heap with Key := key, RoundKey := buf }).RoundKey.drop
        (init type st0 heap).keyExpSize = buf.drop (init type st0 heap).keyExpSize := by
  obtain ⟨b1, b2, b3, _, _, b6⟩ := init_bounds type ht st0 heap
  have f := (init_facts type ht st0 heap).2.1
  have hl : (expanded type key st0 heap).RoundKey.length = (init type st0 heap).keyExpSize := by
    unfold expanded; rw [KeyExpansion_length]; exact b6
  refine ⟨by rw [← b3]; simp only [Nb]; omega, ?_, hl,
    expanded_RoundKey type ht key st0 st1 heap heap1, ?_, ?_⟩
  · rcases ht with h | h | h <;> subst h <;> simp [init, AES128, AES192, AES256, AES128_keyExpSize,
      AES192_keyExpSize, AES256_keyExpSize]
  · have ag := KeyExpansion_agree { init type st0 heap with Key := key, RoundKey := buf }
      { init type st0 heap with Key := key } rfl rfl rfl rfl b1 b2
      (by simp only []; omega) (by simp only []; omega)
    obtain ⟨_, _, e⟩ := ag
    simp only [] at e
    rw [b3] at e
    rw [e]
    exact List.take_of_length_le (by rw [← hl]; exact Nat.le_refl _)
  · have d := KeyExpansion_drop { init type st0 heap with Key := key, RoundKey := buf } b2
    simp only [] at d
    rw [b3] at d
    exact d

theorem C7_key_schedule_witness :
    validType AES128 ∧ (init AES128 zeroState []).keyExpSize ≤ (List.replicate 200 255).length ∧
    (4 * Nb * ((init AES128 zeroState []).Nr + 1) = (init AES128 zeroState []).keyExpSize ∧
    (init AES128 zeroState []).keyExpSize =
      (if AES128 = AES128 then 176 else if AES128 = AES192 then 208 else 240) ∧
    (expanded AES128 key128 zeroState []).RoundKey.length = (init AES128 zeroState []).keyExpSize ∧
    (expanded AES128 key128 zeroState []).RoundKey =
      (expanded AES128 key128 (init AES256 zeroState [1, 2, 3]) [7, 7]).RoundKey ∧
    (KeyExpansion { init AES128 zeroState [] with
        Key := key128, RoundKey := List.replicate 200 255 }).RoundKey.take
        (init AES128 zeroState []).keyExpSize = (expanded AES128 key128 zeroState []).RoundKey ∧
    (KeyExpansion { init AES128 zeroState [] with
        Key := key128, RoundKey := List.replicate 200 255 }).RoundKey.drop
        (init AES128 zeroState []).keyExpSize =
      (List.replicate 200 255).drop (init AES128 zeroState []).keyExpSize) :=
  ⟨by decide, by decide!,
    C7_key_schedule AES128 (by decide) key128 zeroState (init AES256 zeroState [1, 2, 3]) [] [7, 7]
      (List.replicate 200 255) (by decide!)⟩

theorem init_invalid (type : Nat) (ht : ¬ validType type) (st : aes_state_t) (heap : List Nat) :
    init type st heap = st := by
  unfold validType at ht
  unfold init
  rw [if_neg (fun h => ht (Or.inr (Or.inr h))), if_neg (fun h => ht (Or.inr (Or.inl h))),
    if_neg (fun h => ht (Or.inl h))]

end VscpAes

/-! # Bootloader session: the claims -/

namespace VscpBoot

theorem callback_sent (w : World) (s : CBootDevice_VSCP) (n : Int) (msg : String) :
    (w.callback s n msg).sent = w.sent := by
  unfold World.callback
  split <;> rfl

theorem send_sent (w w1 : World) (ex : vscpEventEx) (rv : Int) (h : w.send ex = some (rv, w1)) :
    w1.sent = w.sent ++ [ex] := by
  unfold World.send at h
  split at h
  · exact absurd h (by simp)
  · simp only [Option.some.injEq, Prod.mk.injEq] at h
    rw [← h.2]

theorem time_sent (w w1 : World) (t : Int) (h : w.time = some (t, w1)) : w1.sent = w.sent := by
  unfold World.time at h
  split at h
  · exact absurd h (by simp)
  · simp only [Option.some.injEq, Prod.mk.injEq] at h
    rw [← h.2]

theorem getcount_sent (w w1 : World) (c : Int × Nat) (h : w.getcount = some (c, w1)) :
    w1.sent = w.sent := by
  unfold World.getcount at h
  split at h
  · exact absurd h (by simp)
  · simp only [Option.some.injEq, Prod.mk.injEq] at h
    rw [← h.2]

theorem receive_sent (w w1 : World) (r : Int × vscpEventEx) (h : w.receive = some (r, w1)) :
    w1.sent = w.sent := by
  unfold World.receive at h
  split at h
  · exact absurd h (by simp)
  · simp only [Option.some.injEq, Prod.mk.injEq] at h
    rw [← h.2]

theorem readStdRegs_sent (w w1 : World) (r : Int × CStandardRegisters)
    (h : w.readStdRegs = some (r, w1)) : w1.sent = w.sent := by
  unfold World.readStdRegs at h
  split at h
  · exact absurd h (by simp)
  · simp only [Option.some.injEq, Prod.mk.injEq] at h
    rw [← h.2]

/-- The loop of `checkResponse` sends nothing and returns one of three codes. -/
theorem checkResponse_loop_spec (s : CBootDevice_VSCP) (guid : List Nat) (ack nack timeout : Nat)
    (tstart : Int) (fuel : Nat) :
    ∀ (w : World) (ex : vscpEventEx) (rv : Int) (ex1 : vscpEventEx) (w1 : World),
      checkResponse.loop s guid ack nack timeout tstart fuel w ex = some (rv, ex1, w1) →
      w1.sent = w.sent ∧
      (rv = VSCP_ERROR_TIMEOUT ∨ rv = VSCP_ERROR_SUCCESS ∨ rv = VSCP_ERROR_NACK) := by
  induction fuel with
  | zero => intro w ex rv ex1 w1 h; simp [checkResponse.loop] at h
  | succ fuel ih =>
    intro w ex rv ex1 w1 h
    unfold checkResponse.loop at h
    split at h
    · exact absurd h (by simp)
    · rename_i tnow wt ht
      have st := time_sent _ _ _ ht
      split at h
      · simp only [Option.some.injEq, Prod.mk.injEq] at h
        obtain ⟨h1, _, h3⟩ := h
        exact ⟨by rw [← h3, st], Or.inl h1.symm⟩
      · split at h
        · exact absurd h (by simp)
        · rename_i crv cnt wc hc
          have sc := getcount_sent _ _ _ hc
          split at h
          · split at h
            · exact absurd h (by simp)
            · rename_i rrv ev wr hr
              have sr := receive_sent _ _ _ hr
              simp only [] at h
              split at h
              · simp only [Option.some.injEq, Prod.mk.injEq] at h
                obtain ⟨h1, _, h3⟩ := h
                exact ⟨by rw [← h3, callback_sent, sr, sc, st], Or.inr (Or.inl h1.symm)⟩
              · split at h
                · simp only [Option.some.injEq, Prod.mk.injEq] at h
                  obtain ⟨h1, _, h3⟩ := h
                  exact ⟨by rw [← h3, callback_sent, sr, sc, st], Or.inr (Or.inr h1.symm)⟩
                · obtain ⟨a, b⟩ := ih _ _ _ _ _ h
                  exact ⟨by rw [a, sr, sc, st], b⟩
          · obtain ⟨a, b⟩ := ih _ _ _ _ _ h
            exact ⟨by rw [a, sc, st], b⟩

theorem checkResponse_spec (s : CBootDevice_VSCP) (w : World) (ex : vscpEventEx) (guid : List Nat)
    (ack nack timeout : Nat) (rv : Int) (ex1 : vscpEventEx) (w1 : World)
    (h : checkResponse s w ex guid ack nack timeout = some (rv, ex1, w1)) :
    w1.sent = w.sent ∧
    (rv = VSCP_ERROR_TIMEOUT ∨ rv = VSCP_ERROR_SUCCESS ∨ rv = VSCP_ERROR_NACK) := by
  unfold checkResponse at h
  split at h
  · exact absurd h (by simp)
  · rename_i tstart wt ht
    obtain ⟨a, b⟩ := checkResponse_loop_spec _ _ _ _ _ _ _ _ _ _ _ _ h
    exact ⟨by rw [a, time_sent _ _ _ ht], b⟩

theorem confirm_sent (s : CBootDevice_VSCP) (ex : vscpEventEx) (w : World) :
    (deviceInit.confirm s ex w).2.2.sent = w.sent := by
  unfold deviceInit.confirm
  simp only []
  split <;> simp only [callback_sent]

theorem confirm_chunkSize (s : CBootDevice_VSCP) (ex : vscpEventEx) (w : World) :
    (deviceInit.confirm s ex w).2.1.m_chunkSize = s.m_chunkSize ∧
    (deviceInit.confirm s ex w).2.1.m_stdRegs = s.m_stdRegs := by
  unfold deviceInit.confirm
  simp only []
  split <;> exact ⟨rfl, rfl⟩

theorem confirm_code (s : CBootDevice_VSCP) (ex : vscpEventEx) (w : World) :
    ((deviceInit.confirm s ex w).1 = VSCP_ERROR_SIZE ∧
      (deviceInit.confirm s ex w).2.1.m_blockSize < s.m_chunkSize) ∨
    ((deviceInit.confirm s ex w).1 = VSCP_ERROR_SUCCESS ∧
      s.m_chunkSize ≤ (deviceInit.confirm s ex w).2.1.m_blockSize) := by
  unfold deviceInit.confirm
  simp only []
  split
  · rename_i h; exact Or.inl ⟨rfl, h⟩
  · rename_i h; exact Or.inr ⟨rfl, by simpa using h⟩

/-- What the validation at the end of `deviceInit` does when the announced block
size is below the chunk size. -/
theorem confirm_small (s : CBootDevice_VSCP) (ex : vscpEventEx) (w : World)
    (h : construct_unsigned32 (ex.data.getD 0 0) (ex.data.getD 1 0) (ex.data.getD 2 0)
      (ex.data.getD 3 0) < s.m_chunkSize) :
    (deviceInit.confirm s ex w).1 = VSCP_ERROR_SIZE ∧
    (deviceInit.confirm s ex w).2.1 =
      { s with
        m_blockSize := construct_unsigned32 (ex.data.getD 0 0) (ex.data.getD 1 0) (ex.data.getD 2 0)
          (ex.data.getD 3 0),
        m_numBlocks := construct_unsigned32 (ex.data.getD 4 0) (ex.data.getD 5 0) (ex.data.getD 6 0)
          (ex.data.getD 7 0) } := by
  unfold deviceInit.confirm
  simp only []
  rw [if_pos h]
  exact ⟨rfl, rfl⟩

/-- Every way `deviceInit` can return, with what it has sent and how it leaves the
block geometry. -/
theorem deviceInit_cases (s : CBootDevice_VSCP) (w : World) (ourguid : List Nat) (devicecode : Nat)
    (abort : Bool) (ex0 : vscpEventEx) (timeout : Nat) (rv : Int) (s1 : CBootDevice_VSCP) (w1 : World)
    (h : deviceInit s w ourguid devicecode abort ex0 timeout = some (rv, s1, w1)) :
    s1.m_chunkSize = s.m_chunkSize ∧
    (((rv = VSCP_ERROR_COMMUNICATION ∨ rv = VSCP_ERROR_NOT_SUPPORTED ∨ rv = VSCP_ERROR_PARAMETER) ∧
        w1.sent = w.sent ∧ s1.m_blockSize = s.m_blockSize ∧ s1.m_numBlocks = s.m_numBlocks) ∨
      (rv ≠ VSCP_ERROR_SUCCESS ∧
        w1.sent = w.sent ++ [deviceInit.request { s with m_stdRegs := s1.m_stdRegs } ex0] ∧
        s1.m_blockSize = s.m_blockSize ∧ s1.m_numBlocks = s.m_numBlocks) ∨
      (w1.sent = w.sent ++ [deviceInit.request { s with m_stdRegs := s1.m_stdRegs } ex0] ∧
        ((rv = VSCP_ERROR_SIZE ∧ s1.m_blockSize < s1.m_chunkSize) ∨
         (rv = VSCP_ERROR_SUCCESS ∧ s1.m_chunkSize ≤ s1.m_blockSize)))) := by
  unfold deviceInit at h
  split at h
  · exact absurd h (by simp)
  · rename_i rvRegs regs wr hr
    have sr := readStdRegs_sent _ _ _ hr
    simp only [] at h
    split at h
    · simp only [Option.some.injEq, Prod.mk.injEq] at h
      obtain ⟨h1, h2, h3⟩ := h
      subst h1 h2 h3
      exact ⟨rfl, Or.inl ⟨Or.inl rfl, sr, rfl, rfl⟩⟩
    · split at h
      · simp only [Option.some.injEq, Prod.mk.injEq] at h
        obtain ⟨h1, h2, h3⟩ := h
        subst h1 h2 h3
        exact ⟨rfl, Or.inl ⟨Or.inr (Or.inl rfl), by rw [callback_sent, sr], rfl, rfl⟩⟩
      · have sw : ∀ (c : Prop) [Decidable c] (m : String),
            (if c then wr.callback { s with m_stdRegs := regs } (-1) m else wr).sent = w.sent := by
          intro c _ m
          split
          · rw [callback_sent, sr]
          · exact sr
        split at h
        · simp only [Option.some.injEq, Prod.mk.injEq] at h
          obtain ⟨h1, h2, h3⟩ := h
          subst h1 h2 h3
          exact ⟨rfl, Or.inl ⟨Or.inr (Or.inr rfl), sw _ _, rfl, rfl⟩⟩
        · split at h
          · exact absurd h (by simp)
          · rename_i rvS ws hs
            have ss := send_sent _ _ _ _ hs
            rw [sw] at ss
            split at h
            · rename_i hne
              simp only [Option.some.injEq, Prod.mk.injEq] at h
              obtain ⟨h1, h2, h3⟩ := h
              subst h1 h2 h3
              exact ⟨rfl, Or.inr (Or.inl ⟨fun e => hne e.symm, by rw [callback_sent, ss], rfl, rfl⟩)⟩
            · split at h
              · exact absurd h (by simp)
              · rename_i rvC exC wc hc
                obtain ⟨sc, _⟩ := checkResponse_spec _ _ _ _ _ _ _ _ _ _ hc
                split at h
                · rename_i hne
                  simp only [Option.some.injEq, Prod.mk.injEq] at h
                  obtain ⟨h1, h2, h3⟩ := h
                  subst h1 h2 h3
                  exact ⟨rfl, Or.inr (Or.inl ⟨fun e => hne e.symm, by rw [callback_sent, sc, ss],
                    rfl, rfl⟩)⟩
                · simp only [Option.some.injEq] at h
                  have k1 := confirm_sent { s with m_stdRegs := regs } exC wc
                  have k2 := confirm_chunkSize { s with m_stdRegs := regs } exC wc
                  have k3 := confirm_code { s with m_stdRegs := regs } exC wc
                  rw [h] at k1 k2 k3
                  simp only [] at k1 k2 k3
                  refine ⟨k2.1, Or.inr (Or.inr ⟨by rw [k1, sc, ss, k2.2], ?_⟩)⟩
                  rw [k2.1]
                  exact k3

/-- C9, counterexample: a nickname session (chunk size 8) whose enter-bootloader
request is acknowledged with block size 4 gets `VSCP_ERROR_SIZE` from `deviceInit`,
and the list of events passed to `send` during the call is not empty: it holds the
enter-bootloader request. -/
theorem C9_size_error_after_send_counterexample :
    deviceInit demoSession demoWorld [] 0 false demoEx0 5 =
      some (VSCP_ERROR_SIZE, demoSessionAfter, demoWorldAfter) ∧
    demoWorld.sent = [] ∧
    construct_unsigned32 (demoAck.data.getD 0 0) (demoAck.data.getD 1 0) (demoAck.data.getD 2 0)
      (demoAck.data.getD 3 0) < demoSession.m_chunkSize ∧
    demoWorldAfter.sent = [demoRequest] ∧
    demoWorldAfter.sent ≠ demoWorld.sent := by
  decide

/-- C10, counterexample: the same call returns `VSCP_ERROR_SIZE` and leaves
`m_blockSize = 4` and `m_numBlocks = 10`, where the session had 0 and 0 before. -/
theorem C10_size_error_keeps_geometry_counterexample :
    (deviceInit demoSession demoWorld [] 0 false demoEx0 5).map (fun r => (r.1, r.2.1.m_blockSize,
        r.2.1.m_numBlocks)) = some (VSCP_ERROR_SIZE, 4, 10) ∧
    (demoSession.m_blockSize, demoSession.m_numBlocks) = (0, 0) ∧
    ((4, 10) : Nat × Nat) ≠ (demoSession.m_blockSize, demoSession.m_numBlocks) := by
  decide

end VscpBoot

/-! # Block transfer: the polling loop -/

namespace VscpBoot

theorem feed_time (p : Poll) (w : World) :
    (p.feed w).time = some (p.tnow, { p.feed w with times := w.times }) := rfl

theorem feedClock_time (t : Int) (w : World) : (feedClock t w).time = some (t, w) := by
  cases w; rfl

theorem feed_idle_step (p : Poll) (w : World) (hp : p.pending = false) :
    World.getcount { p.feed w with times := w.times } = some ((p.countRv, p.cnt), w) := by
  cases w
  simp [Poll.feed, World.getcount, hp]

theorem feed_pending_step (p : Poll) (w : World) (hp : p.pending = true) :
    World.getcount { p.feed w with times := w.times } =
      some ((p.countRv, p.cnt), { w with received := (p.recvRv, p.ev) :: w.received }) := by
  cases w
  simp [Poll.feed, World.getcount, hp]

theorem receive_cons (r : Int × vscpEventEx) (w : World) :
    World.receive { w with received := r :: w.received } = some (r, w) := by
  cases w; rfl

theorem loop_idle (s : CBootDevice_VSCP) (guid : List Nat) (ack nack timeout : Nat) (tstart : Int)
    (fuel : Nat) (p : Poll) (w : World) (ex : vscpEventEx)
    (h : p.idle guid ack nack timeout tstart = true) :
    checkResponse.loop s guid ack nack timeout tstart (fuel + 1) (p.feed w) ex =
      checkResponse.loop s guid ack nack timeout tstart fuel w (p.leaves ex) := by
  simp only [Poll.idle, Bool.and_eq_true, decide_eq_true_eq, Bool.not_eq_true', elapsed] at h
  obtain ⟨hlate, hdec⟩ := h
  rw [checkResponse.loop, feed_time]
  simp only [not_lt.mpr hlate, if_false]
  cases hp : p.pending with
  | false =>
    rw [feed_idle_step p w hp]
    have hc : ¬ (VSCP_ERROR_SUCCESS = p.countRv ∧ p.cnt ≠ 0) := by
      simpa [Poll.pending] using hp
    simp only [hc, if_false, Poll.leaves, hp, Bool.false_eq_true]
  | true =>
    rw [feed_pending_step p w hp]
    have hc : VSCP_ERROR_SUCCESS = p.countRv ∧ p.cnt ≠ 0 := by
      simpa [Poll.pending] using hp
    simp only [hc, and_self, ne_eq, not_false_eq_true, if_true, receive_cons]
    simp only [Poll.decides, hp, Bool.true_and, Bool.or_eq_false_iff, isReply,
      decide_eq_false_iff_not] at hdec
    simp only [hdec.1, hdec.2, if_false, Poll.leaves, hp, if_true]

theorem feedPolls_times_length (polls : List Poll) (w : World) :
    (feedPolls polls w).times.length = polls.length + w.times.length := by
  induction polls with
  | nil => simp [feedPolls]
  | cons p ps ih =>
    simp only [feedPolls, List.foldr_cons, Poll.feed, List.length_cons] at ih ⊢
    omega

theorem loop_polls (s : CBootDevice_VSCP) (guid : List Nat) (ack nack timeout : Nat) (tstart : Int)
    (polls : List Poll) :
    ∀ (fuel : Nat) (w : World) (ex : vscpEventEx),
      polls.all (Poll.idle guid ack nack timeout tstart) = true →
      checkResponse.loop s guid ack nack timeout tstart (polls.length + fuel) (feedPolls polls w) ex =
        checkResponse.loop s guid ack nack timeout tstart fuel w
          (polls.foldl (fun e p => p.leaves e) ex) := by
  induction polls with
  | nil => intro fuel w ex _; simp [feedPolls]
  | cons p ps ih =>
    intro fuel w ex h
    simp only [List.all_cons, Bool.and_eq_true] at h
    have e : (p :: ps).length + fuel = (ps.length + fuel) + 1 := by simp only [List.length_cons]; omega
    rw [e]
    show checkResponse.loop s guid ack nack timeout tstart (ps.length + fuel + 1)
      (p.feed (feedPolls ps w)) ex = _
    rw [loop_idle s guid ack nack timeout tstart _ p _ ex h.1, ih fuel w _ h.2]
    rfl

theorem loop_late (s : CBootDevice_VSCP) (guid : List Nat) (ack nack timeout : Nat) (tstart : Int)
    (fuel : Nat) (t : Int) (w : World) (ex : vscpEventEx) (h : timeout < elapsed tstart t) :
    checkResponse.loop s guid ack nack timeout tstart (fuel + 1) (feedClock t w) ex =
      some (VSCP_ERROR_TIMEOUT, ex, w) := by
  rw [checkResponse.loop, feedClock_time]
  simp only [elapsed] at h
  simp only [gt_iff_lt, h, if_true]

theorem loop_final (s : CBootDevice_VSCP) (guid : List Nat) (ack nack timeout : Nat) (tstart : Int)
    (fuel : Nat) (p : Poll) (w : World) (ex : vscpEventEx)
    (hlate : elapsed tstart p.tnow ≤ timeout) (hp : p.pending = true)
    (hdec : isReply guid ack p.ev = true ∨ isReply guid nack p.ev = true) :
    checkResponse.loop s guid ack nack timeout tstart (fuel + 1) (p.feed w) ex =
      if isReply guid ack p.ev = true then
        some (VSCP_ERROR_SUCCESS, p.ev, w.callback s (-1) "VSCP Bootloader:ACK recived")
      else
        some (VSCP_ERROR_NACK, p.ev, w.callback s (-1) "VSCP Bootloader: NACK recived.") := by
  simp only [elapsed] at hlate
  rw [checkResponse.loop, feed_time]
  simp only [not_lt.mpr hlate, if_false]
  rw [feed_pending_step p w hp]
  have hc : VSCP_ERROR_SUCCESS = p.countRv ∧ p.cnt ≠ 0 := by
    simpa [Poll.pending] using hp
  simp only []
  rw [if_pos hc, receive_cons]
  simp only []
  by_cases ha : isReply guid ack p.ev = true
  · have ha2 := ha
    simp only [isReply, decide_eq_true_eq] at ha2
    rw [if_pos ha2, if_pos ha]
  · have hn : isReply guid nack p.ev = true := hdec.resolve_left ha
    have ha2 := ha
    have hn2 := hn
    simp only [isReply, decide_eq_true_eq] at ha2 hn2
    rw [if_neg ha2, if_pos hn2, if_neg ha]

theorem feedPolls_append (ps qs : List Poll) (w : World) :
    feedPolls (ps ++ qs) w = feedPolls ps (feedPolls qs w) := by
  simp [feedPolls]

theorem checkResponse_polls (s : CBootDevice_VSCP) (w : World) (ex : vscpEventEx) (guid : List Nat)
    (ack nack timeout : Nat) (tstart : Int) (skipped : List Poll) (final : Poll)
    (hskip : skipped.all (Poll.idle guid ack nack timeout tstart) = true)
    (hin : elapsed tstart final.tnow ≤ timeout) (hp : final.pending = true)
    (hm : isReply guid ack final.ev = true ∨ isReply guid nack final.ev = true) :
    checkResponse s (feedClock tstart (feedPolls (skipped ++ [final]) w)) ex guid ack nack timeout =
      if isReply guid ack final.ev = true then
        some (VSCP_ERROR_SUCCESS, final.ev, w.callback s (-1) "VSCP Bootloader:ACK recived")
      else
        some (VSCP_ERROR_NACK, final.ev, w.callback s (-1) "VSCP Bootloader: NACK recived.") := by
  rw [checkResponse, feedClock_time]
  simp only []
  rw [feedPolls_append, feedPolls_times_length]
  have e : skipped.length + (feedPolls [final] w).times.length + 1 =
      skipped.length + ((feedPolls [final] w).times.length + 1) := by omega
  rw [e, loop_polls s guid ack nack timeout tstart skipped _ _ ex hskip]
  exact loop_final s guid ack nack timeout tstart _ final w _ hin hp hm

theorem checkResponse_late (s : CBootDevice_VSCP) (w : World) (ex : vscpEventEx) (guid : List Nat)
    (ack nack timeout : Nat) (tstart : Int) (polls : List Poll) (tlate : Int)
    (hidle : polls.all (Poll.idle guid ack nack timeout tstart) = true)
    (hlate : timeout < elapsed tstart tlate) :
    checkResponse s (feedClock tstart (feedPolls polls (feedClock tlate w))) ex guid ack nack timeout =
      some (VSCP_ERROR_TIMEOUT, polls.foldl (fun e p => p.leaves e) ex, w) := by
  rw [checkResponse, feedClock_time]
  simp only []
  rw [feedPolls_times_length]
  have e : polls.length + (feedClock tlate w).times.length + 1 =
      polls.length + ((feedClock tlate w).times.length + 1) := by omega
  rw [e, loop_polls s guid ack nack timeout tstart polls _ _ ex hidle]
  exact loop_late s guid ack nack timeout tstart _ tlate w _ hlate

/-- C13: in a wait whose passes before the deciding one neither time out nor
receive a reply from the node (whatever else they receive, and however many they
are), and whose deciding pass is within the timeout and receives an event of class
protocol from the node of type `ack` or `nack`, `checkResponse` returns success
when the type is `ack` and the negative-acknowledge code otherwise, leaving the
event in `ex`. -/
theorem C13_checkResponse_classifies (s : CBootDevice_VSCP) (w : World) (ex : vscpEventEx)
    (guid : List Nat) (ack nack timeout : Nat) (tstart : Int) (skipped : List Poll) (final : Poll)
    (hskip : ∀ p ∈ skipped, elapsed tstart p.tnow ≤ timeout ∧ p.decides guid ack nack = false)
    (hin : elapsed tstart final.tnow ≤ timeout) (hp : final.pending = true)
    (hclass : final.ev.vscp_class = VSCP_CLASS1_PROTOCOL)
    (hguid : isSameGUID guid final.ev.GUID = true)
    (htype : final.ev.vscp_type = ack ∨ final.ev.vscp_type = nack) :
    ∃ msg, checkResponse s (feedClock tstart (feedPolls (skipped ++ [final]) w)) ex guid ack nack
        timeout =
      some (if final.ev.vscp_type = ack then VSCP_ERROR_SUCCESS else VSCP_ERROR_NACK, final.ev,
        w.callback s (-1) msg) := by
  have hskip2 : skipped.all (Poll.idle guid ack nack timeout tstart) = true := by
    rw [List.all_eq_true]
    intro p hp
    simp only [Poll.idle, Bool.and_eq_true, decide_eq_true_eq, Bool.not_eq_true']
    exact hskip p hp
  have hm : isReply guid ack final.ev = true ∨ isReply guid nack final.ev = true := by
    simp only [isReply, decide_eq_true_eq]
    rcases htype with h | h
    · exact Or.inl ⟨hclass.symm, h.symm, hguid⟩
    · exact Or.inr ⟨hclass.symm, h.symm, hguid⟩
  have hiff : isReply guid ack final.ev = true ↔ final.ev.vscp_type = ack := by
    simp only [isReply, decide_eq_true_eq]
    exact ⟨fun h => h.2.1.symm, fun h => ⟨hclass.symm, h.symm, hguid⟩⟩
  rw [checkResponse_polls s w ex guid ack nack timeout tstart skipped final hskip2 hin hp hm]
  by_cases h : final.ev.vscp_type = ack
  · exact ⟨_, by rw [if_pos (hiff.mpr h), if_pos h]⟩
  · exact ⟨_, by rw [if_neg (fun c => h (hiff.mp c)), if_neg h]⟩

/-- C14: when the passes before the first clock reading beyond the timeout receive
no reply from the node (wrong class, wrong type or wrong GUID, or nothing at all),
`checkResponse` ends at that reading and returns the timeout code; `ex` holds the
last event received. -/
theorem C14_checkResponse_times_out (s : CBootDevice_VSCP) (w : World) (ex : vscpEventEx)
    (guid : List Nat) (ack nack timeout : Nat) (tstart : Int) (polls : List Poll) (tlate : Int)
    (hearly : ∀ p ∈ polls, elapsed tstart p.tnow ≤ timeout)
    (hnone : ∀ p ∈ polls, p.decides guid ack nack = false)
    (hlate : timeout < elapsed tstart tlate) :
    checkResponse s (feedClock tstart (feedPolls polls (feedClock tlate w))) ex guid ack nack timeout =
      some (VSCP_ERROR_TIMEOUT, polls.foldl (fun e p => p.leaves e) ex, w) := by
  apply checkResponse_late s w ex guid ack nack timeout tstart polls tlate _ hlate
  rw [List.all_eq_true]
  intro p hp
  simp only [Poll.idle, Bool.and_eq_true, decide_eq_true_eq, Bool.not_eq_true']
  exact ⟨hearly p hp, hnone p hp⟩

theorem C13_checkResponse_classifies_witness :
    ∃ msg, checkResponse demoSession
        (feedClock 100 (feedPolls ([pollOf 100 (demoReply VSCP_TYPE_PROTOCOL_BLOCK_DATA_ACK)] ++
          [pollOf 101 (demoReply VSCP_TYPE_PROTOCOL_START_BLOCK_NACK)]) emptyWorld))
        demoEx0 demoGuid VSCP_TYPE_PROTOCOL_START_BLOCK_ACK VSCP_TYPE_PROTOCOL_START_BLOCK_NACK 5 =
      some (if (pollOf 101 (demoReply VSCP_TYPE_PROTOCOL_START_BLOCK_NACK)).ev.vscp_type =
            VSCP_TYPE_PROTOCOL_START_BLOCK_ACK then VSCP_ERROR_SUCCESS else VSCP_ERROR_NACK,
        (pollOf 101 (demoReply VSCP_TYPE_PROTOCOL_START_BLOCK_NACK)).ev,
        emptyWorld.callback demoSession (-1) msg) :=
  C13_checkResponse_classifies demoSession emptyWorld demoEx0 demoGuid
    VSCP_TYPE_PROTOCOL_START_BLOCK_ACK VSCP_TYPE_PROTOCOL_START_BLOCK_NACK 5 100
    [pollOf 100 (demoReply VSCP_TYPE_PROTOCOL_BLOCK_DATA_ACK)]
    (pollOf 101 (demoReply VSCP_TYPE_PROTOCOL_START_BLOCK_NACK))
    (by decide) (by decide) (by decide) (by decide) (by decide) (by decide)

theorem C14_checkResponse_times_out_witness :
    checkResponse demoSession
        (feedClock 100 (feedPolls [pollOf 100 (demoReply VSCP_TYPE_PROTOCOL_BLOCK_DATA_ACK),
          pollOf 103 (demoReply VSCP_TYPE_PROTOCOL_BLOCK_DATA_NACK)] (feedClock 106 emptyWorld)))
        demoEx0 demoGuid VSCP_TYPE_PROTOCOL_START_BLOCK_ACK VSCP_TYPE_PROTOCOL_START_BLOCK_NACK 5 =
      some (VSCP_ERROR_TIMEOUT,
        [pollOf 100 (demoReply VSCP_TYPE_PROTOCOL_BLOCK_DATA_ACK),
          pollOf 103 (demoReply VSCP_TYPE_PROTOCOL_BLOCK_DATA_NACK)].foldl
            (fun e p => p.leaves e) demoEx0, emptyWorld) :=
  C14_checkResponse_times_out demoSession emptyWorld demoEx0 demoGuid
    VSCP_TYPE_PROTOCOL_START_BLOCK_ACK VSCP_TYPE_PROTOCOL_START_BLOCK_NACK 5 100
    [pollOf 100 (demoReply VSCP_TYPE_PROTOCOL_BLOCK_DATA_ACK),
      pollOf 103 (demoReply VSCP_TYPE_PROTOCOL_BLOCK_DATA_NACK)] 106
    (by decide) (by decide) (by decide)

end VscpBoot

/-! # Block transfer: acknowledged requests -/

namespace VscpBoot

theorem logs_logs (w : World) (a c : List vscpEventEx) (b d : List (Int × String)) :
    (w.logs a b).logs c d = w.logs c d := rfl

theorem logs_self (w : World) : w.logs w.sent w.status = w := by cases w; rfl

theorem logs_sent (w : World) (a : List vscpEventEx) (b : List (Int × String)) :
    (w.logs a b).sent = a := rfl

theorem logs_status (w : World) (a : List vscpEventEx) (b : List (Int × String)) :
    (w.logs a b).status = b := rfl

theorem callback_logs (w : World) (a : List vscpEventEx) (b : List (Int × String))
    (s : CBootDevice_VSCP) (n : Int) (msg : String) :
    (w.logs a b).callback s n msg =
      w.logs a (b ++ if s.m_statusCallback = true then [(n, msg)] else []) := by
  unfold World.callback
  split <;> simp_all [World.logs]

theorem acks_logs (w : World) (a : List vscpEventEx) (b : List (Int × String))
    (s : CBootDevice_VSCP) (ev : vscpEventEx) :
    (w.logs a b).acks s ev =
      w.logs (a ++ [ev])
        (b ++ if s.m_statusCallback = true then [(-1, "VSCP Bootloader:ACK recived")] else []) := by
  rw [World.acks, logs_logs, callback_logs]
  rfl

theorem feed_logs (p : Poll) (w : World) (a : List vscpEventEx) (b : List (Int × String)) :
    p.feed (w.logs a b) = (p.feed w).logs a b := rfl

theorem feedPolls_logs (ps : List Poll) (w : World) (a : List vscpEventEx)
    (b : List (Int × String)) : feedPolls ps (w.logs a b) = (feedPolls ps w).logs a b := by
  induction ps with
  | nil => rfl
  | cons p ps ih =>
    show p.feed (feedPolls ps (w.logs a b)) = (p.feed (feedPolls ps w)).logs a b
    rw [ih, feed_logs]

theorem feedClock_logs (t : Int) (w : World) (a : List vscpEventEx) (b : List (Int × String)) :
    feedClock t (w.logs a b) = (feedClock t w).logs a b := rfl

theorem exchange_feed_logs (x : Exchange) (w : World) (a : List vscpEventEx)
    (b : List (Int × String)) : x.feed (w.logs a b) = (x.feed w).logs a b := by
  unfold Exchange.feed
  rw [feedPolls_logs, feedClock_logs]
  rfl

theorem feedAll_logs (xs : List Exchange) (w : World) (a : List vscpEventEx)
    (b : List (Int × String)) : feedAll xs (w.logs a b) = (feedAll xs w).logs a b := by
  induction xs with
  | nil => rfl
  | cons x xs ih =>
    show x.feed (feedAll xs (w.logs a b)) = (x.feed (feedAll xs w)).logs a b
    rw [ih, exchange_feed_logs]

theorem feedAll_append (xs ys : List Exchange) (w : World) :
    feedAll (xs ++ ys) w = feedAll xs (feedAll ys w) := by
  simp [feedAll]

theorem feedPolls_frame (ps : List Poll) (w : World) :
    (feedPolls ps w).sendRv = w.sendRv ∧ (feedPolls ps w).sent = w.sent ∧
    (feedPolls ps w).status = w.status ∧ (feedPolls ps w).stdRegsInit = w.stdRegsInit := by
  induction ps with
  | nil => exact ⟨rfl, rfl, rfl, rfl⟩
  | cons p ps ih => exact ih

theorem exchange_send (x : Exchange) (w : World) (ex : vscpEventEx) :
    (x.feed w).send ex =
      some (VSCP_ERROR_SUCCESS,
        feedClock x.tstart (feedPolls (x.skipped ++ [x.final]) (w.logs (w.sent ++ [ex]) w.status))) := by
  obtain ⟨h1, h2, h3, _⟩ := feedPolls_frame (x.skipped ++ [x.final]) w
  unfold Exchange.feed
  rw [feedPolls_logs]
  generalize feedPolls (x.skipped ++ [x.final]) w = W at h1 h2 h3 ⊢
  cases W
  cases w
  simp only at h1 h2 h3
  subst h1 h2 h3
  rfl

theorem exchange_step (s : CBootDevice_VSCP) (x : Exchange) (w : World) (ex : vscpEventEx)
    (guid : List Nat) (ack nack timeout : Nat) (m1 m2 : String)
    (h : x.acked guid ack nack timeout = true) :
    (match (x.feed w).send ex with
      | none => none
      | some (rv, w) =>
        if VSCP_ERROR_SUCCESS ≠ rv then some (rv, w.callback s (-1) m1)
        else
          match checkResponse s w ex guid ack nack timeout with
          | none => none
          | some (rv, _, w) =>
            if VSCP_ERROR_SUCCESS ≠ rv then some (rv, w.callback s (-1) m2)
            else some (VSCP_ERROR_SUCCESS, w)) =
      some (VSCP_ERROR_SUCCESS, w.acks s ex) := by
  simp only [Exchange.acked, Bool.and_eq_true, decide_eq_true_eq] at h
  obtain ⟨⟨⟨h1, h2⟩, h3⟩, h4⟩ := h
  rw [exchange_send]
  simp only [ne_eq, not_true_eq_false, if_false]
  rw [checkResponse_polls s _ ex guid ack nack timeout x.tstart x.skipped x.final h1 h2 h3
    (Or.inl h4), if_pos h4]
  simp only [ne_eq, not_true_eq_false, if_false]
  rfl

theorem writeBlockStart_acked (s : CBootDevice_VSCP) (x : Exchange) (w : World) (block type : Nat)
    (ex0 : vscpEventEx) (timeout : Nat)
    (h : x.acked s.m_stdRegs.GUID VSCP_TYPE_PROTOCOL_START_BLOCK_ACK
      VSCP_TYPE_PROTOCOL_START_BLOCK_NACK timeout = true) :
    writeBlockStart s (x.feed w) block type ex0 timeout =
      some (VSCP_ERROR_SUCCESS, w.acks s (writeBlockStart.request block type ex0)) := by
  unfold writeBlockStart
  exact exchange_step s x w _ _ _ _ timeout _ _ h

theorem programBlock_acked (s : CBootDevice_VSCP) (x : Exchange) (w : World) (block : Nat)
    (ex0 : vscpEventEx) (timeout : Nat)
    (h : x.acked s.m_stdRegs.GUID VSCP_TYPE_PROTOCOL_PROGRAM_BLOCK_DATA_ACK
      VSCP_TYPE_PROTOCOL_PROGRAM_BLOCK_DATA_NACK timeout = true) :
    programBlock s (x.feed w) block ex0 timeout =
      some (VSCP_ERROR_SUCCESS, w.acks s (programBlock.request block ex0)) := by
  unfold programBlock
  exact exchange_step s x w _ _ _ _ timeout _ _ h

theorem writeChunk_acked (s : CBootDevice_VSCP) (x : Exchange) (w : World) (mem : List Nat)
    (paddr size : Nat) (ex0 : vscpEventEx) (timeout : Nat) (hsize : size ≤ s.m_chunkSize)
    (h : x.acked s.m_stdRegs.GUID VSCP_TYPE_PROTOCOL_START_BLOCK_ACK
      VSCP_TYPE_PROTOCOL_START_BLOCK_NACK timeout = true) :
    writeChunk s (x.feed w) mem paddr size ex0 timeout =
      some (VSCP_ERROR_SUCCESS, w.acks s (writeChunk.request mem paddr size ex0)) := by
  unfold writeChunk
  rw [if_neg (not_lt.mpr hsize)]
  exact exchange_step s x w _ _ _ _ timeout _ _ h

end VscpBoot

/-! # Block transfer: the loops -/

namespace VscpBoot

theorem callback_exchange_feed (x : Exchange) (w : World) (s : CBootDevice_VSCP) (n : Int)
    (msg : String) : (x.feed w).callback s n msg = x.feed (w.callback s n msg) := by
  conv_rhs => rw [← logs_self w, callback_logs, exchange_feed_logs]
  conv_lhs => rw [← logs_self (x.feed w), callback_logs]
  obtain ⟨_, h2, h3, _⟩ := feedPolls_frame (x.skipped ++ [x.final]) w
  have e1 : (x.feed w).sent = w.sent := h2
  have e2 : (x.feed w).status = w.status := h3
  rw [e1, e2]

theorem writeBlock_loop_acked (s : CBootDevice_VSCP) (mem : List Nat) (nChunks : Nat) (rv0 : Int)
    (ex0 : vscpEventEx) (timeout : Nat) (xs : List Exchange) :
    ∀ (chunk paddr : Nat) (w : World) (a : List vscpEventEx) (b : List (Int × String)),
      xs.all (Exchange.acked s.m_stdRegs.GUID VSCP_TYPE_PROTOCOL_START_BLOCK_ACK
        VSCP_TYPE_PROTOCOL_START_BLOCK_NACK timeout) = true →
      ∃ st, writeBlock.loop s mem nChunks rv0 ex0 timeout xs.length chunk paddr
          ((feedAll xs w).logs a b) =
        some (chunk + xs.length,
          w.logs (a ++ writeBlock.events s mem nChunks ex0 xs.length paddr) st) := by
  induction xs with
  | nil =>
    intro chunk paddr w a b _
    exact ⟨b, by simp [writeBlock.loop, writeBlock.events, feedAll]⟩
  | cons x xs ih =>
    intro chunk paddr w a b h
    simp only [List.all_cons, Bool.and_eq_true] at h
    have e0 : (feedAll (x :: xs) w).logs a b = x.feed ((feedAll xs w).logs a b) := by
      rw [exchange_feed_logs]; rfl
    rw [e0]
    simp only [List.length_cons, writeBlock.loop]
    rw [callback_exchange_feed, callback_logs,
      writeChunk_acked s x _ mem _ _ ex0 timeout (Nat.mod_le _ _) h.1, acks_logs]
    simp only [ne_eq, not_true_eq_false, if_false]
    obtain ⟨st, hst⟩ := ih (chunk + 1) (paddr + s.m_chunkSize) w
      (a ++ [writeChunk.request mem (paddr + (s.m_chunkSize * nChunks) % 2 ^ 32)
        (s.m_chunkSize % 2 ^ 16) ex0]) _ h.2
    refine ⟨st, ?_⟩
    rw [hst]
    simp only [writeBlock.events, List.append_assoc, List.singleton_append, Option.some.injEq,
      Prod.mk.injEq, and_true]
    omega

theorem writeBlock_acked (s : CBootDevice_VSCP) (mem : List Nat) (paddr : Nat) (rv0 : Int)
    (ex0 : vscpEventEx) (timeout nChunks : Nat) (xs : List Exchange) (w : World)
    (a : List vscpEventEx) (b : List (Int × String))
    (hn : writeBlock.nChunks s = .done nChunks) (hlen : xs.length = nChunks)
    (h : xs.all (Exchange.acked s.m_stdRegs.GUID VSCP_TYPE_PROTOCOL_START_BLOCK_ACK
        VSCP_TYPE_PROTOCOL_START_BLOCK_NACK timeout) = true) :
    ∃ st, writeBlock s ((feedAll xs w).logs a b) mem paddr rv0 ex0 timeout =
      .done (VSCP_ERROR_SUCCESS,
        w.logs (a ++ writeBlock.events s mem nChunks ex0 nChunks paddr) st) := by
  obtain ⟨st, hst⟩ := writeBlock_loop_acked s mem nChunks rv0 ex0 timeout xs 0 paddr w a b h
  refine ⟨st, ?_⟩
  rw [hlen] at hst
  unfold writeBlock
  rw [hn]
  simp only []
  rw [hst]

theorem feedBlocks_cons (b : BlockScript) (bs : List BlockScript) (w : World) :
    feedBlocks (b :: bs) w =
      b.start.feed (feedAll b.chunks (b.program.feed (feedBlocks bs w))) := by
  simp only [feedBlocks, List.map_cons, List.flatten_cons, BlockScript.exchanges, List.cons_append]
  show b.start.feed (feedAll (b.chunks ++ [b.program] ++ _) w) = _
  rw [feedAll_append, feedAll_append]
  rfl

theorem deviceLoad_blocks_acked (s : CBootDevice_VSCP) (pbuf : List Nat) (type : Nat) (rv0 : Int)
    (ex0 : vscpEventEx) (timeout nChunks : Nat) (hn : writeBlock.nChunks s = .done nChunks)
    (bs : List BlockScript) :
    ∀ (block : Nat) (w : World) (a : List vscpEventEx) (b : List (Int × String)),
      bs.all (BlockScript.acked s.m_stdRegs.GUID timeout nChunks) = true →
      ∃ st, deviceLoad.blocks s pbuf type rv0 ex0 timeout bs.length block
          ((feedBlocks bs w).logs a b) =
        .done (none, w.logs (a ++ deviceLoad.events s pbuf type nChunks ex0 bs.length block) st) := by
  induction bs with
  | nil =>
    intro block w a b _
    exact ⟨b, by simp [deviceLoad.blocks, deviceLoad.events, feedBlocks, feedAll]⟩
  | cons c bs ih =>
    intro block w a b h
    simp only [List.all_cons, Bool.and_eq_true, BlockScript.acked, decide_eq_true_eq] at h
    obtain ⟨⟨⟨⟨h1, h2⟩, h3⟩, h4⟩, h5⟩ := h
    rw [feedBlocks_cons, ← exchange_feed_logs]
    simp only [List.length_cons, deviceLoad.blocks]
    rw [writeBlockStart_acked s c.start _ block type ex0 timeout h1, acks_logs]
    simp only [ne_eq, not_true_eq_false, if_false]
    obtain ⟨st1, hst1⟩ := writeBlock_acked s pbuf ((block * s.m_blockSize) % 2 ^ 32) rv0 ex0 timeout
      nChunks c.chunks (c.program.feed (feedBlocks bs w))
      (a ++ [writeBlockStart.request block type ex0])
      (b ++ if s.m_statusCallback = true then [(-1, "VSCP Bootloader:ACK recived")] else [])
      hn h2 h3
    rw [hst1]
    simp only [ne_eq, not_true_eq_false, if_false]
    rw [← exchange_feed_logs, programBlock_acked s c.program _ block ex0 timeout h4, acks_logs]
    simp only [ne_eq, not_true_eq_false, if_false]
    obtain ⟨st, hst⟩ := ih (block + 1) w
      (a ++ [writeBlockStart.request block type ex0] ++
        writeBlock.events s pbuf nChunks ex0 nChunks ((block * s.m_blockSize) % 2 ^ 32) ++
        [programBlock.request block ex0]) _ h5
    refine ⟨st, ?_⟩
    rw [hst]
    simp [deviceLoad.events]

end VscpBoot

/-! # Block transfer: the claims -/

namespace VscpBoot

theorem ceilDiv_eq (a b : Nat) (hb : 0 < b) :
    ceilDiv a b = if 0 ≠ a % b then a / b + 1 else a / b := by
  unfold ceilDiv
  have hdm := Nat.div_add_mod a b
  have hlt := Nat.mod_lt a hb
  split
  · rename_i h
    apply Nat.div_eq_of_lt_le
    · rw [Nat.add_mul, Nat.mul_comm]; omega
    · rw [Nat.add_mul, Nat.add_mul, Nat.mul_comm (a / b)]; omega
  · rename_i h
    apply Nat.div_eq_of_lt_le
    · rw [Nat.mul_comm]; omega
    · rw [Nat.add_mul, Nat.mul_comm]; omega

theorem nChunks_spec (s : CBootDevice_VSCP) (hcs : 0 < s.m_chunkSize) :
    writeBlock.nChunks s = .done (specChunkCount s.m_blockSize s.m_chunkSize) := by
  unfold writeBlock.nChunks specChunkCount
  split
  · rw [if_neg (Nat.pos_iff_ne_zero.mp hcs), ceilDiv_eq _ _ hcs]
    simp only []
    split <;> rfl
  · rfl

theorem nBlocks_spec (s : CBootDevice_VSCP) (minAddr maxAddr : Nat) (hbs : 0 < s.m_blockSize) :
    deviceLoad.nBlocks s minAddr maxAddr = ceilDiv (maxAddr - minAddr) s.m_blockSize := by
  unfold deviceLoad.nBlocks
  rw [ceilDiv_eq _ _ hbs]

theorem feedAll_frame (xs : List Exchange) (w : World) :
    (feedAll xs w).sent = w.sent ∧ (feedAll xs w).status = w.status := by
  induction xs with
  | nil => exact ⟨rfl, rfl⟩
  | cons x xs ih =>
    obtain ⟨_, h2, h3, _⟩ := feedPolls_frame (x.skipped ++ [x.final]) (feedAll xs w)
    exact ⟨h2.trans ih.1, h3.trans ih.2⟩

theorem events_length (s : CBootDevice_VSCP) (mem : List Nat) (nChunks : Nat) (ex0 : vscpEventEx)
    (n : Nat) : ∀ paddr, (writeBlock.events s mem nChunks ex0 n paddr).length = n := by
  induction n with
  | zero => intro _; rfl
  | succ n ih => intro paddr; simp [writeBlock.events, ih]

theorem events_get (s : CBootDevice_VSCP) (mem : List Nat) (nChunks : Nat) (ex0 : vscpEventEx)
    (n : Nat) : ∀ (paddr k : Nat), k < n →
      (writeBlock.events s mem nChunks ex0 n paddr)[k]? =
        some (writeChunk.request mem (paddr + k * s.m_chunkSize + (s.m_chunkSize * nChunks) % 2 ^ 32)
          (s.m_chunkSize % 2 ^ 16) ex0) := by
  induction n with
  | zero => intro _ k hk; omega
  | succ n ih =>
    intro paddr k hk
    cases k with
    | zero => simp [writeBlock.events]
    | succ k =>
      simp only [writeBlock.events, List.getElem?_cons_succ]
      rw [ih (paddr + s.m_chunkSize) k (by omega)]
      congr 2
      rw [Nat.add_mul]
      omega

/-- C17: for a chunk size above zero, `writeBlock` computes the chunk count of the
specification (the block size over the chunk size rounded up when the block is
larger than a chunk, else one: 64 for 512 over 8, 1 for 8 over 8), and in a world
that acknowledges every chunk request it returns after exactly that many requests:
it sends that many block-data events and leaves the answers beyond them unused. -/
theorem C17_writeBlock_chunk_count (s : CBootDevice_VSCP) (w : World) (mem : List Nat) (paddr : Nat)
    (rv0 : Int) (ex0 : vscpEventEx) (timeout : Nat) (xs : List Exchange)
    (hcs : 0 < s.m_chunkSize)
    (hack : xs.all (Exchange.acked s.m_stdRegs.GUID VSCP_TYPE_PROTOCOL_START_BLOCK_ACK
      VSCP_TYPE_PROTOCOL_START_BLOCK_NACK timeout) = true)
    (hlen : specChunkCount s.m_blockSize s.m_chunkSize ≤ xs.length) :
    writeBlock.nChunks s = .done (specChunkCount s.m_blockSize s.m_chunkSize) ∧
    (∃ evs st, writeBlock s (feedAll xs w) mem paddr rv0 ex0 timeout =
        .done (VSCP_ERROR_SUCCESS,
          (feedAll (xs.drop (specChunkCount s.m_blockSize s.m_chunkSize)) w).logs (w.sent ++ evs) st) ∧
      evs.length = specChunkCount s.m_blockSize s.m_chunkSize ∧
      ∀ ev ∈ evs, ev.vscp_type = VSCP_TYPE_PROTOCOL_BLOCK_DATA) ∧
    specChunkCount 512 8 = 64 ∧ specChunkCount 8 8 = 1 := by
  refine ⟨nChunks_spec s hcs, ?_, by decide, by decide⟩
  generalize hN : specChunkCount s.m_blockSize s.m_chunkSize = N at hlen ⊢
  have hsplit : xs = xs.take N ++ xs.drop N := (List.take_append_drop N xs).symm
  have hack2 : (xs.take N).all (Exchange.acked s.m_stdRegs.GUID VSCP_TYPE_PROTOCOL_START_BLOCK_ACK
      VSCP_TYPE_PROTOCOL_START_BLOCK_NACK timeout) = true := by
    rw [List.all_eq_true] at hack ⊢
    exact fun x hx => hack x (List.mem_of_mem_take hx)
  obtain ⟨st, hst⟩ := writeBlock_acked s mem paddr rv0 ex0 timeout N (xs.take N)
    (feedAll (xs.drop N) w) w.sent w.status (hN ▸ nChunks_spec s hcs)
    (by rw [List.length_take]; omega) hack2
  refine ⟨writeBlock.events s mem N ex0 N paddr, st, ?_, events_length s mem N ex0 N paddr, ?_⟩
  · rw [← hst, ← feedAll_append, ← hsplit]
    congr 1
    conv_lhs => rw [← logs_self (feedAll xs w)]
    rw [(feedAll_frame xs w).1, (feedAll_frame xs w).2]
  · intro ev hev
    obtain ⟨k, hk, rfl⟩ := List.getElem_of_mem hev
    rw [events_length] at hk
    have := events_get s mem N ex0 N paddr k hk
    rw [List.getElem?_eq_getElem (by rw [events_length]; exact hk)] at this
    rw [Option.some.inj this]
    rfl

theorem C17_writeBlock_chunk_count_witness :
    0 < demoLoader.m_chunkSize ∧
    (writeBlock.nChunks demoLoader =
        .done (specChunkCount demoLoader.m_blockSize demoLoader.m_chunkSize) ∧
      (∃ evs st, writeBlock demoLoader (feedAll (demoAckedBlock.start :: demoAckedBlock.chunks) emptyWorld) demoMem 0 0
          demoEx0 5 =
          .done (VSCP_ERROR_SUCCESS,
            (feedAll ((demoAckedBlock.start :: demoAckedBlock.chunks).drop
              (specChunkCount demoLoader.m_blockSize demoLoader.m_chunkSize)) emptyWorld).logs
                (emptyWorld.sent ++ evs) st) ∧
        evs.length = specChunkCount demoLoader.m_blockSize demoLoader.m_chunkSize ∧
        ∀ ev ∈ evs, ev.vscp_type = VSCP_TYPE_PROTOCOL_BLOCK_DATA) ∧
      specChunkCount 512 8 = 64 ∧ specChunkCount 8 8 = 1) :=
  ⟨by decide, C17_writeBlock_chunk_count demoLoader emptyWorld demoMem 0 0 demoEx0 5
    (demoAckedBlock.start :: demoAckedBlock.chunks) (by decide) (by decide) (by decide)⟩

end VscpBoot

/-! # Block transfer: the claims about `deviceLoad` -/

namespace VscpBoot

theorem feedBlocks_frame (bs : List BlockScript) (w : World) :
    (feedBlocks bs w).sent = w.sent ∧ (feedBlocks bs w).status = w.status :=
  feedAll_frame _ w

theorem feedBlocks_append (as bs : List BlockScript) (w : World) :
    feedBlocks (as ++ bs) w = feedBlocks as (feedBlocks bs w) := by
  simp only [feedBlocks, List.map_append, List.flatten_append, feedAll_append]

theorem callback_feedAll (xs : List Exchange) (w : World) (s : CBootDevice_VSCP) (n : Int)
    (msg : String) : (feedAll xs w).callback s n msg = feedAll xs (w.callback s n msg) := by
  induction xs with
  | nil => rfl
  | cons x xs ih =>
    show (x.feed (feedAll xs w)).callback s n msg = x.feed (feedAll xs (w.callback s n msg))
    rw [callback_exchange_feed, ih]

theorem writeBlock_code (s : CBootDevice_VSCP) (w : World) (mem : List Nat) (paddr : Nat) (rv0 : Int)
    (ex0 : vscpEventEx) (timeout : Nat) :
    (writeBlock s w mem paddr rv0 ex0 timeout).toOption.map (fun r => r.1) =
      (writeBlock s w mem paddr rv0 ex0 timeout).toOption.map (fun _ => VSCP_ERROR_SUCCESS) := by
  unfold writeBlock
  cases writeBlock.nChunks s with
  | starved => rfl
  | divisionByZero => rfl
  | done n =>
    simp only []
    cases writeBlock.loop s mem n rv0 ex0 timeout n 0 paddr w with
    | none => rfl
    | some r => rfl

theorem blocks_code (s : CBootDevice_VSCP) (pbuf : List Nat) (type : Nat) (rv0 : Int)
    (ex0 : vscpEventEx) (timeout : Nat) (n : Nat) :
    ∀ (block : Nat) (w : World) (rv : Int) (w1 : World),
      deviceLoad.blocks s pbuf type rv0 ex0 timeout n block w = .done (some rv, w1) →
      VSCP_ERROR_SUCCESS ≠ rv := by
  induction n with
  | zero =>
    intro block w rv w1 h
    simp [deviceLoad.blocks] at h
  | succ n ih =>
    intro block w rv w1 h
    rw [deviceLoad.blocks] at h
    cases h1 : writeBlockStart s w block type ex0 timeout with
    | none => rw [h1] at h; exact absurd h (by simp)
    | some r1 =>
      obtain ⟨rv1, w2⟩ := r1
      rw [h1] at h
      simp only [] at h
      by_cases c1 : VSCP_ERROR_SUCCESS ≠ rv1
      · rw [if_pos c1] at h
        simp only [Run.done.injEq, Prod.mk.injEq, Option.some.injEq] at h
        rw [← h.1]; exact c1
      · rw [if_neg c1] at h
        cases h2 : writeBlock s w2 pbuf ((block * s.m_blockSize) % 2 ^ 32) rv0 ex0 timeout with
        | starved => rw [h2] at h; exact absurd h (by simp)
        | divisionByZero => rw [h2] at h; exact absurd h (by simp)
        | done r2 =>
          obtain ⟨rv2, w3⟩ := r2
          rw [h2] at h
          simp only [] at h
          by_cases c2 : VSCP_ERROR_SUCCESS ≠ rv2
          · rw [if_pos c2] at h
            simp only [Run.done.injEq, Prod.mk.injEq, Option.some.injEq] at h
            rw [← h.1]; exact c2
          · rw [if_neg c2] at h
            cases h3 : programBlock s w3 block ex0 timeout with
            | none => rw [h3] at h; exact absurd h (by simp)
            | some r3 =>
              obtain ⟨rv3, w4⟩ := r3
              rw [h3] at h
              simp only [] at h
              by_cases c3 : VSCP_ERROR_SUCCESS ≠ rv3
              · rw [if_pos c3] at h
                simp only [Run.done.injEq, Prod.mk.injEq, Option.some.injEq] at h
                rw [← h.1]; exact c3
              · rw [if_neg c3] at h
                exact ih _ _ _ _ h

theorem region_code (s : CBootDevice_VSCP) (img : CBootDevice) (heap : List Nat) (rv0 : Int)
    (ex0 : vscpEventEx) (timeout : Nat) (r : memory_range_t) (w : World) (rv : Int) (w1 : World)
    (h : deviceLoad.region s img heap rv0 ex0 timeout r w = .done (some rv, w1)) :
    VSCP_ERROR_SUCCESS ≠ rv := by
  unfold deviceLoad.region at h
  generalize img.getMinMaxForRange r.beginning r.end_ = mm at h
  obtain ⟨rv1, minAddr, maxAddr⟩ := mm
  simp only [] at h
  by_cases c1 : VSCP_ERROR_SUCCESS ≠ rv1
  · rw [if_pos c1] at h
    simp only [Run.done.injEq, Prod.mk.injEq, Option.some.injEq] at h
    rw [← h.1]; exact c1
  · rw [if_neg c1] at h
    by_cases c2 : maxAddr > minAddr
    · rw [if_pos c2] at h
      by_cases c3 : s.m_blockSize = 0
      · rw [if_pos c3] at h; exact absurd h (by simp)
      · rw [if_neg c3] at h
        split at h
        · rename_i c4
          simp only [Run.done.injEq, Prod.mk.injEq, Option.some.injEq] at h
          rw [← h.1]; exact c4
        · exact blocks_code s _ r.type rv0 ex0 timeout _ _ _ _ _ h
    · rw [if_neg c2] at h
      simp at h

theorem regions_code (s : CBootDevice_VSCP) (img : CBootDevice) (heap : List Nat) (rv0 : Int)
    (ex0 : vscpEventEx) (timeout : Nat) (rs : List memory_range_t) :
    ∀ (w : World) (rv : Int) (w1 : World),
      deviceLoad.regions s img heap rv0 ex0 timeout rs w = .done (some rv, w1) →
      VSCP_ERROR_SUCCESS ≠ rv := by
  induction rs with
  | nil => intro w rv w1 h; simp [deviceLoad.regions] at h
  | cons r rs ih =>
    intro w rv w1 h
    rw [deviceLoad.regions] at h
    cases h1 : deviceLoad.region s img heap rv0 ex0 timeout r w with
    | starved => rw [h1] at h; exact absurd h (by simp)
    | divisionByZero => rw [h1] at h; exact absurd h (by simp)
    | done r1 =>
      obtain ⟨o, w2⟩ := r1
      rw [h1] at h
      cases o with
      | none => exact ih _ _ _ h
      | some rv1 =>
        simp only [Run.done.injEq, Prod.mk.injEq, Option.some.injEq] at h
        rw [← h.1]
        exact region_code s img heap rv0 ex0 timeout r w rv1 w2 h1

theorem deviceLoad_code (s : CBootDevice_VSCP) (img : CBootDevice) (w : World) (heap : List Nat)
    (rv0 : Int) (ex0 : vscpEventEx) (timeout : Nat) (cb ab : Bool) :
    (deviceLoad s img w heap rv0 ex0 timeout cb ab).toOption.map
        (fun r => decide (r.1 = VSCP_ERROR_SUCCESS)) =
      (deviceLoad s img w heap rv0 ex0 timeout cb ab).toOption.map (fun _ => false) := by
  unfold deviceLoad
  simp only []
  cases h : deviceLoad.regions { s with m_checksum := 0 } img heap rv0 ex0 timeout img.memory_range
    (w.callback { s with m_checksum := 0 } 0 "Starting firmware download") with
  | starved => rfl
  | divisionByZero => rfl
  | done r =>
    obtain ⟨o, w1⟩ := r
    cases o with
    | none => rfl
    | some rv =>
      have := regions_code _ img heap rv0 ex0 timeout _ _ rv w1 h
      simp only [Run.toOption, Option.map_some', Option.some.injEq, decide_eq_false_iff_not]
      exact fun c => this c.symm

/-- C15: a refused chunk does not stop the load. Whenever `writeBlock` returns, it
returns success, whatever its chunks met. The example session (blocks of 16 bytes,
chunks of 8) loads the one-block example image; the start of the block is
acknowledged and the first chunk is answered by a negative acknowledge. `writeBlock`
leaves its loop and returns success, and `deviceLoad` goes on to send the
program-block event (types sent: start block, block data, program block) and
returns the code of its last line, not the refusal. -/
theorem C15_refused_chunk_is_not_fatal :
    (∀ (s : CBootDevice_VSCP) (w : World) (mem : List Nat) (paddr : Nat) (rv0 : Int)
        (ex0 : vscpEventEx) (timeout : Nat),
      (writeBlock s w mem paddr rv0 ex0 timeout).toOption.map (fun r => r.1) =
        (writeBlock s w mem paddr rv0 ex0 timeout).toOption.map (fun _ => VSCP_ERROR_SUCCESS)) ∧
    (writeBlock demoLoader
        (feedAll [demoExchange VSCP_TYPE_PROTOCOL_START_BLOCK_NACK] emptyWorld) demoMem 0 0
        demoEx0 5).toOption.map (fun r => (r.1, r.2.sent.length)) =
      some (VSCP_ERROR_SUCCESS, 1) ∧
    (deviceLoad demoLoader demoImage (feedAll demoRefusedChunk emptyWorld) [] 0 demoEx0 5 false
        false).toOption.map (fun r => (r.1, r.2.2.sent.map (fun e => e.vscp_type))) =
      some (VSCP_ERROR_TIMEOUT, [VSCP_TYPE_PROTOCOL_START_BLOCK, VSCP_TYPE_PROTOCOL_BLOCK_DATA,
        VSCP_TYPE_PROTOCOL_PROGRAM_BLOCK_DATA]) ∧
    VSCP_ERROR_TIMEOUT ≠ VSCP_ERROR_NACK := by
  refine ⟨fun s w mem paddr rv0 ex0 timeout => writeBlock_code s w mem paddr rv0 ex0 timeout,
    ?_, ?_, ?_⟩
  · decide
  · decide
  · decide

/-- C16: the chunks do not carry the block. The example session (blocks of 16 bytes,
chunks of 8) writes the block at offset 0 of a memory holding 0, 1, ..., 63, every
chunk being acknowledged: the two payloads sent are the bytes 16..23 and 24..31,
read at `paddr + m_chunkSize * nChunks`, whereas the block is the bytes 0..15. -/
theorem C16_chunks_read_past_the_block :
    (writeBlock demoLoader (feedAll demoAckedBlock.chunks emptyWorld) demoMem 0 0 demoEx0
        5).toOption.map (fun r => (r.1, r.2.sent.map vscpEventEx.payload)) =
      some (VSCP_ERROR_SUCCESS,
        [[16, 17, 18, 19, 20, 21, 22, 23], [24, 25, 26, 27, 28, 29, 30, 31]]) ∧
    demoMem.take demoLoader.m_blockSize = [0, 1, 2, 3, 4, 5, 6, 7, 8, 9, 10, 11, 12, 13, 14, 15] ∧
    writeBlock.nChunks demoLoader = .done 2 := by
  decide

/-- C18: a load in which every step succeeds does not return success; indeed
`deviceLoad` never returns success, whatever it meets. The example session loads
the one-block example image and every request (start block, two chunks, program
block) is acknowledged; all four events are sent, no answer is left over, and
`deviceLoad` returns the timeout code of its last line. -/
theorem C18_acknowledged_load_returns_timeout :
    (∀ (s : CBootDevice_VSCP) (img : CBootDevice) (w : World) (heap : List Nat) (rv0 : Int)
        (ex0 : vscpEventEx) (timeout : Nat) (cb ab : Bool),
      (deviceLoad s img w heap rv0 ex0 timeout cb ab).toOption.map
          (fun r => decide (r.1 = VSCP_ERROR_SUCCESS)) =
        (deviceLoad s img w heap rv0 ex0 timeout cb ab).toOption.map (fun _ => false)) ∧
    (deviceLoad demoLoader demoImage (feedBlocks [demoAckedBlock] emptyWorld) [] 0 demoEx0 5 false
        false).toOption.map
        (fun r => (r.1, r.2.2.sent.map (fun e => e.vscp_type), r.2.2.sendRv, r.2.2.times)) =
      some (VSCP_ERROR_TIMEOUT, [VSCP_TYPE_PROTOCOL_START_BLOCK, VSCP_TYPE_PROTOCOL_BLOCK_DATA,
        VSCP_TYPE_PROTOCOL_BLOCK_DATA, VSCP_TYPE_PROTOCOL_PROGRAM_BLOCK_DATA], [], []) ∧
    BlockScript.acked demoLoader.m_stdRegs.GUID 5 2 demoAckedBlock = true ∧
    VSCP_ERROR_TIMEOUT ≠ VSCP_ERROR_SUCCESS := by
  refine ⟨fun s img w heap rv0 ex0 timeout cb ab =>
    deviceLoad_code s img w heap rv0 ex0 timeout cb ab, ?_, ?_, ?_⟩
  · decide
  · decide
  · decide

theorem region_populated (s : CBootDevice_VSCP) (img : CBootDevice) (heap : List Nat) (rv0 : Int)
    (ex0 : vscpEventEx) (timeout : Nat) (r : memory_range_t) (w : World)
    (minAddr maxAddr : Nat) (pbuf : List Nat)
    (hmm : img.getMinMaxForRange r.beginning r.end_ = (VSCP_ERROR_SUCCESS, minAddr, maxAddr))
    (hpop : maxAddr > minAddr) (hbs : 0 < s.m_blockSize)
    (hfill : img.fillMemoryBuffer (VscpAes.malloc heap (r.end_ - r.beginning + 1)) s.m_blockSize
      r.beginning = (VSCP_ERROR_SUCCESS, pbuf)) :
    deviceLoad.region s img heap rv0 ex0 timeout r w =
      deviceLoad.blocks s pbuf r.type rv0 ex0 timeout
        (ceilDiv (maxAddr - (minAddr - minAddr % s.m_blockSize)) s.m_blockSize) 0
        (w.callback s (-1) ("writeFirmwareBlock: Handling memory range " ++ toString r.type)) := by
  unfold deviceLoad.region
  simp only [hmm, hfill, ne_eq, not_true_eq_false, if_false, hpop, if_true,
    Nat.pos_iff_ne_zero.mp hbs, nBlocks_spec s _ _ hbs]

/-- C19: for a memory range with `maxAddr > minAddr` and a block size above zero,
`A` being `minAddr` rounded down to a block boundary, the block count `deviceLoad`
computes is `(maxAddr - A) / blockSize` rounded up (10 for 640 bytes in blocks of
64), and in a world that acknowledges every request the pass over the range ends
after exactly that many passes of the block loop, leaving the answers beyond them
unused; the events sent are, block after block from block 0, the start-block event
of the block, its chunk events and its program-block event. -/
theorem C19_deviceLoad_block_loop (s : CBootDevice_VSCP) (img : CBootDevice) (heap : List Nat)
    (rv0 : Int) (ex0 : vscpEventEx) (timeout : Nat) (r : memory_range_t) (w : World)
    (minAddr maxAddr nChunks : Nat) (pbuf : List Nat) (bs : List BlockScript)
    (hmm : img.getMinMaxForRange r.beginning r.end_ = (VSCP_ERROR_SUCCESS, minAddr, maxAddr))
    (hpop : maxAddr > minAddr) (hbs : 0 < s.m_blockSize)
    (hfill : img.fillMemoryBuffer (VscpAes.malloc heap (r.end_ - r.beginning + 1)) s.m_blockSize
      r.beginning = (VSCP_ERROR_SUCCESS, pbuf))
    (hn : writeBlock.nChunks s = .done nChunks)
    (hack : bs.all (BlockScript.acked s.m_stdRegs.GUID timeout nChunks) = true)
    (hlen : ceilDiv (maxAddr - (minAddr - minAddr % s.m_blockSize)) s.m_blockSize ≤ bs.length) :
    deviceLoad.nBlocks s (minAddr - minAddr % s.m_blockSize) maxAddr =
      ceilDiv (maxAddr - (minAddr - minAddr % s.m_blockSize)) s.m_blockSize ∧
    (∃ st, deviceLoad.region s img heap rv0 ex0 timeout r (feedBlocks bs w) =
      .done (none,
        (feedBlocks (bs.drop (ceilDiv (maxAddr - (minAddr - minAddr % s.m_blockSize))
          s.m_blockSize)) w).logs
          (w.sent ++ deviceLoad.events s pbuf r.type nChunks ex0
            (ceilDiv (maxAddr - (minAddr - minAddr % s.m_blockSize)) s.m_blockSize) 0) st)) ∧
    (∀ (n block : Nat), deviceLoad.events s pbuf r.type nChunks ex0 (n + 1) block =
      [writeBlockStart.request block r.type ex0] ++
        writeBlock.events s pbuf nChunks ex0 nChunks ((block * s.m_blockSize) % 2 ^ 32) ++
        [programBlock.request block ex0] ++
        deviceLoad.events s pbuf r.type nChunks ex0 n (block + 1)) ∧
    ceilDiv (640 - (0 - 0 % 64)) 64 = 10 := by
  refine ⟨nBlocks_spec s _ _ hbs, ?_, ?_, by decide⟩
  · rw [region_populated s img heap rv0 ex0 timeout r _ minAddr maxAddr pbuf hmm hpop hbs hfill]
    generalize hN : ceilDiv (maxAddr - (minAddr - minAddr % s.m_blockSize)) s.m_blockSize = N
      at hlen ⊢
    have hack2 : (bs.take N).all (BlockScript.acked s.m_stdRegs.GUID timeout nChunks) = true := by
      rw [List.all_eq_true] at hack ⊢
      exact fun x hx => hack x (List.mem_of_mem_take hx)
    have hl : (bs.take N).length = N := by rw [List.length_take]; omega
    obtain ⟨st, hst⟩ := deviceLoad_blocks_acked s pbuf r.type rv0 ex0 timeout nChunks hn (bs.take N)
      0 (feedBlocks (bs.drop N) w) w.sent
      (w.status ++ if s.m_statusCallback = true then
        [(-1, "writeFirmwareBlock: Handling memory range " ++ toString r.type)] else []) hack2
    rw [hl] at hst
    refine ⟨st, ?_⟩
    rw [← hst]
    congr 1
    rw [← feedBlocks_append, List.take_append_drop]
    conv_lhs => rw [← logs_self (feedBlocks bs w), callback_logs]
    rw [(feedBlocks_frame bs w).1, (feedBlocks_frame bs w).2]
  · intro n block
    simp [deviceLoad.events]

theorem C19_deviceLoad_block_loop_witness :
    demoImage.getMinMaxForRange 0 63 = (VSCP_ERROR_SUCCESS, 0, 16) ∧ 16 > 0 ∧
    0 < demoLoader.m_blockSize ∧
    (deviceLoad.nBlocks demoLoader (0 - 0 % demoLoader.m_blockSize) 16 =
        ceilDiv (16 - (0 - 0 % demoLoader.m_blockSize)) demoLoader.m_blockSize ∧
      (∃ st, deviceLoad.region demoLoader demoImage [] 0 demoEx0 5 ⟨0, 0, 63⟩
          (feedBlocks [demoAckedBlock, demoAckedBlock] emptyWorld) =
        .done (none,
          (feedBlocks ([demoAckedBlock, demoAckedBlock].drop
            (ceilDiv (16 - (0 - 0 % demoLoader.m_blockSize)) demoLoader.m_blockSize))
              emptyWorld).logs
            (emptyWorld.sent ++ deviceLoad.events demoLoader demoMem 0 2 demoEx0
              (ceilDiv (16 - (0 - 0 % demoLoader.m_blockSize)) demoLoader.m_blockSize) 0) st)) ∧
      (∀ (n block : Nat), deviceLoad.events demoLoader demoMem 0 2 demoEx0 (n + 1) block =
        [writeBlockStart.request block 0 demoEx0] ++
          writeBlock.events demoLoader demoMem 2 demoEx0 2 ((block * demoLoader.m_blockSize) % 2 ^ 32) ++
          [programBlock.request block demoEx0] ++
          deviceLoad.events demoLoader demoMem 0 2 demoEx0 n (block + 1)) ∧
      ceilDiv (640 - (0 - 0 % 64)) 64 = 10) :=
  ⟨rfl, by decide, by decide,
    C19_deviceLoad_block_loop demoLoader demoImage [] 0 demoEx0 5 ⟨0, 0, 63⟩ emptyWorld 0 16 2
      demoMem [demoAckedBlock, demoAckedBlock] rfl (by decide) (by decide) rfl (by decide)
      (by decide) (by decide)⟩

/-- C20: a memory range whose populated addresses satisfy `maxAddr <= minAddr` is
passed over: the pass ends without a return from `deviceLoad`, the events sent and
every answer still to come are as before (only the status callback has been
told), the loop goes on with the next range, and neither the contents of the heap
nor `fillMemoryBuffer` has any part in the outcome. -/
theorem C20_empty_range_skipped (s : CBootDevice_VSCP) (img : CBootDevice) (heap : List Nat)
    (rv0 : Int) (ex0 : vscpEventEx) (timeout : Nat) (r : memory_range_t)
    (rest : List memory_range_t) (w : World) (minAddr maxAddr : Nat)
    (hmm : img.getMinMaxForRange r.beginning r.end_ = (VSCP_ERROR_SUCCESS, minAddr, maxAddr))
    (hle : maxAddr ≤ minAddr) :
    ∃ st, deviceLoad.region s img heap rv0 ex0 timeout r w = .done (none, w.logs w.sent st) ∧
      deviceLoad.regions s img heap rv0 ex0 timeout (r :: rest) w =
        deviceLoad.regions s img heap rv0 ex0 timeout rest (w.logs w.sent st) ∧
      ∀ (heap1 : List Nat) (fill : List Nat → Nat → Nat → Int × List Nat),
        deviceLoad.region s { img with fillMemoryBuffer := fill } heap1 rv0 ex0 timeout r w =
          .done (none, w.logs w.sent st) := by
  have key : ∀ (heap1 : List Nat) (fill : List Nat → Nat → Nat → Int × List Nat),
      deviceLoad.region s { img with fillMemoryBuffer := fill } heap1 rv0 ex0 timeout r w =
        .done (none, w.logs w.sent (w.status ++ if s.m_statusCallback = true then
          [(-1, "writeFirmwareBlock: Handling memory range " ++ toString r.type)] else [])) := by
    intro heap1 fill
    unfold deviceLoad.region
    simp only [hmm, ne_eq, not_true_eq_false, if_false, gt_iff_lt, not_lt.mpr hle]
    conv_lhs => rw [← logs_self w, callback_logs]
  have h0 := key heap img.fillMemoryBuffer
  refine ⟨_, h0, ?_, key⟩
  rw [deviceLoad.regions]
  have h1 : deviceLoad.region s img heap rv0 ex0 timeout r w = _ := h0
  rw [h1]

theorem C20_empty_range_skipped_witness :
    ∃ st, deviceLoad.region demoLoader { demoImage with
          getMinMaxForRange := fun _ _ => (VSCP_ERROR_SUCCESS, 16, 16) } [] 0 demoEx0 5 ⟨0, 0, 63⟩
          (feedBlocks [demoAckedBlock] emptyWorld) =
        .done (none, (feedBlocks [demoAckedBlock] emptyWorld).logs
          (feedBlocks [demoAckedBlock] emptyWorld).sent st) ∧
      deviceLoad.regions demoLoader { demoImage with
          getMinMaxForRange := fun _ _ => (VSCP_ERROR_SUCCESS, 16, 16) } [] 0 demoEx0 5
          (⟨0, 0, 63⟩ :: [⟨1, 64, 127⟩]) (feedBlocks [demoAckedBlock] emptyWorld) =
        deviceLoad.regions demoLoader { demoImage with
          getMinMaxForRange := fun _ _ => (VSCP_ERROR_SUCCESS, 16, 16) } [] 0 demoEx0 5
          [⟨1, 64, 127⟩] ((feedBlocks [demoAckedBlock] emptyWorld).logs
          (feedBlocks [demoAckedBlock] emptyWorld).sent st) ∧
      ∀ (heap1 : List Nat) (fill : List Nat → Nat → Nat → Int × List Nat),
        deviceLoad.region demoLoader { { demoImage with
          getMinMaxForRange := fun _ _ => (VSCP_ERROR_SUCCESS, 16, 16) } with
            fillMemoryBuffer := fill } heap1 0 demoEx0 5 ⟨0, 0, 63⟩
            (feedBlocks [demoAckedBlock] emptyWorld) =
          .done (none, (feedBlocks [demoAckedBlock] emptyWorld).logs
            (feedBlocks [demoAckedBlock] emptyWorld).sent st) :=
  C20_empty_range_skipped demoLoader { demoImage with
      getMinMaxForRange := fun _ _ => (VSCP_ERROR_SUCCESS, 16, 16) } [] 0 demoEx0 5 ⟨0, 0, 63⟩
    [⟨1, 64, 127⟩] (feedBlocks [demoAckedBlock] emptyWorld) 16 16 rfl (by decide)

end VscpBoot

/-! # The session invariant -/

namespace VscpBoot

theorem deviceLoad_object (s : CBootDevice_VSCP) (img : CBootDevice) (w : World) (heap : List Nat)
    (rv0 : Int) (ex0 : vscpEventEx) (timeout : Nat) (cb ab : Bool) (rv : Int)
    (s2 : CBootDevice_VSCP) (w2 : World)
    (h : deviceLoad s img w heap rv0 ex0 timeout cb ab = .done (rv, s2, w2)) :
    s2 = { s with m_checksum := 0 } := by
  unfold deviceLoad at h
  simp only [] at h
  split at h
  · exact absurd h (by simp)
  · exact absurd h (by simp)
  · simp only [Run.done.injEq, Prod.mk.injEq] at h
    exact h.2.1.symm
  · simp only [Run.done.injEq, Prod.mk.injEq] at h
    exact h.2.1.symm

theorem ctor_chunkSize (base : CBootDevice_VSCP) :
    (ctorNodeid base).m_chunkSize = 8 ∧ (ctorNodeidIf base).m_chunkSize = 8 ∧
    (ctorGuid base).m_chunkSize = 512 := ⟨rfl, rfl, rfl⟩

end VscpBoot

/-! # The status callback and the device code -/

namespace VscpBoot

theorem quiet_callback (w : World) (s : CBootDevice_VSCP) (n : Int) (msg : String) :
    (w.callback s n msg).quiet = w.quiet := by
  unfold World.callback
  split <;> rfl

theorem callback_mute (w : World) (s : CBootDevice_VSCP) (n : Int) (msg : String)
    (h : s.m_statusCallback = false) : w.callback s n msg = w := by
  unfold World.callback
  rw [h]
  rfl

theorem quiet_send (w : World) (ex : vscpEventEx) :
    w.quiet.send ex = (w.send ex).map (fun r => (r.1, r.2.quiet)) := by
  cases w with
  | mk sent status regs sendRv times counts received =>
    cases sendRv <;> rfl

theorem quiet_time (w : World) : w.quiet.time = w.time.map (fun r => (r.1, r.2.quiet)) := by
  cases w with
  | mk sent status regs sendRv times counts received =>
    cases times <;> rfl

theorem quiet_getcount (w : World) :
    w.quiet.getcount = w.getcount.map (fun r => (r.1, r.2.quiet)) := by
  cases w with
  | mk sent status regs sendRv times counts received =>
    cases counts <;> rfl

theorem quiet_receive (w : World) :
    w.quiet.receive = w.receive.map (fun r => (r.1, r.2.quiet)) := by
  cases w with
  | mk sent status regs sendRv times counts received =>
    cases received <;> rfl

theorem quiet_readStdRegs (w : World) :
    w.quiet.readStdRegs = w.readStdRegs.map (fun r => (r.1, r.2.quiet)) := by
  cases w with
  | mk sent status regs sendRv times counts received =>
    cases regs <;> rfl

theorem quiet_times (w : World) : w.quiet.times = w.times := rfl

theorem quiet_sent (w : World) : w.quiet.sent = w.sent := rfl

theorem time_times (w w1 : World) (t : Int) (h : w.time = some (t, w1)) :
    w1.times.length + 1 = w.times.length := by
  cases w with
  | mk sent status regs sendRv times counts received =>
    cases times with
    | nil => exact absurd h (by simp [World.time])
    | cons a l =>
      simp only [World.time, Option.some.injEq, Prod.mk.injEq] at h
      rw [← h.2]
      rfl

theorem loop_quiet (s s1 : CBootDevice_VSCP) (guid : List Nat) (ack nack timeout : Nat)
    (tstart : Int) (h1 : s1.m_statusCallback = false) (fuel : Nat) :
    ∀ (w : World) (ex : vscpEventEx),
      (checkResponse.loop s guid ack nack timeout tstart fuel w ex).map
          (fun r => (r.1, r.2.1, r.2.2.quiet)) =
        checkResponse.loop s1 guid ack nack timeout tstart fuel w.quiet ex := by
  induction fuel with
  | zero => intro w ex; rfl
  | succ n ih =>
    intro w ex
    rw [checkResponse.loop, checkResponse.loop, quiet_time]
    cases ht : w.time with
    | none => rfl
    | some r =>
      obtain ⟨tnow, wt⟩ := r
      simp only [Option.map_some']
      split
      · rfl
      · rw [quiet_getcount]
        cases hc : wt.getcount with
        | none => rfl
        | some c =>
          obtain ⟨⟨crv, cnt⟩, wc⟩ := c
          simp only [Option.map_some']
          split
          · rw [quiet_receive]
            cases hr : wc.receive with
            | none => rfl
            | some rr =>
              obtain ⟨⟨rrv, ev⟩, wr⟩ := rr
              simp only [Option.map_some']
              split
              · simp only [Option.map_some', quiet_callback, callback_mute _ _ _ _ h1]
              · split
                · simp only [Option.map_some', quiet_callback, callback_mute _ _ _ _ h1]
                · exact ih wr ev
          · exact ih wc ex

theorem checkResponse_quiet (s s1 : CBootDevice_VSCP) (w : World) (ex : vscpEventEx)
    (guid : List Nat) (ack nack timeout : Nat) (h1 : s1.m_statusCallback = false) :
    (checkResponse s w ex guid ack nack timeout).map (fun r => (r.1, r.2.1, r.2.2.quiet)) =
      checkResponse s1 w.quiet ex guid ack nack timeout := by
  rw [checkResponse, checkResponse, quiet_time]
  cases ht : w.time with
  | none => rfl
  | some r =>
    obtain ⟨t, wt⟩ := r
    simp only [Option.map_some']
    exact loop_quiet s s1 guid ack nack timeout t h1 _ wt ex

theorem step_quiet (s s1 : CBootDevice_VSCP) (w : World) (ex : vscpEventEx) (guid : List Nat)
    (ack nack timeout : Nat) (m1 m2 : String) (h1 : s1.m_statusCallback = false) :
    (match w.send ex with
      | none => none
      | some (rv, w) =>
        if VSCP_ERROR_SUCCESS ≠ rv then some (rv, w.callback s (-1) m1)
        else
          match checkResponse s w ex guid ack nack timeout with
          | none => none
          | some (rv, _, w) =>
            if VSCP_ERROR_SUCCESS ≠ rv then some (rv, w.callback s (-1) m2)
            else some (VSCP_ERROR_SUCCESS, w)).map (fun r : Int × World => (r.1, r.2.quiet)) =
    (match w.quiet.send ex with
      | none => none
      | some (rv, w) =>
        if VSCP_ERROR_SUCCESS ≠ rv then some (rv, w.callback s1 (-1) m1)
        else
          match checkResponse s1 w ex guid ack nack timeout with
          | none => none
          | some (rv, _, w) =>
            if VSCP_ERROR_SUCCESS ≠ rv then some (rv, w.callback s1 (-1) m2)
            else some (VSCP_ERROR_SUCCESS, w)) := by
  rw [quiet_send]
  cases hs : w.send ex with
  | none => rfl
  | some r =>
    obtain ⟨rv, ws⟩ := r
    simp only [Option.map_some']
    split
    · simp only [Option.map_some', quiet_callback, callback_mute _ _ _ _ h1]
    · rw [← checkResponse_quiet s s1 ws ex guid ack nack timeout h1]
      cases hc : checkResponse s ws ex guid ack nack timeout with
      | none => rfl
      | some c =>
        obtain ⟨rv2, ex2, wc⟩ := c
        simp only [Option.map_some']
        split
        · simp only [Option.map_some', quiet_callback, callback_mute _ _ _ _ h1]
        · rfl

theorem writeBlockStart_quiet (s s1 : CBootDevice_VSCP) (w : World) (block type : Nat)
    (ex0 : vscpEventEx) (timeout : Nat) (h1 : s1.m_statusCallback = false)
    (hg : s1.m_stdRegs = s.m_stdRegs) :
    (writeBlockStart s w block type ex0 timeout).map (fun r => (r.1, r.2.quiet)) =
      writeBlockStart s1 w.quiet block type ex0 timeout := by
  unfold writeBlockStart
  rw [hg]
  exact step_quiet s s1 w _ _ _ _ timeout _ _ h1

theorem programBlock_quiet (s s1 : CBootDevice_VSCP) (w : World) (block : Nat)
    (ex0 : vscpEventEx) (timeout : Nat) (h1 : s1.m_statusCallback = false)
    (hg : s1.m_stdRegs = s.m_stdRegs) :
    (programBlock s w block ex0 timeout).map (fun r => (r.1, r.2.quiet)) =
      programBlock s1 w.quiet block ex0 timeout := by
  unfold programBlock
  rw [hg]
  exact step_quiet s s1 w _ _ _ _ timeout _ _ h1

theorem writeChunk_quiet (s s1 : CBootDevice_VSCP) (w : World) (mem : List Nat) (paddr size : Nat)
    (ex0 : vscpEventEx) (timeout : Nat) (h1 : s1.m_statusCallback = false)
    (hg : s1.m_stdRegs = s.m_stdRegs) (hc : s1.m_chunkSize = s.m_chunkSize) :
    (writeChunk s w mem paddr size ex0 timeout).map (fun r => (r.1, r.2.quiet)) =
      writeChunk s1 w.quiet mem paddr size ex0 timeout := by
  unfold writeChunk
  rw [hg, hc]
  split
  · rfl
  · exact step_quiet s s1 w _ _ _ _ timeout _ _ h1

end VscpBoot

/-! # The status callback: the loops -/

namespace VscpBoot

theorem writeBlock_loop_quiet (s s1 : CBootDevice_VSCP) (mem : List Nat) (nChunks : Nat) (rv0 : Int)
    (ex0 : vscpEventEx) (timeout : Nat) (h1 : s1.m_statusCallback = false)
    (hg : s1.m_stdRegs = s.m_stdRegs) (hc : s1.m_chunkSize = s.m_chunkSize) (n : Nat) :
    ∀ (chunk paddr : Nat) (w : World),
      (writeBlock.loop s mem nChunks rv0 ex0 timeout n chunk paddr w).map
          (fun r => (r.1, r.2.quiet)) =
        writeBlock.loop s1 mem nChunks rv0 ex0 timeout n chunk paddr w.quiet := by
  induction n with
  | zero => intro chunk paddr w; rfl
  | succ n ih =>
    intro chunk paddr w
    rw [writeBlock.loop, writeBlock.loop]
    simp only [callback_mute _ _ _ _ h1]
    rw [hc, ← quiet_callback w s (Int.ofNat ((100 * chunk) % 2 ^ 32 / nChunks))
      ("Loading memory chunk on remote device. chunk = " ++ toString chunk ++ "."),
      ← writeChunk_quiet s s1 _ mem _ _ ex0 timeout h1 hg hc]
    cases hw : writeChunk s (w.callback s (Int.ofNat ((100 * chunk) % 2 ^ 32 / nChunks))
      ("Loading memory chunk on remote device. chunk = " ++ toString chunk ++ ".")) mem
      (paddr + (s.m_chunkSize * nChunks) % 2 ^ 32) (s.m_chunkSize % 2 ^ 16) ex0 timeout with
    | none => rfl
    | some r =>
      obtain ⟨rv, wr⟩ := r
      simp only [Option.map_some']
      split
      · simp only [Option.map_some', quiet_callback]
      · exact ih _ _ wr

theorem nChunks_congr (s s1 : CBootDevice_VSCP) (hc : s1.m_chunkSize = s.m_chunkSize)
    (hb : s1.m_blockSize = s.m_blockSize) : writeBlock.nChunks s1 = writeBlock.nChunks s := by
  unfold writeBlock.nChunks
  rw [hc, hb]

theorem writeBlock_quiet (s s1 : CBootDevice_VSCP) (w : World) (mem : List Nat) (paddr : Nat)
    (rv0 : Int) (ex0 : vscpEventEx) (timeout : Nat) (h1 : s1.m_statusCallback = false)
    (hg : s1.m_stdRegs = s.m_stdRegs) (hc : s1.m_chunkSize = s.m_chunkSize)
    (hb : s1.m_blockSize = s.m_blockSize) :
    (writeBlock s w mem paddr rv0 ex0 timeout).map (fun r => (r.1, r.2.quiet)) =
      writeBlock s1 w.quiet mem paddr rv0 ex0 timeout := by
  unfold writeBlock
  rw [nChunks_congr s s1 hc hb]
  cases hn : writeBlock.nChunks s with
  | starved => rfl
  | divisionByZero => rfl
  | done n =>
    simp only []
    rw [← writeBlock_loop_quiet s s1 mem n rv0 ex0 timeout h1 hg hc n 0 paddr w]
    cases hl : writeBlock.loop s mem n rv0 ex0 timeout n 0 paddr w with
    | none => rfl
    | some r => rfl

theorem blocks_quiet (s s1 : CBootDevice_VSCP) (pbuf : List Nat) (type : Nat) (rv0 : Int)
    (ex0 : vscpEventEx) (timeout : Nat) (h1 : s1.m_statusCallback = false)
    (hg : s1.m_stdRegs = s.m_stdRegs) (hc : s1.m_chunkSize = s.m_chunkSize)
    (hb : s1.m_blockSize = s.m_blockSize) (n : Nat) :
    ∀ (block : Nat) (w : World),
      (deviceLoad.blocks s pbuf type rv0 ex0 timeout n block w).map (fun r => (r.1, r.2.quiet)) =
        deviceLoad.blocks s1 pbuf type rv0 ex0 timeout n block w.quiet := by
  induction n with
  | zero => intro block w; rfl
  | succ n ih =>
    intro block w
    rw [deviceLoad.blocks, deviceLoad.blocks,
      ← writeBlockStart_quiet s s1 w block type ex0 timeout h1 hg]
    cases h : writeBlockStart s w block type ex0 timeout with
    | none => rfl
    | some r =>
      obtain ⟨rv, wr⟩ := r
      simp only [Option.map_some']
      split
      · rfl
      · rw [hb, ← writeBlock_quiet s s1 wr pbuf _ rv0 ex0 timeout h1 hg hc hb]
        cases hw : writeBlock s wr pbuf ((block * s.m_blockSize) % 2 ^ 32) rv0 ex0 timeout with
        | starved => rfl
        | divisionByZero => rfl
        | done r2 =>
          obtain ⟨rv2, w2⟩ := r2
          show Run.map _ (if VSCP_ERROR_SUCCESS ≠ rv2 then _ else _) =
            (if VSCP_ERROR_SUCCESS ≠ rv2 then _ else _)
          by_cases hrv : VSCP_ERROR_SUCCESS ≠ rv2
          · rw [if_pos hrv, if_pos hrv]
            simp only [Run.map, quiet_callback, callback_mute _ _ _ _ h1]
          · rw [if_neg hrv, if_neg hrv, ← programBlock_quiet s s1 w2 block ex0 timeout h1 hg]
            cases hp : programBlock s w2 block ex0 timeout with
            | none => rfl
            | some r3 =>
              obtain ⟨rv3, w3⟩ := r3
              simp only [Option.map_some']
              by_cases hrv3 : VSCP_ERROR_SUCCESS ≠ rv3
              · rw [if_pos hrv3, if_pos hrv3]; rfl
              · rw [if_neg hrv3, if_neg hrv3]; exact ih _ w3

theorem region_quiet (s s1 : CBootDevice_VSCP) (img : CBootDevice) (heap : List Nat) (rv0 : Int)
    (ex0 : vscpEventEx) (timeout : Nat) (r : memory_range_t) (w : World)
    (h1 : s1.m_statusCallback = false) (hg : s1.m_stdRegs = s.m_stdRegs)
    (hc : s1.m_chunkSize = s.m_chunkSize) (hb : s1.m_blockSize = s.m_blockSize) :
    (deviceLoad.region s img heap rv0 ex0 timeout r w).map (fun r => (r.1, r.2.quiet)) =
      deviceLoad.region s1 img heap rv0 ex0 timeout r w.quiet := by
  have hn : ∀ a b, deviceLoad.nBlocks s1 a b = deviceLoad.nBlocks s a b := by
    intro a b; unfold deviceLoad.nBlocks; rw [hb]
  unfold deviceLoad.region
  rw [hb]
  generalize img.getMinMaxForRange r.beginning r.end_ = mm
  obtain ⟨rv, minAddr, maxAddr⟩ := mm
  simp only [callback_mute _ s1 _ _ h1, hn]
  by_cases hrv : VSCP_ERROR_SUCCESS ≠ rv
  · rw [if_pos hrv, if_pos hrv]
    simp only [Run.map, quiet_callback]
  · rw [if_neg hrv, if_neg hrv]
    by_cases hpop : maxAddr > minAddr
    · rw [if_pos hpop, if_pos hpop]
      by_cases hz : s.m_blockSize = 0
      · rw [if_pos hz, if_pos hz]; rfl
      · rw [if_neg hz, if_neg hz]
        split
        · simp only [Run.map, quiet_callback]
        · rw [blocks_quiet s s1 _ r.type rv0 ex0 timeout h1 hg hc hb, quiet_callback]
    · rw [if_neg hpop, if_neg hpop]
      simp only [Run.map, quiet_callback]

theorem regions_quiet (s s1 : CBootDevice_VSCP) (img : CBootDevice) (heap : List Nat) (rv0 : Int)
    (ex0 : vscpEventEx) (timeout : Nat) (h1 : s1.m_statusCallback = false)
    (hg : s1.m_stdRegs = s.m_stdRegs) (hc : s1.m_chunkSize = s.m_chunkSize)
    (hb : s1.m_blockSize = s.m_blockSize) (rs : List memory_range_t) :
    ∀ (w : World),
      (deviceLoad.regions s img heap rv0 ex0 timeout rs w).map (fun r => (r.1, r.2.quiet)) =
        deviceLoad.regions s1 img heap rv0 ex0 timeout rs w.quiet := by
  induction rs with
  | nil => intro w; rfl
  | cons r rs ih =>
    intro w
    rw [deviceLoad.regions, deviceLoad.regions,
      ← region_quiet s s1 img heap rv0 ex0 timeout r w h1 hg hc hb]
    cases h : deviceLoad.region s img heap rv0 ex0 timeout r w with
    | starved => rfl
    | divisionByZero => rfl
    | done r2 =>
      obtain ⟨o, w2⟩ := r2
      cases o with
      | none => exact ih w2
      | some rv => rfl

theorem deviceLoad_quiet (s : CBootDevice_VSCP) (img : CBootDevice) (w : World) (heap : List Nat)
    (rv0 : Int) (ex0 : vscpEventEx) (timeout : Nat) (cb ab cb1 ab1 : Bool) :
    (deviceLoad s img w heap rv0 ex0 timeout cb ab).map (fun r => (r.1, r.2.1.mute, r.2.2.quiet)) =
      deviceLoad s.mute img w.quiet heap rv0 ex0 timeout cb1 ab1 := by
  unfold deviceLoad
  simp only [callback_mute _ { s.mute with m_checksum := 0 } _ _ rfl]
  rw [← quiet_callback w { s with m_checksum := 0 } 0 "Starting firmware download",
    ← regions_quiet { s with m_checksum := 0 } { s.mute with m_checksum := 0 } img heap rv0 ex0
      timeout rfl rfl rfl rfl]
  cases h : deviceLoad.regions { s with m_checksum := 0 } img heap rv0 ex0 timeout img.memory_range
    (w.callback { s with m_checksum := 0 } 0 "Starting firmware download") with
  | starved => rfl
  | divisionByZero => rfl
  | done r2 =>
    obtain ⟨o, w2⟩ := r2
    cases o <;> rfl

end VscpBoot

/-! # The status callback and the device code: `deviceInit` -/

namespace VscpBoot

theorem deviceInit_unfold (s : CBootDevice_VSCP) (w : World) (ourguid : List Nat) (devicecode : Nat)
    (abort : Bool) (ex0 : vscpEventEx) (timeout : Nat) :
    deviceInit s w ourguid devicecode abort ex0 timeout =
      match w.readStdRegs with
      | none => none
      | some ((rvRegs, regs), w) =>
        if VSCP_ERROR_SUCCESS ≠ rvRegs then
          some (VSCP_ERROR_COMMUNICATION, { s with m_stdRegs := regs }, w)
        else if VSCP_BOOTLOADER_VSCP ≠ regs.bootloaderAlgorithm then
          some (VSCP_ERROR_NOT_SUPPORTED, { s with m_stdRegs := regs },
            w.callback { s with m_stdRegs := regs } (-1) "Bootloader algorithm is not Microchip PIC1")
        else if s.m_firmwaredeviceCode ≠ regs.firmwareDeviceCode ∧ abort = true then
          some (VSCP_ERROR_PARAMETER, { s with m_stdRegs := regs },
            deviceInit.warned { s with m_stdRegs := regs } w)
        else
          deviceInit.enter { s with m_stdRegs := regs } (deviceInit.warned { s with m_stdRegs := regs } w)
            ex0 timeout := by
  unfold deviceInit
  cases w.readStdRegs with
  | none => rfl
  | some r =>
    obtain ⟨⟨rvRegs, regs⟩, wr⟩ := r
    rfl

theorem confirm_quiet (s : CBootDevice_VSCP) (ex : vscpEventEx) (w : World) :
    ((deviceInit.confirm s ex w).1, (deviceInit.confirm s ex w).2.1.mute,
        (deviceInit.confirm s ex w).2.2.quiet) =
      deviceInit.confirm s.mute ex w.quiet := by
  unfold deviceInit.confirm
  simp only [CBootDevice_VSCP.mute, World.callback, World.quiet]
  split_ifs <;> simp_all

theorem warned_quiet (s : CBootDevice_VSCP) (w : World) :
    (deviceInit.warned s w).quiet = w.quiet := by
  unfold deviceInit.warned
  split
  · exact quiet_callback _ _ _ _
  · rfl

theorem warned_mute (s : CBootDevice_VSCP) (w : World) (h : s.m_statusCallback = false) :
    deviceInit.warned s w = w := by
  unfold deviceInit.warned
  split
  · exact callback_mute _ _ _ _ h
  · rfl

theorem enter_quiet (s : CBootDevice_VSCP) (w : World) (ex0 : vscpEventEx) (timeout : Nat) :
    (deviceInit.enter s w ex0 timeout).map (fun r => (r.1, r.2.1.mute, r.2.2.quiet)) =
      deviceInit.enter s.mute w.quiet ex0 timeout := by
  unfold deviceInit.enter
  rw [quiet_send]
  have hreq : deviceInit.request s.mute ex0 = deviceInit.request s ex0 := rfl
  have hg : s.mute.m_stdRegs = s.m_stdRegs := rfl
  rw [hreq, hg]
  cases hs : w.send (deviceInit.request s ex0) with
  | none => rfl
  | some r =>
    obtain ⟨rv, ws⟩ := r
    simp only [Option.map_some']
    by_cases h1 : VSCP_ERROR_SUCCESS ≠ rv
    · rw [if_pos h1, if_pos h1]
      simp only [Option.map_some', quiet_callback, callback_mute _ s.mute _ _ rfl]
    · rw [if_neg h1, if_neg h1, ← checkResponse_quiet s s.mute ws _ _ _ _ timeout rfl]
      cases hc : checkResponse s ws (deviceInit.request s ex0) s.m_stdRegs.GUID
        VSCP_TYPE_PROTOCOL_ACK_BOOT_LOADER VSCP_TYPE_PROTOCOL_NACK_BOOT_LOADER timeout with
      | none => rfl
      | some c =>
        obtain ⟨rv2, ex2, wc⟩ := c
        simp only [Option.map_some']
        by_cases h2 : VSCP_ERROR_SUCCESS ≠ rv2
        · rw [if_pos h2, if_pos h2]
          simp only [Option.map_some', quiet_callback, callback_mute _ s.mute _ _ rfl]
        · rw [if_neg h2, if_neg h2]
          simp only [Option.map_some', confirm_quiet]

theorem deviceInit_quiet (s : CBootDevice_VSCP) (w : World) (ourguid : List Nat) (devicecode : Nat)
    (abort : Bool) (ex0 : vscpEventEx) (timeout : Nat) (ourguid1 : List Nat) (devicecode1 : Nat) :
    (deviceInit s w ourguid devicecode abort ex0 timeout).map
        (fun r => (r.1, r.2.1.mute, r.2.2.quiet)) =
      deviceInit s.mute w.quiet ourguid1 devicecode1 abort ex0 timeout := by
  rw [deviceInit_unfold, deviceInit_unfold, quiet_readStdRegs]
  cases hr : w.readStdRegs with
  | none => rfl
  | some r =>
    obtain ⟨⟨rvRegs, regs⟩, wr⟩ := r
    simp only [Option.map_some']
    have hm : ({ s.mute with m_stdRegs := regs } : CBootDevice_VSCP) =
        CBootDevice_VSCP.mute { s with m_stdRegs := regs } := rfl
    have hcode : s.mute.m_firmwaredeviceCode = s.m_firmwaredeviceCode := rfl
    rw [hm, hcode, warned_mute _ wr.quiet rfl]
    by_cases h1 : VSCP_ERROR_SUCCESS ≠ rvRegs
    · rw [if_pos h1, if_pos h1]; rfl
    · rw [if_neg h1, if_neg h1]
      by_cases h2 : VSCP_BOOTLOADER_VSCP ≠ regs.bootloaderAlgorithm
      · rw [if_pos h2, if_pos h2]
        simp only [Option.map_some', quiet_callback, callback_mute _ (CBootDevice_VSCP.mute _) _ _ rfl]
      · rw [if_neg h2, if_neg h2]
        by_cases h3 : s.m_firmwaredeviceCode ≠ regs.firmwareDeviceCode ∧ abort = true
        · rw [if_pos h3, if_pos h3]
          simp only [Option.map_some', warned_quiet]
        · rw [if_neg h3, if_neg h3, enter_quiet, warned_quiet]

theorem loop_flag (s s1 : CBootDevice_VSCP) (guid : List Nat) (ack nack timeout : Nat)
    (tstart : Int) (h1 : s1.m_statusCallback = s.m_statusCallback) (fuel : Nat) :
    ∀ (w : World) (ex : vscpEventEx),
      checkResponse.loop s1 guid ack nack timeout tstart fuel w ex =
        checkResponse.loop s guid ack nack timeout tstart fuel w ex := by
  have hcb : ∀ (w : World) (n : Int) (msg : String), w.callback s1 n msg = w.callback s n msg := by
    intro w n msg; unfold World.callback; rw [h1]
  induction fuel with
  | zero => intro w ex; rfl
  | succ n ih =>
    intro w ex
    rw [checkResponse.loop, checkResponse.loop]
    simp only [hcb, ih]

theorem checkResponse_flag (s s1 : CBootDevice_VSCP) (w : World) (ex : vscpEventEx)
    (guid : List Nat) (ack nack timeout : Nat) (h1 : s1.m_statusCallback = s.m_statusCallback) :
    checkResponse s1 w ex guid ack nack timeout = checkResponse s w ex guid ack nack timeout := by
  unfold checkResponse
  simp only [loop_flag s s1 guid ack nack timeout _ h1]

theorem enter_code (s : CBootDevice_VSCP) (c : Nat) (w : World) (ex0 : vscpEventEx) (timeout : Nat) :
    deviceInit.enter { s with m_firmwaredeviceCode := c } w ex0 timeout =
      (deviceInit.enter s w ex0 timeout).map
        (fun r => (r.1, { r.2.1 with m_firmwaredeviceCode := c }, r.2.2)) := by
  unfold deviceInit.enter
  have hreq : deviceInit.request { s with m_firmwaredeviceCode := c } ex0 =
      deviceInit.request s ex0 := rfl
  have hg : ({ s with m_firmwaredeviceCode := c } : CBootDevice_VSCP).m_stdRegs = s.m_stdRegs := rfl
  have hcb : ∀ (w : World) (n : Int) (msg : String),
      w.callback { s with m_firmwaredeviceCode := c } n msg = w.callback s n msg := fun _ _ _ => rfl
  rw [hreq, hg]
  cases hs : w.send (deviceInit.request s ex0) with
  | none => rfl
  | some r =>
    obtain ⟨rv, ws⟩ := r
    simp only [Option.map_some']
    by_cases h1 : VSCP_ERROR_SUCCESS ≠ rv
    · rw [if_pos h1, if_pos h1]; rfl
    · rw [if_neg h1, if_neg h1,
        checkResponse_flag s { s with m_firmwaredeviceCode := c } ws _ _ _ _ timeout rfl]
      cases hc : checkResponse s ws (deviceInit.request s ex0) s.m_stdRegs.GUID
        VSCP_TYPE_PROTOCOL_ACK_BOOT_LOADER VSCP_TYPE_PROTOCOL_NACK_BOOT_LOADER timeout with
      | none => rfl
      | some c2 =>
        obtain ⟨rv2, ex2, wc⟩ := c2
        simp only [Option.map_some']
        by_cases h2 : VSCP_ERROR_SUCCESS ≠ rv2
        · rw [if_pos h2, if_pos h2]; rfl
        · rw [if_neg h2, if_neg h2]
          simp only [Option.map_some', Option.some.injEq]
          unfold deviceInit.confirm
          simp only [World.callback]
          split_ifs <;> rfl

end VscpBoot

/-! # `deviceInit`: the checks before the request -/

namespace VscpBoot

theorem warned_sent (s : CBootDevice_VSCP) (w : World) : (deviceInit.warned s w).sent = w.sent := by
  unfold deviceInit.warned
  split
  · exact callback_sent _ _ _ _
  · rfl

theorem enter_sent (s : CBootDevice_VSCP) (w : World) (ex0 : vscpEventEx) (timeout : Nat) (rv : Int)
    (s1 : CBootDevice_VSCP) (w1 : World)
    (h : deviceInit.enter s w ex0 timeout = some (rv, s1, w1)) :
    w1.sent = w.sent ++ [deviceInit.request s ex0] := by
  unfold deviceInit.enter at h
  cases hs : w.send (deviceInit.request s ex0) with
  | none => rw [hs] at h; exact absurd h (by simp)
  | some r =>
    obtain ⟨rv1, ws⟩ := r
    rw [hs] at h
    have e1 := send_sent _ _ _ _ hs
    simp only [] at h
    by_cases h1 : VSCP_ERROR_SUCCESS ≠ rv1
    · rw [if_pos h1] at h
      simp only [Option.some.injEq, Prod.mk.injEq] at h
      rw [← h.2.2, callback_sent, e1]
    · rw [if_neg h1] at h
      cases hc : checkResponse s ws (deviceInit.request s ex0) s.m_stdRegs.GUID
        VSCP_TYPE_PROTOCOL_ACK_BOOT_LOADER VSCP_TYPE_PROTOCOL_NACK_BOOT_LOADER timeout with
      | none => rw [hc] at h; exact absurd h (by simp)
      | some c =>
        obtain ⟨rv2, ex2, wc⟩ := c
        rw [hc] at h
        have e2 := (checkResponse_spec _ _ _ _ _ _ _ _ _ _ hc).1
        simp only [] at h
        by_cases h2 : VSCP_ERROR_SUCCESS ≠ rv2
        · rw [if_pos h2] at h
          simp only [Option.some.injEq, Prod.mk.injEq] at h
          rw [← h.2.2, callback_sent, e2, e1]
        · rw [if_neg h2] at h
          simp only [Option.some.injEq] at h
          have e3 := confirm_sent s ex2 wc
          rw [h] at e3
          rw [e3, e2, e1]

theorem deviceInit_read (s : CBootDevice_VSCP) (w : World) (ourguid : List Nat) (devicecode : Nat)
    (abort : Bool) (ex0 : vscpEventEx) (timeout : Nat) (regs : CStandardRegisters) (wr : World)
    (hregs : w.readStdRegs = some ((VSCP_ERROR_SUCCESS, regs), wr)) :
    deviceInit s w ourguid devicecode abort ex0 timeout =
      if VSCP_BOOTLOADER_VSCP ≠ regs.bootloaderAlgorithm then
        some (VSCP_ERROR_NOT_SUPPORTED, { s with m_stdRegs := regs },
          wr.callback { s with m_stdRegs := regs } (-1) "Bootloader algorithm is not Microchip PIC1")
      else if s.m_firmwaredeviceCode ≠ regs.firmwareDeviceCode ∧ abort = true then
        some (VSCP_ERROR_PARAMETER, { s with m_stdRegs := regs },
          deviceInit.warned { s with m_stdRegs := regs } wr)
      else
        deviceInit.enter { s with m_stdRegs := regs } (deviceInit.warned { s with m_stdRegs := regs } wr)
          ex0 timeout := by
  rw [deviceInit_unfold, hregs]
  simp only [ne_eq, not_true_eq_false, if_false]

theorem sent_grows (l : List vscpEventEx) (e : vscpEventEx) : l ++ [e] ≠ l := by
  intro h
  have := congrArg List.length h
  simp at this

/-- The two checks `deviceInit` makes on the registers it has read, before it builds
the enter-bootloader request. -/
theorem checks_before_request (s : CBootDevice_VSCP) (w : World) (ourguid : List Nat)
    (devicecode : Nat) (abort : Bool) (ex0 : vscpEventEx) (timeout : Nat)
    (regs : CStandardRegisters) (wr : World)
    (hregs : w.readStdRegs = some ((VSCP_ERROR_SUCCESS, regs), wr)) :
    ((∃ s1 w1, deviceInit s w ourguid devicecode abort ex0 timeout =
          some (VSCP_ERROR_NOT_SUPPORTED, s1, w1) ∧ w1.sent = w.sent) ↔
      regs.bootloaderAlgorithm ≠ VSCP_BOOTLOADER_VSCP) ∧
    (regs.bootloaderAlgorithm = VSCP_BOOTLOADER_VSCP →
      ((∃ s1 w1, deviceInit s w ourguid devicecode abort ex0 timeout =
          some (VSCP_ERROR_PARAMETER, s1, w1) ∧ w1.sent = w.sent) ↔
        (s.m_firmwaredeviceCode ≠ regs.firmwareDeviceCode ∧ abort = true))) ∧
    (regs.bootloaderAlgorithm = VSCP_BOOTLOADER_VSCP →
      ¬ (s.m_firmwaredeviceCode ≠ regs.firmwareDeviceCode ∧ abort = true) →
      ∀ rv s1 w1, deviceInit s w ourguid devicecode abort ex0 timeout = some (rv, s1, w1) →
        w1.sent = w.sent ++ [deviceInit.request { s with m_stdRegs := regs } ex0]) ∧
    (∀ abort1 : Bool,
      (deviceInit s w ourguid devicecode false ex0 timeout).map
          (fun r => (r.1, r.2.2.sent, r.2.1.m_blockSize, r.2.1.m_numBlocks)) =
        (deviceInit { s with m_firmwaredeviceCode := regs.firmwareDeviceCode } w ourguid devicecode
          abort1 ex0 timeout).map
          (fun r => (r.1, r.2.2.sent, r.2.1.m_blockSize, r.2.1.m_numBlocks))) := by
  have hw : wr.sent = w.sent := readStdRegs_sent _ _ _ hregs
  have hread := deviceInit_read s w ourguid devicecode abort ex0 timeout regs wr hregs
  refine ⟨?_, ?_, ?_, ?_⟩
  · constructor
    · rintro ⟨s1, w1, h, hs⟩ halg
      rw [hread, if_neg (by rw [halg]; simp)] at h
      by_cases h3 : s.m_firmwaredeviceCode ≠ regs.firmwareDeviceCode ∧ abort = true
      · rw [if_pos h3] at h
        simp only [Option.some.injEq, Prod.mk.injEq] at h
        exact absurd h.1 (by decide)
      · rw [if_neg h3] at h
        have := enter_sent _ _ _ _ _ _ _ h
        rw [warned_sent, hw, hs] at this
        exact sent_grows _ _ this.symm
    · intro halg
      refine ⟨{ s with m_stdRegs := regs },
        wr.callback { s with m_stdRegs := regs } (-1) "Bootloader algorithm is not Microchip PIC1",
        ?_, ?_⟩
      · rw [hread, if_pos (fun c => halg c.symm)]
      · rw [callback_sent, hw]
  · intro halg
    rw [hread, if_neg (by rw [halg]; simp)]
    constructor
    · rintro ⟨s1, w1, h, hs⟩
      by_contra h3
      rw [if_neg h3] at h
      have := enter_sent _ _ _ _ _ _ _ h
      rw [warned_sent, hw, hs] at this
      exact sent_grows _ _ this.symm
    · intro h3
      refine ⟨{ s with m_stdRegs := regs }, deviceInit.warned { s with m_stdRegs := regs } wr,
        ?_, ?_⟩
      · rw [if_pos h3]
      · rw [warned_sent, hw]
  · intro halg h3 rv s1 w1 h
    rw [hread, if_neg (by rw [halg]; simp), if_neg h3] at h
    have := enter_sent _ _ _ _ _ _ _ h
    rw [warned_sent, hw] at this
    exact this
  · intro abort1
    have hq : ∀ (o : Option (Int × CBootDevice_VSCP × World)),
        o.map (fun r => (r.1, r.2.2.sent, r.2.1.m_blockSize, r.2.1.m_numBlocks)) =
        (o.map (fun r => (r.1, r.2.1.mute, r.2.2.quiet))).map
          (fun r => (r.1, r.2.2.sent, r.2.1.m_blockSize, r.2.1.m_numBlocks)) := by
      intro o; cases o <;> rfl
    rw [hq, hq (deviceInit { s with m_firmwaredeviceCode := regs.firmwareDeviceCode } _ _ _ _ _ _),
      deviceInit_quiet s w ourguid devicecode false ex0 timeout ourguid devicecode,
      deviceInit_quiet _ w ourguid devicecode abort1 ex0 timeout ourguid devicecode]
    have hregsq : w.quiet.readStdRegs = some ((VSCP_ERROR_SUCCESS, regs), wr.quiet) := by
      rw [quiet_readStdRegs, hregs]; rfl
    rw [deviceInit_read _ _ _ _ _ _ _ regs wr.quiet hregsq,
      deviceInit_read _ _ _ _ _ _ _ regs wr.quiet hregsq]
    by_cases h2 : VSCP_BOOTLOADER_VSCP ≠ regs.bootloaderAlgorithm
    · rw [if_pos h2, if_pos h2]; rfl
    · rw [if_neg h2, if_neg h2, if_neg (by simp), if_neg (by simp [CBootDevice_VSCP.mute]),
        warned_mute _ _ rfl, warned_mute _ _ rfl]
      have e : ({ CBootDevice_VSCP.mute { s with m_firmwaredeviceCode := regs.firmwareDeviceCode } with
          m_stdRegs := regs } : CBootDevice_VSCP) =
          { ({ s.mute with m_stdRegs := regs } : CBootDevice_VSCP) with
            m_firmwaredeviceCode := regs.firmwareDeviceCode } := rfl
      rw [e, enter_code]
      cases deviceInit.enter { s.mute with m_stdRegs := regs } wr.quiet ex0 timeout <;> rfl

/-- C25: each member function returns the same code, sends the same events, uses up
the same answers of the transport and the clock and leaves the same object whether
the status callback is present or null; only the record of the calls of the
callback differs. -/
theorem C25_callback_does_not_steer (s : CBootDevice_VSCP) (w : World) (ex ex0 : vscpEventEx)
    (guid ourguid mem heap : List Nat) (ack nack timeout devicecode block type paddr size : Nat)
    (abort cb ab : Bool) (rv0 : Int) (img : CBootDevice) :
    (checkResponse { s with m_statusCallback := true } w ex guid ack nack timeout).map
        (fun r => (r.1, r.2.1, r.2.2.quiet)) =
      (checkResponse { s with m_statusCallback := false } w ex guid ack nack timeout).map
        (fun r => (r.1, r.2.1, r.2.2.quiet)) ∧
    (deviceInit { s with m_statusCallback := true } w ourguid devicecode abort ex0 timeout).map
        (fun r => (r.1, r.2.1.mute, r.2.2.quiet)) =
      (deviceInit { s with m_statusCallback := false } w ourguid devicecode abort ex0 timeout).map
        (fun r => (r.1, r.2.1.mute, r.2.2.quiet)) ∧
    (writeBlockStart { s with m_statusCallback := true } w block type ex0 timeout).map
        (fun r => (r.1, r.2.quiet)) =
      (writeBlockStart { s with m_statusCallback := false } w block type ex0 timeout).map
        (fun r => (r.1, r.2.quiet)) ∧
    (writeChunk { s with m_statusCallback := true } w mem paddr size ex0 timeout).map
        (fun r => (r.1, r.2.quiet)) =
      (writeChunk { s with m_statusCallback := false } w mem paddr size ex0 timeout).map
        (fun r => (r.1, r.2.quiet)) ∧
    (writeBlock { s with m_statusCallback := true } w mem paddr rv0 ex0 timeout).map
        (fun r => (r.1, r.2.quiet)) =
      (writeBlock { s with m_statusCallback := false } w mem paddr rv0 ex0 timeout).map
        (fun r => (r.1, r.2.quiet)) ∧
    (programBlock { s with m_statusCallback := true } w block ex0 timeout).map
        (fun r => (r.1, r.2.quiet)) =
      (programBlock { s with m_statusCallback := false } w block ex0 timeout).map
        (fun r => (r.1, r.2.quiet)) ∧
    (deviceLoad { s with m_statusCallback := true } img w heap rv0 ex0 timeout cb ab).map
        (fun r => (r.1, r.2.1.mute, r.2.2.quiet)) =
      (deviceLoad { s with m_statusCallback := false } img w heap rv0 ex0 timeout cb ab).map
        (fun r => (r.1, r.2.1.mute, r.2.2.quiet)) := by
  refine ⟨?_, ?_, ?_, ?_, ?_, ?_, ?_⟩
  · rw [checkResponse_quiet { s with m_statusCallback := true } { s with m_statusCallback := false }
      w ex guid ack nack timeout rfl,
      checkResponse_quiet { s with m_statusCallback := false } { s with m_statusCallback := false }
      w ex guid ack nack timeout rfl]
  · rw [deviceInit_quiet _ w ourguid devicecode abort ex0 timeout ourguid devicecode,
      deviceInit_quiet _ w ourguid devicecode abort ex0 timeout ourguid devicecode]
    rfl
  · rw [writeBlockStart_quiet { s with m_statusCallback := true }
      { s with m_statusCallback := false } w block type ex0 timeout rfl rfl,
      writeBlockStart_quiet { s with m_statusCallback := false }
      { s with m_statusCallback := false } w block type ex0 timeout rfl rfl]
  · rw [writeChunk_quiet { s with m_statusCallback := true }
      { s with m_statusCallback := false } w mem paddr size ex0 timeout rfl rfl rfl,
      writeChunk_quiet { s with m_statusCallback := false }
      { s with m_statusCallback := false } w mem paddr size ex0 timeout rfl rfl rfl]
  · rw [writeBlock_quiet { s with m_statusCallback := true }
      { s with m_statusCallback := false } w mem paddr rv0 ex0 timeout rfl rfl rfl rfl,
      writeBlock_quiet { s with m_statusCallback := false }
      { s with m_statusCallback := false } w mem paddr rv0 ex0 timeout rfl rfl rfl rfl]
  · rw [programBlock_quiet { s with m_statusCallback := true }
      { s with m_statusCallback := false } w block ex0 timeout rfl rfl,
      programBlock_quiet { s with m_statusCallback := false }
      { s with m_statusCallback := false } w block ex0 timeout rfl rfl]
  · rw [deviceLoad_quiet _ img w heap rv0 ex0 timeout cb ab cb ab,
      deviceLoad_quiet _ img w heap rv0 ex0 timeout cb ab cb ab]
    rfl

end VscpBoot

/-! # The events of the session -/

namespace VscpBoot

theorem step_sent (s : CBootDevice_VSCP) (w : World) (ex : vscpEventEx) (guid : List Nat)
    (ack nack timeout : Nat) (m1 m2 : String) (rv : Int) (w1 : World)
    (h : (match w.send ex with
      | none => none
      | some (rv, w) =>
        if VSCP_ERROR_SUCCESS ≠ rv then some (rv, w.callback s (-1) m1)
        else
          match checkResponse s w ex guid ack nack timeout with
          | none => none
          | some (rv, _, w) =>
            if VSCP_ERROR_SUCCESS ≠ rv then some (rv, w.callback s (-1) m2)
            else some (VSCP_ERROR_SUCCESS, w)) = some (rv, w1)) :
    w1.sent = w.sent ++ [ex] := by
  cases hs : w.send ex with
  | none => rw [hs] at h; exact absurd h (by simp)
  | some r =>
    obtain ⟨rv1, ws⟩ := r
    rw [hs] at h
    have e1 := send_sent _ _ _ _ hs
    simp only [] at h
    by_cases h1 : VSCP_ERROR_SUCCESS ≠ rv1
    · rw [if_pos h1] at h
      simp only [Option.some.injEq, Prod.mk.injEq] at h
      rw [← h.2, callback_sent, e1]
    · rw [if_neg h1] at h
      cases hc : checkResponse s ws ex guid ack nack timeout with
      | none => rw [hc] at h; exact absurd h (by simp)
      | some c =>
        obtain ⟨rv2, ex2, wc⟩ := c
        rw [hc] at h
        have e2 := (checkResponse_spec _ _ _ _ _ _ _ _ _ _ hc).1
        simp only [] at h
        by_cases h2 : VSCP_ERROR_SUCCESS ≠ rv2
        · rw [if_pos h2] at h
          simp only [Option.some.injEq, Prod.mk.injEq] at h
          rw [← h.2, callback_sent, e2, e1]
        · rw [if_neg h2] at h
          simp only [Option.some.injEq, Prod.mk.injEq] at h
          rw [← h.2, e2, e1]

theorem writeChunk_sent (s : CBootDevice_VSCP) (w : World) (mem : List Nat) (paddr size : Nat)
    (ex0 : vscpEventEx) (timeout : Nat) (hsize : size ≤ s.m_chunkSize) (rv : Int) (w1 : World)
    (h : writeChunk s w mem paddr size ex0 timeout = some (rv, w1)) :
    w1.sent = w.sent ++ [writeChunk.request mem paddr size ex0] := by
  unfold writeChunk at h
  rw [if_neg (not_lt.mpr hsize)] at h
  exact step_sent s w _ _ _ _ timeout _ _ rv w1 h

theorem writeBlockStart_sent (s : CBootDevice_VSCP) (w : World) (block type : Nat)
    (ex0 : vscpEventEx) (timeout : Nat) (rv : Int) (w1 : World)
    (h : writeBlockStart s w block type ex0 timeout = some (rv, w1)) :
    w1.sent = w.sent ++ [writeBlockStart.request block type ex0] := by
  unfold writeBlockStart at h
  exact step_sent s w _ _ _ _ timeout _ _ rv w1 h

theorem programBlock_sent (s : CBootDevice_VSCP) (w : World) (block : Nat)
    (ex0 : vscpEventEx) (timeout : Nat) (rv : Int) (w1 : World)
    (h : programBlock s w block ex0 timeout = some (rv, w1)) :
    w1.sent = w.sent ++ [programBlock.request block ex0] := by
  unfold programBlock at h
  exact step_sent s w _ _ _ _ timeout _ _ rv w1 h

/-- C21: `writeChunk` called with a size above the chunk size returns the size code
at once: the world is as before (nothing sent, no answer of the transport or the
clock used), and the function assigns no member of the object. With a size within
the chunk size every return follows the sending of exactly one event, of class
protocol and type block data, with `sizeData` the size and, the source bytes lying
within the memory, the payload the `size` bytes at `paddr`; the call does return,
with success, when the request is acknowledged. -/
theorem C21_writeChunk_size_check (s : CBootDevice_VSCP) (w : World) (mem : List Nat)
    (paddr size : Nat) (ex0 : vscpEventEx) (timeout : Nat) :
    (size > s.m_chunkSize →
      writeChunk s w mem paddr size ex0 timeout = some (VSCP_ERROR_SIZE, w)) ∧
    (size ≤ s.m_chunkSize →
      (∀ rv w1, writeChunk s w mem paddr size ex0 timeout = some (rv, w1) →
        w1.sent = w.sent ++ [writeChunk.request mem paddr size ex0]) ∧
      (∀ (x : Exchange) (w0 : World),
        x.acked s.m_stdRegs.GUID VSCP_TYPE_PROTOCOL_START_BLOCK_ACK
          VSCP_TYPE_PROTOCOL_START_BLOCK_NACK timeout = true →
        writeChunk s (x.feed w0) mem paddr size ex0 timeout =
          some (VSCP_ERROR_SUCCESS, w0.acks s (writeChunk.request mem paddr size ex0))) ∧
      (writeChunk.request mem paddr size ex0).vscp_class = VSCP_CLASS1_PROTOCOL ∧
      (writeChunk.request mem paddr size ex0).vscp_type = VSCP_TYPE_PROTOCOL_BLOCK_DATA ∧
      (writeChunk.request mem paddr size ex0).sizeData = size ∧
      (paddr + size ≤ mem.length →
        (writeChunk.request mem paddr size ex0).payload = (mem.drop paddr).take size ∧
        (writeChunk.request mem paddr size ex0).payload.length = size)) := by
  refine ⟨?_, ?_⟩
  · intro h
    unfold writeChunk
    rw [if_pos h]
  · intro h
    refine ⟨fun rv w1 h1 => writeChunk_sent s w mem paddr size ex0 timeout h rv w1 h1,
      fun x w0 hx => writeChunk_acked s x w0 mem paddr size ex0 timeout h hx, rfl, rfl, rfl, ?_⟩
    intro hb
    have hl : ((mem.drop paddr).take size).length = size := by
      rw [List.length_take, List.length_drop]; omega
    have hp : (writeChunk.request mem paddr size ex0).payload = (mem.drop paddr).take size := by
      show (((mem.drop paddr).take size) ++ ex0.data.drop size).take size = _
      rw [List.take_append_of_le_length (by omega), List.take_of_length_le (by omega)]
    exact ⟨hp, by rw [hp, hl]⟩

theorem C21_writeChunk_size_check_witness :
    (9 > demoLoader.m_chunkSize ∧ 8 ≤ demoLoader.m_chunkSize ∧ 0 + 8 ≤ demoMem.length) ∧
    writeChunk demoLoader emptyWorld demoMem 0 9 demoEx0 5 = some (VSCP_ERROR_SIZE, emptyWorld) ∧
    writeChunk demoLoader ((demoExchange VSCP_TYPE_PROTOCOL_START_BLOCK_ACK).feed emptyWorld) demoMem
        0 8 demoEx0 5 =
      some (VSCP_ERROR_SUCCESS, emptyWorld.acks demoLoader (writeChunk.request demoMem 0 8 demoEx0)) ∧
    (writeChunk.request demoMem 0 8 demoEx0).payload = (demoMem.drop 0).take 8 ∧
    (writeChunk.request demoMem 0 8 demoEx0).payload.length = 8 :=
  ⟨⟨by decide, by decide, by decide⟩,
    (C21_writeChunk_size_check demoLoader emptyWorld demoMem 0 9 demoEx0 5).1 (by decide),
    ((C21_writeChunk_size_check demoLoader emptyWorld demoMem 0 8 demoEx0 5).2 (by decide)).2.1
      (demoExchange VSCP_TYPE_PROTOCOL_START_BLOCK_ACK) emptyWorld (by decide),
    ((C21_writeChunk_size_check demoLoader emptyWorld demoMem 0 8 demoEx0 5).2
      (by decide)).2.2.2.2.2 (by decide)⟩

end VscpBoot

/-! # The payloads -/

namespace VscpBoot

theorem confirm_geometry (s : CBootDevice_VSCP) (ex : vscpEventEx) (w : World) :
    (deviceInit.confirm s ex w).2.1.m_blockSize =
      construct_unsigned32 (ex.data.getD 0 0) (ex.data.getD 1 0) (ex.data.getD 2 0)
        (ex.data.getD 3 0) ∧
    (deviceInit.confirm s ex w).2.1.m_numBlocks =
      construct_unsigned32 (ex.data.getD 4 0) (ex.data.getD 5 0) (ex.data.getD 6 0)
        (ex.data.getD 7 0) := by
  unfold deviceInit.confirm
  simp only []
  split <;> exact ⟨rfl, rfl⟩

theorem enter_acked (s : CBootDevice_VSCP) (x : Exchange) (w : World) (ex0 : vscpEventEx)
    (timeout : Nat)
    (h : x.acked s.m_stdRegs.GUID VSCP_TYPE_PROTOCOL_ACK_BOOT_LOADER
      VSCP_TYPE_PROTOCOL_NACK_BOOT_LOADER timeout = true) :
    deviceInit.enter s (x.feed w) ex0 timeout =
      some (deviceInit.confirm s x.final.ev (w.acks s (deviceInit.request s ex0))) := by
  simp only [Exchange.acked, Bool.and_eq_true, decide_eq_true_eq] at h
  obtain ⟨⟨⟨h1, h2⟩, h3⟩, h4⟩ := h
  unfold deviceInit.enter
  rw [exchange_send]
  simp only [ne_eq, not_true_eq_false, if_false]
  rw [checkResponse_polls s _ _ s.m_stdRegs.GUID _ _ timeout x.tstart x.skipped x.final h1 h2 h3
    (Or.inl h4), if_pos h4]
  simp only [ne_eq, not_true_eq_false, if_false]
  rfl

theorem warned_exchange_feed (s : CBootDevice_VSCP) (x : Exchange) (w : World) :
    deviceInit.warned s (x.feed w) = x.feed (deviceInit.warned s w) := by
  unfold deviceInit.warned
  split
  · exact callback_exchange_feed _ _ _ _ _
  · rfl

theorem feedRegs_read (r : Int × CStandardRegisters) (w : World) :
    (feedRegs r w).readStdRegs = some (r, w) := by
  cases w; rfl

/-- C22: when the registers are read, the checks pass and the request is
acknowledged, `deviceInit` takes the geometry from the acknowledge event received:
the block size is the big-endian value of its data bytes 0..3 and the block count
that of its data bytes 4..7, whatever the request held. The bytes
00 00 00 40 00 00 00 0A give 64 and 10, and the example session with chunk size 8
then returns success. -/
theorem C22_geometry_from_acknowledge (s : CBootDevice_VSCP) (w : World) (ourguid : List Nat)
    (devicecode : Nat) (abort : Bool) (ex0 : vscpEventEx) (timeout : Nat)
    (regs : CStandardRegisters) (x : Exchange)
    (halg : regs.bootloaderAlgorithm = VSCP_BOOTLOADER_VSCP)
    (hcode : ¬ (s.m_firmwaredeviceCode ≠ regs.firmwareDeviceCode ∧ abort = true))
    (hack : x.acked regs.GUID VSCP_TYPE_PROTOCOL_ACK_BOOT_LOADER
      VSCP_TYPE_PROTOCOL_NACK_BOOT_LOADER timeout = true) :
    (∃ rv s1 w1, deviceInit s (feedRegs (VSCP_ERROR_SUCCESS, regs) (x.feed w)) ourguid devicecode
        abort ex0 timeout = some (rv, s1, w1) ∧
      s1.m_blockSize = construct_unsigned32 (x.final.ev.data.getD 0 0) (x.final.ev.data.getD 1 0)
        (x.final.ev.data.getD 2 0) (x.final.ev.data.getD 3 0) ∧
      s1.m_numBlocks = construct_unsigned32 (x.final.ev.data.getD 4 0) (x.final.ev.data.getD 5 0)
        (x.final.ev.data.getD 6 0) (x.final.ev.data.getD 7 0) ∧
      (rv = VSCP_ERROR_SUCCESS ↔ s.m_chunkSize ≤ s1.m_blockSize)) ∧
    construct_unsigned32 0x00 0x00 0x00 0x40 = 64 ∧ construct_unsigned32 0x00 0x00 0x00 0x0A = 10 ∧
    deviceInit demoSession demoWorld64 [] 0 false demoEx0 5 =
      some (VSCP_ERROR_SUCCESS, demoSession64, demoWorldAfter) ∧
    demoSession.m_chunkSize = 8 ∧ demoSession64.m_blockSize = 64 ∧ demoSession64.m_numBlocks = 10 := by
  refine ⟨?_, by decide, by decide, by decide, rfl, rfl, rfl⟩
  have hread := deviceInit_read s (feedRegs (VSCP_ERROR_SUCCESS, regs) (x.feed w)) ourguid
    devicecode abort ex0 timeout regs (x.feed w) (feedRegs_read _ _)
  rw [if_neg (by rw [halg]; simp), if_neg hcode, warned_exchange_feed,
    enter_acked { s with m_stdRegs := regs } x _ ex0 timeout hack] at hread
  obtain ⟨g1, g2⟩ := confirm_geometry { s with m_stdRegs := regs } x.final.ev
    ((deviceInit.warned { s with m_stdRegs := regs } w).acks { s with m_stdRegs := regs }
      (deviceInit.request { s with m_stdRegs := regs } ex0))
  have hcc := confirm_code { s with m_stdRegs := regs } x.final.ev
    ((deviceInit.warned { s with m_stdRegs := regs } w).acks { s with m_stdRegs := regs }
      (deviceInit.request { s with m_stdRegs := regs } ex0))
  generalize deviceInit.confirm { s with m_stdRegs := regs } x.final.ev
    ((deviceInit.warned { s with m_stdRegs := regs } w).acks { s with m_stdRegs := regs }
      (deviceInit.request { s with m_stdRegs := regs } ex0)) = C at hread g1 g2 hcc
  obtain ⟨rv, s1, w1⟩ := C
  have hcs : ({ s with m_stdRegs := regs } : CBootDevice_VSCP).m_chunkSize = s.m_chunkSize := rfl
  simp only [hcs] at hcc g1 g2
  refine ⟨rv, s1, w1, hread, g1, g2, ?_⟩
  rcases hcc with ⟨c1, c2⟩ | ⟨c1, c2⟩
  · constructor
    · intro h; rw [c1] at h; exact absurd h (by decide)
    · intro h; omega
  · exact ⟨fun _ => c2, fun _ => c1⟩

theorem C22_geometry_from_acknowledge_witness :
    (demoRegs.bootloaderAlgorithm = VSCP_BOOTLOADER_VSCP ∧
      ¬ (demoSession.m_firmwaredeviceCode ≠ demoRegs.firmwareDeviceCode ∧ false = true) ∧
      (⟨100, [], pollOf 100 demoAck64⟩ : Exchange).acked demoRegs.GUID
        VSCP_TYPE_PROTOCOL_ACK_BOOT_LOADER VSCP_TYPE_PROTOCOL_NACK_BOOT_LOADER 5 = true) ∧
    ((∃ rv s1 w1, deviceInit demoSession
          (feedRegs (VSCP_ERROR_SUCCESS, demoRegs)
            ((⟨100, [], pollOf 100 demoAck64⟩ : Exchange).feed emptyWorld)) [] 0 false demoEx0 5 =
          some (rv, s1, w1) ∧
        s1.m_blockSize = construct_unsigned32
          ((⟨100, [], pollOf 100 demoAck64⟩ : Exchange).final.ev.data.getD 0 0)
          ((⟨100, [], pollOf 100 demoAck64⟩ : Exchange).final.ev.data.getD 1 0)
          ((⟨100, [], pollOf 100 demoAck64⟩ : Exchange).final.ev.data.getD 2 0)
          ((⟨100, [], pollOf 100 demoAck64⟩ : Exchange).final.ev.data.getD 3 0) ∧
        s1.m_numBlocks = construct_unsigned32
          ((⟨100, [], pollOf 100 demoAck64⟩ : Exchange).final.ev.data.getD 4 0)
          ((⟨100, [], pollOf 100 demoAck64⟩ : Exchange).final.ev.data.getD 5 0)
          ((⟨100, [], pollOf 100 demoAck64⟩ : Exchange).final.ev.data.getD 6 0)
          ((⟨100, [], pollOf 100 demoAck64⟩ : Exchange).final.ev.data.getD 7 0) ∧
        (rv = VSCP_ERROR_SUCCESS ↔ demoSession.m_chunkSize ≤ s1.m_blockSize)) ∧
      construct_unsigned32 0x00 0x00 0x00 0x40 = 64 ∧ construct_unsigned32 0x00 0x00 0x00 0x0A = 10 ∧
      deviceInit demoSession demoWorld64 [] 0 false demoEx0 5 =
        some (VSCP_ERROR_SUCCESS, demoSession64, demoWorldAfter) ∧
      demoSession.m_chunkSize = 8 ∧ demoSession64.m_blockSize = 64 ∧
      demoSession64.m_numBlocks = 10) :=
  ⟨⟨rfl, by decide, by decide⟩,
    C22_geometry_from_acknowledge demoSession emptyWorld [] 0 false demoEx0 5 demoRegs
      ⟨100, [], pollOf 100 demoAck64⟩ rfl (by decide) (by decide)⟩

end VscpBoot

/-! # The requests -/

namespace VscpBoot

theorem eight_bytes (l : List Nat) (h : 8 ≤ l.length) :
    ∃ a b c d e f g i rest, l = a :: b :: c :: d :: e :: f :: g :: i :: rest := by
  match l, h with
  | a :: b :: c :: d :: e :: f :: g :: i :: rest, _ => exact ⟨a, b, c, d, e, f, g, i, rest, rfl⟩

theorem byte_and (x : Nat) : x &&& 0xff = x % 256 :=
  Nat.and_pow_two_sub_one_eq_mod x 8

theorem block_bytes (b : Nat) (hb : b < 2 ^ 32) :
    (b >>> 24) &&& 0xff = b / 2 ^ 24 ∧ (b >>> 16) &&& 0xff = b / 2 ^ 16 % 256 ∧
    (b >>> 8) &&& 0xff = b / 2 ^ 8 % 256 ∧ b &&& 0xff = b % 256 := by
  simp only [byte_and, Nat.shiftRight_eq_div_pow]
  refine ⟨?_, trivial, trivial, trivial⟩
  omega

theorem construct_bytes (b : Nat) (hb : b < 2 ^ 32) :
    construct_unsigned32 (b / 2 ^ 24) (b / 2 ^ 16 % 256) (b / 2 ^ 8 % 256) (b % 256) = b := by
  unfold construct_unsigned32
  simp only [Nat.shiftLeft_eq]
  omega

/-- The fields of the event `deviceInit` builds, for an 8-bit node id and a 16-bit
register page. -/
theorem request_fields (s : CBootDevice_VSCP) (ex0 : vscpEventEx)
    (hcap : 8 ≤ ex0.data.length) (hid : s.m_nodeid < 256)
    (hpage : s.m_stdRegs.registerPage < 65536) :
    (deviceInit.request s ex0).vscp_class = VSCP_CLASS1_PROTOCOL ∧
    (deviceInit.request s ex0).vscp_type = VSCP_TYPE_PROTOCOL_ENTER_BOOT_LOADER ∧
    (deviceInit.request s ex0).sizeData = 8 ∧
    (deviceInit.request s ex0).payload =
      [s.m_nodeid, VSCP_BOOTLOADER_VSCP, s.m_stdRegs.GUID.getD 0 0, s.m_stdRegs.GUID.getD 3 0,
        s.m_stdRegs.GUID.getD 5 0, s.m_stdRegs.GUID.getD 7 0, s.m_stdRegs.registerPage >>> 8,
        s.m_stdRegs.registerPage &&& 0xff] ∧
    ∀ (s0 : CBootDevice_VSCP) (w : World) (ourguid : List Nat) (devicecode : Nat) (abort : Bool)
      (timeout : Nat) (rv : Int) (s1 : CBootDevice_VSCP) (w1 : World),
      deviceInit s0 w ourguid devicecode abort ex0 timeout = some (rv, s1, w1) →
      w1.sent = w.sent ∨
        w1.sent = w.sent ++ [deviceInit.request { s0 with m_stdRegs := s1.m_stdRegs } ex0] := by
  refine ⟨rfl, rfl, rfl, ?_, ?_⟩
  · obtain ⟨a, b, c, d, e, f, g, i, rest, hd⟩ := eight_bytes ex0.data hcap
    have h6 : (s.m_stdRegs.registerPage >>> 8) % 256 = s.m_stdRegs.registerPage >>> 8 := by
      rw [Nat.shiftRight_eq_div_pow]; omega
    simp only [vscpEventEx.payload, deviceInit.request, hd, List.set_cons_zero, List.set_cons_succ,
      List.take_succ_cons, List.take_zero, Nat.mod_eq_of_lt hid, h6]
  · intro s0 w ourguid devicecode abort timeout rv s1 w1 h
    rcases (deviceInit_cases s0 w ourguid devicecode abort ex0 timeout rv s1 w1 h).2 with
      ⟨_, hs, _⟩ | ⟨_, hs, _⟩ | ⟨hs, _⟩
    · exact Or.inl hs
    · exact Or.inr hs
    · exact Or.inr hs

/-- The data bytes of the events `writeBlockStart` and `programBlock` build, for a
block number below 2^32 and a memory type below 256. -/
theorem block_number_bytes (b type : Nat) (ex0 : vscpEventEx) (hb : b < 2 ^ 32)
    (ht : type < 256) (hcap : 8 ≤ ex0.data.length) :
    (writeBlockStart.request b type ex0).data.take 5 =
      [b / 2 ^ 24, b / 2 ^ 16 % 256, b / 2 ^ 8 % 256, b % 256, type] ∧
    (programBlock.request b ex0).data.take 4 =
      [b / 2 ^ 24, b / 2 ^ 16 % 256, b / 2 ^ 8 % 256, b % 256] ∧
    construct_unsigned32 ((writeBlockStart.request b type ex0).data.getD 0 0)
      ((writeBlockStart.request b type ex0).data.getD 1 0)
      ((writeBlockStart.request b type ex0).data.getD 2 0)
      ((writeBlockStart.request b type ex0).data.getD 3 0) = b ∧
    construct_unsigned32 ((programBlock.request b ex0).data.getD 0 0)
      ((programBlock.request b ex0).data.getD 1 0) ((programBlock.request b ex0).data.getD 2 0)
      ((programBlock.request b ex0).data.getD 3 0) = b ∧
    (writeBlockStart.request b type ex0).sizeData = 8 ∧ (programBlock.request b ex0).sizeData = 8 ∧
    (∀ (s : CBootDevice_VSCP) (w : World) (timeout : Nat) (rv : Int) (w1 : World),
      writeBlockStart s w b type ex0 timeout = some (rv, w1) →
      w1.sent = w.sent ++ [writeBlockStart.request b type ex0]) ∧
    (∀ (s : CBootDevice_VSCP) (w : World) (timeout : Nat) (rv : Int) (w1 : World),
      programBlock s w b ex0 timeout = some (rv, w1) →
      w1.sent = w.sent ++ [programBlock.request b ex0]) := by
  obtain ⟨a0, a1, a2, a3, a4, a5, a6, a7, rest, hd⟩ := eight_bytes ex0.data hcap
  obtain ⟨e0, e1, e2, e3⟩ := block_bytes b hb
  have hc := construct_bytes b hb
  refine ⟨?_, ?_, ?_, ?_, rfl, rfl, ?_, ?_⟩
  · simp only [writeBlockStart.request, hd, List.set_cons_zero, List.set_cons_succ,
      List.take_succ_cons, List.take_zero, e0, e1, e2, e3, Nat.mod_eq_of_lt ht]
  · simp only [programBlock.request, hd, List.set_cons_zero, List.set_cons_succ,
      List.take_succ_cons, List.take_zero, e0, e1, e2, e3]
  · simp only [writeBlockStart.request, hd, List.set_cons_zero, List.set_cons_succ, e0, e1, e2, e3,
      List.getD_cons_zero, List.getD_cons_succ]
    exact hc
  · simp only [programBlock.request, hd, List.set_cons_zero, List.set_cons_succ, e0, e1, e2, e3,
      List.getD_cons_zero, List.getD_cons_succ]
    exact hc
  · exact fun s w timeout rv w1 h => writeBlockStart_sent s w b type ex0 timeout rv w1 h
  · exact fun s w timeout rv w1 h => programBlock_sent s w b ex0 timeout rv w1 h

end VscpBoot

/-! # String helpers: the claims -/

namespace VscpHelper

/-- C26: `vscp_str_after` does not return the part after the character. It hands
the position of the character to `vscp_str_right` as a length, so the result is
the last `p` characters of the string: for "key=value" and '=' (first at index 3)
it is "lue", not "value"; for "a=bcd" it is "d"; and for "=abc", where the
character comes first, it is empty. When the character does not occur the result
is empty, as claimed. -/
theorem C26_str_after_returns_tail :
    vscp_str_after "key=value".toList '=' = "lue".toList ∧
    find "key=value".toList '=' = some 3 ∧ "key=value".toList.drop (3 + 1) = "value".toList ∧
    vscp_str_after "a=bcd".toList '=' = "d".toList ∧
    vscp_str_after "=abc".toList '=' = [] ∧
    vscp_str_after "abc".toList '=' = [] ∧
    vscp_str_before "key=value".toList '=' = "key".toList := by
  decide

end VscpHelper

/-! # The cipher and the standard -/

namespace VscpAes

theorem gf_table : ∀ x < 256, gfMul 2 x = xtime x ∧ gfMul 3 x = xtime x ^^^ x ∧
    gfMul 0x0e x = Multiply x 0x0e ∧ gfMul 0x0b x = Multiply x 0x0b ∧
    gfMul 0x0d x = Multiply x 0x0d ∧ gfMul 0x09 x = Multiply x 0x09 := by
  decide!

theorem mixCol_normal (a b c d : Nat) :
    mixCol0 a b c d = xtime a ^^^ (xtime b ^^^ b) ^^^ c ^^^ d ∧
    mixCol1 a b c d = a ^^^ xtime b ^^^ (xtime c ^^^ c) ^^^ d ∧
    mixCol2 a b c d = a ^^^ b ^^^ xtime c ^^^ (xtime d ^^^ d) ∧
    mixCol3 a b c d = (xtime a ^^^ a) ^^^ b ^^^ c ^^^ xtime d := by
  refine ⟨?_, ?_, ?_, ?_⟩
  · simp only [mixCol0, xtime_xor]
    simp only [Nat.xor_assoc, Nat.xor_comm, xor_left_comm, Nat.xor_cancel_left, Nat.xor_self,
      Nat.xor_zero]
  · simp only [mixCol1, xtime_xor]
    simp only [Nat.xor_assoc, Nat.xor_comm, xor_left_comm, Nat.xor_cancel_left, Nat.xor_self,
      Nat.xor_zero]
  · simp only [mixCol2, xtime_xor]
    simp only [Nat.xor_assoc, Nat.xor_comm, xor_left_comm, Nat.xor_cancel_left, Nat.xor_self,
      Nat.xor_zero]
  · simp only [mixCol3, xtime_xor]
    simp only [Nat.xor_assoc, Nat.xor_comm, xor_left_comm, Nat.xor_cancel_left, Nat.xor_self,
      Nat.xor_zero]

theorem specMixColumn_eq (a b c d : Nat) (ha : a < 256) (hb : b < 256) (hc : c < 256)
    (hd : d < 256) :
    specMixColumn a b c d = [mixCol0 a b c d, mixCol1 a b c d, mixCol2 a b c d, mixCol3 a b c d] := by
  obtain ⟨n0, n1, n2, n3⟩ := mixCol_normal a b c d
  rw [n0, n1, n2, n3, specMixColumn, (gf_table a ha).1, (gf_table b hb).1, (gf_table c hc).1,
    (gf_table d hd).1, (gf_table a ha).2.1, (gf_table b hb).2.1, (gf_table c hc).2.1,
    (gf_table d hd).2.1]

theorem specInvMixColumn_eq (a b c d : Nat) (ha : a < 256) (hb : b < 256) (hc : c < 256)
    (hd : d < 256) :
    specInvMixColumn a b c d =
      [invMixCol0 a b c d, invMixCol1 a b c d, invMixCol2 a b c d, invMixCol3 a b c d] := by
  obtain ⟨_, _, a1, a2, a3, a4⟩ := gf_table a ha
  obtain ⟨_, _, b1, b2, b3, b4⟩ := gf_table b hb
  obtain ⟨_, _, c1, c2, c3, c4⟩ := gf_table c hc
  obtain ⟨_, _, d1, d2, d3, d4⟩ := gf_table d hd
  simp only [specInvMixColumn, invMixCol0, invMixCol1, invMixCol2, invMixCol3, a1, a2, a3, a4, b1,
    b2, b3, b4, c1, c2, c3, c4, d1, d2, d3, d4]

theorem specMixColumns_16 (a0 a1 a2 a3 a4 a5 a6 a7 a8 a9 a10 a11 a12 a13 a14 a15 : Nat) :
    specMixColumns [a0, a1, a2, a3, a4, a5, a6, a7, a8, a9, a10, a11, a12, a13, a14, a15] =
      specMixColumn a0 a1 a2 a3 ++ specMixColumn a4 a5 a6 a7 ++ specMixColumn a8 a9 a10 a11 ++
        specMixColumn a12 a13 a14 a15 := by
  simp [specMixColumns, range4, List.flatMap]

theorem specInvMixColumns_16 (a0 a1 a2 a3 a4 a5 a6 a7 a8 a9 a10 a11 a12 a13 a14 a15 : Nat) :
    specInvMixColumns [a0, a1, a2, a3, a4, a5, a6, a7, a8, a9, a10, a11, a12, a13, a14, a15] =
      specInvMixColumn a0 a1 a2 a3 ++ specInvMixColumn a4 a5 a6 a7 ++
        specInvMixColumn a8 a9 a10 a11 ++ specInvMixColumn a12 a13 a14 a15 := by
  simp [specInvMixColumns, range4, List.flatMap]

theorem MixColumns_spec (s : List Nat) (h : isBlock s) : MixColumns s = specMixColumns s := by
  obtain ⟨hl, hb⟩ := h
  obtain ⟨a0, a1, a2, a3, a4, a5, a6, a7, a8, a9, a10, a11, a12, a13, a14, a15, rfl⟩ := list16 s hl
  simp only [bytes_cons, bytes_nil, and_true] at hb
  obtain ⟨h0, h1, h2, h3, h4, h5, h6, h7, h8, h9, h10, h11, h12, h13, h14, h15⟩ := hb
  rw [MixColumns_16, specMixColumns_16, specMixColumn_eq a0 a1 a2 a3 h0 h1 h2 h3,
    specMixColumn_eq a4 a5 a6 a7 h4 h5 h6 h7, specMixColumn_eq a8 a9 a10 a11 h8 h9 h10 h11,
    specMixColumn_eq a12 a13 a14 a15 h12 h13 h14 h15]
  rfl

theorem InvMixColumns_spec (s : List Nat) (h : isBlock s) :
    InvMixColumns s = specInvMixColumns s := by
  obtain ⟨hl, hb⟩ := h
  obtain ⟨a0, a1, a2, a3, a4, a5, a6, a7, a8, a9, a10, a11, a12, a13, a14, a15, rfl⟩ := list16 s hl
  simp only [bytes_cons, bytes_nil, and_true] at hb
  obtain ⟨h0, h1, h2, h3, h4, h5, h6, h7, h8, h9, h10, h11, h12, h13, h14, h15⟩ := hb
  rw [InvMixColumns_16, specInvMixColumns_16, specInvMixColumn_eq a0 a1 a2 a3 h0 h1 h2 h3,
    specInvMixColumn_eq a4 a5 a6 a7 h4 h5 h6 h7, specInvMixColumn_eq a8 a9 a10 a11 h8 h9 h10 h11,
    specInvMixColumn_eq a12 a13 a14 a15 h12 h13 h14 h15]
  rfl

end VscpAes

/-! # MixColumns and its inverse -/

namespace VscpAes

theorem mixColumn_surjective (a b c d : Nat) (ha : a < 256) (hb : b < 256) (hc : c < 256)
    (hd : d < 256) :
    ∃ p q r t, p < 256 ∧ q < 256 ∧ r < 256 ∧ t < 256 ∧
      mixCol0 p q r t = a ∧ mixCol1 p q r t = b ∧ mixCol2 p q r t = c ∧ mixCol3 p q r t = d := by
  let f : Fin 256 × Fin 256 × Fin 256 × Fin 256 → Fin 256 × Fin 256 × Fin 256 × Fin 256 :=
    fun x => (⟨mixCol0 x.1 x.2.1 x.2.2.1 x.2.2.2, (mixCol_lt _ _ _ _ x.1.2 x.2.1.2 x.2.2.1.2 x.2.2.2.2).1⟩,
      ⟨mixCol1 x.1 x.2.1 x.2.2.1 x.2.2.2, (mixCol_lt _ _ _ _ x.1.2 x.2.1.2 x.2.2.1.2 x.2.2.2.2).2.1⟩,
      ⟨mixCol2 x.1 x.2.1 x.2.2.1 x.2.2.2, (mixCol_lt _ _ _ _ x.1.2 x.2.1.2 x.2.2.1.2 x.2.2.2.2).2.2.1⟩,
      ⟨mixCol3 x.1 x.2.1 x.2.2.1 x.2.2.2, (mixCol_lt _ _ _ _ x.1.2 x.2.1.2 x.2.2.1.2 x.2.2.2.2).2.2.2⟩)
  have hinj : Function.Injective f := by
    intro x y hxy
    obtain ⟨x0, x1, x2, x3⟩ := x
    obtain ⟨y0, y1, y2, y3⟩ := y
    simp only [f, Prod.mk.injEq, Fin.mk.injEq] at hxy
    obtain ⟨e0, e1, e2, e3⟩ := hxy
    obtain ⟨i0, i1, i2, i3⟩ := mixColumn_inverse x0 x1 x2 x3
    obtain ⟨j0, j1, j2, j3⟩ := mixColumn_inverse y0 y1 y2 y3
    rw [e0, e1, e2, e3] at i0 i1 i2 i3
    simp only [Prod.mk.injEq]
    exact ⟨Fin.ext (i0.symm.trans j0), Fin.ext (i1.symm.trans j1), Fin.ext (i2.symm.trans j2),
      Fin.ext (i3.symm.trans j3)⟩
  obtain ⟨⟨p, q, r, t⟩, hx⟩ := Finite.injective_iff_surjective.mp hinj (⟨a, ha⟩, ⟨b, hb⟩, ⟨c, hc⟩, ⟨d, hd⟩)
  simp only [f, Prod.mk.injEq, Fin.mk.injEq] at hx
  exact ⟨p, q, r, t, p.2, q.2, r.2, t.2, hx.1, hx.2.1, hx.2.2.1, hx.2.2.2⟩

theorem mixColumn_right_inverse (a b c d : Nat) (ha : a < 256) (hb : b < 256) (hc : c < 256)
    (hd : d < 256) :
    mixCol0 (invMixCol0 a b c d) (invMixCol1 a b c d) (invMixCol2 a b c d) (invMixCol3 a b c d) = a ∧
    mixCol1 (invMixCol0 a b c d) (invMixCol1 a b c d) (invMixCol2 a b c d) (invMixCol3 a b c d) = b ∧
    mixCol2 (invMixCol0 a b c d) (invMixCol1 a b c d) (invMixCol2 a b c d) (invMixCol3 a b c d) = c ∧
    mixCol3 (invMixCol0 a b c d) (invMixCol1 a b c d) (invMixCol2 a b c d) (invMixCol3 a b c d) = d := by
  obtain ⟨p, q, r, t, _, _, _, _, e0, e1, e2, e3⟩ := mixColumn_surjective a b c d ha hb hc hd
  obtain ⟨i0, i1, i2, i3⟩ := mixColumn_inverse p q r t
  rw [e0, e1, e2, e3] at i0 i1 i2 i3
  rw [i0, i1, i2, i3]
  exact ⟨e0, e1, e2, e3⟩

theorem MixColumns_InvMixColumns (s : List Nat) (h : isBlock s) :
    MixColumns (InvMixColumns s) = s := by
  obtain ⟨hl, hb⟩ := h
  obtain ⟨a0, a1, a2, a3, a4, a5, a6, a7, a8, a9, a10, a11, a12, a13, a14, a15, rfl⟩ := list16 s hl
  simp only [bytes_cons, bytes_nil, and_true] at hb
  obtain ⟨h0, h1, h2, h3, h4, h5, h6, h7, h8, h9, h10, h11, h12, h13, h14, h15⟩ := hb
  have c0 := mixColumn_right_inverse a0 a1 a2 a3 h0 h1 h2 h3
  have c1 := mixColumn_right_inverse a4 a5 a6 a7 h4 h5 h6 h7
  have c2 := mixColumn_right_inverse a8 a9 a10 a11 h8 h9 h10 h11
  have c3 := mixColumn_right_inverse a12 a13 a14 a15 h12 h13 h14 h15
  rw [InvMixColumns_16, MixColumns_16, c0.1, c0.2.1, c0.2.2.1, c0.2.2.2, c1.1, c1.2.1, c1.2.2.1,
    c1.2.2.2, c2.1, c2.2.1, c2.2.2.1, c2.2.2.2, c3.1, c3.2.1, c3.2.2.1, c3.2.2.2]

/-- C29: on every state of sixteen bytes `MixColumns` is the MixColumns of the
standard: each column `(a0, a1, a2, a3)` becomes
`(2*a0 + 3*a1 + a2 + a3, a0 + 2*a1 + 3*a2 + a3, a0 + a1 + 2*a2 + 3*a3,
3*a0 + a1 + a2 + 2*a3)`, with `+` the XOR and `*` the product in GF(2^8) modulo
0x11B. -/
theorem C29_MixColumns_matrix (s : List Nat) (h : isBlock s) :
    MixColumns s = specMixColumns s ∧
    ∀ c < 4, ((MixColumns s).drop (4 * c)).take 4 =
      [gfMul 2 (s.getD (4 * c) 0) ^^^ gfMul 3 (s.getD (4 * c + 1) 0) ^^^ s.getD (4 * c + 2) 0 ^^^
          s.getD (4 * c + 3) 0,
        s.getD (4 * c) 0 ^^^ gfMul 2 (s.getD (4 * c + 1) 0) ^^^ gfMul 3 (s.getD (4 * c + 2) 0) ^^^
          s.getD (4 * c + 3) 0,
        s.getD (4 * c) 0 ^^^ s.getD (4 * c + 1) 0 ^^^ gfMul 2 (s.getD (4 * c + 2) 0) ^^^
          gfMul 3 (s.getD (4 * c + 3) 0),
        gfMul 3 (s.getD (4 * c) 0) ^^^ s.getD (4 * c + 1) 0 ^^^ s.getD (4 * c + 2) 0 ^^^
          gfMul 2 (s.getD (4 * c + 3) 0)] := by
  refine ⟨MixColumns_spec s h, ?_⟩
  rw [MixColumns_spec s h]
  obtain ⟨hl, _⟩ := h
  obtain ⟨a0, a1, a2, a3, a4, a5, a6, a7, a8, a9, a10, a11, a12, a13, a14, a15, rfl⟩ := list16 s hl
  intro c hc
  rw [specMixColumns_16]
  have : c = 0 ∨ c = 1 ∨ c = 2 ∨ c = 3 := by omega
  rcases this with rfl | rfl | rfl | rfl <;> rfl

theorem C29_MixColumns_matrix_witness :
    isBlock nistBlock ∧ MixColumns nistBlock = specMixColumns nistBlock :=
  ⟨by decide, (C29_MixColumns_matrix nistBlock (by decide)).1⟩

/-- C30: on every state of sixteen bytes `InvMixColumns` is the product of each
column with the circulant matrix of 0E, 0B, 0D, 09 in GF(2^8), and it undoes
`MixColumns` on either side. -/
theorem C30_InvMixColumns_inverse (s : List Nat) (h : isBlock s) :
    InvMixColumns s = specInvMixColumns s ∧
    InvMixColumns (MixColumns s) = s ∧ MixColumns (InvMixColumns s) = s :=
  ⟨InvMixColumns_spec s h, InvMixColumns_MixColumns s h.1, MixColumns_InvMixColumns s h⟩

theorem C30_InvMixColumns_inverse_witness :
    isBlock nistBlock ∧ InvMixColumns nistBlock = specInvMixColumns nistBlock ∧
    InvMixColumns (MixColumns nistBlock) = nistBlock ∧
    MixColumns (InvMixColumns nistBlock) = nistBlock :=
  ⟨by decide, C30_InvMixColumns_inverse nistBlock (by decide)⟩

end VscpAes

/-! # The cipher and the cipher of the standard -/

namespace VscpAes

theorem SubBytes_spec (s : List Nat) (h : s.length = 16) : SubBytes s = specSubBytes s := by
  obtain ⟨a0, a1, a2, a3, a4, a5, a6, a7, a8, a9, a10, a11, a12, a13, a14, a15, rfl⟩ := list16 s h
  rw [SubBytes_16]
  rfl

theorem ShiftRows_spec (s : List Nat) (h : s.length = 16) : ShiftRows s = specShiftRows s := by
  obtain ⟨a0, a1, a2, a3, a4, a5, a6, a7, a8, a9, a10, a11, a12, a13, a14, a15, rfl⟩ := list16 s h
  rw [ShiftRows_16]
  rfl

theorem AddRoundKey_spec (st : aes_state_t) (r : Nat) (s : List Nat) (h : s.length = 16) :
    AddRoundKey st r s = specAddRoundKey st.RoundKey r s := by
  obtain ⟨a0, a1, a2, a3, a4, a5, a6, a7, a8, a9, a10, a11, a12, a13, a14, a15, rfl⟩ := list16 s h
  rw [AddRoundKey_16]
  simp [specAddRoundKey, range16, Nat.mul_comm]

theorem round_spec (st : aes_state_t) (s : List Nat) (r : Nat) (h : s.length = 16) :
    Cipher.round st s r =
      specAddRoundKey st.RoundKey r (specMixColumns (specShiftRows (specSubBytes s))) := by
  have hb : isBlock (ShiftRows (SubBytes s)) := ShiftRows_block _ (SubBytes_block s h)
  unfold Cipher.round
  rw [AddRoundKey_spec st r _ (MixColumns_length _ hb.1), MixColumns_spec _ hb,
    ShiftRows_spec _ (SubBytes_length s h), SubBytes_spec s h]

theorem foldl_rounds (st : aes_state_t) (L : List Nat) :
    ∀ s : List Nat, s.length = 16 →
      (L.map (· + 1)).foldl (Cipher.round st) s =
        L.foldl (fun s r => specAddRoundKey st.RoundKey (r + 1)
          (specMixColumns (specShiftRows (specSubBytes s)))) s ∧
      ((L.map (· + 1)).foldl (Cipher.round st) s).length = 16 := by
  induction L with
  | nil =>
    intro s h
    simp only [List.map_nil, List.foldl_nil]
    exact ⟨trivial, h⟩
  | cons r L ih =>
    intro s h
    have hb : isBlock (ShiftRows (SubBytes s)) := ShiftRows_block _ (SubBytes_block s h)
    have hl : (Cipher.round st s (r + 1)).length = 16 :=
      AddRoundKey_length st _ _ (MixColumns_length _ hb.1)
    simp only [List.map_cons, List.foldl_cons]
    rw [← round_spec st s (r + 1) h]
    exact ih _ hl

/-- C27: on every state of sixteen entries and every schedule, `Cipher` is the
cipher of the standard with `Nr` rounds: round key 0 is added, rounds 1 to `Nr - 1`
apply SubBytes, ShiftRows (row `r` rotated left by `r`), MixColumns and
AddRoundKey, and the last round applies SubBytes, ShiftRows and AddRoundKey of
round `Nr` without MixColumns; `init` sets `Nr` to 10, 12 and 14 for the three
variants. -/
theorem C27_Cipher_is_standard (st : aes_state_t) (s : List Nat) (h : s.length = 16) :
    Cipher st s = specCipher st.Nr st.RoundKey s ∧
    (∀ (st0 : aes_state_t) (heap : List Nat),
      (init AES128 st0 heap).Nr = 10 ∧ (init AES192 st0 heap).Nr = 12 ∧
      (init AES256 st0 heap).Nr = 14) := by
  refine ⟨?_, fun st0 heap => ⟨rfl, rfl, rfl⟩⟩
  have h0 : (AddRoundKey st 0 s).length = 16 := AddRoundKey_length st 0 s h
  obtain ⟨e1, l1⟩ := foldl_rounds st (List.range (st.Nr - 1)) (AddRoundKey st 0 s) h0
  unfold Cipher specCipher
  simp only []
  rw [AddRoundKey_spec st st.Nr _ (ShiftRows_length _ (SubBytes_length _ l1)),
    ShiftRows_spec _ (SubBytes_length _ l1), SubBytes_spec _ l1, e1, AddRoundKey_spec st 0 s h]

theorem C27_Cipher_is_standard_witness :
    nistBlock.length = 16 ∧
    Cipher (expanded AES128 key128 zeroState []) nistBlock =
      specCipher (expanded AES128 key128 zeroState []).Nr
        (expanded AES128 key128 zeroState []).RoundKey nistBlock :=
  ⟨by decide, (C27_Cipher_is_standard (expanded AES128 key128 zeroState []) nistBlock (by decide)).1⟩

end VscpAes

/-! # The key schedule and the key schedule of the standard -/

namespace VscpAes

theorem getD_set_ne (l : List Nat) (i j v : Nat) (h : i ≠ j) : (l.set i v).getD j 0 = l.getD j 0 := by
  simp only [List.getD_eq_getElem?_getD, List.getElem?_set_ne h]

theorem getD_set_eq (l : List Nat) (i v : Nat) (h : i < l.length) : (l.set i v).getD i 0 = v := by
  simp only [List.getD_eq_getElem?_getD, List.getElem?_set_self h, Option.getD_some]

theorem copyWord_get_ne (Key a : List Nat) (i j : Nat) (h : j < i * 4 ∨ i * 4 + 4 ≤ j) :
    (KeyExpansion.copyWord Key a i).getD j 0 = a.getD j 0 := by
  unfold KeyExpansion.copyWord
  simp only []
  rw [getD_set_ne _ _ _ _ (by omega), getD_set_ne _ _ _ _ (by omega),
    getD_set_ne _ _ _ _ (by omega), getD_set_ne _ _ _ _ (by omega)]

theorem nextWord_get_ne (ty Nk i j : Nat) (a : List Nat) (h : j < i * 4 ∨ i * 4 + 4 ≤ j) :
    (KeyExpansion.nextWord ty Nk a i).getD j 0 = a.getD j 0 := by
  unfold KeyExpansion.nextWord
  simp only []
  rw [getD_set_ne _ _ _ _ (by omega), getD_set_ne _ _ _ _ (by omega),
    getD_set_ne _ _ _ _ (by omega), getD_set_ne _ _ _ _ (by omega)]

theorem wordAt_congr (a b : List Nat) (i : Nat)
    (h : ∀ j, i * 4 ≤ j → j < i * 4 + 4 → a.getD j 0 = b.getD j 0) : wordAt a i = wordAt b i := by
  unfold wordAt
  rw [h (4 * i) (by omega) (by omega), h (4 * i + 1) (by omega) (by omega),
    h (4 * i + 2) (by omega) (by omega), h (4 * i + 3) (by omega) (by omega)]

theorem copyWord_word (Key a : List Nat) (i : Nat) (h : i * 4 + 4 ≤ a.length) :
    wordAt (KeyExpansion.copyWord Key a i) i = wordAt Key i := by
  unfold KeyExpansion.copyWord wordAt
  simp only [Nat.mul_comm 4 i, Nat.add_zero]
  simp (disch := first | omega | (simp only [List.length_set]; omega)) only [getD_set_ne, getD_set_eq]

theorem tempa_spec (ty Nk i : Nat) (a : List Nat) :
    [(KeyExpansion.tempa ty Nk a i).1, (KeyExpansion.tempa ty Nk a i).2.1,
      (KeyExpansion.tempa ty Nk a i).2.2.1, (KeyExpansion.tempa ty Nk a i).2.2.2] =
      specTemp ty Nk i (wordAt a (i - 1)) := by
  unfold KeyExpansion.tempa specTemp wordAt
  simp only [Nat.mul_comm 4 (i - 1), Nat.add_zero]
  by_cases h0 : i % Nk = 0
  · have h4 : ¬ i % Nk = 4 := by omega
    rw [if_pos h0, if_pos h0]
    by_cases h2 : AES256 = ty
    · rw [if_pos h2, if_neg h4]
      simp only [xorWord, specSubWord, specRotWord, getSBoxValue, List.getD_cons_zero,
        List.getD_cons_succ, List.map_cons, List.map_nil, Nat.xor_zero]
    · rw [if_neg h2]
      simp only [xorWord, specSubWord, specRotWord, getSBoxValue, List.getD_cons_zero,
        List.getD_cons_succ, List.map_cons, List.map_nil, Nat.xor_zero]
  · rw [if_neg h0, if_neg h0]
    by_cases h2 : AES256 = ty
    · by_cases h4 : i % Nk = 4
      · rw [if_pos h2, if_pos h4, if_pos ⟨h2.symm, h4⟩]
        simp only [specSubWord, getSBoxValue, List.map_cons, List.map_nil]
      · rw [if_pos h2, if_neg h4, if_neg (fun c => h4 c.2)]
    · rw [if_neg h2, if_neg (fun c => h2 c.1.symm)]

theorem nextWord_word (ty Nk i : Nat) (a : List Nat) (hNk : 1 ≤ Nk) (hi : Nk ≤ i)
    (h : i * 4 + 4 ≤ a.length) :
    wordAt (KeyExpansion.nextWord ty Nk a i) i =
      xorWord (wordAt a (i - Nk)) (specTemp ty Nk i (wordAt a (i - 1))) := by
  rw [← tempa_spec ty Nk i a]
  unfold KeyExpansion.nextWord wordAt xorWord
  simp only [Nat.mul_comm 4 i, Nat.mul_comm 4 (i - Nk), Nat.add_zero, List.getD_cons_zero,
    List.getD_cons_succ]
  have hlt : (i - Nk) * 4 + 4 ≤ i * 4 := by
    have : i - Nk + 1 ≤ i := by omega
    omega
  simp (disch := first | omega | (simp only [List.length_set]; omega)) only [getD_set_ne, getD_set_eq]

theorem foldl_length_eq (f : List Nat → Nat → List Nat) (hf : ∀ a i, (f a i).length = a.length)
    (L : List Nat) : ∀ a : List Nat, (L.foldl f a).length = a.length := by
  induction L with
  | nil => intro a; rfl
  | cons x L ih => intro a; rw [List.foldl_cons, ih, hf]

theorem copyLoop_words (Key a : List Nat) (n : Nat) (h : n * 4 ≤ a.length) :
    ∀ m < n, wordAt ((List.range n).foldl (KeyExpansion.copyWord Key) a) m = wordAt Key m := by
  induction n with
  | zero => intro m hm; omega
  | succ n ih =>
    intro m hm
    rw [List.range_succ, List.foldl_append]
    simp only [List.foldl_cons, List.foldl_nil]
    have hl : ((List.range n).foldl (KeyExpansion.copyWord Key) a).length = a.length :=
      foldl_length_eq _ (fun a i => copyWord_length Key a i) _ a
    by_cases hmn : m = n
    · subst hmn
      exact copyWord_word Key _ m (by omega)
    · rw [wordAt_congr _ ((List.range n).foldl (KeyExpansion.copyWord Key) a) m
        (fun j _ hj => copyWord_get_ne Key _ n j (by omega))]
      exact ih (by omega) m (by omega)

theorem nextLoop_words (ty Nk : Nat) (hNk : 1 ≤ Nk) (a : List Nat) (n : Nat)
    (h : (Nk + n) * 4 ≤ a.length) :
    (∀ j < Nk * 4,
      ((List.range n).foldl (fun rk k => KeyExpansion.nextWord ty Nk rk (Nk + k)) a).getD j 0 =
        a.getD j 0) ∧
    (∀ m, Nk ≤ m → m < Nk + n →
      wordAt ((List.range n).foldl (fun rk k => KeyExpansion.nextWord ty Nk rk (Nk + k)) a) m =
        xorWord
          (wordAt ((List.range n).foldl (fun rk k => KeyExpansion.nextWord ty Nk rk (Nk + k)) a)
            (m - Nk))
          (specTemp ty Nk m
            (wordAt ((List.range n).foldl (fun rk k => KeyExpansion.nextWord ty Nk rk (Nk + k)) a)
              (m - 1)))) := by
  induction n with
  | zero =>
    refine ⟨fun j _ => rfl, fun m h1 h2 => ?_⟩
    omega
  | succ n ih =>
    obtain ⟨ih1, ih2⟩ := ih (by omega)
    rw [List.range_succ, List.foldl_append]
    simp only [List.foldl_cons, List.foldl_nil]
    generalize hF : (List.range n).foldl (fun rk k => KeyExpansion.nextWord ty Nk rk (Nk + k)) a = F
      at ih1 ih2 ⊢
    have hl : F.length = a.length := by
      rw [← hF]; exact foldl_length_eq _ (fun a i => nextWord_length ty Nk _ a) _ a
    have keep : ∀ m, m < Nk + n → wordAt (KeyExpansion.nextWord ty Nk F (Nk + n)) m = wordAt F m :=
      fun m hm => wordAt_congr _ F m (fun j _ hj => nextWord_get_ne ty Nk (Nk + n) j F (by omega))
    refine ⟨fun j hj => ?_, fun m h1 h2 => ?_⟩
    · rw [nextWord_get_ne ty Nk (Nk + n) j F (by omega)]
      exact ih1 j hj
    · by_cases hmn : m = Nk + n
      · subst hmn
        rw [keep (Nk + n - Nk) (by omega), keep (Nk + n - 1) (by omega)]
        exact nextWord_word ty Nk _ F hNk (by omega) (by omega)
      · rw [keep m (by omega), keep (m - Nk) (by omega), keep (m - 1) (by omega)]
        exact ih2 m h1 (by omega)

theorem KeyExpansion_words (st : aes_state_t) (hNk : 1 ≤ st.Nk) (hN : st.Nk ≤ Nb * (st.Nr + 1))
    (hlen : Nb * (st.Nr + 1) * 4 ≤ st.RoundKey.length) :
    (∀ i < st.Nk, wordAt (KeyExpansion st).RoundKey i = wordAt st.Key i) ∧
    (∀ i, st.Nk ≤ i → i < Nb * (st.Nr + 1) →
      wordAt (KeyExpansion st).RoundKey i =
        xorWord (wordAt (KeyExpansion st).RoundKey (i - st.Nk))
          (specTemp st.type st.Nk i (wordAt (KeyExpansion st).RoundKey (i - 1)))) := by
  unfold KeyExpansion
  simp only []
  have hN4 : st.Nk * 4 ≤ Nb * (st.Nr + 1) * 4 := Nat.mul_le_mul_right 4 hN
  have hl1 : ((List.range st.Nk).foldl (KeyExpansion.copyWord st.Key) st.RoundKey).length =
      st.RoundKey.length := foldl_length_eq _ (fun a i => copyWord_length st.Key a i) _ _
  have hsum : st.Nk + (Nb * (st.Nr + 1) - st.Nk) = Nb * (st.Nr + 1) := by omega
  obtain ⟨k1, k2⟩ := nextLoop_words st.type st.Nk hNk
    ((List.range st.Nk).foldl (KeyExpansion.copyWord st.Key) st.RoundKey)
    (Nb * (st.Nr + 1) - st.Nk) (by rw [hsum, hl1]; exact hlen)
  refine ⟨fun i hi => ?_, fun i h1 h2 => k2 i h1 (by omega)⟩
  rw [wordAt_congr _ ((List.range st.Nk).foldl (KeyExpansion.copyWord st.Key) st.RoundKey) i
    (fun j _ hj => k1 j (by omega))]
  exact copyLoop_words st.Key st.RoundKey st.Nk (by omega) i hi

end VscpAes

/-! # The key schedule: the claim -/

namespace VscpAes

theorem fips_a1 :
    wordAt (expanded AES128 key128 zeroState []).RoundKey 4 = [0xa0, 0xfa, 0xfe, 0x17] ∧
    (expanded AES128 key128 zeroState []).RoundKey.drop 160 =
      [0xd0, 0x14, 0xf9, 0xa8, 0xc9, 0xee, 0x25, 0x89, 0xe1, 0x3f, 0x0c, 0xc8, 0xb6, 0x63, 0x0c,
        0xa6] := by
  decide!

/-- C28: for each of the three variants the schedule `KeyExpansion` leaves is the
key schedule of the standard: words 0 to `Nk - 1` are the key bytes in order, and
for `Nk <= i < 4 * (Nr + 1)` word `i` is word `i - Nk` XORed with `t`, where `t` is
word `i - 1`, replaced by `SubWord (RotWord (w[i-1]))` with `Rcon[i / Nk]` XORed
into its first byte when `i mod Nk = 0`, and by `SubWord (w[i-1])` when the variant
is AES256 and `i mod Nk = 4`. Entries 1 to 10 of `Rcon` are the powers of 02 in
GF(2^8). The key 2b7e151628aed2a6abf7158809cf4f3c gives `w[4] = a0fafe17` and the
last round key d014f9a8c9ee2589e13f0cc8b6630ca6. -/
theorem C28_KeyExpansion_is_standard (type : Nat) (ht : validType type) (key : List Nat)
    (st0 : aes_state_t) (heap : List Nat) :
    ((init type st0 heap).Nk, (init type st0 heap).Nr) =
      (if type = AES128 then (4, 10) else if type = AES192 then (6, 12) else (8, 14)) ∧
    (∀ i < (init type st0 heap).Nk,
      wordAt (expanded type key st0 heap).RoundKey i = wordAt key i) ∧
    (∀ i, (init type st0 heap).Nk ≤ i → i < 4 * ((init type st0 heap).Nr + 1) →
      wordAt (expanded type key st0 heap).RoundKey i =
        xorWord (wordAt (expanded type key st0 heap).RoundKey (i - (init type st0 heap).Nk))
          (specTemp type (init type st0 heap).Nk i
            (wordAt (expanded type key st0 heap).RoundKey (i - 1)))) ∧
    (∀ j < 10, Rcon.getD (j + 1) 0 = xtime^[j] 1) ∧
    wordAt (expanded AES128 key128 zeroState []).RoundKey 4 = [0xa0, 0xfa, 0xfe, 0x17] ∧
    (expanded AES128 key128 zeroState []).RoundKey.drop 160 =
      [0xd0, 0x14, 0xf9, 0xa8, 0xc9, 0xee, 0x25, 0x89, 0xe1, 0x3f, 0x0c, 0xc8, 0xb6, 0x63, 0x0c,
        0xa6] := by
  obtain ⟨b1, b2, b3, _, _, b6⟩ := init_bounds type ht st0 heap
  obtain ⟨f1, f2, _, _⟩ := init_facts type ht st0 heap
  obtain ⟨w1, w2⟩ := KeyExpansion_words { init type st0 heap with Key := key } b1 b2
    (by show Nb * ((init type st0 heap).Nr + 1) * 4 ≤ (init type st0 heap).RoundKey.length
        rw [b6, b3])
  refine ⟨?_, w1, ?_, by decide, fips_a1.1, fips_a1.2⟩
  · rcases ht with h | h | h <;> subst h <;> rfl
  · intro i h1 h2
    have e := w2 i h1 (by simp only [Nb]; exact h2)
    have hty : specTemp (init type st0 heap).type = specTemp type := by rw [f1]
    rw [← hty]
    exact e

theorem C28_KeyExpansion_is_standard_witness :
    validType AES256 ∧
    (((init AES256 zeroState []).Nk, (init AES256 zeroState []).Nr) =
        (if AES256 = AES128 then (4, 10) else if AES256 = AES192 then (6, 12) else (8, 14)) ∧
      (∀ i < (init AES256 zeroState []).Nk,
        wordAt (expanded AES256 key256 zeroState []).RoundKey i = wordAt key256 i) ∧
      (∀ i, (init AES256 zeroState []).Nk ≤ i → i < 4 * ((init AES256 zeroState []).Nr + 1) →
        wordAt (expanded AES256 key256 zeroState []).RoundKey i =
          xorWord (wordAt (expanded AES256 key256 zeroState []).RoundKey
              (i - (init AES256 zeroState []).Nk))
            (specTemp AES256 (init AES256 zeroState []).Nk i
              (wordAt (expanded AES256 key256 zeroState []).RoundKey (i - 1)))) ∧
      (∀ j < 10, Rcon.getD (j + 1) 0 = xtime^[j] 1) ∧
      wordAt (expanded AES128 key128 zeroState []).RoundKey 4 = [0xa0, 0xfa, 0xfe, 0x17] ∧
      (expanded AES128 key128 zeroState []).RoundKey.drop 160 =
        [0xd0, 0x14, 0xf9, 0xa8, 0xc9, 0xee, 0x25, 0x89, 0xe1, 0x3f, 0x0c, 0xc8, 0xb6, 0x63, 0x0c,
          0xa6]) :=
  ⟨by decide, C28_KeyExpansion_is_standard AES256 (by decide) key256 zeroState []⟩

end VscpAes

/-! # The S-box and its inverse -/

namespace VscpAes

theorem rsbox_table : ∀ n < 256, getSBoxInvert n < 256 ∧ getSBoxValue (getSBoxInvert n) = n := by
  decide!

theorem getSBoxInvert_lt (n : Nat) : getSBoxInvert n < 256 := by
  by_cases h : n < 256
  · exact (rsbox_table n h).1
  · have hl : rsbox.length = 256 := by decide!
    have : rsbox.length ≤ n := by omega
    unfold getSBoxInvert
    rw [List.getD_eq_default _ _ this]
    decide

theorem InvSubBytes_block (s : List Nat) (h : s.length = 16) : isBlock (InvSubBytes s) := by
  obtain ⟨a0, a1, a2, a3, a4, a5, a6, a7, a8, a9, a10, a11, a12, a13, a14, a15, rfl⟩ := list16 s h
  simp [InvSubBytes_16, isBlock, getSBoxInvert_lt, bytes_cons, bytes_nil]

theorem SubBytes_InvSubBytes (s : List Nat) (h : isBlock s) : SubBytes (InvSubBytes s) = s := by
  obtain ⟨hl, hb⟩ := h
  obtain ⟨a0, a1, a2, a3, a4, a5, a6, a7, a8, a9, a10, a11, a12, a13, a14, a15, rfl⟩ := list16 s hl
  simp only [bytes_cons, bytes_nil, and_true] at hb
  obtain ⟨h0, h1, h2, h3, h4, h5, h6, h7, h8, h9, h10, h11, h12, h13, h14, h15⟩ := hb
  simp [SubBytes_16, InvSubBytes_16, (rsbox_table _ h0).2, (rsbox_table _ h1).2, (rsbox_table _ h2).2,
    (rsbox_table _ h3).2, (rsbox_table _ h4).2, (rsbox_table _ h5).2, (rsbox_table _ h6).2,
    (rsbox_table _ h7).2, (rsbox_table _ h8).2, (rsbox_table _ h9).2, (rsbox_table _ h10).2,
    (rsbox_table _ h11).2, (rsbox_table _ h12).2, (rsbox_table _ h13).2, (rsbox_table _ h14).2,
    (rsbox_table _ h15).2]

/-- C39: the table `rsbox` is the inverse permutation of the table `sbox`: both
tables have 256 entries, for every byte `x` the entries are bytes and
`rsbox[sbox[x]] = x` and `sbox[rsbox[x]] = x`; and on a state `s` of sixteen bytes
`SubBytes` and `InvSubBytes` yield states and undo each other in both orders, so
each of them is a bijection of the states. -/
theorem C39_rsbox_inverts_sbox (x : Nat) (s : List Nat) (hx : x < 256) (hs : isBlock s) :
    sbox.length = 256 ∧ rsbox.length = 256 ∧
    getSBoxValue x < 256 ∧ getSBoxInvert x < 256 ∧
    getSBoxInvert (getSBoxValue x) = x ∧ getSBoxValue (getSBoxInvert x) = x ∧
    isBlock (SubBytes s) ∧ isBlock (InvSubBytes s) ∧
    InvSubBytes (SubBytes s) = s ∧ SubBytes (InvSubBytes s) = s ∧
    (∀ t, isBlock t → SubBytes s = SubBytes t → s = t) ∧
    (∀ t, isBlock t → InvSubBytes s = InvSubBytes t → s = t) ∧
    (∃ t, isBlock t ∧ SubBytes t = s) ∧ (∃ t, isBlock t ∧ InvSubBytes t = s) := by
  refine ⟨by decide!, by decide!, (sbox_table x hx).1, (rsbox_table x hx).1, (sbox_table x hx).2,
    (rsbox_table x hx).2, SubBytes_block s hs.1, InvSubBytes_block s hs.1,
    InvSubBytes_SubBytes s hs, SubBytes_InvSubBytes s hs, ?_, ?_, ?_, ?_⟩
  · intro t ht e
    rw [← InvSubBytes_SubBytes s hs, ← InvSubBytes_SubBytes t ht, e]
  · intro t ht e
    rw [← SubBytes_InvSubBytes s hs, ← SubBytes_InvSubBytes t ht, e]
  · exact ⟨InvSubBytes s, InvSubBytes_block s hs.1, SubBytes_InvSubBytes s hs⟩
  · exact ⟨SubBytes s, SubBytes_block s hs.1, InvSubBytes_SubBytes s hs⟩

theorem C39_rsbox_inverts_sbox_witness :
    0x53 < 256 ∧ isBlock nistBlock ∧
    (sbox.length = 256 ∧ rsbox.length = 256 ∧
    getSBoxValue 0x53 < 256 ∧ getSBoxInvert 0x53 < 256 ∧
    getSBoxInvert (getSBoxValue 0x53) = 0x53 ∧ getSBoxValue (getSBoxInvert 0x53) = 0x53 ∧
    isBlock (SubBytes nistBlock) ∧ isBlock (InvSubBytes nistBlock) ∧
    InvSubBytes (SubBytes nistBlock) = nistBlock ∧ SubBytes (InvSubBytes nistBlock) = nistBlock ∧
    (∀ t, isBlock t → SubBytes nistBlock = SubBytes t → nistBlock = t) ∧
    (∀ t, isBlock t → InvSubBytes nistBlock = InvSubBytes t → nistBlock = t) ∧
    (∃ t, isBlock t ∧ SubBytes t = nistBlock) ∧ (∃ t, isBlock t ∧ InvSubBytes t = nistBlock)) :=
  ⟨by decide, nistBlock_isBlock, C39_rsbox_inverts_sbox 0x53 nistBlock (by decide) nistBlock_isBlock⟩

end VscpAes

/-! # Multiplication in GF(2^8) -/

namespace VscpAes

theorem shiftLeft_xor (a c i : Nat) : (a ^^^ c) <<< i = a <<< i ^^^ c <<< i := by
  apply Nat.eq_of_testBit_eq
  intro j
  simp only [Nat.testBit_shiftLeft, Nat.testBit_xor]
  cases decide (j ≥ i) <;> simp

theorem clmul_fold_xor (a c b : Nat) (L : List Nat) : ∀ (p q : Nat),
    L.foldl (fun acc i => if b.testBit i then acc ^^^ ((a ^^^ c) <<< i) else acc) (p ^^^ q) =
      L.foldl (fun acc i => if b.testBit i then acc ^^^ (a <<< i) else acc) p ^^^
        L.foldl (fun acc i => if b.testBit i then acc ^^^ (c <<< i) else acc) q := by
  induction L with
  | nil => intro p q; rfl
  | cons i L ih =>
    intro p q
    simp only [List.foldl_cons]
    cases b.testBit i with
    | false => simpa using ih p q
    | true =>
      simp only [if_true]
      rw [← ih]
      congr 1
      rw [shiftLeft_xor]
      simp only [Nat.xor_assoc, Nat.xor_comm, xor_left_comm]

theorem clmul_xor (a c b : Nat) : clmul (a ^^^ c) b = clmul a b ^^^ clmul c b := by
  unfold clmul
  have h := clmul_fold_xor a c b (List.range 8) 0 0
  simpa using h

theorem gfReduce_step_xor (p q i : Nat) :
    (if (p ^^^ q).testBit i then (p ^^^ q) ^^^ (0x11B <<< (i - 8)) else p ^^^ q) =
      (if p.testBit i then p ^^^ (0x11B <<< (i - 8)) else p) ^^^
        (if q.testBit i then q ^^^ (0x11B <<< (i - 8)) else q) := by
  rw [Nat.testBit_xor]
  cases p.testBit i <;> cases q.testBit i <;>
    simp [Nat.xor_assoc, Nat.xor_comm, xor_left_comm]

theorem gfReduce_fold_xor (L : List Nat) : ∀ (p q : Nat),
    L.foldl (fun p i => if p.testBit i then p ^^^ (0x11B <<< (i - 8)) else p) (p ^^^ q) =
      L.foldl (fun p i => if p.testBit i then p ^^^ (0x11B <<< (i - 8)) else p) p ^^^
        L.foldl (fun p i => if p.testBit i then p ^^^ (0x11B <<< (i - 8)) else p) q := by
  induction L with
  | nil => intro p q; rfl
  | cons i L ih =>
    intro p q
    simp only [List.foldl_cons]
    rw [gfReduce_step_xor, ih]

theorem gfReduce_xor (p q : Nat) : gfReduce (p ^^^ q) = gfReduce p ^^^ gfReduce q :=
  gfReduce_fold_xor _ p q

theorem gfMul_xor (a c b : Nat) : gfMul (a ^^^ c) b = gfMul a b ^^^ gfMul c b := by
  unfold gfMul
  rw [clmul_xor, gfReduce_xor]

theorem gf_basis : ∀ y < 32, ∀ j < 9, Multiply (2 ^ j % 256) y = gfMul (2 ^ j % 256) y := by
  decide!

theorem byte_bits : ∀ x < 256, x =
    (if x.testBit 0 then 1 else 0) ^^^ (if x.testBit 1 then 2 else 0) ^^^
    (if x.testBit 2 then 4 else 0) ^^^ (if x.testBit 3 then 8 else 0) ^^^
    (if x.testBit 4 then 16 else 0) ^^^ (if x.testBit 5 then 32 else 0) ^^^
    (if x.testBit 6 then 64 else 0) ^^^ (if x.testBit 7 then 128 else 0) := by
  decide!

theorem gf_linear (y a b : Nat) (ha : Multiply a y = gfMul a y) (hb : Multiply b y = gfMul b y) :
    Multiply (a ^^^ b) y = gfMul (a ^^^ b) y := by
  rw [Multiply_xor, gfMul_xor, ha, hb]

theorem gf_bit (y : Nat) (hy : y < 32) (c : Bool) (j : Nat) (hj : j < 8) :
    Multiply (if c = true then 2 ^ j else 0) y = gfMul (if c = true then 2 ^ j else 0) y := by
  cases c with
  | true =>
    have h := gf_basis y hy j (by omega)
    have e : 2 ^ j % 256 = 2 ^ j := Nat.mod_eq_of_lt (by
      calc 2 ^ j < 2 ^ 8 := Nat.pow_lt_pow_right (by decide) hj
        _ = 256 := rfl)
    rw [e] at h
    simpa using h
  | false =>
    have h := gf_basis y hy 8 (by omega)
    simpa using h

theorem Multiply_gfMul (x y : Nat) (hx : x < 256) (hy : y < 32) : Multiply x y = gfMul x y := by
  rw [byte_bits x hx]
  have b0 := gf_bit y hy (x.testBit 0) 0 (by omega)
  have b1 := gf_bit y hy (x.testBit 1) 1 (by omega)
  have b2 := gf_bit y hy (x.testBit 2) 2 (by omega)
  have b3 := gf_bit y hy (x.testBit 3) 3 (by omega)
  have b4 := gf_bit y hy (x.testBit 4) 4 (by omega)
  have b5 := gf_bit y hy (x.testBit 5) 5 (by omega)
  have b6 := gf_bit y hy (x.testBit 6) 6 (by omega)
  have b7 := gf_bit y hy (x.testBit 7) 7 (by omega)
  simp only [Nat.reducePow] at b0 b1 b2 b3 b4 b5 b6 b7
  exact gf_linear y _ _ (gf_linear y _ _ (gf_linear y _ _ (gf_linear y _ _ (gf_linear y _ _
    (gf_linear y _ _ (gf_linear y _ _ b0 b1) b2) b3) b4) b5) b6) b7

theorem Multiply_lt (x y : Nat) (hx : x < 256) : Multiply x y < 256 := by
  have bit : ∀ t : Nat, t &&& 1 = 0 ∨ t &&& 1 = 1 := by
    intro t; rw [Nat.and_one_is_mod]; omega
  have term : ∀ (t v : Nat), v < 256 → (t &&& 1) * v < 2 ^ 8 := by
    intro t v hv
    rcases bit t with h | h <;> rw [h] <;> omega
  unfold Multiply
  exact Nat.xor_lt_two_pow (Nat.xor_lt_two_pow (Nat.xor_lt_two_pow (Nat.xor_lt_two_pow
    (term _ _ hx) (term _ _ (xtime_lt _))) (term _ _ (xtime_lt _))) (term _ _ (xtime_lt _)))
    (term _ _ (xtime_lt _))

/-- C40: for every byte `x`, `xtime (x)` is the product of `x` and 0x02 in GF(2^8)
modulo 0x11B, and for every `y` below 32 the value of `Multiply (x, y)` is a byte
(so truncation leaves it as it is) and is the product of `x` and `y` in GF(2^8)
modulo 0x11B; in particular `Multiply (x, c)` is the product with `c` for the four
constants 0x09, 0x0b, 0x0d and 0x0e of `InvMixColumns`, whichever factor is written
first. The product `gfMul` is the carry-less product reduced modulo 0x11B. -/
theorem C40_gf256_arithmetic (x y : Nat) (hx : x < 256) (hy : y < 32) :
    xtime x = gfMul x 2 ∧ xtime x = gfMul 2 x ∧
    Multiply x y < 256 ∧ Multiply x y % 256 = gfMul x y ∧
    Multiply x 0x09 = gfMul x 0x09 ∧ Multiply x 0x0b = gfMul x 0x0b ∧
    Multiply x 0x0d = gfMul x 0x0d ∧ Multiply x 0x0e = gfMul x 0x0e ∧
    Multiply x 0x09 = gfMul 0x09 x ∧ Multiply x 0x0b = gfMul 0x0b x ∧
    Multiply x 0x0d = gfMul 0x0d x ∧ Multiply x 0x0e = gfMul 0x0e x := by
  obtain ⟨t2, _, te, tb, td, t9⟩ := gf_table x hx
  have m2 := Multiply_gfMul x 2 hx (by decide)
  have e2 : Multiply x 2 = xtime x := by simp [Multiply]
  refine ⟨by rw [← m2, e2], t2.symm, Multiply_lt x y hx, ?_,
    Multiply_gfMul x _ hx (by decide), Multiply_gfMul x _ hx (by decide),
    Multiply_gfMul x _ hx (by decide), Multiply_gfMul x _ hx (by decide),
    t9.symm, tb.symm, td.symm, te.symm⟩
  rw [Nat.mod_eq_of_lt (Multiply_lt x y hx)]
  exact Multiply_gfMul x y hx hy

theorem C40_gf256_arithmetic_witness :
    0x57 < 256 ∧ 0x13 < 32 ∧
    (xtime 0x57 = gfMul 0x57 2 ∧ xtime 0x57 = gfMul 2 0x57 ∧
    Multiply 0x57 0x13 < 256 ∧ Multiply 0x57 0x13 % 256 = gfMul 0x57 0x13 ∧
    Multiply 0x57 0x09 = gfMul 0x57 0x09 ∧ Multiply 0x57 0x0b = gfMul 0x57 0x0b ∧
    Multiply 0x57 0x0d = gfMul 0x57 0x0d ∧ Multiply 0x57 0x0e = gfMul 0x57 0x0e ∧
    Multiply 0x57 0x09 = gfMul 0x09 0x57 ∧ Multiply 0x57 0x0b = gfMul 0x0b 0x57 ∧
    Multiply 0x57 0x0d = gfMul 0x0d 0x57 ∧ Multiply 0x57 0x0e = gfMul 0x0e 0x57) :=
  ⟨by decide, by decide, C40_gf256_arithmetic 0x57 0x13 (by decide) (by decide)⟩

end VscpAes

/-! # `deviceInit` and its arguments -/

namespace VscpBoot

/-- C35: `deviceInit` does not read `ourguid` and `devicecode`: two calls on the same
object in the same world that differ in these arguments only give the same result
(return code, object, events sent, answers left, status log). The device code that
is compared with the one the node reports is the member `m_firmwaredeviceCode`:
once the registers are read and the algorithm is the VSCP one, the call returns the
parameter error where the member differs and abort is asked for, and goes on to
the request otherwise. The example session holds code 5: against a node that
reports 6 it gives the parameter error although the argument is 6, and against a
node that reports 5 it succeeds although the argument is 6. -/
theorem C35_deviceInit_ignores_guid_and_code (s : CBootDevice_VSCP) (w : World)
    (ourguid ourguid1 : List Nat) (devicecode devicecode1 : Nat) (abort : Bool) (ex0 : vscpEventEx)
    (timeout : Nat) (regs : CStandardRegisters) :
    deviceInit s w ourguid devicecode abort ex0 timeout =
      deviceInit s w ourguid1 devicecode1 abort ex0 timeout ∧
    deviceInit s (feedRegs (VSCP_ERROR_SUCCESS, regs) w) ourguid devicecode abort ex0 timeout =
      (if VSCP_BOOTLOADER_VSCP ≠ regs.bootloaderAlgorithm then
        some (VSCP_ERROR_NOT_SUPPORTED, { s with m_stdRegs := regs },
          w.callback { s with m_stdRegs := regs } (-1) "Bootloader algorithm is not Microchip PIC1")
      else if s.m_firmwaredeviceCode ≠ regs.firmwareDeviceCode ∧ abort = true then
        some (VSCP_ERROR_PARAMETER, { s with m_stdRegs := regs },
          deviceInit.warned { s with m_stdRegs := regs } w)
      else
        deviceInit.enter { s with m_stdRegs := regs } (deviceInit.warned { s with m_stdRegs := regs } w)
          ex0 timeout) ∧
    (deviceInit demoSession (feedRegs (VSCP_ERROR_SUCCESS, demoRegs6) emptyWorld) [] 6 true demoEx0
        5).map (fun r => (r.1, r.2.2.sent)) = some (VSCP_ERROR_PARAMETER, []) ∧
    (deviceInit demoSession demoWorld64 [] 6 true demoEx0 5).map (fun r => r.1) =
      some VSCP_ERROR_SUCCESS := by
  refine ⟨rfl, ?_, by decide, by decide⟩
  exact deviceInit_read s _ ourguid devicecode abort ex0 timeout regs w (feedRegs_read _ _)

end VscpBoot

/-! # The wait of `writeChunk` -/

namespace VscpBoot

theorem feedSend_send (rv : Int) (w : World) (ex : vscpEventEx) :
    (feedSend rv w).send ex = some (rv, w.logs (w.sent ++ [ex]) w.status) := by
  cases w; rfl

theorem wait_logs (t : Int) (ps : List Poll) (w : World) (a : List vscpEventEx)
    (b : List (Int × String)) :
    (feedClock t (feedPolls ps w)).logs a b = feedClock t (feedPolls ps (w.logs a b)) := by
  rw [feedPolls_logs, feedClock_logs]

theorem wait_frame (t : Int) (ps : List Poll) (w : World) :
    (feedClock t (feedPolls ps w)).sent = w.sent ∧ (feedClock t (feedPolls ps w)).status = w.status := by
  obtain ⟨_, h2, h3, _⟩ := feedPolls_frame ps w
  exact ⟨h2, h3⟩

theorem writeChunk_wait (s : CBootDevice_VSCP) (w0 w1 : World) (mem : List Nat) (paddr size : Nat)
    (ex0 : vscpEventEx) (timeout : Nat) (hsize : size ≤ s.m_chunkSize)
    (hsend : w0.send (writeChunk.request mem paddr size ex0) = some (VSCP_ERROR_SUCCESS, w1)) :
    writeChunk s w0 mem paddr size ex0 timeout =
      match checkResponse s w1 (writeChunk.request mem paddr size ex0) s.m_stdRegs.GUID
          VSCP_TYPE_PROTOCOL_START_BLOCK_ACK VSCP_TYPE_PROTOCOL_START_BLOCK_NACK timeout with
      | none => none
      | some (rv, _, w) =>
        if VSCP_ERROR_SUCCESS ≠ rv then
          some (rv, w.callback s (-1) "VSCP bootloader: Negative response from block start request")
        else some (VSCP_ERROR_SUCCESS, w) := by
  unfold writeChunk
  rw [if_neg (not_lt.mpr hsize)]
  simp only [hsend, ne_eq, not_true_eq_false, if_false]

theorem writeBlockStart_wait (s : CBootDevice_VSCP) (w0 w1 : World) (block type : Nat)
    (ex0 : vscpEventEx) (timeout : Nat)
    (hsend : w0.send (writeBlockStart.request block type ex0) = some (VSCP_ERROR_SUCCESS, w1)) :
    writeBlockStart s w0 block type ex0 timeout =
      match checkResponse s w1 (writeBlockStart.request block type ex0) s.m_stdRegs.GUID
          VSCP_TYPE_PROTOCOL_START_BLOCK_ACK VSCP_TYPE_PROTOCOL_START_BLOCK_NACK timeout with
      | none => none
      | some (rv, _, w) =>
        if VSCP_ERROR_SUCCESS ≠ rv then
          some (rv, w.callback s (-1) "VSCP bootloader: Negative response from block start request")
        else some (VSCP_ERROR_SUCCESS, w) := by
  unfold writeBlockStart
  simp only [hsend, ne_eq, not_true_eq_false, if_false]

theorem wait_code (c : Option (Int × vscpEventEx × World)) (s : CBootDevice_VSCP) (msg : String) :
    (match c with
      | none => none
      | some (rv, _, w) =>
        if VSCP_ERROR_SUCCESS ≠ rv then some (rv, w.callback s (-1) msg)
        else some (VSCP_ERROR_SUCCESS, w)).map (fun r : Int × World => r.1) =
      c.map (fun r => r.1) := by
  cases c with
  | none => rfl
  | some r =>
    obtain ⟨rv, ex, w⟩ := r
    by_cases h : VSCP_ERROR_SUCCESS ≠ rv
    · simp only [if_pos h, Option.map_some']
    · simp only [if_neg h, Option.map_some']
      rw [not_not.mp h]

/-- C36: `writeChunk` waits for the response pair of `writeBlockStart`. Once its
block-data event is sent, the code `writeChunk` returns is the code of
`checkResponse` for the pair start-block acknowledge and start-block negative
acknowledge, as it is for `writeBlockStart`. So, when the passes before the deciding
one are in time and receive events of other types (a block-data acknowledge from
the node among them), an event of class protocol from the node of type start-block
acknowledge makes `writeChunk` return success and one of type start-block negative
acknowledge makes it return the negative-acknowledge code; and when only events of
other types arrive before the clock passes the timeout, `writeChunk` returns the
timeout code, the block-data event having been sent. -/
theorem C36_writeChunk_waits_for_start_block_pair (s : CBootDevice_VSCP) (w : World)
    (mem : List Nat) (paddr size : Nat) (ex0 : vscpEventEx) (timeout : Nat) (tstart : Int)
    (polls : List Poll) (final : Poll) (tlate : Int)
    (hsize : size ≤ s.m_chunkSize)
    (hother : ∀ p ∈ polls, elapsed tstart p.tnow ≤ timeout ∧
      p.ev.vscp_type ≠ VSCP_TYPE_PROTOCOL_START_BLOCK_ACK ∧
      p.ev.vscp_type ≠ VSCP_TYPE_PROTOCOL_START_BLOCK_NACK)
    (hin : elapsed tstart final.tnow ≤ timeout) (hp : final.pending = true)
    (hclass : final.ev.vscp_class = VSCP_CLASS1_PROTOCOL)
    (hguid : isSameGUID s.m_stdRegs.GUID final.ev.GUID = true)
    (hlate : timeout < elapsed tstart tlate) :
    (∀ (w0 w1 : World),
      w0.send (writeChunk.request mem paddr size ex0) = some (VSCP_ERROR_SUCCESS, w1) →
      (writeChunk s w0 mem paddr size ex0 timeout).map (fun r => r.1) =
        (checkResponse s w1 (writeChunk.request mem paddr size ex0) s.m_stdRegs.GUID
          VSCP_TYPE_PROTOCOL_START_BLOCK_ACK VSCP_TYPE_PROTOCOL_START_BLOCK_NACK timeout).map
          (fun r => r.1)) ∧
    (∀ (w0 w1 : World) (block type : Nat),
      w0.send (writeBlockStart.request block type ex0) = some (VSCP_ERROR_SUCCESS, w1) →
      (writeBlockStart s w0 block type ex0 timeout).map (fun r => r.1) =
        (checkResponse s w1 (writeBlockStart.request block type ex0) s.m_stdRegs.GUID
          VSCP_TYPE_PROTOCOL_START_BLOCK_ACK VSCP_TYPE_PROTOCOL_START_BLOCK_NACK timeout).map
          (fun r => r.1)) ∧
    (final.ev.vscp_type = VSCP_TYPE_PROTOCOL_START_BLOCK_ACK →
      (writeChunk s (feedSend VSCP_ERROR_SUCCESS (feedClock tstart (feedPolls (polls ++ [final]) w)))
        mem paddr size ex0 timeout).map (fun r => r.1) = some VSCP_ERROR_SUCCESS) ∧
    (final.ev.vscp_type = VSCP_TYPE_PROTOCOL_START_BLOCK_NACK →
      (writeChunk s (feedSend VSCP_ERROR_SUCCESS (feedClock tstart (feedPolls (polls ++ [final]) w)))
        mem paddr size ex0 timeout).map (fun r => r.1) = some VSCP_ERROR_NACK) ∧
    (writeChunk s (feedSend VSCP_ERROR_SUCCESS (feedClock tstart (feedPolls polls (feedClock tlate w))))
        mem paddr size ex0 timeout).map (fun r => (r.1, r.2.sent)) =
      some (VSCP_ERROR_TIMEOUT, w.sent ++ [writeChunk.request mem paddr size ex0]) := by
  have hidle : polls.all (Poll.idle s.m_stdRegs.GUID VSCP_TYPE_PROTOCOL_START_BLOCK_ACK
      VSCP_TYPE_PROTOCOL_START_BLOCK_NACK timeout tstart) = true := by
    rw [List.all_eq_true]
    intro p hp
    obtain ⟨h1, h2, h3⟩ := hother p hp
    simp only [Poll.idle, Poll.decides, isReply, Bool.and_eq_true, decide_eq_true_eq,
      Bool.not_eq_true', Bool.and_eq_false_iff, Bool.or_eq_false_iff, decide_eq_false_iff_not]
    exact ⟨h1, Or.inr ⟨fun c => h2 c.2.1.symm, fun c => h3 c.2.1.symm⟩⟩
  have hsend : ∀ W : World, (feedSend VSCP_ERROR_SUCCESS W).send (writeChunk.request mem paddr size ex0) =
      some (VSCP_ERROR_SUCCESS, W.logs (W.sent ++ [writeChunk.request mem paddr size ex0]) W.status) :=
    fun W => feedSend_send _ _ _
  refine ⟨?_, ?_, ?_, ?_, ?_⟩
  · intro w0 w1 h
    rw [writeChunk_wait s w0 w1 mem paddr size ex0 timeout hsize h, wait_code]
  · intro w0 w1 block type h
    rw [writeBlockStart_wait s w0 w1 block type ex0 timeout h, wait_code]
  · intro ht
    rw [writeChunk_wait s _ _ mem paddr size ex0 timeout hsize (hsend _), wait_code, wait_logs,
      checkResponse_polls s _ _ _ _ _ timeout tstart polls final hidle hin hp
        (Or.inl (by simp only [isReply, decide_eq_true_eq]; exact ⟨hclass.symm, ht.symm, hguid⟩)),
      if_pos (by simp only [isReply, decide_eq_true_eq]; exact ⟨hclass.symm, ht.symm, hguid⟩)]
    rfl
  · intro ht
    have hne : ¬ isReply s.m_stdRegs.GUID VSCP_TYPE_PROTOCOL_START_BLOCK_ACK final.ev = true := by
      simp only [isReply, decide_eq_true_eq]
      intro c
      rw [ht] at c
      exact absurd c.2.1 (by decide)
    rw [writeChunk_wait s _ _ mem paddr size ex0 timeout hsize (hsend _), wait_code, wait_logs,
      checkResponse_polls s _ _ _ _ _ timeout tstart polls final hidle hin hp
        (Or.inr (by simp only [isReply, decide_eq_true_eq]; exact ⟨hclass.symm, ht.symm, hguid⟩)),
      if_neg hne]
    rfl
  · rw [writeChunk_wait s _ _ mem paddr size ex0 timeout hsize (hsend _), wait_logs]
    rw [← feedClock_logs,
      checkResponse_late s _ _ _ _ _ timeout tstart polls tlate hidle hlate]
    simp only [ne_eq, show ¬ (VSCP_ERROR_SUCCESS = VSCP_ERROR_TIMEOUT) by decide, not_false_eq_true,
      if_true, Option.map_some', callback_sent, Option.some.injEq, Prod.mk.injEq, true_and]
    rw [logs_sent, (wait_frame tstart polls (feedClock tlate w)).1]
    rfl

theorem C36_writeChunk_waits_for_start_block_pair_witness :
    8 ≤ demoLoader.m_chunkSize ∧
    (∀ p ∈ [pollOf 100 (demoReply VSCP_TYPE_PROTOCOL_BLOCK_DATA_ACK)],
      elapsed 100 p.tnow ≤ 5 ∧ p.ev.vscp_type ≠ VSCP_TYPE_PROTOCOL_START_BLOCK_ACK ∧
      p.ev.vscp_type ≠ VSCP_TYPE_PROTOCOL_START_BLOCK_NACK) ∧
    elapsed 100 (pollOf 101 (demoReply VSCP_TYPE_PROTOCOL_START_BLOCK_ACK)).tnow ≤ 5 ∧
    (∀ (w0 w1 : World),
      w0.send (writeChunk.request demoMem 0 8 demoEx0) = some (VSCP_ERROR_SUCCESS, w1) →
      (writeChunk demoLoader w0 demoMem 0 8 demoEx0 5).map (fun r => r.1) =
        (checkResponse demoLoader w1 (writeChunk.request demoMem 0 8 demoEx0) demoLoader.m_stdRegs.GUID
          VSCP_TYPE_PROTOCOL_START_BLOCK_ACK VSCP_TYPE_PROTOCOL_START_BLOCK_NACK 5).map
          (fun r => r.1)) ∧
    (∀ (w0 w1 : World) (block type : Nat),
      w0.send (writeBlockStart.request block type demoEx0) = some (VSCP_ERROR_SUCCESS, w1) →
      (writeBlockStart demoLoader w0 block type demoEx0 5).map (fun r => r.1) =
        (checkResponse demoLoader w1 (writeBlockStart.request block type demoEx0)
          demoLoader.m_stdRegs.GUID
          VSCP_TYPE_PROTOCOL_START_BLOCK_ACK VSCP_TYPE_PROTOCOL_START_BLOCK_NACK 5).map
          (fun r => r.1)) ∧
    ((pollOf 101 (demoReply VSCP_TYPE_PROTOCOL_START_BLOCK_ACK)).ev.vscp_type =
        VSCP_TYPE_PROTOCOL_START_BLOCK_ACK →
      (writeChunk demoLoader (feedSend VSCP_ERROR_SUCCESS (feedClock 100
          (feedPolls ([pollOf 100 (demoReply VSCP_TYPE_PROTOCOL_BLOCK_DATA_ACK)] ++
            [pollOf 101 (demoReply VSCP_TYPE_PROTOCOL_START_BLOCK_ACK)]) emptyWorld)))
        demoMem 0 8 demoEx0 5).map (fun r => r.1) = some VSCP_ERROR_SUCCESS) ∧
    ((pollOf 101 (demoReply VSCP_TYPE_PROTOCOL_START_BLOCK_ACK)).ev.vscp_type =
        VSCP_TYPE_PROTOCOL_START_BLOCK_NACK →
      (writeChunk demoLoader (feedSend VSCP_ERROR_SUCCESS (feedClock 100
          (feedPolls ([pollOf 100 (demoReply VSCP_TYPE_PROTOCOL_BLOCK_DATA_ACK)] ++
            [pollOf 101 (demoReply VSCP_TYPE_PROTOCOL_START_BLOCK_ACK)]) emptyWorld)))
        demoMem 0 8 demoEx0 5).map (fun r => r.1) = some VSCP_ERROR_NACK) ∧
    (writeChunk demoLoader (feedSend VSCP_ERROR_SUCCESS (feedClock 100
        (feedPolls [pollOf 100 (demoReply VSCP_TYPE_PROTOCOL_BLOCK_DATA_ACK)]
          (feedClock 106 emptyWorld))))
        demoMem 0 8 demoEx0 5).map (fun r => (r.1, r.2.sent)) =
      some (VSCP_ERROR_TIMEOUT, emptyWorld.sent ++ [writeChunk.request demoMem 0 8 demoEx0]) :=
  ⟨by decide, by decide, by decide,
    C36_writeChunk_waits_for_start_block_pair demoLoader emptyWorld demoMem 0 8 demoEx0 5 100
      [pollOf 100 (demoReply VSCP_TYPE_PROTOCOL_BLOCK_DATA_ACK)]
      (pollOf 101 (demoReply VSCP_TYPE_PROTOCOL_START_BLOCK_ACK)) 106
      (by decide) (by decide) (by decide) (by decide) (by decide) (by decide) (by decide)⟩

end VscpBoot

/-! # `deviceLoad`: the divisions and the block numbers -/

namespace VscpBoot

theorem nChunks_safe (s : CBootDevice_VSCP) (h : 0 < s.m_chunkSize) :
    writeBlock.nChunks s ≠ .divisionByZero := by
  unfold writeBlock.nChunks
  split_ifs <;> simp_all

theorem writeBlock_safe (s : CBootDevice_VSCP) (w : World) (mem : List Nat) (paddr : Nat) (rv0 : Int)
    (ex0 : vscpEventEx) (timeout : Nat) (h : 0 < s.m_chunkSize) :
    writeBlock s w mem paddr rv0 ex0 timeout ≠ .divisionByZero := by
  unfold writeBlock
  have hn := nChunks_safe s h
  cases hc : writeBlock.nChunks s with
  | starved => simp
  | divisionByZero => exact absurd hc hn
  | done n =>
    simp only []
    cases writeBlock.loop s mem n rv0 ex0 timeout n 0 paddr w with
    | none => simp
    | some r => simp

theorem blocks_safe (s : CBootDevice_VSCP) (pbuf : List Nat) (type : Nat) (rv0 : Int)
    (ex0 : vscpEventEx) (timeout : Nat) (h : 0 < s.m_chunkSize) (n : Nat) :
    ∀ (block : Nat) (w : World),
      deviceLoad.blocks s pbuf type rv0 ex0 timeout n block w ≠ .divisionByZero := by
  induction n with
  | zero => intro block w; simp [deviceLoad.blocks]
  | succ n ih =>
    intro block w
    rw [deviceLoad.blocks]
    cases writeBlockStart s w block type ex0 timeout with
    | none => simp
    | some r =>
      obtain ⟨rv, w1⟩ := r
      simp only []
      by_cases h1 : VSCP_ERROR_SUCCESS ≠ rv
      · rw [if_pos h1]; simp
      · rw [if_neg h1]
        have hs := writeBlock_safe s w1 pbuf ((block * s.m_blockSize) % 2 ^ 32) rv0 ex0 timeout h
        cases hb : writeBlock s w1 pbuf ((block * s.m_blockSize) % 2 ^ 32) rv0 ex0 timeout with
        | starved => simp
        | divisionByZero => exact absurd hb hs
        | done r2 =>
          obtain ⟨rv2, w2⟩ := r2
          simp only []
          by_cases h2 : VSCP_ERROR_SUCCESS ≠ rv2
          · rw [if_pos h2]; simp
          · rw [if_neg h2]
            cases programBlock s w2 block ex0 timeout with
            | none => simp
            | some r3 =>
              obtain ⟨rv3, w3⟩ := r3
              simp only []
              by_cases h3 : VSCP_ERROR_SUCCESS ≠ rv3
              · rw [if_pos h3]; simp
              · rw [if_neg h3]; exact ih _ _

theorem region_safe (s : CBootDevice_VSCP) (img : CBootDevice) (heap : List Nat) (rv0 : Int)
    (ex0 : vscpEventEx) (timeout : Nat) (r : memory_range_t) (w : World)
    (hb : 0 < s.m_blockSize) (hc : 0 < s.m_chunkSize) :
    deviceLoad.region s img heap rv0 ex0 timeout r w ≠ .divisionByZero := by
  unfold deviceLoad.region
  simp only []
  split_ifs with h1 h2 h3 h4
  · simp
  · omega
  · simp
  · exact blocks_safe s _ _ rv0 ex0 timeout hc _ _ _
  · simp

theorem regions_safe (s : CBootDevice_VSCP) (img : CBootDevice) (heap : List Nat) (rv0 : Int)
    (ex0 : vscpEventEx) (timeout : Nat) (hb : 0 < s.m_blockSize) (hc : 0 < s.m_chunkSize)
    (rs : List memory_range_t) :
    ∀ w : World, deviceLoad.regions s img heap rv0 ex0 timeout rs w ≠ .divisionByZero := by
  induction rs with
  | nil => intro w; simp [deviceLoad.regions]
  | cons r rs ih =>
    intro w
    rw [deviceLoad.regions]
    have hs := region_safe s img heap rv0 ex0 timeout r w hb hc
    cases hr : deviceLoad.region s img heap rv0 ex0 timeout r w with
    | starved => simp
    | divisionByZero => exact absurd hr hs
    | done x =>
      obtain ⟨o, w1⟩ := x
      cases o with
      | none => exact ih w1
      | some rv => simp

theorem deviceLoad_safe (s : CBootDevice_VSCP) (img : CBootDevice) (w : World) (heap : List Nat)
    (rv0 : Int) (ex0 : vscpEventEx) (timeout : Nat) (cb ab : Bool)
    (hb : 0 < s.m_blockSize) (hc : 0 < s.m_chunkSize) :
    deviceLoad s img w heap rv0 ex0 timeout cb ab ≠ .divisionByZero := by
  unfold deviceLoad
  simp only []
  have hs := regions_safe { s with m_checksum := 0 } img heap rv0 ex0 timeout hb hc img.memory_range
    (w.callback { s with m_checksum := 0 } 0 "Starting firmware download")
  cases hr : deviceLoad.regions { s with m_checksum := 0 } img heap rv0 ex0 timeout img.memory_range
    (w.callback { s with m_checksum := 0 } 0 "Starting firmware download") with
  | starved => simp
  | divisionByZero => exact absurd hr hs
  | done x =>
    obtain ⟨o, w1⟩ := x
    cases o with
    | none => simp
    | some rv => simp

theorem fresh_load (s : CBootDevice_VSCP) (img : CBootDevice) (w : World) (heap : List Nat)
    (rv0 : Int) (ex0 : vscpEventEx) (timeout : Nat) (cb ab : Bool) (r : memory_range_t)
    (rest : List memory_range_t) (lo d : Nat) (hs : s.m_blockSize = 0) :
    deviceLoad s
      { img with memory_range := r :: rest,
                 getMinMaxForRange := fun _ _ => (VSCP_ERROR_SUCCESS, lo, lo + 1 + d) }
      w heap rv0 ex0 timeout cb ab = .divisionByZero := by
  have hgt : lo + 1 + d > lo := by omega
  simp only [deviceLoad, deviceLoad.regions, deviceLoad.region, ne_eq, not_true_eq_false, if_false,
    hgt, if_true, hs]

/-- C34: `deviceLoad` divides by zero on a session that has not been initialised.
The constructors leave `m_blockSize` at 0 (`init`), and `deviceLoad` computes
`minAddr % m_blockSize` for the first memory range with `maxAddr > minAddr` without
a check: on an object as any of the three constructors leaves it, with an image
whose first range is populated, the call ends in the division by zero, whatever the
world answers; so does the example session with the example image. The division by
`m_chunkSize` in `writeBlock` is safe on every constructed object whatever the block
size (the chunk size is 8 or 512), and with a block size and a chunk size above
zero `deviceLoad` divides by zero nowhere. -/
theorem C34_fresh_session_divides_by_zero (base s : CBootDevice_VSCP) (img : CBootDevice)
    (w : World) (heap : List Nat) (rv0 : Int) (ex0 : vscpEventEx) (timeout : Nat) (cb ab : Bool)
    (r : memory_range_t) (rest : List memory_range_t) (lo d b : Nat) :
    (ctorNodeid base).m_blockSize = 0 ∧ (ctorNodeidIf base).m_blockSize = 0 ∧
    (ctorGuid base).m_blockSize = 0 ∧
    deviceLoad (ctorNodeid base)
      { img with memory_range := r :: rest,
                 getMinMaxForRange := fun _ _ => (VSCP_ERROR_SUCCESS, lo, lo + 1 + d) }
      w heap rv0 ex0 timeout cb ab = .divisionByZero ∧
    deviceLoad (ctorNodeidIf base)
      { img with memory_range := r :: rest,
                 getMinMaxForRange := fun _ _ => (VSCP_ERROR_SUCCESS, lo, lo + 1 + d) }
      w heap rv0 ex0 timeout cb ab = .divisionByZero ∧
    deviceLoad (ctorGuid base)
      { img with memory_range := r :: rest,
                 getMinMaxForRange := fun _ _ => (VSCP_ERROR_SUCCESS, lo, lo + 1 + d) }
      w heap rv0 ex0 timeout cb ab = .divisionByZero ∧
    deviceLoad demoSession demoImage (feedBlocks [demoAckedBlock] emptyWorld) [] 0 demoEx0 5 false
      false = .divisionByZero ∧
    writeBlock.nChunks { ctorNodeid base with m_blockSize := b } ≠ .divisionByZero ∧
    writeBlock.nChunks { ctorNodeidIf base with m_blockSize := b } ≠ .divisionByZero ∧
    writeBlock.nChunks { ctorGuid base with m_blockSize := b } ≠ .divisionByZero ∧
    deviceLoad { s with m_blockSize := s.m_blockSize + 1, m_chunkSize := s.m_chunkSize + 1 } img w
      heap rv0 ex0 timeout cb ab ≠ .divisionByZero := by
  refine ⟨rfl, rfl, rfl, fresh_load _ img w heap rv0 ex0 timeout cb ab r rest lo d rfl,
    fresh_load _ img w heap rv0 ex0 timeout cb ab r rest lo d rfl,
    fresh_load _ img w heap rv0 ex0 timeout cb ab r rest lo d rfl, by decide,
    nChunks_safe _ (by simp [ctorNodeid, init]), nChunks_safe _ (by simp [ctorNodeidIf, init]),
    nChunks_safe _ (by simp [ctorGuid, init]),
    deviceLoad_safe _ img w heap rv0 ex0 timeout cb ab (Nat.succ_pos _) (Nat.succ_pos _)⟩

/-- C31: the block loop of `deviceLoad` does not start at the block of the populated
span. For a populated range the pass over the range is the block loop started at
block 0 of the buffer, whatever the lowest populated address is: `startBlock` is
computed and not used. In the example the range is 0 to 63 in blocks of 16 and the
image is populated from 32 to 48, so `startBlock` is 2 and there is one block to
send; every request being acknowledged, `deviceLoad` sends the start-block and the
program-block event with block number 0 (payload bytes 0..3 all zero, where block 2
has 00 00 00 02) and hands `writeBlock` offset 0, whose chunks carry the bytes 16 to
31 of the buffer; the bytes 32 to 47 of the populated block are not sent, and the
run is the same as for the image populated from 0 to 16. -/
theorem C31_block_loop_starts_at_block_zero (s : CBootDevice_VSCP) (img : CBootDevice)
    (heap : List Nat) (rv0 : Int) (ex0 : vscpEventEx) (timeout : Nat) (r : memory_range_t)
    (w : World) (lo d b : Nat) (pbuf : List Nat) :
    deviceLoad.region { s with m_blockSize := b + 1 }
        { img with getMinMaxForRange := fun _ _ => (VSCP_ERROR_SUCCESS, lo, lo + 1 + d),
                   fillMemoryBuffer := fun _ _ _ => (VSCP_ERROR_SUCCESS, pbuf) }
        heap rv0 ex0 timeout r w =
      deviceLoad.blocks { s with m_blockSize := b + 1 } pbuf r.type rv0 ex0 timeout
        (deviceLoad.nBlocks { s with m_blockSize := b + 1 } (lo - lo % (b + 1)) (lo + 1 + d)) 0
        (w.callback s (-1) ("writeFirmwareBlock: Handling memory range " ++ toString r.type)) ∧
    deviceLoad.startBlock demoLoader ⟨0, 0, 63⟩ (32 - 32 % demoLoader.m_blockSize) = 2 ∧
    deviceLoad.nBlocks demoLoader (32 - 32 % demoLoader.m_blockSize) 48 = 1 ∧
    (deviceLoad.region demoLoader demoImageHigh [] 0 demoEx0 5 ⟨0, 0, 63⟩
        (feedBlocks [demoAckedBlock] emptyWorld)).toOption.map
        (fun x => (x.1, x.2.sent.map (fun e => (e.vscp_type, e.payload)))) =
      some (none,
        [(VSCP_TYPE_PROTOCOL_START_BLOCK, [0, 0, 0, 0, 0, 0, 0, 0]),
          (VSCP_TYPE_PROTOCOL_BLOCK_DATA, [16, 17, 18, 19, 20, 21, 22, 23]),
          (VSCP_TYPE_PROTOCOL_BLOCK_DATA, [24, 25, 26, 27, 28, 29, 30, 31]),
          (VSCP_TYPE_PROTOCOL_PROGRAM_BLOCK_DATA, [0, 0, 0, 0, 0, 0, 0, 0])]) ∧
    (writeBlockStart.request 2 0 demoEx0).payload = [0, 0, 0, 2, 0, 0, 0, 0] ∧
    (programBlock.request 2 demoEx0).payload = [0, 0, 0, 2, 0, 0, 0, 0] ∧
    (demoMem.drop (2 * demoLoader.m_blockSize)).take demoLoader.m_blockSize =
      [32, 33, 34, 35, 36, 37, 38, 39, 40, 41, 42, 43, 44, 45, 46, 47] ∧
    deviceLoad.region demoLoader demoImageHigh [] 0 demoEx0 5 ⟨0, 0, 63⟩
        (feedBlocks [demoAckedBlock] emptyWorld) =
      deviceLoad.region demoLoader demoImage [] 0 demoEx0 5 ⟨0, 0, 63⟩
        (feedBlocks [demoAckedBlock] emptyWorld) := by
  refine ⟨?_, by decide, by decide, by decide, by decide, by decide, by decide, by decide⟩
  have hgt : lo + 1 + d > lo := by omega
  simp only [deviceLoad.region, ne_eq, not_true_eq_false, if_false, hgt, if_true,
    Nat.succ_ne_zero]
  rfl

end VscpBoot

/-! # The UDP client: CANAL messages -/

namespace vscpClientUdp

open VscpBoot (vscpEventEx VSCP_ERROR_SUCCESS)

/-- C37: `send (canalMsg &)` tests the conversion the wrong way round. It returns the
invalid-frame code, handing nothing on, when `vscp_convertCanalToEventEx` returns
true (success), and when the conversion returns false it hands the event the failed
conversion left to `send (vscpEventEx &)` and returns that member's result, which is
success. `receive (canalMsg &)` returns the invalid-frame code when
`vscp_convertEventExToCanal` returns false and success when it returns true. With
the example conversions the message of class 10 and type 6, which converts, is
rejected as an invalid frame and not sent, and the message whose id does not fit 29
bits, which does not convert, is reported as sent. -/
theorem C37_send_canal_rejects_converted_frames (h : Helper) (msg : canalMsg) (ex0 : vscpEventEx) :
    send_canalMsg h msg ex0 =
      (if (h.vscp_convertCanalToEventEx ex0 msg [0, 0, 0, 0, 0, 0, 0, 0, 0, 0, 0, 0, 0, 0, 0, 0]).1 = true
        then (h.VSCP_ERROR_INVALID_FRAME, [])
        else (VSCP_ERROR_SUCCESS,
          [(h.vscp_convertCanalToEventEx ex0 msg [0, 0, 0, 0, 0, 0, 0, 0, 0, 0, 0, 0, 0, 0, 0, 0]).2])) ∧
    receive_canalMsg h msg ex0 =
      (if (h.vscp_convertEventExToCanal msg ex0).1 = true
        then (VSCP_ERROR_SUCCESS, (h.vscp_convertEventExToCanal msg ex0).2)
        else (h.VSCP_ERROR_INVALID_FRAME, (h.vscp_convertEventExToCanal msg ex0).2)) ∧
    (demoHelper.vscp_convertCanalToEventEx VscpBoot.demoEx0 demoMsg
        [0, 0, 0, 0, 0, 0, 0, 0, 0, 0, 0, 0, 0, 0, 0, 0]).1 = true ∧
    send_canalMsg demoHelper demoMsg VscpBoot.demoEx0 = (demoHelper.VSCP_ERROR_INVALID_FRAME, []) ∧
    (demoHelper.vscp_convertCanalToEventEx VscpBoot.demoEx0 demoBadMsg
        [0, 0, 0, 0, 0, 0, 0, 0, 0, 0, 0, 0, 0, 0, 0, 0]).1 = false ∧
    send_canalMsg demoHelper demoBadMsg VscpBoot.demoEx0 =
      (VSCP_ERROR_SUCCESS, [VscpBoot.demoEx0]) ∧
    demoHelper.VSCP_ERROR_INVALID_FRAME ≠ VSCP_ERROR_SUCCESS ∧
    receive_canalMsg demoHelper demoMsg demoLongEvent = (demoHelper.VSCP_ERROR_INVALID_FRAME, demoMsg) ∧
    (receive_canalMsg demoHelper demoMsg VscpBoot.demoRequest).1 = VSCP_ERROR_SUCCESS := by
  refine ⟨?_, ?_, by decide, by decide, by decide, by decide, by decide, by decide, by decide⟩
  · simp only [send_canalMsg, send_vscpEventEx]
  · simp only [receive_canalMsg, receive_vscpEventEx, ne_eq, not_true_eq_false, if_false]
    cases h1 : (h.vscp_convertEventExToCanal msg ex0).1 <;> simp
end vscpClientUdp

/-! # CBC: the input buffer and the frame -/

namespace VscpAes

theorem encrypt_loop_input (m : Nat) :
    ∀ (k : Nat) (st : aes_state_t) (opre orest ipre irest itail : List Nat),
    opre.length = 16 * k → ipre.length = 16 * k → irest.length = 16 * m →
    ((List.range' k m).foldl AES_CBC_encrypt_buffer.step
        (st, opre ++ orest, ipre ++ irest ++ itail)).2.2 =
      ipre ++ cbcChainInput (Cipher st) m st.Iv irest ++ itail := by
  induction m with
  | zero =>
    intro k st opre orest ipre irest itail _ _ hr
    have : irest = [] := List.length_eq_zero.mp (by simpa using hr)
    simp [cbcChainInput, this]
  | succ m ih =>
    intro k st opre orest ipre irest itail ho hi hr
    have hp : (irest.take 16).length = 16 := by simp; omega
    have hd : (irest.drop 16).length = 16 * m := by simp; omega
    have hc : (Cipher st (xorBlock (irest.take 16) st.Iv)).length = 16 :=
      Cipher_length _ _ (xorBlock_length _ _)
    have split : ipre ++ irest ++ itail = ipre ++ irest.take 16 ++ (irest.drop 16 ++ itail) := by
      rw [List.append_assoc ipre (irest.take 16), ← List.append_assoc (irest.take 16),
        List.take_append_drop, List.append_assoc]
    have join : (ipre ++ xorBlock (irest.take 16) st.Iv) ++ (irest.drop 16 ++ itail) =
        (ipre ++ xorBlock (irest.take 16) st.Iv) ++ irest.drop 16 ++ itail := by
      rw [List.append_assoc (ipre ++ xorBlock (irest.take 16) st.Iv)]
    rw [List.range'_succ, List.foldl_cons, split, encrypt_step_mid st opre orest ipre _ _ k ho hi hp,
      join]
    rw [ih (k + 1) _ _ _ _ _ _ (by simp [ho, hc]; omega) (by simp [hi, xorBlock_length]; omega) hd]
    simp only [cbcChainInput, Cipher_Iv, List.append_assoc]

theorem cbcChainInput_length (E : List Nat → List Nat) :
    ∀ (n : Nat) (iv p : List Nat), (cbcChainInput E n iv p).length = 16 * n := by
  intro n
  induction n with
  | zero => intro iv p; rfl
  | succ n ih =>
    intro iv p
    simp only [cbcChainInput, List.length_append, ih, xorBlock_length]
    omega

/-- The in-place XOR read block by block. -/
theorem cbcChainInput_blockAt (E : List Nat → List Nat)
    (hE : ∀ b, b.length = 16 → (E b).length = 16) :
    ∀ (n : Nat) (iv p T U : List Nat) (i : Nat), i < n →
      blockAt (cbcChainInput E n iv p ++ T) (16 * i) =
        xorBlock (blockAt p (16 * i))
          (if i = 0 then iv else blockAt (cbcChainEncrypt E n iv p ++ U) (16 * (i - 1))) := by
  intro n
  induction n with
  | zero => intro iv p T U i hi; omega
  | succ n ih =>
    intro iv p T U i hi
    have hx : (xorBlock (p.take 16) iv).length = 16 := xorBlock_length _ _
    have hc : (E (xorBlock (p.take 16) iv)).length = 16 := hE _ hx
    simp only [cbcChainInput, cbcChainEncrypt, List.append_assoc]
    cases i with
    | zero =>
      rw [Nat.mul_zero, blockAt_zero _ _ hx, if_pos rfl, blockAt_zero_take]
    | succ j =>
      rw [blockAt_succ _ _ hx, ih _ _ T U j (by omega), blockAt_drop, if_neg (Nat.succ_ne_zero j)]
      cases j with
      | zero => rw [if_pos rfl, Nat.add_sub_cancel, Nat.mul_zero, blockAt_zero _ _ hc]
      | succ j2 =>
        rw [if_neg (Nat.succ_ne_zero j2), Nat.add_sub_cancel, Nat.add_sub_cancel, blockAt_succ _ _ hc]

theorem cbcSetup_Iv (st : aes_state_t) (key : Option (List Nat)) (iv : List Nat) :
    (cbcSetup st key (some iv)).Iv = iv := by
  cases key <;> rfl

/-- The two buffers `AES_CBC_encrypt_buffer` leaves for an input of `n` full blocks. -/
theorem cbc_encrypt_buffers (type : Nat) (output input : List Nat) (n : Nat)
    (key : Option (List Nat)) (iv : List Nat) (st0 : aes_state_t) (heap : List Nat)
    (hlen : 16 * n ≤ input.length) :
    AES_CBC_encrypt_buffer type output input (16 * n) key (some iv) st0 heap =
      (cbcChainEncrypt (Cipher (cbcSetup (init type st0 heap) key (some iv))) n iv
          (input.take (16 * n)) ++ (memcpy output 0 input 0 16).drop (16 * n),
        cbcChainInput (Cipher (cbcSetup (init type st0 heap) key (some iv))) n iv
          (input.take (16 * n)) ++ input.drop (16 * n)) := by
  have e1 : (16 * n % 16) % 256 = 0 := by omega
  have e2 : (16 * n + (16 - 1)) / 16 = n := by omega
  have h1 := encrypt_loop n 0 (cbcSetup (init type st0 heap) key (some iv)) []
    (memcpy output 0 input 0 16) [] (input.take (16 * n)) (input.drop (16 * n)) rfl rfl
    (by simp; omega)
  have h2 := encrypt_loop_input n 0 (cbcSetup (init type st0 heap) key (some iv)) []
    (memcpy output 0 input 0 16) [] (input.take (16 * n)) (input.drop (16 * n)) rfl rfl
    (by simp; omega)
  simp only [List.nil_append, List.take_append_drop, cbcSetup_Iv] at h1 h2
  simp only [AES_CBC_encrypt_buffer, BLOCKLEN, e1, e2, List.range_eq_range', ne_eq,
    not_true_eq_false, if_false]
  exact Prod.ext h1 h2

theorem xor_eq_self (a b : Nat) : a ^^^ b = a ↔ b = 0 := by
  constructor
  · intro h
    have := Nat.xor_cancel_left a b
    rw [h, Nat.xor_self] at this
    exact this.symm
  · intro h; rw [h, Nat.xor_zero]

theorem xorBlock_eq_self (p v : List Nat) (hp : p.length = 16) : xorBlock p v = p ↔ zeroChain v := by
  obtain ⟨a0, a1, a2, a3, a4, a5, a6, a7, a8, a9, a10, a11, a12, a13, a14, a15, rfl⟩ := list16 p hp
  simp only [xorBlock, range16, List.map_cons, List.map_nil, List.getD_cons_zero,
    List.getD_cons_succ, List.cons.injEq, and_true, xor_eq_self]
  unfold zeroChain
  constructor
  · intro h j hj
    obtain ⟨h0, h1, h2, h3, h4, h5, h6, h7, h8, h9, h10, h11, h12, h13, h14, h15⟩ := h
    interval_cases j <;> assumption
  · intro h
    exact ⟨h 0 (by omega), h 1 (by omega), h 2 (by omega), h 3 (by omega), h 4 (by omega),
      h 5 (by omega), h 6 (by omega), h 7 (by omega), h 8 (by omega), h 9 (by omega),
      h 10 (by omega), h 11 (by omega), h 12 (by omega), h 13 (by omega), h 14 (by omega),
      h 15 (by omega)⟩

theorem blockAt_length (buf : List Nat) (off : Nat) (h : off + 16 ≤ buf.length) :
    (blockAt buf off).length = 16 := by
  unfold blockAt
  simp only [List.length_take, List.length_drop]
  omega

theorem blockAt_append_left (A B : List Nat) (off : Nat) (h : off + 16 ≤ A.length) :
    blockAt (A ++ B) off = blockAt A off := by
  unfold blockAt
  rw [List.drop_append_of_le_length (by omega), List.take_append_of_le_length]
  simp only [List.length_drop]
  omega

/-- C32: `AES_CBC_encrypt_buffer` overwrites its input. For a non-null IV and an
input of at least `n` full blocks (buffers distinct), after the call with length
`16 * n` the input buffer has its length, its bytes from `16 * n` on are as before,
block 0 holds `P_0 xor IV` and block `i` holds `P_i xor C_(i-1)` for `0 < i < n`,
where `C` is the ciphertext in the output buffer; so block `i` of the input is as
it was exactly when the sixteen bytes of its chaining value are zero. -/
theorem C32_cbc_encrypt_overwrites_input (type : Nat) (output input : List Nat) (n : Nat)
    (key : Option (List Nat)) (iv : List Nat) (st0 : aes_state_t) (heap : List Nat)
    (hlen : 16 * n ≤ input.length) :
    (AES_CBC_encrypt_buffer type output input (16 * n) key (some iv) st0 heap).2.length =
      input.length ∧
    (AES_CBC_encrypt_buffer type output input (16 * n) key (some iv) st0 heap).2.drop (16 * n) =
      input.drop (16 * n) ∧
    (∀ i, i < n →
      blockAt (AES_CBC_encrypt_buffer type output input (16 * n) key (some iv) st0 heap).2 (16 * i) =
        xorBlock (blockAt input (16 * i))
          (if i = 0 then iv
            else blockAt (AES_CBC_encrypt_buffer type output input (16 * n) key (some iv) st0 heap).1
              (16 * (i - 1)))) ∧
    (∀ i, i < n →
      (blockAt (AES_CBC_encrypt_buffer type output input (16 * n) key (some iv) st0 heap).2 (16 * i) =
          blockAt input (16 * i) ↔
        zeroChain (if i = 0 then iv
          else blockAt (AES_CBC_encrypt_buffer type output input (16 * n) key (some iv) st0 heap).1
            (16 * (i - 1))))) := by
  have hb := cbc_encrypt_buffers type output input n key iv st0 heap hlen
  generalize hE : Cipher (cbcSetup (init type st0 heap) key (some iv)) = E at hb
  have hEl : ∀ b, b.length = 16 → (E b).length = 16 := by
    intro b hbl; rw [← hE]; exact Cipher_length _ _ hbl
  have hcl : (cbcChainInput E n iv (input.take (16 * n))).length = 16 * n :=
    cbcChainInput_length E n iv _
  have hblock : ∀ i, i < n →
      blockAt (AES_CBC_encrypt_buffer type output input (16 * n) key (some iv) st0 heap).2 (16 * i) =
        xorBlock (blockAt input (16 * i))
          (if i = 0 then iv
            else blockAt (AES_CBC_encrypt_buffer type output input (16 * n) key (some iv) st0 heap).1
              (16 * (i - 1))) := by
    intro i hi
    rw [hb]
    simp only []
    rw [cbcChainInput_blockAt E hEl n iv _ _ ((memcpy output 0 input 0 16).drop (16 * n)) i hi]
    congr 1
    have e : input = input.take (16 * n) ++ input.drop (16 * n) := (List.take_append_drop _ _).symm
    conv_rhs => rw [e]
    rw [blockAt_append_left _ _ _ (by simp; omega)]
  refine ⟨?_, ?_, hblock, ?_⟩
  · rw [hb]
    simp only [List.length_append, hcl, List.length_drop]
    omega
  · rw [hb]
    simp only []
    rw [List.drop_left' hcl]
  · intro i hi
    rw [hblock i hi]
    exact xorBlock_eq_self _ _ (blockAt_length _ _ (by omega))

theorem C32_cbc_encrypt_overwrites_input_witness :
    16 * 2 ≤ nistPlain.length ∧
    ((AES_CBC_encrypt_buffer AES128 (List.replicate 64 0) nistPlain (16 * 2) (some key128)
        (some nistIv) zeroState []).2.length = nistPlain.length ∧
    (AES_CBC_encrypt_buffer AES128 (List.replicate 64 0) nistPlain (16 * 2) (some key128)
        (some nistIv) zeroState []).2.drop (16 * 2) = nistPlain.drop (16 * 2) ∧
    (∀ i, i < 2 →
      blockAt (AES_CBC_encrypt_buffer AES128 (List.replicate 64 0) nistPlain (16 * 2) (some key128)
          (some nistIv) zeroState []).2 (16 * i) =
        xorBlock (blockAt nistPlain (16 * i))
          (if i = 0 then nistIv
            else blockAt (AES_CBC_encrypt_buffer AES128 (List.replicate 64 0) nistPlain (16 * 2)
              (some key128) (some nistIv) zeroState []).1 (16 * (i - 1)))) ∧
    (∀ i, i < 2 →
      (blockAt (AES_CBC_encrypt_buffer AES128 (List.replicate 64 0) nistPlain (16 * 2) (some key128)
          (some nistIv) zeroState []).2 (16 * i) = blockAt nistPlain (16 * i) ↔
        zeroChain (if i = 0 then nistIv
          else blockAt (AES_CBC_encrypt_buffer AES128 (List.replicate 64 0) nistPlain (16 * 2)
            (some key128) (some nistIv) zeroState []).1 (16 * (i - 1)))))) :=
  ⟨by decide, C32_cbc_encrypt_overwrites_input AES128 (List.replicate 64 0) nistPlain 2
    (some key128) nistIv zeroState [] (by decide)⟩

end VscpAes

/-! # CBC: the bytes beyond the length -/

namespace VscpAes

theorem memcpy_block (output input : List Nat) :
    memcpy output 0 input 0 16 = input.take 16 ++ output.drop 16 := by
  simp [memcpy]

theorem memcpy_tail (output input : List Nat) (n : Nat) (hn : 0 < n) (hlen : 16 * n ≤ input.length) :
    (memcpy output 0 input 0 16).drop (16 * n) = output.drop (16 * n) := by
  have h16 : (input.take 16).length = 16 := by simp; omega
  have e : 16 * n = (input.take 16).length + (16 * n - 16) := by omega
  rw [memcpy_block, e, List.drop_append, List.drop_drop, h16]

/-- For one block or more, `AES_CBC_encrypt_buffer` leaves the output from `length`
on as it was and reads the input below `length` only. -/
theorem cbc_encrypt_frame (type : Nat) (output input input1 : List Nat) (n : Nat)
    (key : Option (List Nat)) (iv : List Nat) (st0 : aes_state_t) (heap : List Nat)
    (hn : 0 < n) (hlen : 16 * n ≤ input.length) (hlen1 : 16 * n ≤ input1.length)
    (hsame : input1.take (16 * n) = input.take (16 * n)) :
    (AES_CBC_encrypt_buffer type output input (16 * n) key (some iv) st0 heap).1.drop (16 * n) =
      output.drop (16 * n) ∧
    (AES_CBC_encrypt_buffer type output input1 (16 * n) key (some iv) st0 heap).1 =
      (AES_CBC_encrypt_buffer type output input (16 * n) key (some iv) st0 heap).1 := by
  rw [cbc_encrypt_buffers type output input n key iv st0 heap hlen,
    cbc_encrypt_buffers type output input1 n key iv st0 heap hlen1]
  simp only []
  rw [memcpy_tail output input n hn hlen, memcpy_tail output input1 n hn hlen1, hsame]
  refine ⟨?_, rfl⟩
  rw [List.drop_left' (cbcChainEncrypt_length _ (fun b hb => Cipher_length _ _ hb) n iv _)]

/-- For one block or more, `AES_CBC_decrypt_buffer` leaves the output from `length`
on as it was and reads the input below `length` only. -/
theorem cbc_decrypt_frame (type : Nat) (output input input1 : List Nat) (n : Nat)
    (key iv : List Nat) (st0 : aes_state_t) (heap : List Nat)
    (hn : 0 < n) (hlen : 16 * n ≤ input.length) (hlen1 : 16 * n ≤ input1.length)
    (hsame : input1.take (16 * n) = input.take (16 * n)) :
    (AES_CBC_decrypt_buffer type output input (16 * n) (some key) (some iv) st0 heap).drop (16 * n) =
      output.drop (16 * n) ∧
    AES_CBC_decrypt_buffer type output input1 (16 * n) (some key) (some iv) st0 heap =
      AES_CBC_decrypt_buffer type output input (16 * n) (some key) (some iv) st0 heap := by
  rw [cbc_decrypt_output type output input n key iv st0 heap hlen,
    cbc_decrypt_output type output input1 n key iv st0 heap hlen1]
  rw [memcpy_tail output input n hn hlen, memcpy_tail output input1 n hn hlen1, hsame]
  refine ⟨?_, rfl⟩
  rw [List.drop_left' (cbcChainDecrypt_length _ n iv _)]

/-- C33: with length 0 the two CBC functions write sixteen bytes. Both start with
`memcpy (output, input, BLOCKLEN)` before the loop, whatever the length: for every
selector, key, IV and pair of buffers the call with length 0 leaves in the output
the first sixteen bytes of the input followed by the output from byte 16 on. In the
example an output of sixteen bytes 0xAA becomes the first plaintext block of the
NIST vector, although no byte lies below length 0. -/
theorem C33_cbc_zero_length_copies_a_block (type : Nat) (output input : List Nat)
    (key iv : Option (List Nat)) (st0 : aes_state_t) (heap : List Nat) :
    (AES_CBC_encrypt_buffer type output input 0 key iv st0 heap).1 =
      input.take 16 ++ output.drop 16 ∧
    AES_CBC_decrypt_buffer type output input 0 key iv st0 heap = input.take 16 ++ output.drop 16 ∧
    (AES_CBC_encrypt_buffer AES128 (List.replicate 16 0xAA) nistBlock 0 (some key128) (some nistIv)
      zeroState []).1 = nistBlock ∧
    AES_CBC_decrypt_buffer AES128 (List.replicate 16 0xAA) nistBlock 0 (some key128) (some nistIv)
      zeroState [] = nistBlock ∧
    nistBlock ≠ List.replicate 16 0xAA := by
  have he : ∀ (type : Nat) (output input : List Nat) (key iv : Option (List Nat)) (st0 : aes_state_t)
      (heap : List Nat),
      (AES_CBC_encrypt_buffer type output input 0 key iv st0 heap).1 =
        input.take 16 ++ output.drop 16 := by
    intro type output input key iv st0 heap
    simp [AES_CBC_encrypt_buffer, BLOCKLEN, memcpy]
  have hd : ∀ (type : Nat) (output input : List Nat) (key iv : Option (List Nat)) (st0 : aes_state_t)
      (heap : List Nat),
      AES_CBC_decrypt_buffer type output input 0 key iv st0 heap =
        input.take 16 ++ output.drop 16 := by
    intro type output input key iv st0 heap
    simp [AES_CBC_decrypt_buffer, BLOCKLEN, memcpy]
  refine ⟨he _ _ _ _ _ _ _, hd _ _ _ _ _ _ _, ?_, ?_, by decide⟩
  · rw [he]; decide
  · rw [hd]; decide

end VscpAes

/-! # Splitting a string: the claim -/

namespace VscpHelper

theorem findAt_none (d : List Char) : ∀ l : List Char, findAt d l = none → ¬ d <:+: l := by
  intro l
  induction l with
  | nil =>
    intro h c
    have hd : d = [] := List.infix_nil.mp c
    simp [findAt, hd] at h
  | cons c cs ih =>
    intro h hin
    simp only [findAt] at h
    split at h
    · exact absurd h (by simp)
    · rename_i hp
      have h2 : findAt d cs = none := by simpa using h
      rcases List.infix_cons_iff.mp hin with h1 | h1
      · exact hp (List.isPrefixOf_iff_prefix.mpr h1)
      · exact ih h2 h1

theorem findAt_some (d : List Char) (hd : d ≠ []) : ∀ (l : List Char) (i : Nat),
    findAt d l = some i → d <+: l.drop i ∧ i + d.length ≤ l.length ∧ ¬ d <:+: l.take i := by
  intro l
  induction l with
  | nil =>
    intro i h
    simp [findAt, hd] at h
  | cons c cs ih =>
    intro i h
    simp only [findAt] at h
    split at h
    · rename_i hp
      have hi : i = 0 := by simpa using h.symm
      subst hi
      have hpre : d <+: c :: cs := List.isPrefixOf_iff_prefix.mp hp
      refine ⟨hpre, ?_, ?_⟩
      · have := hpre.length_le
        omega
      · intro hin
        exact hd (List.infix_nil.mp hin)
    · rename_i hp
      obtain ⟨j, hj, rfl⟩ : ∃ j, findAt d cs = some j ∧ j + 1 = i := by
        cases hf : findAt d cs with
        | none => simp [hf] at h
        | some j => exact ⟨j, rfl, by simpa [hf] using h⟩
      obtain ⟨h1, h2, h3⟩ := ih j hj
      refine ⟨h1, ?_, ?_⟩
      · simp only [List.length_cons]; omega
      · intro hin
        rw [List.take_succ_cons] at hin
        rcases List.infix_cons_iff.mp hin with h4 | h4
        · apply hp
          apply List.isPrefixOf_iff_prefix.mpr
          exact h4.trans ((List.prefix_cons_inj c).mpr (List.take_prefix j cs))
        · exact h3 h4

theorem pow64 : (2 : Nat) ^ 64 = 18446744073709551616 := by norm_num

/-- A pass of the loop that finds no delimiter from `start` on pushes the rest of
the string, and the next pass leaves the loop. -/
theorem loop_last (s d : List Char) (fuel start prevEnd : Nat) (v : List (List Char))
    (hprev : prevEnd ≠ npos) (hstart : start ≤ s.length) (hlen : s.length < npos)
    (hf : findAt d (s.drop start) = none) :
    vscp_split.loop s d (fuel + 2) start prevEnd v = .returns (v ++ [s.drop start]) := by
  have hfind : find_str s d start = npos := by
    unfold find_str
    rw [if_neg (by omega), hf]
  have htake : (s.drop start).take npos = s.drop start := by
    apply List.take_of_length_le
    simp only [List.length_drop]
    omega
  rw [vscp_split.loop, if_pos hprev]
  simp only [hfind, if_true]
  unfold substr_count
  rw [if_neg (by omega)]
  simp only [htake]
  rw [vscp_split.loop]
  simp

/-- A pass of the loop that finds the delimiter `i` characters after `start` pushes
these `i` characters and goes on behind the delimiter. -/
theorem loop_next (s d : List Char) (fuel start prevEnd i : Nat) (v : List (List Char))
    (hprev : prevEnd ≠ npos) (hstart : start ≤ s.length) (hlen : s.length < npos)
    (hf : findAt d (s.drop start) = some i) (hi : start + i + d.length ≤ s.length) :
    vscp_split.loop s d (fuel + 1) start prevEnd v =
      vscp_split.loop s d fuel (start + i + d.length) (start + i) (v ++ [(s.drop start).take i]) := by
  have hfind : find_str s d start = start + i := by
    unfold find_str
    rw [if_neg (by omega), hf]
  have hne : start + i ≠ npos := by omega
  have hn : npos = 18446744073709551615 := rfl
  have e1 : (start + i + 18446744073709551616 - start) % 18446744073709551616 = i := by omega
  have e2 : ¬ start + i > (npos + 18446744073709551616 - d.length) % 18446744073709551616 := by
    omega
  have e3 : (start + i + d.length) % 18446744073709551616 = start + i + d.length := by omega
  rw [vscp_split.loop, if_pos hprev]
  simp only [hfind, if_neg hne, pow64, e1, if_neg e2, e3]
  unfold substr_count
  rw [if_neg (by omega)]

theorem intercalate_cons (d p : List Char) (ps : List (List Char)) (h : ps ≠ []) :
    List.intercalate d (p :: ps) = p ++ d ++ List.intercalate d ps := by
  cases ps with
  | nil => exact absurd rfl h
  | cons q qs => simp [List.intercalate, List.intersperse]

theorem loop_lossless (s d : List Char) (hd : d ≠ []) (hlen : s.length < npos) :
    ∀ (fuel start prevEnd : Nat) (v : List (List Char)),
      prevEnd ≠ npos → start ≤ s.length → s.length - start + 2 ≤ fuel →
      ∃ pieces, vscp_split.loop s d fuel start prevEnd v = .returns (v ++ pieces) ∧
        pieces ≠ [] ∧ List.intercalate d pieces = s.drop start ∧ ∀ p ∈ pieces, ¬ d <:+: p := by
  intro fuel
  induction fuel with
  | zero => intro start prevEnd v _ _ h; omega
  | succ f ih =>
    intro start prevEnd v hprev hstart hfuel
    have hdl : 0 < d.length := List.length_pos.mpr hd
    cases hf : findAt d (s.drop start) with
    | none =>
      obtain ⟨g, rfl⟩ : ∃ g, f = g + 1 := ⟨f - 1, by omega⟩
      refine ⟨[s.drop start], loop_last s d g start prevEnd v hprev hstart hlen hf, by simp, ?_, ?_⟩
      · simp [List.intercalate]
      · intro p hp
        rw [List.mem_singleton.mp hp]
        exact findAt_none d _ hf
    | some i =>
      obtain ⟨h1, h2, h3⟩ := findAt_some d hd _ i hf
      have hi : start + i + d.length ≤ s.length := by
        simp only [List.length_drop] at h2
        omega
      obtain ⟨pieces, hp1, hp2, hp3, hp4⟩ := ih (start + i + d.length) (start + i)
        (v ++ [(s.drop start).take i]) (by omega) hi (by omega)
      refine ⟨(s.drop start).take i :: pieces, ?_, by simp, ?_, ?_⟩
      · rw [loop_next s d f start prevEnd i v hprev hstart hlen hf hi, hp1]
        simp
      · rw [intercalate_cons d _ pieces hp2, hp3]
        obtain ⟨t, ht⟩ := h1
        have e : s.drop (start + i + d.length) = t := by
          have : s.drop (start + i + d.length) = ((s.drop start).drop i).drop d.length := by
            rw [List.drop_drop, List.drop_drop]
            congr 1
            omega
          rw [this, ← ht, List.drop_left]
        rw [e]
        conv_rhs => rw [← List.take_append_drop i (s.drop start), ← ht]
        simp
      · intro p hp
        rcases List.mem_cons.mp hp with rfl | hp
        · exact h3
        · exact hp4 p hp

/-- C38: for a non-empty string `s` (shorter than `npos`, as every `std::string` is)
and a non-empty delimiter `d`, `vscp_split` returns: the deque holds its earlier
entries followed by at least one piece, the pieces joined by `d` are `s`, character
for character, and no piece contains `d`. For the empty string the deque is
returned as it was. The string "a,b,,c" split at "," gives "a", "b", "" and "c", and
a string that ends with the delimiter gives an empty last piece. -/
theorem C38_vscp_split_is_lossless (v : List (List Char)) (s d : List Char)
    (hs : s ≠ []) (hd : d ≠ []) (hlen : s.length < npos) :
    (∃ pieces, vscp_split v s d = .returns (v ++ pieces) ∧ pieces ≠ [] ∧
      List.intercalate d pieces = s ∧ ∀ p ∈ pieces, ¬ d <:+: p) ∧
    vscp_split v [] d = .returns v ∧
    vscp_split ["x".toList] "a,b,,c".toList ",".toList =
      .returns ["x".toList, "a".toList, "b".toList, [], "c".toList] ∧
    vscp_split [] " a::b::".toList "::".toList = .returns [" a".toList, "b".toList, []] := by
  refine ⟨?_, rfl, by decide, by decide⟩
  have hl : s.length ≠ 0 := fun h => hs (List.length_eq_zero.mp h)
  unfold vscp_split
  simp only [hl, if_false]
  obtain ⟨pieces, h1, h2, h3, h4⟩ := loop_lossless s d hd hlen (s.length + 2) 0 0 v (by decide)
    (Nat.zero_le _) (by omega)
  exact ⟨pieces, h1, h2, by simpa using h3, h4⟩

theorem C38_vscp_split_is_lossless_witness :
    "key=value=".toList ≠ [] ∧ "=".toList ≠ [] ∧ "key=value=".toList.length < npos ∧
    ((∃ pieces, vscp_split [] "key=value=".toList "=".toList = .returns ([] ++ pieces) ∧
      pieces ≠ [] ∧ List.intercalate "=".toList pieces = "key=value=".toList ∧
      ∀ p ∈ pieces, ¬ "=".toList <:+: p) ∧
    vscp_split [] [] "=".toList = .returns [] ∧
    vscp_split ["x".toList] "a,b,,c".toList ",".toList =
      .returns ["x".toList, "a".toList, "b".toList, [], "c".toList] ∧
    vscp_split [] " a::b::".toList "::".toList = .returns [" a".toList, "b".toList, []]) :=
  ⟨by decide, by decide, by decide,
    C38_vscp_split_is_lossless [] "key=value=".toList "=".toList (by decide) (by decide) (by decide)⟩

end VscpHelper

/-! # `deviceInit`: the size error -/

namespace VscpBoot

theorem acks_sent (w : World) (s : CBootDevice_VSCP) (ev : vscpEventEx) :
    (w.acks s ev).sent = w.sent ++ [ev] := by
  unfold World.acks
  rw [callback_sent]
  rfl

/-- The run of `deviceInit` whose request is acknowledged with a block size below the
chunk size. -/
theorem deviceInit_small (s : CBootDevice_VSCP) (w : World) (ourguid : List Nat)
    (devicecode : Nat) (abort : Bool) (ex0 : vscpEventEx) (timeout : Nat)
    (regs : CStandardRegisters) (x : Exchange)
    (halg : regs.bootloaderAlgorithm = VSCP_BOOTLOADER_VSCP)
    (hcode : ¬ (s.m_firmwaredeviceCode ≠ regs.firmwareDeviceCode ∧ abort = true))
    (hack : x.acked regs.GUID VSCP_TYPE_PROTOCOL_ACK_BOOT_LOADER
      VSCP_TYPE_PROTOCOL_NACK_BOOT_LOADER timeout = true)
    (hsmall : construct_unsigned32 (x.final.ev.data.getD 0 0) (x.final.ev.data.getD 1 0)
      (x.final.ev.data.getD 2 0) (x.final.ev.data.getD 3 0) < s.m_chunkSize) :
    ∃ w1, deviceInit s (feedRegs (VSCP_ERROR_SUCCESS, regs) (x.feed w)) ourguid devicecode abort ex0
        timeout =
      some (VSCP_ERROR_SIZE,
        { s with
          m_stdRegs := regs,
          m_blockSize := construct_unsigned32 (x.final.ev.data.getD 0 0) (x.final.ev.data.getD 1 0)
            (x.final.ev.data.getD 2 0) (x.final.ev.data.getD 3 0),
          m_numBlocks := construct_unsigned32 (x.final.ev.data.getD 4 0) (x.final.ev.data.getD 5 0)
            (x.final.ev.data.getD 6 0) (x.final.ev.data.getD 7 0) }, w1) ∧
      w1.sent = w.sent ++ [deviceInit.request { s with m_stdRegs := regs } ex0] := by
  have hread := deviceInit_read s (feedRegs (VSCP_ERROR_SUCCESS, regs) (x.feed w)) ourguid
    devicecode abort ex0 timeout regs (x.feed w) (feedRegs_read _ _)
  rw [if_neg (by rw [halg]; simp), if_neg hcode, warned_exchange_feed,
    enter_acked { s with m_stdRegs := regs } x _ ex0 timeout hack] at hread
  have hs := confirm_small { s with m_stdRegs := regs } x.final.ev
    ((deviceInit.warned { s with m_stdRegs := regs } w).acks { s with m_stdRegs := regs }
      (deviceInit.request { s with m_stdRegs := regs } ex0)) hsmall
  have hsent := confirm_sent { s with m_stdRegs := regs } x.final.ev
    ((deviceInit.warned { s with m_stdRegs := regs } w).acks { s with m_stdRegs := regs }
      (deviceInit.request { s with m_stdRegs := regs } ex0))
  rw [acks_sent, warned_sent] at hsent
  generalize deviceInit.confirm { s with m_stdRegs := regs } x.final.ev
    ((deviceInit.warned { s with m_stdRegs := regs } w).acks { s with m_stdRegs := regs }
      (deviceInit.request { s with m_stdRegs := regs } ex0)) = C at hread hs hsent
  obtain ⟨rv, s1, w1⟩ := C
  obtain ⟨h1, h2⟩ := hs
  simp only [] at h1 h2 hsent
  subst h1 h2
  exact ⟨w1, hread, hsent⟩

/-- C9, amended: when the registers are read, the checks pass and the request is
acknowledged with a block size below the chunk size of the session, `deviceInit`
returns `VSCP_ERROR_SIZE`, and the events passed to `send` during the call are one:
the enter-bootloader request; and whenever `deviceInit` returns `VSCP_ERROR_SIZE`,
in any world, exactly that one event has been passed to `send` by the call. -/
theorem C9_small_block_size_error (s : CBootDevice_VSCP) (w : World) (ourguid : List Nat)
    (devicecode : Nat) (abort : Bool) (ex0 : vscpEventEx) (timeout : Nat)
    (regs : CStandardRegisters) (x : Exchange)
    (halg : regs.bootloaderAlgorithm = VSCP_BOOTLOADER_VSCP)
    (hcode : ¬ (s.m_firmwaredeviceCode ≠ regs.firmwareDeviceCode ∧ abort = true))
    (hack : x.acked regs.GUID VSCP_TYPE_PROTOCOL_ACK_BOOT_LOADER
      VSCP_TYPE_PROTOCOL_NACK_BOOT_LOADER timeout = true)
    (hsmall : construct_unsigned32 (x.final.ev.data.getD 0 0) (x.final.ev.data.getD 1 0)
      (x.final.ev.data.getD 2 0) (x.final.ev.data.getD 3 0) < s.m_chunkSize) :
    (∃ s1 w1, deviceInit s (feedRegs (VSCP_ERROR_SUCCESS, regs) (x.feed w)) ourguid devicecode abort
        ex0 timeout = some (VSCP_ERROR_SIZE, s1, w1) ∧
      w1.sent = w.sent ++ [deviceInit.request { s with m_stdRegs := regs } ex0] ∧
      w1.sent ≠ w.sent) ∧
    (∀ (s0 : CBootDevice_VSCP) (w0 : World) (ourguid0 : List Nat) (devicecode0 : Nat)
        (abort0 : Bool) (timeout0 : Nat) (s1 : CBootDevice_VSCP) (w1 : World),
      deviceInit s0 w0 ourguid0 devicecode0 abort0 ex0 timeout0 = some (VSCP_ERROR_SIZE, s1, w1) →
      w1.sent = w0.sent ++ [deviceInit.request { s0 with m_stdRegs := s1.m_stdRegs } ex0]) := by
  constructor
  · obtain ⟨w1, h1, h2⟩ := deviceInit_small s w ourguid devicecode abort ex0 timeout regs x halg
      hcode hack hsmall
    exact ⟨_, w1, h1, h2, by rw [h2]; exact sent_grows _ _⟩
  · intro s0 w0 ourguid0 devicecode0 abort0 timeout0 s1 w1 h
    obtain ⟨_, c⟩ := deviceInit_cases s0 w0 ourguid0 devicecode0 abort0 ex0 timeout0 _ s1 w1 h
    rcases c with ⟨c1, _⟩ | ⟨_, c2, _⟩ | ⟨c3, _⟩
    · rcases c1 with e | e | e <;> exact absurd e (by decide)
    · exact c2
    · exact c3

theorem C9_small_block_size_error_witness :
    (demoRegs.bootloaderAlgorithm = VSCP_BOOTLOADER_VSCP ∧
      ¬ (demoSession.m_firmwaredeviceCode ≠ demoRegs.firmwareDeviceCode ∧ false = true) ∧
      (⟨100, [], pollOf 100 demoAck⟩ : Exchange).acked demoRegs.GUID
        VSCP_TYPE_PROTOCOL_ACK_BOOT_LOADER VSCP_TYPE_PROTOCOL_NACK_BOOT_LOADER 5 = true ∧
      construct_unsigned32 ((⟨100, [], pollOf 100 demoAck⟩ : Exchange).final.ev.data.getD 0 0)
        ((⟨100, [], pollOf 100 demoAck⟩ : Exchange).final.ev.data.getD 1 0)
        ((⟨100, [], pollOf 100 demoAck⟩ : Exchange).final.ev.data.getD 2 0)
        ((⟨100, [], pollOf 100 demoAck⟩ : Exchange).final.ev.data.getD 3 0) <
        demoSession.m_chunkSize) ∧
    ((∃ s1 w1, deviceInit demoSession
          (feedRegs (VSCP_ERROR_SUCCESS, demoRegs)
            ((⟨100, [], pollOf 100 demoAck⟩ : Exchange).feed emptyWorld)) [] 0 false demoEx0 5 =
          some (VSCP_ERROR_SIZE, s1, w1) ∧
        w1.sent = emptyWorld.sent ++
          [deviceInit.request { demoSession with m_stdRegs := demoRegs } demoEx0] ∧
        w1.sent ≠ emptyWorld.sent) ∧
      (∀ (s0 : CBootDevice_VSCP) (w0 : World) (ourguid0 : List Nat) (devicecode0 : Nat)
          (abort0 : Bool) (timeout0 : Nat) (s1 : CBootDevice_VSCP) (w1 : World),
        deviceInit s0 w0 ourguid0 devicecode0 abort0 demoEx0 timeout0 =
          some (VSCP_ERROR_SIZE, s1, w1) →
        w1.sent = w0.sent ++ [deviceInit.request { s0 with m_stdRegs := s1.m_stdRegs } demoEx0])) :=
  ⟨⟨rfl, by decide, by decide, by decide⟩,
    C9_small_block_size_error demoSession emptyWorld [] 0 false demoEx0 5 demoRegs
      ⟨100, [], pollOf 100 demoAck⟩ rfl (by decide) (by decide) (by decide)⟩

/-- C10, amended: when the registers are read, the checks pass and the request is
acknowledged with a block size below the chunk size, `deviceInit` returns
`VSCP_ERROR_SIZE` and leaves an object in which `m_blockSize` and `m_numBlocks` hold
the values of the acknowledge payload (they are stored before the comparison and not
restored), `m_stdRegs` holds the registers the call has read, and every other member
is as before the call; and whenever `deviceInit` returns `VSCP_ERROR_SIZE`,
`m_chunkSize` is as before the call and either `m_blockSize` is below it or
`m_blockSize` and `m_numBlocks` are as before the call (the code came from `send`). -/
theorem C10_size_error_leaves_geometry (s : CBootDevice_VSCP) (w : World) (ourguid : List Nat)
    (devicecode : Nat) (abort : Bool) (ex0 : vscpEventEx) (timeout : Nat)
    (regs : CStandardRegisters) (x : Exchange)
    (halg : regs.bootloaderAlgorithm = VSCP_BOOTLOADER_VSCP)
    (hcode : ¬ (s.m_firmwaredeviceCode ≠ regs.firmwareDeviceCode ∧ abort = true))
    (hack : x.acked regs.GUID VSCP_TYPE_PROTOCOL_ACK_BOOT_LOADER
      VSCP_TYPE_PROTOCOL_NACK_BOOT_LOADER timeout = true)
    (hsmall : construct_unsigned32 (x.final.ev.data.getD 0 0) (x.final.ev.data.getD 1 0)
      (x.final.ev.data.getD 2 0) (x.final.ev.data.getD 3 0) < s.m_chunkSize) :
    (∃ w1, deviceInit s (feedRegs (VSCP_ERROR_SUCCESS, regs) (x.feed w)) ourguid devicecode abort ex0
        timeout =
      some (VSCP_ERROR_SIZE,
        { s with
          m_stdRegs := regs,
          m_blockSize := construct_unsigned32 (x.final.ev.data.getD 0 0) (x.final.ev.data.getD 1 0)
            (x.final.ev.data.getD 2 0) (x.final.ev.data.getD 3 0),
          m_numBlocks := construct_unsigned32 (x.final.ev.data.getD 4 0) (x.final.ev.data.getD 5 0)
            (x.final.ev.data.getD 6 0) (x.final.ev.data.getD 7 0) }, w1)) ∧
    (∀ (s0 : CBootDevice_VSCP) (w0 : World) (ourguid0 : List Nat) (devicecode0 : Nat)
        (abort0 : Bool) (ex1 : vscpEventEx) (timeout0 : Nat) (s1 : CBootDevice_VSCP) (w1 : World),
      deviceInit s0 w0 ourguid0 devicecode0 abort0 ex1 timeout0 = some (VSCP_ERROR_SIZE, s1, w1) →
      s1.m_chunkSize = s0.m_chunkSize ∧
      (s1.m_blockSize < s1.m_chunkSize ∨
        (s1.m_blockSize = s0.m_blockSize ∧ s1.m_numBlocks = s0.m_numBlocks))) := by
  constructor
  · obtain ⟨w1, h1, _⟩ := deviceInit_small s w ourguid devicecode abort ex0 timeout regs x halg
      hcode hack hsmall
    exact ⟨w1, h1⟩
  · intro s0 w0 ourguid0 devicecode0 abort0 ex1 timeout0 s1 w1 h
    obtain ⟨k, c⟩ := deviceInit_cases s0 w0 ourguid0 devicecode0 abort0 ex1 timeout0 _ s1 w1 h
    refine ⟨k, ?_⟩
    rcases c with ⟨c1, _⟩ | ⟨_, _, c2⟩ | ⟨_, c3⟩
    · rcases c1 with e | e | e <;> exact absurd e (by decide)
    · exact Or.inr c2
    · rcases c3 with ⟨_, c4⟩ | ⟨e, _⟩
      · exact Or.inl c4
      · exact absurd e (by decide)

theorem C10_size_error_leaves_geometry_witness :
    (demoRegs.bootloaderAlgorithm = VSCP_BOOTLOADER_VSCP ∧
      ¬ (demoSession.m_firmwaredeviceCode ≠ demoRegs.firmwareDeviceCode ∧ false = true) ∧
      (⟨100, [], pollOf 100 demoAck⟩ : Exchange).acked demoRegs.GUID
        VSCP_TYPE_PROTOCOL_ACK_BOOT_LOADER VSCP_TYPE_PROTOCOL_NACK_BOOT_LOADER 5 = true ∧
      construct_unsigned32 ((⟨100, [], pollOf 100 demoAck⟩ : Exchange).final.ev.data.getD 0 0)
        ((⟨100, [], pollOf 100 demoAck⟩ : Exchange).final.ev.data.getD 1 0)
        ((⟨100, [], pollOf 100 demoAck⟩ : Exchange).final.ev.data.getD 2 0)
        ((⟨100, [], pollOf 100 demoAck⟩ : Exchange).final.ev.data.getD 3 0) <
        demoSession.m_chunkSize) ∧
    ((∃ w1, deviceInit demoSession
          (feedRegs (VSCP_ERROR_SUCCESS, demoRegs)
            ((⟨100, [], pollOf 100 demoAck⟩ : Exchange).feed emptyWorld)) [] 0 false demoEx0 5 =
        some (VSCP_ERROR_SIZE,
          { demoSession with
            m_stdRegs := demoRegs,
            m_blockSize := construct_unsigned32
              ((⟨100, [], pollOf 100 demoAck⟩ : Exchange).final.ev.data.getD 0 0)
              ((⟨100, [], pollOf 100 demoAck⟩ : Exchange).final.ev.data.getD 1 0)
              ((⟨100, [], pollOf 100 demoAck⟩ : Exchange).final.ev.data.getD 2 0)
              ((⟨100, [], pollOf 100 demoAck⟩ : Exchange).final.ev.data.getD 3 0),
            m_numBlocks := construct_unsigned32
              ((⟨100, [], pollOf 100 demoAck⟩ : Exchange).final.ev.data.getD 4 0)
              ((⟨100, [], pollOf 100 demoAck⟩ : Exchange).final.ev.data.getD 5 0)
              ((⟨100, [], pollOf 100 demoAck⟩ : Exchange).final.ev.data.getD 6 0)
              ((⟨100, [], pollOf 100 demoAck⟩ : Exchange).final.ev.data.getD 7 0) }, w1)) ∧
      (∀ (s0 : CBootDevice_VSCP) (w0 : World) (ourguid0 : List Nat) (devicecode0 : Nat)
          (abort0 : Bool) (ex1 : vscpEventEx) (timeout0 : Nat) (s1 : CBootDevice_VSCP) (w1 : World),
        deviceInit s0 w0 ourguid0 devicecode0 abort0 ex1 timeout0 = some (VSCP_ERROR_SIZE, s1, w1) →
        s1.m_chunkSize = s0.m_chunkSize ∧
        (s1.m_blockSize < s1.m_chunkSize ∨
          (s1.m_blockSize = s0.m_blockSize ∧ s1.m_numBlocks = s0.m_numBlocks)))) :=
  ⟨⟨rfl, by decide, by decide, by decide⟩,
    C10_size_error_leaves_geometry demoSession emptyWorld [] 0 false demoEx0 5 demoRegs
      ⟨100, [], pollOf 100 demoAck⟩ rfl (by decide) (by decide) (by decide)⟩

end VscpBoot

/-! # The events on the wire -/

namespace VscpBoot

theorem callback_feedSend (rv : Int) (w : World) (s : CBootDevice_VSCP) (n : Int) (msg : String) :
    (feedSend rv w).callback s n msg = feedSend rv (w.callback s n msg) := by
  unfold World.callback
  split <;> rfl

theorem warned_feedSend (s : CBootDevice_VSCP) (rv : Int) (w : World) :
    deviceInit.warned s (feedSend rv w) = feedSend rv (deviceInit.warned s w) := by
  unfold deviceInit.warned
  split
  · exact callback_feedSend _ _ _ _ _
  · rfl

/-- A request that `send` refuses: the function returns the code of `send`, the event
having been passed to it. -/
theorem refused_step (s : CBootDevice_VSCP) (rv : Int) (w : World) (ex : vscpEventEx)
    (guid : List Nat) (ack nack timeout : Nat) (m1 m2 : String) (h : VSCP_ERROR_SUCCESS ≠ rv) :
    (match (feedSend rv w).send ex with
      | none => none
      | some (rv, w) =>
        if VSCP_ERROR_SUCCESS ≠ rv then some (rv, w.callback s (-1) m1)
        else
          match checkResponse s w ex guid ack nack timeout with
          | none => none
          | some (rv, _, w) =>
            if VSCP_ERROR_SUCCESS ≠ rv then some (rv, w.callback s (-1) m2)
            else some (VSCP_ERROR_SUCCESS, w)) =
      some (rv, (w.logs (w.sent ++ [ex]) w.status).callback s (-1) m1) := by
  rw [feedSend_send]
  simp only [h, ne_eq, not_false_eq_true, if_true]

theorem writeBlockStart_refused (s : CBootDevice_VSCP) (rv : Int) (w : World) (block type : Nat)
    (ex0 : vscpEventEx) (timeout : Nat) (h : VSCP_ERROR_SUCCESS ≠ rv) :
    ∃ w1, writeBlockStart s (feedSend rv w) block type ex0 timeout = some (rv, w1) ∧
      w1.sent = w.sent ++ [writeBlockStart.request block type ex0] := by
  refine ⟨?w1, ?h1, ?h2⟩
  case h1 =>
    unfold writeBlockStart
    exact refused_step s rv w _ _ _ _ timeout _ _ h
  case h2 => rw [callback_sent]; rfl

theorem programBlock_refused (s : CBootDevice_VSCP) (rv : Int) (w : World) (block : Nat)
    (ex0 : vscpEventEx) (timeout : Nat) (h : VSCP_ERROR_SUCCESS ≠ rv) :
    ∃ w1, programBlock s (feedSend rv w) block ex0 timeout = some (rv, w1) ∧
      w1.sent = w.sent ++ [programBlock.request block ex0] := by
  refine ⟨?w1, ?h1, ?h2⟩
  case h1 =>
    unfold programBlock
    exact refused_step s rv w _ _ _ _ timeout _ _ h
  case h2 => rw [callback_sent]; rfl

theorem enter_refused (s : CBootDevice_VSCP) (rv : Int) (w : World) (ex0 : vscpEventEx)
    (timeout : Nat) (h : VSCP_ERROR_SUCCESS ≠ rv) :
    ∃ w1, deviceInit.enter s (feedSend rv w) ex0 timeout = some (rv, s, w1) ∧
      w1.sent = w.sent ++ [deviceInit.request s ex0] := by
  refine ⟨(w.logs (w.sent ++ [deviceInit.request s ex0]) w.status).callback s (-1)
    "VSCP bootloader: Failed to send enter bootloader event", ?_, ?_⟩
  · unfold deviceInit.enter
    rw [feedSend_send]
    simp only [h, ne_eq, not_false_eq_true, if_true]
  · rw [callback_sent]; rfl

/-- The run of `deviceInit` whose request `send` refuses. -/
theorem deviceInit_refused (s : CBootDevice_VSCP) (w : World) (ourguid : List Nat)
    (devicecode : Nat) (abort : Bool) (ex0 : vscpEventEx) (timeout : Nat)
    (regs : CStandardRegisters) (rv : Int)
    (halg : regs.bootloaderAlgorithm = VSCP_BOOTLOADER_VSCP)
    (hcode : ¬ (s.m_firmwaredeviceCode ≠ regs.firmwareDeviceCode ∧ abort = true))
    (hrv : VSCP_ERROR_SUCCESS ≠ rv) :
    ∃ w1, deviceInit s (feedRegs (VSCP_ERROR_SUCCESS, regs) (feedSend rv w)) ourguid devicecode abort
        ex0 timeout = some (rv, { s with m_stdRegs := regs }, w1) ∧
      w1.sent = w.sent ++ [deviceInit.request { s with m_stdRegs := regs } ex0] := by
  have hread := deviceInit_read s (feedRegs (VSCP_ERROR_SUCCESS, regs) (feedSend rv w)) ourguid
    devicecode abort ex0 timeout regs (feedSend rv w) (feedRegs_read _ _)
  rw [if_neg (by rw [halg]; simp), if_neg hcode, warned_feedSend] at hread
  obtain ⟨w1, h1, h2⟩ := enter_refused { s with m_stdRegs := regs }
    rv (deviceInit.warned { s with m_stdRegs := regs } w) ex0 timeout hrv
  rw [h1] at hread
  rw [warned_sent] at h2
  exact ⟨w1, hread, h2⟩

/-- The run of `deviceInit` whose request is acknowledged. -/
theorem deviceInit_acked (s : CBootDevice_VSCP) (w : World) (ourguid : List Nat)
    (devicecode : Nat) (abort : Bool) (ex0 : vscpEventEx) (timeout : Nat)
    (regs : CStandardRegisters) (x : Exchange)
    (halg : regs.bootloaderAlgorithm = VSCP_BOOTLOADER_VSCP)
    (hcode : ¬ (s.m_firmwaredeviceCode ≠ regs.firmwareDeviceCode ∧ abort = true))
    (hack : x.acked regs.GUID VSCP_TYPE_PROTOCOL_ACK_BOOT_LOADER
      VSCP_TYPE_PROTOCOL_NACK_BOOT_LOADER timeout = true) :
    ∃ rv s1 w1, deviceInit s (feedRegs (VSCP_ERROR_SUCCESS, regs) (x.feed w)) ourguid devicecode
        abort ex0 timeout = some (rv, s1, w1) ∧
      w1.sent = w.sent ++ [deviceInit.request { s with m_stdRegs := regs } ex0] := by
  have hread := deviceInit_read s (feedRegs (VSCP_ERROR_SUCCESS, regs) (x.feed w)) ourguid
    devicecode abort ex0 timeout regs (x.feed w) (feedRegs_read _ _)
  rw [if_neg (by rw [halg]; simp), if_neg hcode, warned_exchange_feed,
    enter_acked { s with m_stdRegs := regs } x _ ex0 timeout hack] at hread
  have hsent := confirm_sent { s with m_stdRegs := regs } x.final.ev
    ((deviceInit.warned { s with m_stdRegs := regs } w).acks { s with m_stdRegs := regs }
      (deviceInit.request { s with m_stdRegs := regs } ex0))
  rw [acks_sent, warned_sent] at hsent
  generalize deviceInit.confirm { s with m_stdRegs := regs } x.final.ev
    ((deviceInit.warned { s with m_stdRegs := regs } w).acks { s with m_stdRegs := regs }
      (deviceInit.request { s with m_stdRegs := regs } ex0)) = C at hread hsent
  obtain ⟨rv, s1, w1⟩ := C
  exact ⟨rv, s1, w1, hread, hsent⟩

/-- C12, counterexample: the algorithm of the node is the VSCP one and the device
codes agree, yet `deviceInit` returns the not-supported code, and in a second world
the parameter code: the transport's `send` returns that code for the
enter-bootloader request, `deviceInit` hands it on, and one event has been sent. -/
theorem C12_send_code_counterexample :
    demoRegs.bootloaderAlgorithm = VSCP_BOOTLOADER_VSCP ∧
    demoSession.m_firmwaredeviceCode = demoRegs.firmwareDeviceCode ∧
    (deviceInit demoSession
        (feedRegs (VSCP_ERROR_SUCCESS, demoRegs) (feedSend VSCP_ERROR_NOT_SUPPORTED emptyWorld)) [] 0
        true demoEx0 5).map (fun r => (r.1, r.2.2.sent)) =
      some (VSCP_ERROR_NOT_SUPPORTED, [demoRequest]) ∧
    (deviceInit demoSession
        (feedRegs (VSCP_ERROR_SUCCESS, demoRegs) (feedSend VSCP_ERROR_PARAMETER emptyWorld)) [] 0
        true demoEx0 5).map (fun r => (r.1, r.2.2.sent)) =
      some (VSCP_ERROR_PARAMETER, [demoRequest]) := by
  decide

/-- C12, amended: once the standard registers have been read, `deviceInit` returns
the not-supported code without having sent an event exactly when the bootloader
algorithm of the node is not `VSCP_BOOTLOADER_VSCP`; otherwise it returns the
parameter code without having sent an event exactly when the device codes differ
and the abort flag is set; otherwise every return follows the sending of the
enter-bootloader event, and when `send` refuses that event with a code, whichever
it is, `deviceInit` returns this code. With the flag clear, the code returned, the
events sent and the geometry stored are those of an object whose device code
matches the one of the node. -/
theorem C12_checks_and_send_codes (s : CBootDevice_VSCP) (w : World) (ourguid : List Nat)
    (devicecode : Nat) (abort : Bool) (ex0 : vscpEventEx) (timeout : Nat)
    (regs : CStandardRegisters) (wr : World)
    (hregs : w.readStdRegs = some ((VSCP_ERROR_SUCCESS, regs), wr)) :
    ((∃ s1 w1, deviceInit s w ourguid devicecode abort ex0 timeout =
          some (VSCP_ERROR_NOT_SUPPORTED, s1, w1) ∧ w1.sent = w.sent) ↔
      regs.bootloaderAlgorithm ≠ VSCP_BOOTLOADER_VSCP) ∧
    (regs.bootloaderAlgorithm = VSCP_BOOTLOADER_VSCP →
      ((∃ s1 w1, deviceInit s w ourguid devicecode abort ex0 timeout =
          some (VSCP_ERROR_PARAMETER, s1, w1) ∧ w1.sent = w.sent) ↔
        (s.m_firmwaredeviceCode ≠ regs.firmwareDeviceCode ∧ abort = true))) ∧
    (regs.bootloaderAlgorithm = VSCP_BOOTLOADER_VSCP →
      ¬ (s.m_firmwaredeviceCode ≠ regs.firmwareDeviceCode ∧ abort = true) →
      ∀ rv s1 w1, deviceInit s w ourguid devicecode abort ex0 timeout = some (rv, s1, w1) →
        w1.sent = w.sent ++ [deviceInit.request { s with m_stdRegs := regs } ex0]) ∧
    (∀ abort1 : Bool,
      (deviceInit s w ourguid devicecode false ex0 timeout).map
          (fun r => (r.1, r.2.2.sent, r.2.1.m_blockSize, r.2.1.m_numBlocks)) =
        (deviceInit { s with m_firmwaredeviceCode := regs.firmwareDeviceCode } w ourguid devicecode
          abort1 ex0 timeout).map
          (fun r => (r.1, r.2.2.sent, r.2.1.m_blockSize, r.2.1.m_numBlocks))) ∧
    (regs.bootloaderAlgorithm = VSCP_BOOTLOADER_VSCP →
      ¬ (s.m_firmwaredeviceCode ≠ regs.firmwareDeviceCode ∧ abort = true) →
      ∀ (rv : Int) (w0 : World), VSCP_ERROR_SUCCESS ≠ rv →
        ∃ w1, deviceInit s (feedRegs (VSCP_ERROR_SUCCESS, regs) (feedSend rv w0)) ourguid devicecode
            abort ex0 timeout = some (rv, { s with m_stdRegs := regs }, w1) ∧
          w1.sent = w0.sent ++ [deviceInit.request { s with m_stdRegs := regs } ex0]) := by
  obtain ⟨h1, h2, h3, h4⟩ := checks_before_request s w ourguid devicecode abort ex0 timeout regs
    wr hregs
  refine ⟨h1, h2, h3, h4, ?_⟩
  intro halg hcode rv w0 hrv
  exact deviceInit_refused s w0 ourguid devicecode abort ex0 timeout regs rv halg hcode hrv

theorem C12_checks_and_send_codes_witness :
    demoWorld64.readStdRegs = some ((VSCP_ERROR_SUCCESS, demoRegs), demoWorld64Read) ∧
    (((∃ s1 w1, deviceInit { demoSession with m_firmwaredeviceCode := 6 } demoWorld64 [] 0 true
            demoEx0 5 = some (VSCP_ERROR_NOT_SUPPORTED, s1, w1) ∧ w1.sent = demoWorld64.sent) ↔
        demoRegs.bootloaderAlgorithm ≠ VSCP_BOOTLOADER_VSCP) ∧
      (demoRegs.bootloaderAlgorithm = VSCP_BOOTLOADER_VSCP →
        ((∃ s1 w1, deviceInit { demoSession with m_firmwaredeviceCode := 6 } demoWorld64 [] 0 true
            demoEx0 5 = some (VSCP_ERROR_PARAMETER, s1, w1) ∧ w1.sent = demoWorld64.sent) ↔
          (({ demoSession with m_firmwaredeviceCode := 6 } : CBootDevice_VSCP).m_firmwaredeviceCode ≠
            demoRegs.firmwareDeviceCode ∧ true = true))) ∧
      (demoRegs.bootloaderAlgorithm = VSCP_BOOTLOADER_VSCP →
        ¬ (({ demoSession with m_firmwaredeviceCode := 6 } : CBootDevice_VSCP).m_firmwaredeviceCode ≠
            demoRegs.firmwareDeviceCode ∧ true = true) →
        ∀ rv s1 w1, deviceInit { demoSession with m_firmwaredeviceCode := 6 } demoWorld64 [] 0 true
            demoEx0 5 = some (rv, s1, w1) →
          w1.sent = demoWorld64.sent ++
            [deviceInit.request { ({ demoSession with m_firmwaredeviceCode := 6 } : CBootDevice_VSCP) with
              m_stdRegs := demoRegs } demoEx0]) ∧
      (∀ abort1 : Bool,
        (deviceInit { demoSession with m_firmwaredeviceCode := 6 } demoWorld64 [] 0 false demoEx0
            5).map (fun r => (r.1, r.2.2.sent, r.2.1.m_blockSize, r.2.1.m_numBlocks)) =
          (deviceInit { ({ demoSession with m_firmwaredeviceCode := 6 } : CBootDevice_VSCP) with
              m_firmwaredeviceCode := demoRegs.firmwareDeviceCode } demoWorld64 [] 0 abort1 demoEx0
            5).map (fun r => (r.1, r.2.2.sent, r.2.1.m_blockSize, r.2.1.m_numBlocks))) ∧
      (demoRegs.bootloaderAlgorithm = VSCP_BOOTLOADER_VSCP →
        ¬ (({ demoSession with m_firmwaredeviceCode := 6 } : CBootDevice_VSCP).m_firmwaredeviceCode ≠
            demoRegs.firmwareDeviceCode ∧ true = true) →
        ∀ (rv : Int) (w0 : World), VSCP_ERROR_SUCCESS ≠ rv →
          ∃ w1, deviceInit { demoSession with m_firmwaredeviceCode := 6 }
              (feedRegs (VSCP_ERROR_SUCCESS, demoRegs) (feedSend rv w0)) [] 0 true demoEx0 5 =
              some (rv, { ({ demoSession with m_firmwaredeviceCode := 6 } : CBootDevice_VSCP) with
                m_stdRegs := demoRegs }, w1) ∧
            w1.sent = w0.sent ++
              [deviceInit.request { ({ demoSession with m_firmwaredeviceCode := 6 } :
                CBootDevice_VSCP) with m_stdRegs := demoRegs } demoEx0])) :=
  ⟨rfl, C12_checks_and_send_codes { demoSession with m_firmwaredeviceCode := 6 } demoWorld64 [] 0 true
    demoEx0 5 demoRegs demoWorld64Read rfl⟩

/-- C23: when the registers are read and the checks pass, `deviceInit` passes one
event to `send`, whether the node then acknowledges it or `send` refuses it: for an
8-bit node id and a 16-bit register page the event has class protocol, type
enter-boot-loader, `sizeData` 8 and the payload node id, `VSCP_BOOTLOADER_VSCP`,
bytes 0, 3, 5 and 7 of the GUID in the registers just read, and the high and the low
byte of the register page. In every world, when `deviceInit` returns having sent
anything, what it has sent is this one event. -/
theorem C23_deviceInit_sends_enter_bootloader (s : CBootDevice_VSCP) (w : World)
    (ourguid : List Nat) (devicecode : Nat) (abort : Bool) (ex0 : vscpEventEx) (timeout : Nat)
    (regs : CStandardRegisters) (x : Exchange) (rv : Int)
    (hcap : 8 ≤ ex0.data.length) (hid : s.m_nodeid < 256) (hpage : regs.registerPage < 65536)
    (halg : regs.bootloaderAlgorithm = VSCP_BOOTLOADER_VSCP)
    (hcode : ¬ (s.m_firmwaredeviceCode ≠ regs.firmwareDeviceCode ∧ abort = true))
    (hack : x.acked regs.GUID VSCP_TYPE_PROTOCOL_ACK_BOOT_LOADER
      VSCP_TYPE_PROTOCOL_NACK_BOOT_LOADER timeout = true)
    (hrv : VSCP_ERROR_SUCCESS ≠ rv) :
    (∃ code s1 w1 ev, deviceInit s (feedRegs (VSCP_ERROR_SUCCESS, regs) (x.feed w)) ourguid
        devicecode abort ex0 timeout = some (code, s1, w1) ∧
      w1.sent = w.sent ++ [ev] ∧
      ev.vscp_class = VSCP_CLASS1_PROTOCOL ∧ ev.vscp_type = VSCP_TYPE_PROTOCOL_ENTER_BOOT_LOADER ∧
      ev.sizeData = 8 ∧
      ev.payload = [s.m_nodeid, VSCP_BOOTLOADER_VSCP, regs.GUID.getD 0 0, regs.GUID.getD 3 0,
        regs.GUID.getD 5 0, regs.GUID.getD 7 0, regs.registerPage >>> 8,
        regs.registerPage &&& 0xff]) ∧
    (∃ s1 w1 ev, deviceInit s (feedRegs (VSCP_ERROR_SUCCESS, regs) (feedSend rv w)) ourguid
        devicecode abort ex0 timeout = some (rv, s1, w1) ∧
      w1.sent = w.sent ++ [ev] ∧
      ev.vscp_class = VSCP_CLASS1_PROTOCOL ∧ ev.vscp_type = VSCP_TYPE_PROTOCOL_ENTER_BOOT_LOADER ∧
      ev.sizeData = 8 ∧
      ev.payload = [s.m_nodeid, VSCP_BOOTLOADER_VSCP, regs.GUID.getD 0 0, regs.GUID.getD 3 0,
        regs.GUID.getD 5 0, regs.GUID.getD 7 0, regs.registerPage >>> 8,
        regs.registerPage &&& 0xff]) ∧
    (∀ (s0 : CBootDevice_VSCP) (w0 : World) (ourguid0 : List Nat) (devicecode0 : Nat)
      (abort0 : Bool) (timeout0 : Nat) (code : Int) (s1 : CBootDevice_VSCP) (w1 : World),
      deviceInit s0 w0 ourguid0 devicecode0 abort0 ex0 timeout0 = some (code, s1, w1) →
      w1.sent = w0.sent ∨
        w1.sent = w0.sent ++ [deviceInit.request { s0 with m_stdRegs := s1.m_stdRegs } ex0]) := by
  obtain ⟨f1, f2, f3, f4, f5⟩ := request_fields { s with m_stdRegs := regs } ex0 hcap hid
    hpage
  obtain ⟨code, s1, w1, r1, r2⟩ := deviceInit_acked s w ourguid devicecode abort ex0 timeout regs x
    halg hcode hack
  obtain ⟨w2, q1, q2⟩ := deviceInit_refused s w ourguid devicecode abort ex0 timeout regs rv halg
    hcode hrv
  exact ⟨⟨code, s1, w1, _, r1, r2, f1, f2, f3, f4⟩, ⟨_, w2, _, q1, q2, f1, f2, f3, f4⟩, f5⟩

theorem C23_deviceInit_sends_enter_bootloader_witness :
    (8 ≤ demoEx0.data.length ∧ demoSession.m_nodeid < 256 ∧ demoRegs.registerPage < 65536 ∧
      demoRegs.bootloaderAlgorithm = VSCP_BOOTLOADER_VSCP ∧
      ¬ (demoSession.m_firmwaredeviceCode ≠ demoRegs.firmwareDeviceCode ∧ false = true) ∧
      (⟨100, [], pollOf 100 demoAck64⟩ : Exchange).acked demoRegs.GUID
        VSCP_TYPE_PROTOCOL_ACK_BOOT_LOADER VSCP_TYPE_PROTOCOL_NACK_BOOT_LOADER 5 = true ∧
      VSCP_ERROR_SUCCESS ≠ VSCP_ERROR_COMMUNICATION) ∧
    ((∃ code s1 w1 ev, deviceInit demoSession
          (feedRegs (VSCP_ERROR_SUCCESS, demoRegs)
            ((⟨100, [], pollOf 100 demoAck64⟩ : Exchange).feed emptyWorld)) [] 0 false demoEx0 5 =
          some (code, s1, w1) ∧
        w1.sent = emptyWorld.sent ++ [ev] ∧
        ev.vscp_class = VSCP_CLASS1_PROTOCOL ∧
        ev.vscp_type = VSCP_TYPE_PROTOCOL_ENTER_BOOT_LOADER ∧ ev.sizeData = 8 ∧
        ev.payload = [demoSession.m_nodeid, VSCP_BOOTLOADER_VSCP, demoRegs.GUID.getD 0 0,
          demoRegs.GUID.getD 3 0, demoRegs.GUID.getD 5 0, demoRegs.GUID.getD 7 0,
          demoRegs.registerPage >>> 8, demoRegs.registerPage &&& 0xff]) ∧
      (∃ s1 w1 ev, deviceInit demoSession
          (feedRegs (VSCP_ERROR_SUCCESS, demoRegs) (feedSend VSCP_ERROR_COMMUNICATION emptyWorld))
          [] 0 false demoEx0 5 = some (VSCP_ERROR_COMMUNICATION, s1, w1) ∧
        w1.sent = emptyWorld.sent ++ [ev] ∧
        ev.vscp_class = VSCP_CLASS1_PROTOCOL ∧
        ev.vscp_type = VSCP_TYPE_PROTOCOL_ENTER_BOOT_LOADER ∧ ev.sizeData = 8 ∧
        ev.payload = [demoSession.m_nodeid, VSCP_BOOTLOADER_VSCP, demoRegs.GUID.getD 0 0,
          demoRegs.GUID.getD 3 0, demoRegs.GUID.getD 5 0, demoRegs.GUID.getD 7 0,
          demoRegs.registerPage >>> 8, demoRegs.registerPage &&& 0xff]) ∧
      (∀ (s0 : CBootDevice_VSCP) (w0 : World) (ourguid0 : List Nat) (devicecode0 : Nat)
        (abort0 : Bool) (timeout0 : Nat) (code : Int) (s1 : CBootDevice_VSCP) (w1 : World),
        deviceInit s0 w0 ourguid0 devicecode0 abort0 demoEx0 timeout0 = some (code, s1, w1) →
        w1.sent = w0.sent ∨
          w1.sent = w0.sent ++ [deviceInit.request { s0 with m_stdRegs := s1.m_stdRegs } demoEx0])) ∧
    (deviceInit demoSession
        (feedRegs (VSCP_ERROR_SUCCESS, demoRegs)
          ((⟨100, [], pollOf 100 demoAck64⟩ : Exchange).feed emptyWorld)) [] 0 false demoEx0 5).map
        (fun r => (r.1, r.2.2.sent.map (fun e => (e.vscp_class, e.vscp_type, e.payload)))) =
      some (VSCP_ERROR_SUCCESS,
        [(VSCP_CLASS1_PROTOCOL, VSCP_TYPE_PROTOCOL_ENTER_BOOT_LOADER, [1, 0, 0, 3, 5, 7, 0, 0])]) :=
  ⟨⟨by decide, by decide, by decide, rfl, by decide, by decide, by decide⟩,
    C23_deviceInit_sends_enter_bootloader demoSession emptyWorld [] 0 false demoEx0 5 demoRegs
      ⟨100, [], pollOf 100 demoAck64⟩ VSCP_ERROR_COMMUNICATION (by decide) (by decide) (by decide) rfl
      (by decide) (by decide) (by decide),
    by decide⟩

/-- C24: for a block number `b` below 2^32 and a memory type below 256,
`writeBlockStart` and `programBlock` pass one event to `send`, whether the node then
acknowledges it or `send` refuses it. The event of `writeBlockStart` has class
protocol, type start-block and `sizeData` 8, holds in its data bytes 0..3 the bytes
of `b` from the most significant (bits 31..24) to the least (bits 7..0) and in byte
4 the memory type; the event of `programBlock` has type program-block-data and holds
the same four bytes; reading the four bytes big-endian gives `b` back. In every
world, when one of the two functions returns, this event is what it has sent. -/
theorem C24_block_number_on_the_wire (s : CBootDevice_VSCP) (w : World) (b type : Nat)
    (ex0 : vscpEventEx) (timeout : Nat) (x y : Exchange) (rv : Int)
    (hb : b < 2 ^ 32) (ht : type < 256) (hcap : 8 ≤ ex0.data.length)
    (hx : x.acked s.m_stdRegs.GUID VSCP_TYPE_PROTOCOL_START_BLOCK_ACK
      VSCP_TYPE_PROTOCOL_START_BLOCK_NACK timeout = true)
    (hy : y.acked s.m_stdRegs.GUID VSCP_TYPE_PROTOCOL_PROGRAM_BLOCK_DATA_ACK
      VSCP_TYPE_PROTOCOL_PROGRAM_BLOCK_DATA_NACK timeout = true)
    (hrv : VSCP_ERROR_SUCCESS ≠ rv) :
    (∃ w1 ev, writeBlockStart s (x.feed w) b type ex0 timeout = some (VSCP_ERROR_SUCCESS, w1) ∧
      w1.sent = w.sent ++ [ev] ∧
      ev.vscp_class = VSCP_CLASS1_PROTOCOL ∧ ev.vscp_type = VSCP_TYPE_PROTOCOL_START_BLOCK ∧
      ev.sizeData = 8 ∧
      ev.data.take 5 = [b / 2 ^ 24, b / 2 ^ 16 % 256, b / 2 ^ 8 % 256, b % 256, type] ∧
      construct_unsigned32 (ev.data.getD 0 0) (ev.data.getD 1 0) (ev.data.getD 2 0)
        (ev.data.getD 3 0) = b) ∧
    (∃ w1 ev, writeBlockStart s (feedSend rv w) b type ex0 timeout = some (rv, w1) ∧
      w1.sent = w.sent ++ [ev] ∧
      ev.vscp_class = VSCP_CLASS1_PROTOCOL ∧ ev.vscp_type = VSCP_TYPE_PROTOCOL_START_BLOCK ∧
      ev.sizeData = 8 ∧
      ev.data.take 5 = [b / 2 ^ 24, b / 2 ^ 16 % 256, b / 2 ^ 8 % 256, b % 256, type] ∧
      construct_unsigned32 (ev.data.getD 0 0) (ev.data.getD 1 0) (ev.data.getD 2 0)
        (ev.data.getD 3 0) = b) ∧
    (∃ w1 ev, programBlock s (y.feed w) b ex0 timeout = some (VSCP_ERROR_SUCCESS, w1) ∧
      w1.sent = w.sent ++ [ev] ∧
      ev.vscp_class = VSCP_CLASS1_PROTOCOL ∧
      ev.vscp_type = VSCP_TYPE_PROTOCOL_PROGRAM_BLOCK_DATA ∧ ev.sizeData = 8 ∧
      ev.data.take 4 = [b / 2 ^ 24, b / 2 ^ 16 % 256, b / 2 ^ 8 % 256, b % 256] ∧
      construct_unsigned32 (ev.data.getD 0 0) (ev.data.getD 1 0) (ev.data.getD 2 0)
        (ev.data.getD 3 0) = b) ∧
    (∃ w1 ev, programBlock s (feedSend rv w) b ex0 timeout = some (rv, w1) ∧
      w1.sent = w.sent ++ [ev] ∧
      ev.vscp_class = VSCP_CLASS1_PROTOCOL ∧
      ev.vscp_type = VSCP_TYPE_PROTOCOL_PROGRAM_BLOCK_DATA ∧ ev.sizeData = 8 ∧
      ev.data.take 4 = [b / 2 ^ 24, b / 2 ^ 16 % 256, b / 2 ^ 8 % 256, b % 256] ∧
      construct_unsigned32 (ev.data.getD 0 0) (ev.data.getD 1 0) (ev.data.getD 2 0)
        (ev.data.getD 3 0) = b) ∧
    (∀ (s0 : CBootDevice_VSCP) (w0 : World) (timeout0 : Nat) (code : Int) (w1 : World),
      writeBlockStart s0 w0 b type ex0 timeout0 = some (code, w1) →
      w1.sent = w0.sent ++ [writeBlockStart.request b type ex0]) ∧
    (∀ (s0 : CBootDevice_VSCP) (w0 : World) (timeout0 : Nat) (code : Int) (w1 : World),
      programBlock s0 w0 b ex0 timeout0 = some (code, w1) →
      w1.sent = w0.sent ++ [programBlock.request b ex0]) := by
  obtain ⟨f1, f2, f3, f4, _, _, f7, f8⟩ := block_number_bytes b type ex0 hb ht hcap
  obtain ⟨w2, q1, q2⟩ := writeBlockStart_refused s rv w b type ex0 timeout hrv
  obtain ⟨w3, p1, p2⟩ := programBlock_refused s rv w b ex0 timeout hrv
  exact ⟨⟨_, _, writeBlockStart_acked s x w b type ex0 timeout hx, acks_sent _ _ _, rfl, rfl, rfl,
      f1, f3⟩,
    ⟨w2, _, q1, q2, rfl, rfl, rfl, f1, f3⟩,
    ⟨_, _, programBlock_acked s y w b ex0 timeout hy, acks_sent _ _ _, rfl, rfl, rfl, f2, f4⟩,
    ⟨w3, _, p1, p2, rfl, rfl, rfl, f2, f4⟩, f7, f8⟩

theorem C24_block_number_on_the_wire_witness :
    ((0x01020304 : Nat) < 2 ^ 32 ∧ (2 : Nat) < 256 ∧ 8 ≤ demoEx0.data.length ∧
      (demoExchange VSCP_TYPE_PROTOCOL_START_BLOCK_ACK).acked demoLoader.m_stdRegs.GUID
        VSCP_TYPE_PROTOCOL_START_BLOCK_ACK VSCP_TYPE_PROTOCOL_START_BLOCK_NACK 5 = true ∧
      (demoExchange VSCP_TYPE_PROTOCOL_PROGRAM_BLOCK_DATA_ACK).acked demoLoader.m_stdRegs.GUID
        VSCP_TYPE_PROTOCOL_PROGRAM_BLOCK_DATA_ACK VSCP_TYPE_PROTOCOL_PROGRAM_BLOCK_DATA_NACK 5 = true ∧
      VSCP_ERROR_SUCCESS ≠ VSCP_ERROR_COMMUNICATION) ∧
    (∃ w1 ev, writeBlockStart demoLoader
        ((demoExchange VSCP_TYPE_PROTOCOL_START_BLOCK_ACK).feed emptyWorld) 0x01020304 2 demoEx0 5 =
        some (VSCP_ERROR_SUCCESS, w1) ∧
      w1.sent = emptyWorld.sent ++ [ev] ∧
      ev.vscp_class = VSCP_CLASS1_PROTOCOL ∧ ev.vscp_type = VSCP_TYPE_PROTOCOL_START_BLOCK ∧
      ev.sizeData = 8 ∧
      ev.data.take 5 =
        [0x01020304 / 2 ^ 24, 0x01020304 / 2 ^ 16 % 256, 0x01020304 / 2 ^ 8 % 256,
          0x01020304 % 256, 2] ∧
      construct_unsigned32 (ev.data.getD 0 0) (ev.data.getD 1 0) (ev.data.getD 2 0)
        (ev.data.getD 3 0) = 0x01020304) ∧
    (writeBlockStart demoLoader ((demoExchange VSCP_TYPE_PROTOCOL_START_BLOCK_ACK).feed emptyWorld)
        0x01020304 2 demoEx0 5).map (fun r => (r.1, r.2.sent.map vscpEventEx.payload)) =
      some (VSCP_ERROR_SUCCESS, [[1, 2, 3, 4, 2, 0, 0, 0]]) ∧
    (programBlock demoLoader
        ((demoExchange VSCP_TYPE_PROTOCOL_PROGRAM_BLOCK_DATA_ACK).feed emptyWorld)
        0x01020304 demoEx0 5).map (fun r => (r.1, r.2.sent.map vscpEventEx.payload)) =
      some (VSCP_ERROR_SUCCESS, [[1, 2, 3, 4, 0, 0, 0, 0]]) :=
  ⟨⟨by decide, by decide, by decide, by decide, by decide, by decide⟩,
    (C24_block_number_on_the_wire demoLoader emptyWorld 0x01020304 2 demoEx0 5
      (demoExchange VSCP_TYPE_PROTOCOL_START_BLOCK_ACK)
      (demoExchange VSCP_TYPE_PROTOCOL_PROGRAM_BLOCK_DATA_ACK) VSCP_ERROR_COMMUNICATION
      (by decide) (by decide) (by decide) (by decide) (by decide) (by decide)).1,
    by decide, by decide⟩

end VscpBoot

/-! # The session invariant: every call -/

namespace VscpBoot

/-- A call that follows `deviceInit` leaves the chunk size and the block size of the
object as they were. -/
theorem call_frame (op : Op) (s : CBootDevice_VSCP) (w : World) (rv : Int)
    (s2 : CBootDevice_VSCP) (w2 : World) (h : op.call s w = .done (rv, s2, w2)) :
    s2.m_chunkSize = s.m_chunkSize ∧ s2.m_blockSize = s.m_blockSize := by
  cases op with
  | deviceLoad img heap rv0 ex0 timeout cb ab =>
    rw [deviceLoad_object s img w heap rv0 ex0 timeout cb ab rv s2 w2 h]
    exact ⟨rfl, rfl⟩
  | writeBlockStart block type ex0 timeout =>
    simp only [Op.call] at h
    split at h
    · exact absurd h (by simp)
    · simp only [Run.done.injEq, Prod.mk.injEq] at h
      rw [← h.2.1]; exact ⟨rfl, rfl⟩
  | writeChunk mem paddr size ex0 timeout =>
    simp only [Op.call] at h
    split at h
    · exact absurd h (by simp)
    · simp only [Run.done.injEq, Prod.mk.injEq] at h
      rw [← h.2.1]; exact ⟨rfl, rfl⟩
  | programBlock block ex0 timeout =>
    simp only [Op.call] at h
    split at h
    · exact absurd h (by simp)
    · simp only [Run.done.injEq, Prod.mk.injEq] at h
      rw [← h.2.1]; exact ⟨rfl, rfl⟩
  | checkResponse ex guid ack nack timeout =>
    simp only [Op.call] at h
    split at h
    · exact absurd h (by simp)
    · simp only [Run.done.injEq, Prod.mk.injEq] at h
      rw [← h.2.1]; exact ⟨rfl, rfl⟩
  | writeBlock mem paddr rv0 ex0 timeout =>
    simp only [Op.call] at h
    split at h
    · exact absurd h (by simp)
    · exact absurd h (by simp)
    · simp only [Run.done.injEq, Prod.mk.injEq] at h
      rw [← h.2.1]; exact ⟨rfl, rfl⟩

theorem session_frame (ops : List Op) (s : CBootDevice_VSCP) (w : World)
    (s2 : CBootDevice_VSCP) (w2 : World) (h : Op.session s w ops = .done (s2, w2)) :
    s2.m_chunkSize = s.m_chunkSize ∧ s2.m_blockSize = s.m_blockSize := by
  induction ops generalizing s w with
  | nil =>
    simp only [Op.session, Run.done.injEq, Prod.mk.injEq] at h
    rw [← h.1]; exact ⟨rfl, rfl⟩
  | cons op ops ih =>
    simp only [Op.session] at h
    split at h
    · exact absurd h (by simp)
    · exact absurd h (by simp)
    · rename_i rv sm wm hm
      obtain ⟨a, b⟩ := call_frame op s w rv sm wm hm
      obtain ⟨c, d⟩ := ih sm wm h
      exact ⟨c.trans a, d.trans b⟩

/-- C11: `deviceInit` returns success only with the chunk size at most the block
size: when it returns success, on whatever object (fresh from a constructor or left
by an earlier call), the chunk size is the one the object had and is at most the
block size just stored, so for a chunk size of at least 8 the block size is at least
8 and above zero. Each constructor sets a chunk size of 8 or 512 and `deviceInit`
never changes it, whatever it returns. After that, every call of `writeBlockStart`,
`writeChunk`, `writeBlock`, `programBlock`, `deviceLoad` or `checkResponse` that
returns, and every sequence of such calls, leaves the chunk size and the block size
as they were, so the chunk size is still at most the block size. -/
theorem C11_session_invariant (s : CBootDevice_VSCP) (w : World) (ourguid : List Nat)
    (devicecode : Nat) (abort : Bool) (ex0 : vscpEventEx) (timeout : Nat)
    (s1 : CBootDevice_VSCP) (w1 : World)
    (h : deviceInit s w ourguid devicecode abort ex0 timeout = some (VSCP_ERROR_SUCCESS, s1, w1)) :
    s1.m_chunkSize = s.m_chunkSize ∧ s1.m_chunkSize ≤ s1.m_blockSize ∧
    (8 ≤ s.m_chunkSize → 8 ≤ s1.m_blockSize ∧ 0 < s1.m_blockSize) ∧
    (∀ (op : Op) (w2 : World) (rv : Int) (s2 : CBootDevice_VSCP) (w3 : World),
      op.call s1 w2 = .done (rv, s2, w3) →
      s2.m_chunkSize = s1.m_chunkSize ∧ s2.m_blockSize = s1.m_blockSize) ∧
    (∀ (ops : List Op) (w2 : World) (s2 : CBootDevice_VSCP) (w3 : World),
      Op.session s1 w2 ops = .done (s2, w3) →
      s2.m_chunkSize = s1.m_chunkSize ∧ s2.m_blockSize = s1.m_blockSize ∧
        s2.m_chunkSize ≤ s2.m_blockSize) ∧
    (∀ base : CBootDevice_VSCP,
      (ctorNodeid base).m_chunkSize = 8 ∧ (ctorNodeidIf base).m_chunkSize = 8 ∧
        (ctorGuid base).m_chunkSize = 512) ∧
    (∀ (s0 : CBootDevice_VSCP) (w0 : World) (ourguid0 : List Nat) (devicecode0 : Nat)
      (abort0 : Bool) (ex1 : vscpEventEx) (timeout0 : Nat) (rv : Int) (s2 : CBootDevice_VSCP)
      (w2 : World),
      deviceInit s0 w0 ourguid0 devicecode0 abort0 ex1 timeout0 = some (rv, s2, w2) →
      s2.m_chunkSize = s0.m_chunkSize) := by
  obtain ⟨hc, hcases⟩ := deviceInit_cases s w ourguid devicecode abort ex0 timeout _ s1 w1 h
  have hle : s1.m_chunkSize ≤ s1.m_blockSize := by
    rcases hcases with ⟨hrv, _⟩ | ⟨hrv, _⟩ | hlast
    · rcases hrv with hrv | hrv | hrv <;> exact absurd hrv (by decide)
    · exact absurd rfl hrv
    · rcases hlast with ⟨_, hx⟩
      rcases hx with ⟨hrv, _⟩ | ⟨_, hx⟩
      · exact absurd hrv (by decide)
      · exact hx
  refine ⟨hc, hle, fun h8 => ⟨by omega, by omega⟩, ?_, ?_, ctor_chunkSize, ?_⟩
  · intro op w2 rv s2 w3 hop
    exact call_frame op s1 w2 rv s2 w3 hop
  · intro ops w2 s2 w3 hs
    obtain ⟨a, b⟩ := session_frame ops s1 w2 s2 w3 hs
    exact ⟨a, b, by omega⟩
  · intro s0 w0 g d a e t rv s2 w2 h0
    exact (deviceInit_cases s0 w0 g d a e t rv s2 w2 h0).1

theorem C11_session_invariant_witness :
    demoSessionAfter.m_blockSize = 4 ∧
    deviceInit demoSessionAfter demoWorld64 [] 0 false demoEx0 5 =
      some (VSCP_ERROR_SUCCESS, demoSession64, demoWorldAfter) ∧
    (demoSession64.m_chunkSize = demoSessionAfter.m_chunkSize ∧
      demoSession64.m_chunkSize ≤ demoSession64.m_blockSize ∧
      (8 ≤ demoSessionAfter.m_chunkSize → 8 ≤ demoSession64.m_blockSize ∧
        0 < demoSession64.m_blockSize) ∧
      (∀ (op : Op) (w2 : World) (rv : Int) (s2 : CBootDevice_VSCP) (w3 : World),
        op.call demoSession64 w2 = .done (rv, s2, w3) →
        s2.m_chunkSize = demoSession64.m_chunkSize ∧ s2.m_blockSize = demoSession64.m_blockSize) ∧
      (∀ (ops : List Op) (w2 : World) (s2 : CBootDevice_VSCP) (w3 : World),
        Op.session demoSession64 w2 ops = .done (s2, w3) →
        s2.m_chunkSize = demoSession64.m_chunkSize ∧ s2.m_blockSize = demoSession64.m_blockSize ∧
          s2.m_chunkSize ≤ s2.m_blockSize) ∧
      (∀ base : CBootDevice_VSCP,
        (ctorNodeid base).m_chunkSize = 8 ∧ (ctorNodeidIf base).m_chunkSize = 8 ∧
          (ctorGuid base).m_chunkSize = 512) ∧
      (∀ (s0 : CBootDevice_VSCP) (w0 : World) (ourguid0 : List Nat) (devicecode0 : Nat)
        (abort0 : Bool) (ex1 : vscpEventEx) (timeout0 : Nat) (rv : Int) (s2 : CBootDevice_VSCP)
        (w2 : World),
        deviceInit s0 w0 ourguid0 devicecode0 abort0 ex1 timeout0 = some (rv, s2, w2) →
        s2.m_chunkSize = s0.m_chunkSize)) ∧
    Op.session demoSession64 ((demoExchange VSCP_TYPE_PROTOCOL_START_BLOCK_ACK).feed emptyWorld)
        [Op.writeBlockStart 0 0 demoEx0 5] =
      .done (demoSession64,
        emptyWorld.acks demoSession64 (writeBlockStart.request 0 0 demoEx0)) :=
  ⟨rfl, by decide,
    C11_session_invariant demoSessionAfter demoWorld64 [] 0 false demoEx0 5 demoSession64
      demoWorldAfter (by decide),
    by decide⟩

end VscpBoot

/-! # The selector -/

namespace VscpAes

theorem XorWithIv_congr (st st1 : aes_state_t) (h : st.Iv = st1.Iv) :
    XorWithIv st = XorWithIv st1 := by
  funext b
  unfold XorWithIv
  rw [h]

theorem encrypt_step_congr (x y : aes_state_t × List Nat × List Nat) (n : Nat)
    (hk : x.1.RoundKey = y.1.RoundKey) (hn : x.1.Nr = y.1.Nr) (hi : x.1.Iv = y.1.Iv)
    (hb : x.2 = y.2) :
    (AES_CBC_encrypt_buffer.step x n).1.RoundKey = (AES_CBC_encrypt_buffer.step y n).1.RoundKey ∧
    (AES_CBC_encrypt_buffer.step x n).1.Nr = (AES_CBC_encrypt_buffer.step y n).1.Nr ∧
    (AES_CBC_encrypt_buffer.step x n).1.Iv = (AES_CBC_encrypt_buffer.step y n).1.Iv ∧
    (AES_CBC_encrypt_buffer.step x n).2 = (AES_CBC_encrypt_buffer.step y n).2 := by
  unfold AES_CBC_encrypt_buffer.step
  simp only []
  rw [Cipher_congr x.1 y.1 hk hn, XorWithIv_congr x.1 y.1 hi, hb]
  exact ⟨hk, hn, rfl, rfl⟩

theorem encrypt_fold_congr (l : List Nat) (x y : aes_state_t × List Nat × List Nat)
    (hk : x.1.RoundKey = y.1.RoundKey) (hn : x.1.Nr = y.1.Nr) (hi : x.1.Iv = y.1.Iv)
    (hb : x.2 = y.2) :
    (l.foldl AES_CBC_encrypt_buffer.step x).1.RoundKey =
      (l.foldl AES_CBC_encrypt_buffer.step y).1.RoundKey ∧
    (l.foldl AES_CBC_encrypt_buffer.step x).1.Nr = (l.foldl AES_CBC_encrypt_buffer.step y).1.Nr ∧
    (l.foldl AES_CBC_encrypt_buffer.step x).2 = (l.foldl AES_CBC_encrypt_buffer.step y).2 := by
  induction l generalizing x y with
  | nil => exact ⟨hk, hn, hb⟩
  | cons n l ih =>
    obtain ⟨a, b, c, d⟩ := encrypt_step_congr x y n hk hn hi hb
    exact ih _ _ a b c d

theorem decrypt_step_congr (input : List Nat) (x y : aes_state_t × List Nat) (n : Nat)
    (hk : x.1.RoundKey = y.1.RoundKey) (hn : x.1.Nr = y.1.Nr) (hi : x.1.Iv = y.1.Iv)
    (hb : x.2 = y.2) :
    (AES_CBC_decrypt_buffer.step input x n).1.RoundKey =
      (AES_CBC_decrypt_buffer.step input y n).1.RoundKey ∧
    (AES_CBC_decrypt_buffer.step input x n).1.Nr = (AES_CBC_decrypt_buffer.step input y n).1.Nr ∧
    (AES_CBC_decrypt_buffer.step input x n).1.Iv = (AES_CBC_decrypt_buffer.step input y n).1.Iv ∧
    (AES_CBC_decrypt_buffer.step input x n).2 = (AES_CBC_decrypt_buffer.step input y n).2 := by
  unfold AES_CBC_decrypt_buffer.step
  simp only []
  rw [InvCipher_congr x.1 y.1 hk hn, XorWithIv_congr x.1 y.1 hi, hb]
  exact ⟨hk, hn, trivial, rfl⟩

theorem decrypt_fold_congr (input : List Nat) (l : List Nat) (x y : aes_state_t × List Nat)
    (hk : x.1.RoundKey = y.1.RoundKey) (hn : x.1.Nr = y.1.Nr) (hi : x.1.Iv = y.1.Iv)
    (hb : x.2 = y.2) :
    (l.foldl (AES_CBC_decrypt_buffer.step input) x).1.RoundKey =
      (l.foldl (AES_CBC_decrypt_buffer.step input) y).1.RoundKey ∧
    (l.foldl (AES_CBC_decrypt_buffer.step input) x).1.Nr =
      (l.foldl (AES_CBC_decrypt_buffer.step input) y).1.Nr ∧
    (l.foldl (AES_CBC_decrypt_buffer.step input) x).2 =
      (l.foldl (AES_CBC_decrypt_buffer.step input) y).2 := by
  induction l generalizing x y with
  | nil => exact ⟨hk, hn, hb⟩
  | cons n l ih =>
    obtain ⟨a, b, c, d⟩ := decrypt_step_congr input x y n hk hn hi hb
    exact ih _ _ a b c d

/-- Under a valid selector, with a key and an initialisation vector, the results of
the two CBC functions do not depend on what the local `state` and the allocated
round-key buffer held before the call. -/
theorem cbc_determined (type : Nat) (ht : validType type) (output input : List Nat) (length : Nat)
    (key iv : List Nat) (st0 st1 : aes_state_t) (heap heap1 : List Nat) :
    AES_CBC_encrypt_buffer type output input length (some key) (some iv) st0 heap =
      AES_CBC_encrypt_buffer type output input length (some key) (some iv) st1 heap1 ∧
    AES_CBC_decrypt_buffer type output input length (some key) (some iv) st0 heap =
      AES_CBC_decrypt_buffer type output input length (some key) (some iv) st1 heap1 := by
  have hk := expanded_RoundKey type ht key st0 st1 heap heap1
  have hn := expanded_Nr type ht key st0 st1 heap heap1
  unfold expanded at hk hn
  constructor
  · obtain ⟨a, b, c⟩ := encrypt_fold_congr (List.range ((length + (BLOCKLEN - 1)) / BLOCKLEN))
      ({ KeyExpansion { init type st0 heap with Key := key } with Iv := iv },
        memcpy output 0 input 0 BLOCKLEN, input)
      ({ KeyExpansion { init type st1 heap1 with Key := key } with Iv := iv },
        memcpy output 0 input 0 BLOCKLEN, input) hk hn rfl rfl
    simp only [AES_CBC_encrypt_buffer, cbcSetup]
    rw [Cipher_congr _ _ a b, c]
  · obtain ⟨a, b, c⟩ := decrypt_fold_congr input
      (List.range ((length + (BLOCKLEN - 1)) / BLOCKLEN))
      ({ KeyExpansion { init type st0 heap with Key := key } with Iv := iv },
        memcpy output 0 input 0 BLOCKLEN)
      ({ KeyExpansion { init type st1 heap1 with Key := key } with Iv := iv },
        memcpy output 0 input 0 BLOCKLEN) hk hn rfl rfl
    simp only [AES_CBC_decrypt_buffer, cbcSetup]
    rw [InvCipher_congr _ _ a b, c]

/-- C8, counterexample: selector 3 is none of the three variants, and `init`, the
one function that examines the selector, reports nothing for it: it has no return
value, and whatever the state holds when it is called, it hands the state back with
every field as it was, where for a valid selector it stores the selector and the
constants of the variant. -/
theorem C8_init_reports_nothing_counterexample :
    ¬ validType 3 ∧
    (∀ (st : aes_state_t) (heap : List Nat), init 3 st heap = st) ∧
    init AES128 zeroState [] ≠ zeroState := by
  refine ⟨by decide, fun st heap => init_invalid 3 (by decide) st heap, by decide⟩

/-- C8, amended: `init` recognises exactly the three selectors. For every other
selector it writes nothing: the state is handed back as it was, and no status is
returned. For each of the three it stores the selector and the constants of the
variant and allocates `keyExpSize` bytes for the round keys, and the four entry
points, given a key (and the CBC functions an initialisation vector), produce their
output whatever the local `state` and the allocated buffer held before: the output
is a function of the arguments alone. -/
theorem C8_selector_handling (type : Nat) (st0 : aes_state_t) (heap : List Nat) :
    (¬ validType type → init type st0 heap = st0) ∧
    (validType type →
      (init type st0 heap).type = type ∧
      ((init type st0 heap).Nk, (init type st0 heap).KEYLEN, (init type st0 heap).Nr,
        (init type st0 heap).keyExpSize) =
        (if type = AES128 then (4, 16, 10, 176) else if type = AES192 then (6, 24, 12, 208)
         else (8, 32, 14, 240)) ∧
      (init type st0 heap).RoundKey.length = (init type st0 heap).keyExpSize ∧
      ∀ (st1 : aes_state_t) (heap1 : List Nat) (output input : List Nat) (length : Nat)
        (key iv : List Nat),
        AES_ECB_encrypt type input key output length st0 heap =
          AES_ECB_encrypt type input key output length st1 heap1 ∧
        AES_ECB_decrypt type input key output length st0 heap =
          AES_ECB_decrypt type input key output length st1 heap1 ∧
        AES_CBC_encrypt_buffer type output input length (some key) (some iv) st0 heap =
          AES_CBC_encrypt_buffer type output input length (some key) (some iv) st1 heap1 ∧
        AES_CBC_decrypt_buffer type output input length (some key) (some iv) st0 heap =
          AES_CBC_decrypt_buffer type output input length (some key) (some iv) st1 heap1) := by
  refine ⟨fun ht => init_invalid type ht st0 heap, fun ht => ⟨?_, ?_, ?_, ?_⟩⟩
  · exact (init_facts type ht st0 heap).1
  · rcases ht with h | h | h <;> subst h <;> simp [init, AES128, AES192, AES256, AES128_Nk,
      AES128_Nr, AES128_keyExpSize, AES128_KEYLEN, AES192_Nk, AES192_Nr, AES192_keyExpSize,
      AES192_KEYLEN, AES256_Nk, AES256_Nr, AES256_keyExpSize, AES256_KEYLEN]
  · exact (init_bounds type ht st0 heap).2.2.2.2.2
  · intro st1 heap1 output input length key iv
    obtain ⟨c, d⟩ := cbc_determined type ht output input length key iv st0 st1 heap heap1
    refine ⟨?_, ?_, c, d⟩
    · rw [AES_ECB_encrypt_eq, AES_ECB_encrypt_eq, (Cipher_expanded type ht key st0 heap).1,
        (Cipher_expanded type ht key st1 heap1).1]
    · rw [AES_ECB_decrypt_eq, AES_ECB_decrypt_eq, (Cipher_expanded type ht key st0 heap).2,
        (Cipher_expanded type ht key st1 heap1).2]

theorem C8_selector_handling_witness :
    ¬ validType 7 ∧ init 7 zeroState [] = zeroState ∧ validType AES192 ∧
    ((init AES192 zeroState []).type = AES192 ∧
      ((init AES192 zeroState []).Nk, (init AES192 zeroState []).KEYLEN,
        (init AES192 zeroState []).Nr, (init AES192 zeroState []).keyExpSize) =
        (if AES192 = AES128 then (4, 16, 10, 176) else if AES192 = AES192 then (6, 24, 12, 208)
         else (8, 32, 14, 240)) ∧
      (init AES192 zeroState []).RoundKey.length = (init AES192 zeroState []).keyExpSize ∧
      ∀ (st1 : aes_state_t) (heap1 : List Nat) (output input : List Nat) (length : Nat)
        (key iv : List Nat),
        AES_ECB_encrypt AES192 input key output length zeroState [] =
          AES_ECB_encrypt AES192 input key output length st1 heap1 ∧
        AES_ECB_decrypt AES192 input key output length zeroState [] =
          AES_ECB_decrypt AES192 input key output length st1 heap1 ∧
        AES_CBC_encrypt_buffer AES192 output input length (some key) (some iv) zeroState [] =
          AES_CBC_encrypt_buffer AES192 output input length (some key) (some iv) st1 heap1 ∧
        AES_CBC_decrypt_buffer AES192 output input length (some key) (some iv) zeroState [] =
          AES_CBC_decrypt_buffer AES192 output input length (some key) (some iv) st1 heap1) :=
  ⟨by decide, (C8_selector_handling 7 zeroState []).1 (by decide), by decide,
    (C8_selector_handling AES192 zeroState []).2 (by decide)⟩

end VscpAes
